import Mathlib

/-!
# FluxGarage RoboEyes (C port) — shallow embedding and verified properties

Source files embedded here:
* `components/RoboEyes/src/FluxGarage_RoboEyes.h` (constants, port types)
* `components/RoboEyes/src/FluxGarage_RoboEyes.c` (the animation engine)

Conventions of the embedding
* `int` variables are `Int`; signed overflow (undefined in C) is not modelled,
  and `/` on `int` is `Int.tdiv` (truncation toward zero).
* `uint8_t` variables are `Nat`, reduced `% 256` where the C code converts.
* `unsigned long` / `uint32_t` (32 bit on the ESP32 target) are `Nat`,
  reduced `% 4294967296` where the C code computes or converts.
* `float` variables (sweat droplets only) are `ℚ`, holding the value of the
  float.  IEEE 754 arithmetic with round to nearest, ties to even, is assumed:
  `f32` rounds a rational to binary32 and `f64` to binary64.  The droplet width
  takes the step `0.1`, which is not a binary fraction: `w -= 0.1` is
  `(float)((double)w - 0.1)`, that is `f32 (f64 (w - f64 (1 / 10)))`, and the x
  position is computed in binary32 before its conversion to `int`.  `YPos` and
  `Height` are reset to 2 and move in steps of `0.5`; on such values (below
  2^22 in magnitude) the rounded step is the exact one (`halfStep_exact`), so
  their steps are written unrounded.
  Infinities and NaN (magnitudes of 2^128 and more) are not represented.
* The module-level `static` variables form the record `Engine`; every C
  function becomes a function on `Engine` (and on `Host` when it calls a port).
* The injected ports are function pointers.  A drawing pointer is `true` when
  bound (its call is then appended to `Host.trace`) and `false` when NULL.
  The clock and random pointers are `Option`s of an oracle that gives the
  value returned by the k-th call; `Host` counts the calls made so far.
-/

namespace RoboEyes

/-! ## Constants of the header -/

def DEFAULT : Nat := 0
def TIRED : Nat := 1
def ANGRY : Nat := 2
def HAPPY : Nat := 3

def ON : Nat := 1
def OFF : Nat := 0

def N : Nat := 1
def NE : Nat := 2
def E : Nat := 3
def SE : Nat := 4
def S : Nat := 5
def SW : Nat := 6
def W : Nat := 7
def NW : Nat := 8

/-! ## Machine arithmetic -/

/-- Conversion `int → uint8_t`. -/
def toU8 (i : Int) : Nat := (i % 256).toNat

/-- Conversion `int → uint32_t` / `unsigned long`. -/
def toU32 (i : Int) : Nat := (i % 4294967296).toNat

/-- Conversion `uint32_t → int` (two's complement). -/
def toI32 (n : Nat) : Int :=
  if n % 4294967296 < 2147483648 then ((n % 4294967296 : Nat) : Int)
  else ((n % 4294967296 : Nat) : Int) - 4294967296

/-- Conversion `float → int`: truncation toward zero. -/
def truncQ (q : ℚ) : Int := Int.tdiv q.num q.den

/-- Rounding of a rational to the nearest integer, ties to the even one. -/
def roundEven (x : ℚ) : Int :=
  if x - ⌊x⌋ < 1 / 2 then ⌊x⌋
  else if 1 / 2 < x - ⌊x⌋ then ⌊x⌋ + 1
  else if ⌊x⌋ % 2 = 0 then ⌊x⌋ else ⌊x⌋ + 1

/-- Rounding of a rational to the binary floating-point format with `p`
significand bits and least exponent `emin` (the exponent of the last place of
the subnormals): round to nearest, ties to even.  The exponent of the last
place of `x` is `⌊log2 |x|⌋ - (p - 1)`, but not less than `emin`. -/
def fround (p : Nat) (emin : Int) (x : ℚ) : ℚ :=
  (roundEven (x / 2 ^ max (Int.log 2 |x| - ((p : Int) - 1)) emin) : ℚ)
    * 2 ^ max (Int.log 2 |x| - ((p : Int) - 1)) emin

/-- Conversion to `float` (IEEE 754 binary32: 24 significand bits, least
subnormal 2^-149). -/
def f32 (x : ℚ) : ℚ := fround 24 (-149) x

/-- Conversion to `double` (IEEE 754 binary64: 53 significand bits, least
subnormal 2^-1074). -/
def f64 (x : ℚ) : ℚ := fround 53 (-1074) x

/-- One tween step `current = (current + next) / 2` on `int`. -/
def tween (c n : Int) : Int := Int.tdiv (c + n) 2

/-- One tween step on `uint8_t` operands (promoted to `int`, stored back). -/
def tween8 (c n : Nat) : Nat := ((c + n) / 2) % 256

/-- Repeated tween steps toward a fixed target `n`. -/
def tweenIter (n : Int) : Nat → Int → Int
  | 0, c => c
  | k + 1, c => tweenIter n k (tween c n)

/-! ## Ports and host -/

/-- One call of a drawing primitive, as received by the host. -/
inductive DrawCall where
  | clearDisplay
  | drawRoundedRectangle (x y width height borderRadius : Int) (color : Nat)
  | drawTriangle (x0 y0 x1 y1 x2 y2 : Int) (color : Nat)
  | updateDisplay
  deriving DecidableEq, Repr

/-- Host side of the ports: how often the clock and the random source have
been called, and the drawing calls received so far (oldest first). -/
structure Host where
  millisCalls : Nat
  randomCalls : Nat
  trace : List DrawCall
  deriving DecidableEq, Repr

/-- A host that has not been called yet. -/
def Host.fresh : Host := { millisCalls := 0, randomCalls := 0, trace := [] }

/-- The clock port: the reading returned by the k-th call. -/
abbrev MillisFunc := Nat → Nat

/-- The random port: the value returned by the k-th call for a given limit. -/
abbrev RandomFunc := Nat → Nat → Nat

/-- One sweat droplet (`sweat1…`, `sweat2…`, `sweat3…` in the source). -/
structure SweatDrop where
  XPosInitial : Int
  XPos : Int
  YPos : ℚ
  YPosMax : Int
  Height : ℚ
  Width : ℚ

/-- The module-level `static` variables of `FluxGarage_RoboEyes.c`. -/
structure Engine where
  BGCOLOR : Nat
  MAINCOLOR : Nat
  screenWidth : Int
  screenHeight : Int
  frameInterval : Int
  fpsTimer : Nat
  tired : Bool
  angry : Bool
  happy : Bool
  curious : Bool
  cyclops : Bool
  eyeL_open : Bool
  eyeR_open : Bool
  drawRoundedRectanglePtr : Bool
  clearDisplayPtr : Bool
  updateDisplayPtr : Bool
  drawTrianglePtr : Bool
  millisPtr : Option MillisFunc
  randomPtr : Option RandomFunc
  eyeLwidthDefault : Int
  eyeLheightDefault : Int
  eyeLwidthCurrent : Int
  eyeLheightCurrent : Int
  eyeLwidthNext : Int
  eyeLheightNext : Int
  eyeLheightOffset : Int
  eyeLborderRadiusDefault : Nat
  eyeLborderRadiusCurrent : Nat
  eyeLborderRadiusNext : Nat
  eyeRwidthDefault : Int
  eyeRheightDefault : Int
  eyeRwidthCurrent : Int
  eyeRheightCurrent : Int
  eyeRwidthNext : Int
  eyeRheightNext : Int
  eyeRheightOffset : Int
  eyeRborderRadiusDefault : Nat
  eyeRborderRadiusCurrent : Nat
  eyeRborderRadiusNext : Nat
  eyeLxDefault : Int
  eyeLyDefault : Int
  eyeLx : Int
  eyeLy : Int
  eyeLxNext : Int
  eyeLyNext : Int
  eyeRxDefault : Int
  eyeRyDefault : Int
  eyeRx : Int
  eyeRy : Int
  eyeRxNext : Int
  eyeRyNext : Int
  eyelidsHeightMax : Nat
  eyelidsTiredHeight : Nat
  eyelidsTiredHeightNext : Nat
  eyelidsAngryHeight : Nat
  eyelidsAngryHeightNext : Nat
  eyelidsHappyBottomOffsetMax : Nat
  eyelidsHappyBottomOffset : Nat
  eyelidsHappyBottomOffsetNext : Nat
  spaceBetweenDefault : Int
  spaceBetweenCurrent : Int
  spaceBetweenNext : Int
  hFlicker : Bool
  hFlickerAlternate : Bool
  hFlickerAmplitude : Nat
  vFlicker : Bool
  vFlickerAlternate : Bool
  vFlickerAmplitude : Nat
  autoblinker : Bool
  blinkInterval : Int
  blinkIntervalVariation : Int
  blinktimer : Nat
  idle : Bool
  idleInterval : Int
  idleIntervalVariation : Int
  idleAnimationTimer : Nat
  confused : Bool
  confusedAnimationTimer : Nat
  confusedToggle : Bool
  laugh : Bool
  laughAnimationTimer : Nat
  laughToggle : Bool
  sweat : Bool
  sweat1 : SweatDrop
  sweat2 : SweatDrop
  sweat3 : SweatDrop

/-- The static `confusedAnimationDuration` (initialised to 500, never assigned). -/
def confusedAnimationDuration : Int := 500

/-- The static `laughAnimationDuration` (initialised to 500, never assigned). -/
def laughAnimationDuration : Int := 500

/-- The static `sweatBorderradius` (initialised to 3, never assigned). -/
def sweatBorderradius : Nat := 3

/-- Initial value of a sweat droplet: the initialisers of lines 171-192; the
statics without initialiser (`XPos`, `YPosMax`) are zero. -/
def SweatDrop.initial : SweatDrop :=
  { XPosInitial := 2, XPos := 0, YPos := 2, YPosMax := 0, Height := 2, Width := 1 }

/-- The engine at program start: every static at its initialiser
(lines 30-192), function pointers NULL. -/
def Engine.initial : Engine :=
  { BGCOLOR := 0, MAINCOLOR := 1,
    screenWidth := 240, screenHeight := 135, frameInterval := 20, fpsTimer := 0,
    tired := false, angry := false, happy := false, curious := false,
    cyclops := false, eyeL_open := false, eyeR_open := false,
    drawRoundedRectanglePtr := false, clearDisplayPtr := false,
    updateDisplayPtr := false, drawTrianglePtr := false,
    millisPtr := none, randomPtr := none,
    eyeLwidthDefault := 36, eyeLheightDefault := 36,
    eyeLwidthCurrent := 0, eyeLheightCurrent := 0,
    eyeLwidthNext := 0, eyeLheightNext := 0, eyeLheightOffset := 0,
    eyeLborderRadiusDefault := 8, eyeLborderRadiusCurrent := 0,
    eyeLborderRadiusNext := 0,
    eyeRwidthDefault := 0, eyeRheightDefault := 0,
    eyeRwidthCurrent := 0, eyeRheightCurrent := 1,
    eyeRwidthNext := 0, eyeRheightNext := 0, eyeRheightOffset := 0,
    eyeRborderRadiusDefault := 8, eyeRborderRadiusCurrent := 0,
    eyeRborderRadiusNext := 0,
    eyeLxDefault := 0, eyeLyDefault := 0, eyeLx := 0, eyeLy := 0,
    eyeLxNext := 0, eyeLyNext := 0,
    eyeRxDefault := 0, eyeRyDefault := 0, eyeRx := 0, eyeRy := 0,
    eyeRxNext := 0, eyeRyNext := 0,
    eyelidsHeightMax := 0, eyelidsTiredHeight := 0, eyelidsTiredHeightNext := 0,
    eyelidsAngryHeight := 0, eyelidsAngryHeightNext := 0,
    eyelidsHappyBottomOffsetMax := 0, eyelidsHappyBottomOffset := 0,
    eyelidsHappyBottomOffsetNext := 0,
    spaceBetweenDefault := 10, spaceBetweenCurrent := 0, spaceBetweenNext := 10,
    hFlicker := false, hFlickerAlternate := false, hFlickerAmplitude := 2,
    vFlicker := false, vFlickerAlternate := false, vFlickerAmplitude := 10,
    autoblinker := false, blinkInterval := 1, blinkIntervalVariation := 4,
    blinktimer := 0,
    idle := false, idleInterval := 1, idleIntervalVariation := 3,
    idleAnimationTimer := 0,
    confused := false, confusedAnimationTimer := 0, confusedToggle := true,
    laugh := false, laughAnimationTimer := 0, laughToggle := true,
    sweat := false,
    sweat1 := SweatDrop.initial, sweat2 := SweatDrop.initial,
    sweat3 := SweatDrop.initial }

/-! ## Port wrappers (lines 198-236) -/

/-- Wrapper `drawRoundedRectangle`: a NULL pointer makes the call a no-op. -/
def drawRoundedRectangle (s : Engine) (x y width height borderRadius : Int)
    (color : Nat) (h : Host) : Host :=
  if s.drawRoundedRectanglePtr then
    { h with trace := h.trace ++
        [DrawCall.drawRoundedRectangle x y width height borderRadius color] }
  else h

/-- Wrapper `clearDisplay`. -/
def clearDisplay (s : Engine) (h : Host) : Host :=
  if s.clearDisplayPtr then { h with trace := h.trace ++ [DrawCall.clearDisplay] }
  else h

/-- Wrapper `updateDisplay`. -/
def updateDisplay (s : Engine) (h : Host) : Host :=
  if s.updateDisplayPtr then { h with trace := h.trace ++ [DrawCall.updateDisplay] }
  else h

/-- Wrapper `drawTriangle`. -/
def drawTriangle (s : Engine) (x0 y0 x1 y1 x2 y2 : Int) (color : Nat)
    (h : Host) : Host :=
  if s.drawTrianglePtr then
    { h with trace := h.trace ++ [DrawCall.drawTriangle x0 y0 x1 y1 x2 y2 color] }
  else h

/-- Wrapper `millis`: the bound clock is read (as `uint32_t`), a NULL clock
reads 0 without any call. -/
def millis (s : Engine) (h : Host) : Nat × Host :=
  match s.millisPtr with
  | some f => (f h.millisCalls % 4294967296, { h with millisCalls := h.millisCalls + 1 })
  | none => (0, h)

/-- Wrapper `random`: the bound source is asked for a value below `limit`
(returned as `uint32_t`), a NULL source yields 0 without any call. -/
def random (s : Engine) (limit : Nat) (h : Host) : Nat × Host :=
  match s.randomPtr with
  | some f => (f h.randomCalls limit % 4294967296, { h with randomCalls := h.randomCalls + 1 })
  | none => (0, h)

/-! ## Getters (lines 807-817) -/

/-- Max x position for the left eye. -/
def RoboEyes_getScreenConstraint_X (s : Engine) : Int :=
  s.screenWidth - s.eyeLwidthCurrent - s.spaceBetweenCurrent - s.eyeRwidthCurrent

/-- Max y position for the left eye. -/
def RoboEyes_getScreenConstraint_Y (s : Engine) : Int :=
  s.screenHeight - s.eyeLheightDefault

/-! ## Setters (lines 642-800) -/

/-- Frame interval from the frame rate (`uint8_t fps`); `fps = 0` divides by
zero in C, here the quotient is 0. -/
def RoboEyes_setFramerate (fps : Nat) (s : Engine) : Engine :=
  { s with frameInterval := Int.tdiv 1000 ((fps % 256 : Nat) : Int) }

def RoboEyes_setDisplayColors (background main : Nat) (s : Engine) : Engine :=
  { s with BGCOLOR := background % 256, MAINCOLOR := main % 256 }

def RoboEyes_setWidth (leftEye rightEye : Nat) (s : Engine) : Engine :=
  { s with
    eyeLwidthNext := ((leftEye % 256 : Nat) : Int)
    eyeRwidthNext := ((rightEye % 256 : Nat) : Int)
    eyeLwidthDefault := ((leftEye % 256 : Nat) : Int)
    eyeRwidthDefault := ((rightEye % 256 : Nat) : Int) }

def RoboEyes_setHeight (leftEye rightEye : Nat) (s : Engine) : Engine :=
  { s with
    eyeLheightNext := ((leftEye % 256 : Nat) : Int)
    eyeRheightNext := ((rightEye % 256 : Nat) : Int)
    eyeLheightDefault := ((leftEye % 256 : Nat) : Int)
    eyeRheightDefault := ((rightEye % 256 : Nat) : Int) }

def RoboEyes_setBorderradius (leftEye rightEye : Nat) (s : Engine) : Engine :=
  { s with
    eyeLborderRadiusNext := leftEye % 256
    eyeRborderRadiusNext := rightEye % 256
    eyeLborderRadiusDefault := leftEye % 256
    eyeRborderRadiusDefault := rightEye % 256 }

def RoboEyes_setSpacebetween (space : Int) (s : Engine) : Engine :=
  { s with spaceBetweenNext := space, spaceBetweenDefault := space }

/-- Mood selection: the `switch` on the mood byte (lines 679-702). -/
def RoboEyes_setMood (mood : Nat) (s : Engine) : Engine :=
  if mood % 256 = TIRED then { s with tired := true, angry := false, happy := false }
  else if mood % 256 = ANGRY then { s with tired := false, angry := true, happy := false }
  else if mood % 256 = HAPPY then { s with tired := false, angry := false, happy := true }
  else { s with tired := false, angry := false, happy := false }

/-- Predefined position: the `switch` on the position byte (lines 705-753). -/
def RoboEyes_setPosition (position : Nat) (s : Engine) : Engine :=
  if position % 256 = N then
    { s with eyeLxNext := Int.tdiv (RoboEyes_getScreenConstraint_X s) 2, eyeLyNext := 0 }
  else if position % 256 = NE then
    { s with eyeLxNext := RoboEyes_getScreenConstraint_X s, eyeLyNext := 0 }
  else if position % 256 = E then
    { s with eyeLxNext := RoboEyes_getScreenConstraint_X s
             eyeLyNext := Int.tdiv (RoboEyes_getScreenConstraint_Y s) 2 }
  else if position % 256 = SE then
    { s with eyeLxNext := RoboEyes_getScreenConstraint_X s
             eyeLyNext := RoboEyes_getScreenConstraint_Y s }
  else if position % 256 = S then
    { s with eyeLxNext := Int.tdiv (RoboEyes_getScreenConstraint_X s) 2
             eyeLyNext := RoboEyes_getScreenConstraint_Y s }
  else if position % 256 = SW then
    { s with eyeLxNext := 0, eyeLyNext := RoboEyes_getScreenConstraint_Y s }
  else if position % 256 = W then
    { s with eyeLxNext := 0, eyeLyNext := Int.tdiv (RoboEyes_getScreenConstraint_Y s) 2 }
  else if position % 256 = NW then
    { s with eyeLxNext := 0, eyeLyNext := 0 }
  else
    { s with eyeLxNext := Int.tdiv (RoboEyes_getScreenConstraint_X s) 2
             eyeLyNext := Int.tdiv (RoboEyes_getScreenConstraint_Y s) 2 }

def RoboEyes_setAutoblinker2 (active : Bool) (interval variation : Int) (s : Engine) : Engine :=
  { s with autoblinker := active, blinkInterval := interval,
           blinkIntervalVariation := variation }

def RoboEyes_setAutoblinker (active : Bool) (s : Engine) : Engine :=
  { s with autoblinker := active }

def RoboEyes_setIdleMode2 (active : Bool) (interval variation : Int) (s : Engine) : Engine :=
  { s with idle := active, idleInterval := interval, idleIntervalVariation := variation }

def RoboEyes_setIdleMode (active : Bool) (s : Engine) : Engine :=
  { s with idle := active }

def RoboEyes_setCuriosity (curiousBit : Bool) (s : Engine) : Engine :=
  { s with curious := curiousBit }

def RoboEyes_setCyclops (cyclopsBit : Bool) (s : Engine) : Engine :=
  { s with cyclops := cyclopsBit }

def RoboEyes_setHFlicker2 (flickerBit : Bool) (Amplitude : Nat) (s : Engine) : Engine :=
  { s with hFlicker := flickerBit, hFlickerAmplitude := Amplitude % 256 }

def RoboEyes_setHFlicker (flickerBit : Bool) (s : Engine) : Engine :=
  { s with hFlicker := flickerBit }

def RoboEyes_setVFlicker2 (flickerBit : Bool) (Amplitude : Nat) (s : Engine) : Engine :=
  { s with vFlicker := flickerBit, vFlickerAmplitude := Amplitude % 256 }

def RoboEyes_setVFlicker (flickerBit : Bool) (s : Engine) : Engine :=
  { s with vFlicker := flickerBit }

def RoboEyes_setSweat (sweatBit : Bool) (s : Engine) : Engine :=
  { s with sweat := sweatBit }

/-! ## Basic animation methods (lines 825-883) -/

def RoboEyes_close (s : Engine) : Engine :=
  { s with eyeLheightNext := 1, eyeRheightNext := 1, eyeL_open := false, eyeR_open := false }

def RoboEyes_open (s : Engine) : Engine :=
  { s with eyeL_open := true, eyeR_open := true }

def RoboEyes_blink (s : Engine) : Engine :=
  RoboEyes_open (RoboEyes_close s)

def RoboEyes_close2 (left right : Bool) (s : Engine) : Engine :=
  let s1 := if left then { s with eyeLheightNext := 1, eyeL_open := false } else s
  if right then { s1 with eyeRheightNext := 1, eyeR_open := false } else s1

def RoboEyes_open2 (left right : Bool) (s : Engine) : Engine :=
  let s1 := if left then { s with eyeL_open := true } else s
  if right then { s1 with eyeR_open := true } else s1

def RoboEyes_blink2 (left right : Bool) (s : Engine) : Engine :=
  RoboEyes_open2 left right (RoboEyes_close2 left right s)

def RoboEyes_anim_confused (s : Engine) : Engine :=
  { s with confused := true }

def RoboEyes_anim_laugh (s : Engine) : Engine :=
  { s with laugh := true }

/-! ## The frame: `drawEyes` (lines 242-562), one definition per block -/

/-- Lines 248-265: curious-gaze height offsets. -/
def drawEyes_curious (s : Engine) : Engine :=
  if s.curious then
    let s1 : Engine :=
      if s.eyeLxNext ≤ 10 then { s with eyeLheightOffset := 8 }
      else if RoboEyes_getScreenConstraint_X s - 10 ≤ s.eyeLxNext ∧ s.cyclops = true then
        { s with eyeLheightOffset := 8 }
      else { s with eyeLheightOffset := 0 }
    if s1.screenWidth - s1.eyeRwidthCurrent - 10 ≤ s1.eyeRxNext then
      { s1 with eyeRheightOffset := 8 }
    else { s1 with eyeRheightOffset := 0 }
  else { s with eyeLheightOffset := 0, eyeRheightOffset := 0 }

/-- Lines 267-278: height tween and vertical centering of both eyes. -/
def drawEyes_height (s : Engine) : Engine :=
  let s1 : Engine := { s with
    eyeLheightCurrent := Int.tdiv (s.eyeLheightCurrent + s.eyeLheightNext + s.eyeLheightOffset) 2 }
  let s2 : Engine := { s1 with
    eyeLy := s1.eyeLy + Int.tdiv (s1.eyeLheightDefault - s1.eyeLheightCurrent) 2 }
  let s3 : Engine := { s2 with eyeLy := s2.eyeLy - Int.tdiv s2.eyeLheightOffset 2 }
  let s4 : Engine := { s3 with
    eyeRheightCurrent := Int.tdiv (s3.eyeRheightCurrent + s3.eyeRheightNext + s3.eyeRheightOffset) 2 }
  let s5 : Engine := { s4 with
    eyeRy := s4.eyeRy + Int.tdiv (s4.eyeRheightDefault - s4.eyeRheightCurrent) 2 }
  { s5 with eyeRy := s5.eyeRy - Int.tdiv s5.eyeRheightOffset 2 }

/-- Lines 280-290: open the eyes again after closing them. -/
def drawEyes_reopen (s : Engine) : Engine :=
  let s1 : Engine :=
    if s.eyeL_open then
      if s.eyeLheightCurrent ≤ 1 + s.eyeLheightOffset then
        { s with eyeLheightNext := s.eyeLheightDefault }
      else s
    else s
  if s1.eyeR_open then
    if s1.eyeRheightCurrent ≤ 1 + s1.eyeRheightOffset then
      { s1 with eyeRheightNext := s1.eyeRheightDefault }
    else s1
  else s1

/-- Lines 292-317: tween of widths, spacing, coordinates and border radii. -/
def drawEyes_tween (s : Engine) : Engine :=
  let s1 : Engine := { s with eyeLwidthCurrent := tween s.eyeLwidthCurrent s.eyeLwidthNext }
  let s2 : Engine := { s1 with eyeRwidthCurrent := tween s1.eyeRwidthCurrent s1.eyeRwidthNext }
  let s3 : Engine := { s2 with
    spaceBetweenCurrent := tween s2.spaceBetweenCurrent s2.spaceBetweenNext }
  let s4 : Engine := { s3 with eyeLx := tween s3.eyeLx s3.eyeLxNext }
  let s5 : Engine := { s4 with eyeLy := tween s4.eyeLy s4.eyeLyNext }
  let s6 : Engine := { s5 with
    eyeRxNext := s5.eyeLxNext + s5.eyeLwidthCurrent + s5.spaceBetweenCurrent }
  let s7 : Engine := { s6 with eyeRyNext := s6.eyeLyNext }
  let s8 : Engine := { s7 with eyeRx := tween s7.eyeRx s7.eyeRxNext }
  let s9 : Engine := { s8 with eyeRy := tween s8.eyeRy s8.eyeRyNext }
  let s10 : Engine := { s9 with
    eyeLborderRadiusCurrent := tween8 s9.eyeLborderRadiusCurrent s9.eyeLborderRadiusNext }
  { s10 with
    eyeRborderRadiusCurrent := tween8 s10.eyeRborderRadiusCurrent s10.eyeRborderRadiusNext }

/-- Lines 321-328: autoblink. -/
def drawEyes_autoblink (s : Engine) (h : Host) : Engine × Host :=
  if s.autoblinker then
    let m := millis s h
    if s.blinktimer ≤ m.1 then
      let s1 := RoboEyes_blink s
      let m2 := millis s1 m.2
      let r := random s1 (toU32 s1.blinkIntervalVariation) m2.2
      ({ s1 with
          blinktimer := (m2.1 + toU32 (s1.blinkInterval * 1000) + r.1 * 1000) % 4294967296 },
        r.2)
    else (s, m.2)
  else (s, h)

/-- Lines 330-342: one-shot laugh animation. -/
def drawEyes_laugh (s : Engine) (h : Host) : Engine × Host :=
  if s.laugh then
    if s.laughToggle then
      let s1 := RoboEyes_setVFlicker2 true 5 s
      let m := millis s1 h
      ({ s1 with laughAnimationTimer := m.1, laughToggle := false }, m.2)
    else
      let m := millis s h
      if (s.laughAnimationTimer + toU32 laughAnimationDuration) % 4294967296 ≤ m.1 then
        ({ RoboEyes_setVFlicker2 false 0 s with laughToggle := true, laugh := false }, m.2)
      else (s, m.2)
  else (s, h)

/-- Lines 344-356: one-shot confused animation. -/
def drawEyes_confused (s : Engine) (h : Host) : Engine × Host :=
  if s.confused then
    if s.confusedToggle then
      let s1 := RoboEyes_setHFlicker2 true 20 s
      let m := millis s1 h
      ({ s1 with confusedAnimationTimer := m.1, confusedToggle := false }, m.2)
    else
      let m := millis s h
      if (s.confusedAnimationTimer + toU32 confusedAnimationDuration) % 4294967296 ≤ m.1 then
        ({ RoboEyes_setHFlicker2 false 0 s with confusedToggle := true, confused := false }, m.2)
      else (s, m.2)
  else (s, h)

/-- Lines 358-367: idle mode, eyes moving to random positions. -/
def drawEyes_idle (s : Engine) (h : Host) : Engine × Host :=
  if s.idle then
    let m := millis s h
    if s.idleAnimationTimer ≤ m.1 then
      let rx := random s (toU32 (RoboEyes_getScreenConstraint_X s)) m.2
      let s1 : Engine := { s with eyeLxNext := toI32 rx.1 }
      let ry := random s1 (toU32 (RoboEyes_getScreenConstraint_Y s1)) rx.2
      let s2 : Engine := { s1 with eyeLyNext := toI32 ry.1 }
      let m2 := millis s2 ry.2
      let rv := random s2 (toU32 s2.idleIntervalVariation) m2.2
      ({ s2 with
          idleAnimationTimer :=
            (m2.1 + toU32 (s2.idleInterval * 1000) + rv.1 * 1000) % 4294967296 },
        rv.2)
    else (s, m.2)
  else (s, h)

/-- Lines 369-379: horizontal flicker. -/
def drawEyes_hFlicker (s : Engine) : Engine :=
  if s.hFlicker then
    let s1 : Engine :=
      if s.hFlickerAlternate then
        { s with eyeLx := s.eyeLx + (s.hFlickerAmplitude : Int),
                 eyeRx := s.eyeRx + (s.hFlickerAmplitude : Int) }
      else
        { s with eyeLx := s.eyeLx - (s.hFlickerAmplitude : Int),
                 eyeRx := s.eyeRx - (s.hFlickerAmplitude : Int) }
    { s1 with hFlickerAlternate := !s1.hFlickerAlternate }
  else s

/-- Lines 381-391: vertical flicker. -/
def drawEyes_vFlicker (s : Engine) : Engine :=
  if s.vFlicker then
    let s1 : Engine :=
      if s.vFlickerAlternate then
        { s with eyeLy := s.eyeLy + (s.vFlickerAmplitude : Int),
                 eyeRy := s.eyeRy + (s.vFlickerAmplitude : Int) }
      else
        { s with eyeLy := s.eyeLy - (s.vFlickerAmplitude : Int),
                 eyeRy := s.eyeRy - (s.vFlickerAmplitude : Int) }
    { s1 with vFlickerAlternate := !s1.vFlickerAlternate }
  else s

/-- Lines 393-398: cyclops mode zeroes the second eye and the spacing. -/
def drawEyes_cyclops (s : Engine) : Engine :=
  if s.cyclops then
    { s with eyeRwidthCurrent := 0, eyeRheightCurrent := 0, spaceBetweenCurrent := 0 }
  else s

/-- Lines 402-410: clear the display and draw the basic eye rectangles. -/
def drawEyes_base (s : Engine) (h : Host) : Host :=
  let h1 := clearDisplay s h
  let h2 := drawRoundedRectangle s s.eyeLx s.eyeLy s.eyeLwidthCurrent s.eyeLheightCurrent
    (s.eyeLborderRadiusCurrent : Int) s.MAINCOLOR h1
  if !s.cyclops then
    drawRoundedRectangle s s.eyeRx s.eyeRy s.eyeRwidthCurrent s.eyeRheightCurrent
      (s.eyeRborderRadiusCurrent : Int) s.MAINCOLOR h2
  else h2

/-- Lines 412-429: eyelid targets from the mood flags. -/
def drawEyes_moodTargets (s : Engine) : Engine :=
  let s1 : Engine :=
    if s.tired then
      { s with eyelidsTiredHeightNext := toU8 (Int.tdiv s.eyeLheightCurrent 2),
               eyelidsAngryHeightNext := 0 }
    else { s with eyelidsTiredHeightNext := 0 }
  let s2 : Engine :=
    if s1.angry then
      { s1 with eyelidsAngryHeightNext := toU8 (Int.tdiv s1.eyeLheightCurrent 2),
                eyelidsTiredHeightNext := 0 }
    else { s1 with eyelidsAngryHeightNext := 0 }
  if s2.happy then
    { s2 with eyelidsHappyBottomOffsetNext := toU8 (Int.tdiv s2.eyeLheightCurrent 2) }
  else { s2 with eyelidsHappyBottomOffsetNext := 0 }

/-- Lines 431-447: tired top eyelids. -/
def drawEyes_tired (s0 : Engine) (h : Host) : Engine × Host :=
  let s : Engine := { s0 with
    eyelidsTiredHeight := tween8 s0.eyelidsTiredHeight s0.eyelidsTiredHeightNext }
  if !s.cyclops then
    let h1 := drawTriangle s s.eyeLx (s.eyeLy - 1) (s.eyeLx + s.eyeLwidthCurrent) (s.eyeLy - 1)
      s.eyeLx (s.eyeLy + (s.eyelidsTiredHeight : Int) - 1) s.BGCOLOR h
    (s, drawTriangle s s.eyeRx (s.eyeRy - 1) (s.eyeRx + s.eyeRwidthCurrent) (s.eyeRy - 1)
      (s.eyeRx + s.eyeRwidthCurrent) (s.eyeRy + (s.eyelidsTiredHeight : Int) - 1) s.BGCOLOR h1)
  else
    let h1 := drawTriangle s s.eyeLx (s.eyeLy - 1) (s.eyeLx + Int.tdiv s.eyeLwidthCurrent 2)
      (s.eyeLy - 1) s.eyeLx (s.eyeLy + (s.eyelidsTiredHeight : Int) - 1) s.BGCOLOR h
    (s, drawTriangle s (s.eyeLx + Int.tdiv s.eyeLwidthCurrent 2) (s.eyeLy - 1)
      (s.eyeLx + s.eyeLwidthCurrent) (s.eyeLy - 1) (s.eyeLx + s.eyeLwidthCurrent)
      (s.eyeLy + (s.eyelidsTiredHeight : Int) - 1) s.BGCOLOR h1)

/-- Lines 449-466: angry top eyelids. -/
def drawEyes_angry (s0 : Engine) (h : Host) : Engine × Host :=
  let s : Engine := { s0 with
    eyelidsAngryHeight := tween8 s0.eyelidsAngryHeight s0.eyelidsAngryHeightNext }
  if !s.cyclops then
    let h1 := drawTriangle s s.eyeLx (s.eyeLy - 1) (s.eyeLx + s.eyeLwidthCurrent) (s.eyeLy - 1)
      (s.eyeLx + s.eyeLwidthCurrent) (s.eyeLy + (s.eyelidsAngryHeight : Int) - 1) s.BGCOLOR h
    (s, drawTriangle s s.eyeRx (s.eyeRy - 1) (s.eyeRx + s.eyeRwidthCurrent) (s.eyeRy - 1)
      s.eyeRx (s.eyeRy + (s.eyelidsAngryHeight : Int) - 1) s.BGCOLOR h1)
  else
    let h1 := drawTriangle s s.eyeLx (s.eyeLy - 1) (s.eyeLx + Int.tdiv s.eyeLwidthCurrent 2)
      (s.eyeLy - 1) (s.eyeLx + Int.tdiv s.eyeLwidthCurrent 2)
      (s.eyeLy + (s.eyelidsAngryHeight : Int) - 1) s.BGCOLOR h
    (s, drawTriangle s (s.eyeLx + Int.tdiv s.eyeLwidthCurrent 2) (s.eyeLy - 1)
      (s.eyeLx + s.eyeLwidthCurrent) (s.eyeLy - 1) (s.eyeLx + Int.tdiv s.eyeLwidthCurrent 2)
      (s.eyeLy + (s.eyelidsAngryHeight : Int) - 1) s.BGCOLOR h1)

/-- Lines 468-480: happy bottom eyelids. -/
def drawEyes_happy (s0 : Engine) (h : Host) : Engine × Host :=
  let s : Engine := { s0 with
    eyelidsHappyBottomOffset :=
      tween8 s0.eyelidsHappyBottomOffset s0.eyelidsHappyBottomOffsetNext }
  let h1 := drawRoundedRectangle s (s.eyeLx - 1)
    ((s.eyeLy + s.eyeLheightCurrent) - (s.eyelidsHappyBottomOffset : Int) + 1)
    (s.eyeLwidthCurrent + 2) s.eyeLheightDefault (s.eyeLborderRadiusCurrent : Int) s.BGCOLOR h
  if !s.cyclops then
    (s, drawRoundedRectangle s (s.eyeRx - 1)
      ((s.eyeRy + s.eyeRheightCurrent) - (s.eyelidsHappyBottomOffset : Int) + 1)
      (s.eyeRwidthCurrent + 2) s.eyeRheightDefault (s.eyeRborderRadiusCurrent : Int)
      s.BGCOLOR h1)
  else (s, h1)

/-- One sweat droplet of lines 484-557.  The three droplets differ only in the
limit passed to the random source and in how the new x origin is formed from
the value drawn (`origin`).  The width steps `+= 0.5` and `-= 0.1` are computed
in `double` (the constants are `double`) and converted back to `float`; the x
position `XPosInitial - Width / 2` is computed in `float` and truncated on
assignment to the `int`. -/
def drawEyes_sweatDrop (s : Engine) (limit : Nat) (origin : Nat → Int) (d : SweatDrop)
    (h : Host) : SweatDrop × Host :=
  let a : SweatDrop × Host :=
    if d.YPos ≤ (d.YPosMax : ℚ) then ({ d with YPos := d.YPos + 1 / 2 }, h)
    else
      let rx := random s limit h
      let rm := random s 10 rx.2
      ({ d with XPosInitial := origin rx.1, YPos := 2,
                YPosMax := toI32 ((rm.1 + 10) % 4294967296), Width := 1, Height := 2 }, rm.2)
  let d1 := a.1
  let d2 : SweatDrop :=
    if d1.YPos ≤ ((Int.tdiv d1.YPosMax 2 : Int) : ℚ) then
      { d1 with Width := f32 (f64 (d1.Width + 1 / 2)), Height := d1.Height + 1 / 2 }
    else { d1 with Width := f32 (f64 (d1.Width - f64 (1 / 10))), Height := d1.Height - 1 / 2 }
  let d3 : SweatDrop :=
    { d2 with XPos := truncQ (f32 (f32 (d2.XPosInitial : ℚ) - f32 (d2.Width / 2))) }
  (d3, drawRoundedRectangle s d3.XPos (truncQ d3.YPos) (truncQ d3.Width) (truncQ d3.Height)
    (sweatBorderradius : Int) s.MAINCOLOR a.2)

/-- Lines 482-558: the three sweat droplets (left corner, centre, right corner). -/
def drawEyes_sweat (s : Engine) (h : Host) : Engine × Host :=
  if s.sweat then
    let r1 := drawEyes_sweatDrop s 30 (fun r => toI32 r) s.sweat1 h
    let r2 := drawEyes_sweatDrop s (toU32 (s.screenWidth - 60))
      (fun r => toI32 ((r + 30) % 4294967296)) s.sweat2 r1.2
    let r3 := drawEyes_sweatDrop s 30
      (fun r => toI32 ((toU32 (s.screenWidth - 30) + r) % 4294967296)) s.sweat3 r2.2
    ({ s with sweat1 := r1.1, sweat2 := r2.1, sweat3 := r3.1 }, r3.2)
  else (s, h)

/-- Lines 244-317 of `drawEyes`: the pre-calculations that precede the macro
animations. -/
def drawEyes_pre (s : Engine) : Engine :=
  drawEyes_tween (drawEyes_reopen (drawEyes_height (drawEyes_curious s)))

/-- Lines 244-391 of `drawEyes`: pre-calculations, then autoblink, laugh,
confused, idle and the two flickers. -/
def drawEyes_anim (s : Engine) (h : Host) : Engine × Host :=
  let a := drawEyes_autoblink (drawEyes_pre s) h
  let b := drawEyes_laugh a.1 a.2
  let c := drawEyes_confused b.1 b.2
  let d := drawEyes_idle c.1 c.2
  (drawEyes_vFlicker (drawEyes_hFlicker d.1), d.2)

/-- Lines 400-560 of `drawEyes`: the actual drawings. -/
def drawEyes_render (s : Engine) (h : Host) : Engine × Host :=
  let h2 := drawEyes_base s h
  let e := drawEyes_tired (drawEyes_moodTargets s) h2
  let f := drawEyes_angry e.1 e.2
  let g := drawEyes_happy f.1 f.2
  let k := drawEyes_sweat g.1 g.2
  (k.1, updateDisplay k.1 k.2)

/-- The frame procedure `drawEyes` (lines 242-562): the blocks above in source
order, the cyclops block standing between the flickers and the drawings. -/
def drawEyes (s : Engine) (h : Host) : Engine × Host :=
  let a := drawEyes_anim s h
  drawEyes_render (drawEyes_cyclops a.1) a.2

/-! ## General methods (lines 568-635) -/

/-- Lines 568-614: bind the ports and set the start geometry. -/
def RoboEyes_init (drawRoundedRectangle drawTriangle clearDisplay updateDisplay : Bool)
    (millis : Option MillisFunc) (random : Option RandomFunc) (s : Engine) : Engine :=
  let s1 : Engine := { s with
    drawRoundedRectanglePtr := drawRoundedRectangle, clearDisplayPtr := clearDisplay,
    updateDisplayPtr := updateDisplay, drawTrianglePtr := drawTriangle,
    millisPtr := millis, randomPtr := random }
  let s2 : Engine := { s1 with spaceBetweenCurrent := s1.spaceBetweenDefault }
  let s3 : Engine := { s2 with
    eyeLwidthCurrent := s2.eyeLwidthDefault, eyeLheightCurrent := 1,
    eyeLwidthNext := s2.eyeLwidthDefault, eyeLheightNext := s2.eyeLheightDefault,
    eyeLborderRadiusCurrent := s2.eyeLborderRadiusDefault,
    eyeLborderRadiusNext := s2.eyeLborderRadiusDefault }
  let s4 : Engine := { s3 with
    eyeRwidthDefault := s3.eyeLwidthDefault, eyeRheightDefault := s3.eyeLheightDefault }
  let s5 : Engine := { s4 with
    eyeRwidthCurrent := s4.eyeRwidthDefault, eyeRheightCurrent := 1,
    eyeRwidthNext := s4.eyeRwidthDefault, eyeRheightNext := s4.eyeRheightDefault,
    eyeRborderRadiusCurrent := s4.eyeRborderRadiusDefault,
    eyeRborderRadiusNext := s4.eyeRborderRadiusDefault }
  let s6 : Engine := { s5 with
    eyeLxDefault := Int.tdiv (s5.screenWidth -
      (s5.eyeLwidthDefault + s5.spaceBetweenDefault + s5.eyeRwidthDefault)) 2,
    eyeLyDefault := Int.tdiv (s5.screenHeight - s5.eyeLheightDefault) 2 }
  let s7 : Engine := { s6 with
    eyeLx := s6.eyeLxDefault, eyeLy := s6.eyeLyDefault,
    eyeLxNext := s6.eyeLxDefault, eyeLyNext := s6.eyeLyDefault }
  let s8 : Engine := { s7 with
    eyeRxDefault := s7.eyeLx + s7.eyeLwidthCurrent + s7.spaceBetweenDefault,
    eyeRyDefault := s7.eyeLy }
  let s9 : Engine := { s8 with eyeRx := s8.eyeRxDefault, eyeRy := s8.eyeRyDefault }
  { s9 with eyeRxNext := s9.eyeRx, eyeRyNext := s9.eyeRy }

/-- Lines 618-627: screen size, empty screen, closed eyes, frame rate. -/
def RoboEyes_begin (width height : Int) (frameRate : Nat) (s : Engine) (h : Host) :
    Engine × Host :=
  let s1 : Engine := { s with screenWidth := width, screenHeight := height }
  let h1 := updateDisplay s1 (clearDisplay s1 h)
  let s2 : Engine := { s1 with eyeLheightCurrent := 1, eyeRheightCurrent := 1 }
  (RoboEyes_setFramerate frameRate s2, h1)

/-- Elapsed time `millis() - fpsTimer` in `unsigned long` arithmetic. -/
def elapsed (now fpsTimer : Nat) : Nat :=
  (now % 4294967296 + 4294967296 - fpsTimer % 4294967296) % 4294967296

/-- Lines 629-635: the frame governor.  The comparison with the `int`
`frameInterval` is made in `unsigned long`. -/
def RoboEyes_update (s : Engine) (h : Host) : Engine × Host :=
  let m := millis s h
  if toU32 s.frameInterval ≤ elapsed m.1 s.fpsTimer then
    let r := drawEyes s m.2
    let m2 := millis r.1 r.2
    ({ r.1 with fpsTimer := m2.1 }, m2.2)
  else (s, m.2)


/-! ## Runs of frames and polls -/

/-- The guard of the autoblink block (lines 321-322), evaluated on the engine
and host as they stand when the block is reached. -/
def autoblinkDue (s : Engine) (h : Host) : Bool :=
  s.autoblinker && decide (s.blinktimer ≤ (millis s h).1)

/-- The guard of the governor (line 631). -/
def rendersFrame (s : Engine) (h : Host) : Bool :=
  decide (toU32 s.frameInterval ≤ elapsed (millis s h).1 s.fpsTimer)

/-- Whether the poll `RoboEyes_update s h` triggers a blink: the governor lets
the frame run and the autoblink guard holds when the frame reaches it. -/
def blinkFires (s : Engine) (h : Host) : Bool :=
  rendersFrame s h && autoblinkDue (drawEyes_pre s) (millis s h).2

/-- Rendered frames in a row: `drawEyes` applied `n` times. -/
def frames : Nat → Engine → Host → Engine × Host
  | 0, s, h => (s, h)
  | n + 1, s, h => frames n (drawEyes s h).1 (drawEyes s h).2

/-- Polls in a row: `RoboEyes_update` applied `n` times. -/
def polls : Nat → Engine → Host → Engine × Host
  | 0, s, h => (s, h)
  | n + 1, s, h => polls n (RoboEyes_update s h).1 (RoboEyes_update s h).2

/-- Number of polls, among the next `n`, that trigger a blink. -/
def blinksDuring : Nat → Engine → Host → Nat
  | 0, _, _ => 0
  | n + 1, s, h =>
    (if blinkFires s h then 1 else 0) +
      blinksDuring n (RoboEyes_update s h).1 (RoboEyes_update s h).2

/-! ## Scenarios -/

/-- A clock port that returns the listed readings, call after call, and
`last` from then on. -/
def clockOf (l : List Nat) (last : Nat) : MillisFunc := fun k => l.getD k last

/-- A freshly initialised engine on a fresh host: program-start statics, then
`RoboEyes_init` with all drawing primitives bound and the given clock and
random source, then `RoboEyes_begin(240, 135, 50)`. -/
def freshEngine (clock : MillisFunc) (rand : RandomFunc) : Engine × Host :=
  RoboEyes_begin 240 135 50
    (RoboEyes_init true true true true (some clock) (some rand) Engine.initial) Host.fresh

/-- The governor scenario: a fresh engine whose clock reads 0 at the first
poll, 15 at the second and 21 from the third poll on. -/
def governorScenario : Engine × Host :=
  freshEngine (clockOf [0, 15, 21] 21) (fun _ _ => 0)

/-- A fresh engine with a clock that always reads 0 and a random source that
always yields 0 (default heights 36, both eyes at height 1). -/
def restingEngine : Engine × Host :=
  freshEngine (clockOf [] 0) (fun _ _ => 0)

/-- The resting engine after `RoboEyes_setHeight(2, 2)`. -/
def lowEngine : Engine × Host :=
  (RoboEyes_setHeight 2 2 restingEngine.1, restingEngine.2)

/-- A fresh engine with the given clock, a random source that always yields
0, and `RoboEyes_setAutoblinker2(true, 1, 0)`. -/
def autoblinkEngine (clock : MillisFunc) : Engine × Host :=
  (RoboEyes_setAutoblinker2 true 1 0 (freshEngine clock (fun _ _ => 0)).1,
    (freshEngine clock (fun _ _ => 0)).2)

/-- A clock that reads 0 at the first poll (one read), 1000 during the second
poll (its four reads: governor, autoblink guard, autoblink timer, `fpsTimer`)
and `g k` at every later read `k`. -/
def twoPollClock (g : MillisFunc) : MillisFunc :=
  fun k => if k = 0 then 0 else if k ≤ 4 then 1000 else g k

/-! ## Views of the engine used in the proofs -/

/-- Fields that no block of `drawEyes` assigns. -/
structure Settings where
  curious : Bool
  cyclops : Bool
  autoblinker : Bool
  blinkInterval : Int
  blinkIntervalVariation : Int
  frameInterval : Int
  fpsTimer : Nat
  millisPtr : Option MillisFunc
  randomPtr : Option RandomFunc
  eyeLheightDefault : Int
  eyeRheightDefault : Int

/-- The settings of an engine. -/
def Engine.settings (s : Engine) : Settings :=
  { curious := s.curious, cyclops := s.cyclops, autoblinker := s.autoblinker,
    blinkInterval := s.blinkInterval,
    blinkIntervalVariation := s.blinkIntervalVariation,
    frameInterval := s.frameInterval, fpsTimer := s.fpsTimer,
    millisPtr := s.millisPtr, randomPtr := s.randomPtr,
    eyeLheightDefault := s.eyeLheightDefault, eyeRheightDefault := s.eyeRheightDefault }

/-- The fields that govern blinking: open flags, current and next heights,
and the time of the next automatic blink. -/
structure Lids where
  eyeL_open : Bool
  eyeR_open : Bool
  eyeLheightCurrent : Int
  eyeLheightNext : Int
  eyeRheightCurrent : Int
  eyeRheightNext : Int
  blinktimer : Nat

/-- The lids of an engine. -/
def Engine.lids (s : Engine) : Lids :=
  { eyeL_open := s.eyeL_open, eyeR_open := s.eyeR_open,
    eyeLheightCurrent := s.eyeLheightCurrent, eyeLheightNext := s.eyeLheightNext,
    eyeRheightCurrent := s.eyeRheightCurrent, eyeRheightNext := s.eyeRheightNext,
    blinktimer := s.blinktimer }

/-- The fields the cyclops block assigns. -/
structure RightSize where
  eyeRwidthCurrent : Int
  eyeRheightCurrent : Int
  spaceBetweenCurrent : Int

/-- The right-eye size and spacing of an engine. -/
def Engine.rightSize (s : Engine) : RightSize :=
  { eyeRwidthCurrent := s.eyeRwidthCurrent, eyeRheightCurrent := s.eyeRheightCurrent,
    spaceBetweenCurrent := s.spaceBetweenCurrent }

/-- Height tween followed by the reopen rule, for one eye with default height
`d` and no height offset: the new `(current, next)` pair. -/
def reopenStep (d : Int) (isOpen : Bool) (p : Int × Int) : Int × Int :=
  (Int.tdiv (p.1 + p.2) 2, if isOpen = true ∧ Int.tdiv (p.1 + p.2) 2 ≤ 1 then d else p.2)

/-- Repeated `reopenStep`. -/
def reopenIter (d : Int) (isOpen : Bool) : Nat → Int × Int → Int × Int
  | 0, p => p
  | n + 1, p => reopenIter d isOpen n (reopenStep d isOpen p)

/-! ## Reference tables (written from the specification) -/

/-- The documented position table: for travel limits `cx`, `cy` the target
`(x, y)` of the left eye for N, NE, E, SE, S, SW, W, NW (1..8) and the centre
for every other byte. -/
def positionTarget (cx cy : Int) : Nat → Int × Int
  | 1 => (Int.tdiv cx 2, 0)
  | 2 => (cx, 0)
  | 3 => (cx, Int.tdiv cy 2)
  | 4 => (cx, cy)
  | 5 => (Int.tdiv cx 2, cy)
  | 6 => (0, cy)
  | 7 => (0, Int.tdiv cy 2)
  | 8 => (0, 0)
  | _ => (Int.tdiv cx 2, Int.tdiv cy 2)

/-! ## The public operations as data -/

/-- The setter and animation-trigger operations of the header, with their
arguments (`uint8_t` arguments are reduced modulo 256 by the functions). -/
inductive Setter where
  | setFramerate (fps : Nat)
  | setDisplayColors (background main : Nat)
  | setWidth (leftEye rightEye : Nat)
  | setHeight (leftEye rightEye : Nat)
  | setBorderradius (leftEye rightEye : Nat)
  | setSpacebetween (space : Int)
  | setMood (mood : Nat)
  | setPosition (position : Nat)
  | setAutoblinker2 (active : Bool) (interval variation : Int)
  | setAutoblinker (active : Bool)
  | setIdleMode2 (active : Bool) (interval variation : Int)
  | setIdleMode (active : Bool)
  | setCuriosity (curiousBit : Bool)
  | setCyclops (cyclopsBit : Bool)
  | setHFlicker2 (flickerBit : Bool) (Amplitude : Nat)
  | setHFlicker (flickerBit : Bool)
  | setVFlicker2 (flickerBit : Bool) (Amplitude : Nat)
  | setVFlicker (flickerBit : Bool)
  | setSweat (sweatBit : Bool)
  | close
  | openEyes
  | blink
  | close2 (left right : Bool)
  | open2 (left right : Bool)
  | blink2 (left right : Bool)
  | anim_confused
  | anim_laugh

/-- The C function a `Setter` stands for (`openEyes` is `RoboEyes_open`). -/
def Setter.run : Setter → Engine → Engine
  | .setFramerate fps => RoboEyes_setFramerate fps
  | .setDisplayColors b m => RoboEyes_setDisplayColors b m
  | .setWidth l r => RoboEyes_setWidth l r
  | .setHeight l r => RoboEyes_setHeight l r
  | .setBorderradius l r => RoboEyes_setBorderradius l r
  | .setSpacebetween sp => RoboEyes_setSpacebetween sp
  | .setMood m => RoboEyes_setMood m
  | .setPosition p => RoboEyes_setPosition p
  | .setAutoblinker2 a i v => RoboEyes_setAutoblinker2 a i v
  | .setAutoblinker a => RoboEyes_setAutoblinker a
  | .setIdleMode2 a i v => RoboEyes_setIdleMode2 a i v
  | .setIdleMode a => RoboEyes_setIdleMode a
  | .setCuriosity b => RoboEyes_setCuriosity b
  | .setCyclops b => RoboEyes_setCyclops b
  | .setHFlicker2 b a => RoboEyes_setHFlicker2 b a
  | .setHFlicker b => RoboEyes_setHFlicker b
  | .setVFlicker2 b a => RoboEyes_setVFlicker2 b a
  | .setVFlicker b => RoboEyes_setVFlicker b
  | .setSweat b => RoboEyes_setSweat b
  | .close => RoboEyes_close
  | .openEyes => RoboEyes_open
  | .blink => RoboEyes_blink
  | .close2 l r => RoboEyes_close2 l r
  | .open2 l r => RoboEyes_open2 l r
  | .blink2 l r => RoboEyes_blink2 l r
  | .anim_confused => RoboEyes_anim_confused
  | .anim_laugh => RoboEyes_anim_laugh

/-- A call a host can make after `RoboEyes_init`: a setter, `RoboEyes_begin`,
a poll `RoboEyes_update`, or (for statements about frames as such) one
rendered frame. -/
inductive Call where
  | setter (c : Setter)
  | begin (width height : Int) (frameRate : Nat)
  | update
  | frame

/-- Effect of a call on engine and host. -/
def Call.run : Call → Engine × Host → Engine × Host
  | .setter c, p => (c.run p.1, p.2)
  | .begin w h f, p => RoboEyes_begin w h f p.1 p.2
  | .update, p => RoboEyes_update p.1 p.2
  | .frame, p => drawEyes p.1 p.2

/-- Effect of a sequence of calls, first call first. -/
def runCalls : List Call → Engine × Host → Engine × Host
  | [], p => p
  | c :: cs, p => runCalls cs (c.run p)

/-- Holds unless the call configures a height below 1. -/
def Call.heightsOk : Call → Prop
  | .setter (.setHeight l r) => 1 ≤ l % 256 ∧ 1 ≤ r % 256
  | _ => True

/-- Holds unless the call switches cyclops mode on. -/
def Call.keepsCyclopsOff : Call → Prop
  | .setter (.setCyclops b) => b = false
  | _ => True

/-- The `current` fields: the geometry and eyelid values a frame draws. -/
structure Currents where
  eyeLwidthCurrent : Int
  eyeRwidthCurrent : Int
  eyeLheightCurrent : Int
  eyeRheightCurrent : Int
  eyeLborderRadiusCurrent : Nat
  eyeRborderRadiusCurrent : Nat
  spaceBetweenCurrent : Int
  eyeLx : Int
  eyeLy : Int
  eyeRx : Int
  eyeRy : Int
  eyelidsTiredHeight : Nat
  eyelidsAngryHeight : Nat
  eyelidsHappyBottomOffset : Nat

/-- The `current` fields of an engine. -/
def Engine.currents (s : Engine) : Currents :=
  { eyeLwidthCurrent := s.eyeLwidthCurrent, eyeRwidthCurrent := s.eyeRwidthCurrent,
    eyeLheightCurrent := s.eyeLheightCurrent, eyeRheightCurrent := s.eyeRheightCurrent,
    eyeLborderRadiusCurrent := s.eyeLborderRadiusCurrent,
    eyeRborderRadiusCurrent := s.eyeRborderRadiusCurrent,
    spaceBetweenCurrent := s.spaceBetweenCurrent,
    eyeLx := s.eyeLx, eyeLy := s.eyeLy, eyeRx := s.eyeRx, eyeRy := s.eyeRy,
    eyelidsTiredHeight := s.eyelidsTiredHeight, eyelidsAngryHeight := s.eyelidsAngryHeight,
    eyelidsHappyBottomOffset := s.eyelidsHappyBottomOffset }

/-- Height floor of the left eye: current, next and default height at least 1. -/
def heightFloorL (s : Engine) : Prop :=
  1 ≤ s.eyeLheightCurrent ∧ 1 ≤ s.eyeLheightNext ∧ 1 ≤ s.eyeLheightDefault

/-- Height floor of the right eye, cyclops mode being off. -/
def heightFloorR (s : Engine) : Prop :=
  s.cyclops = false ∧ 1 ≤ s.eyeRheightCurrent ∧ 1 ≤ s.eyeRheightNext ∧
    1 ≤ s.eyeRheightDefault

/-! ## The host's random source (`main/lcd.c`, lines 176-181) -/

/-- The constant `UINT32_MAX`. -/
def UINT32_MAX : Nat := 4294967295

/-- The host function `robo_eyes_random(limit)`, given the raw value
`esp_random` returned by `esp_random()`: `r / (UINT32_MAX / limit)` in
`uint32_t` arithmetic.  For `limit = 0` the C code divides by zero; that
outcome is `none`. -/
def robo_eyes_random (esp_random : Nat) (limit : Nat) : Option Nat :=
  if limit % 4294967296 = 0 then none
  else some ((esp_random % 4294967296) / (UINT32_MAX / (limit % 4294967296)))

/-! ## The idle block seen from the frame -/

/-- The engine and host as they stand when a frame reaches the idle block
(lines 244-356 done). -/
def drawEyes_toIdle (s : Engine) (h : Host) : Engine × Host :=
  let a := drawEyes_autoblink (drawEyes_pre s) h
  let b := drawEyes_laugh a.1 a.2
  drawEyes_confused b.1 b.2

/-- The guard of the idle block (lines 359-360), evaluated on the engine and
host as they stand when the block is reached. -/
def idleDue (s : Engine) (h : Host) : Bool :=
  s.idle && decide (s.idleAnimationTimer ≤ (millis s h).1)

/-- The fields of the pair coupling: the next coordinates of both eyes, the
left eye's current width and the current spacing. -/
structure Pair where
  eyeLxNext : Int
  eyeLyNext : Int
  eyeRxNext : Int
  eyeRyNext : Int
  eyeLwidthCurrent : Int
  spaceBetweenCurrent : Int

/-- The pair fields of an engine. -/
def Engine.pair (s : Engine) : Pair :=
  { eyeLxNext := s.eyeLxNext, eyeLyNext := s.eyeLyNext, eyeRxNext := s.eyeRxNext,
    eyeRyNext := s.eyeRyNext, eyeLwidthCurrent := s.eyeLwidthCurrent,
    spaceBetweenCurrent := s.spaceBetweenCurrent }

/-- The resting engine with `RoboEyes_setIdleMode2(true, 1, 0)`. -/
def idleEngine : Engine × Host :=
  (RoboEyes_setIdleMode2 true 1 0 restingEngine.1, restingEngine.2)

/-- The resting engine with `RoboEyes_setCyclops(true)`. -/
def cyclopsEngine : Engine × Host :=
  (RoboEyes_setCyclops true restingEngine.1, restingEngine.2)

/-! ## Drawing capabilities -/

/-- The engine with its four drawing pointers replaced (`true` bound, `false`
NULL). -/
def withDrawPtrs (dr dt cl up : Bool) (s : Engine) : Engine :=
  { s with drawRoundedRectanglePtr := dr, drawTrianglePtr := dt, clearDisplayPtr := cl,
           updateDisplayPtr := up }

/-- Whether the engine's pointer for the primitive of a call is bound. -/
def Engine.accepts (s : Engine) : DrawCall → Bool
  | .clearDisplay => s.clearDisplayPtr
  | .drawRoundedRectangle _ _ _ _ _ _ => s.drawRoundedRectanglePtr
  | .drawTriangle _ _ _ _ _ _ _ => s.drawTrianglePtr
  | .updateDisplay => s.updateDisplayPtr

/-- The call counters of a host (its trace left out). -/
def Host.counters (h : Host) : Nat × Nat := (h.millisCalls, h.randomCalls)

/-! ## Draw order of the specification -/

/-- Specification draw order, first part: the display is cleared, the left eye
is drawn in the main colour, and the right eye is drawn in the main colour
unless cyclops mode is on. -/
def specBaseCalls (e : Engine) : List DrawCall :=
  [DrawCall.clearDisplay,
   DrawCall.drawRoundedRectangle e.eyeLx e.eyeLy e.eyeLwidthCurrent e.eyeLheightCurrent
     (e.eyeLborderRadiusCurrent : Int) e.MAINCOLOR] ++
  (if e.cyclops then []
   else [DrawCall.drawRoundedRectangle e.eyeRx e.eyeRy e.eyeRwidthCurrent e.eyeRheightCurrent
     (e.eyeRborderRadiusCurrent : Int) e.MAINCOLOR])

/-- Specification draw order: the two tired-eyelid triangles in the background
colour (one per eye, or the two halves of the single eye in cyclops mode). -/
def specTiredCalls (e : Engine) : List DrawCall :=
  if e.cyclops then
    [DrawCall.drawTriangle e.eyeLx (e.eyeLy - 1) (e.eyeLx + Int.tdiv e.eyeLwidthCurrent 2)
       (e.eyeLy - 1) e.eyeLx (e.eyeLy + (e.eyelidsTiredHeight : Int) - 1) e.BGCOLOR,
     DrawCall.drawTriangle (e.eyeLx + Int.tdiv e.eyeLwidthCurrent 2) (e.eyeLy - 1)
       (e.eyeLx + e.eyeLwidthCurrent) (e.eyeLy - 1) (e.eyeLx + e.eyeLwidthCurrent)
       (e.eyeLy + (e.eyelidsTiredHeight : Int) - 1) e.BGCOLOR]
  else
    [DrawCall.drawTriangle e.eyeLx (e.eyeLy - 1) (e.eyeLx + e.eyeLwidthCurrent) (e.eyeLy - 1)
       e.eyeLx (e.eyeLy + (e.eyelidsTiredHeight : Int) - 1) e.BGCOLOR,
     DrawCall.drawTriangle e.eyeRx (e.eyeRy - 1) (e.eyeRx + e.eyeRwidthCurrent) (e.eyeRy - 1)
       (e.eyeRx + e.eyeRwidthCurrent) (e.eyeRy + (e.eyelidsTiredHeight : Int) - 1) e.BGCOLOR]

/-- Specification draw order: the two angry-eyelid triangles in the background
colour. -/
def specAngryCalls (e : Engine) : List DrawCall :=
  if e.cyclops then
    [DrawCall.drawTriangle e.eyeLx (e.eyeLy - 1) (e.eyeLx + Int.tdiv e.eyeLwidthCurrent 2)
       (e.eyeLy - 1) (e.eyeLx + Int.tdiv e.eyeLwidthCurrent 2)
       (e.eyeLy + (e.eyelidsAngryHeight : Int) - 1) e.BGCOLOR,
     DrawCall.drawTriangle (e.eyeLx + Int.tdiv e.eyeLwidthCurrent 2) (e.eyeLy - 1)
       (e.eyeLx + e.eyeLwidthCurrent) (e.eyeLy - 1) (e.eyeLx + Int.tdiv e.eyeLwidthCurrent 2)
       (e.eyeLy + (e.eyelidsAngryHeight : Int) - 1) e.BGCOLOR]
  else
    [DrawCall.drawTriangle e.eyeLx (e.eyeLy - 1) (e.eyeLx + e.eyeLwidthCurrent) (e.eyeLy - 1)
       (e.eyeLx + e.eyeLwidthCurrent) (e.eyeLy + (e.eyelidsAngryHeight : Int) - 1) e.BGCOLOR,
     DrawCall.drawTriangle e.eyeRx (e.eyeRy - 1) (e.eyeRx + e.eyeRwidthCurrent) (e.eyeRy - 1)
       e.eyeRx (e.eyeRy + (e.eyelidsAngryHeight : Int) - 1) e.BGCOLOR]

/-- Specification draw order: the happy bottom overlay of the left eye in the
background colour, and that of the right eye unless cyclops mode is on. -/
def specHappyCalls (e : Engine) : List DrawCall :=
  [DrawCall.drawRoundedRectangle (e.eyeLx - 1)
     ((e.eyeLy + e.eyeLheightCurrent) - (e.eyelidsHappyBottomOffset : Int) + 1)
     (e.eyeLwidthCurrent + 2) e.eyeLheightDefault (e.eyeLborderRadiusCurrent : Int) e.BGCOLOR] ++
  (if e.cyclops then []
   else [DrawCall.drawRoundedRectangle (e.eyeRx - 1)
     ((e.eyeRy + e.eyeRheightCurrent) - (e.eyelidsHappyBottomOffset : Int) + 1)
     (e.eyeRwidthCurrent + 2) e.eyeRheightDefault (e.eyeRborderRadiusCurrent : Int) e.BGCOLOR])

/-- The rounded rectangle of one sweat droplet, in the main colour. -/
def specDropCall (e : Engine) (d : SweatDrop) : DrawCall :=
  DrawCall.drawRoundedRectangle d.XPos (truncQ d.YPos) (truncQ d.Width) (truncQ d.Height)
    (sweatBorderradius : Int) e.MAINCOLOR

/-- Specification draw order: the three sweat droplets, present iff sweat is
enabled. -/
def specSweatCalls (e : Engine) : List DrawCall :=
  if e.sweat then [specDropCall e e.sweat1, specDropCall e e.sweat2, specDropCall e e.sweat3]
  else []

/-- Specification draw order of one frame, written over the engine state the
frame leaves behind: clear, base rectangles, tired triangles, angry triangles,
happy overlays, sweat droplets, present. -/
def specDrawOrder (e : Engine) : List DrawCall :=
  specBaseCalls e ++ specTiredCalls e ++ specAngryCalls e ++ specHappyCalls e ++
    specSweatCalls e ++ [DrawCall.updateDisplay]



/-! ## Sweat droplets -/

/-- Lines 489-493 (and 514-518, 539-543): the reset of a droplet that has
passed its maximum: new random x origin, y back to 2, new random maximum,
width 1, height 2. -/
def drawEyes_sweatReset (s : Engine) (limit : Nat) (origin : Nat → Int) (d : SweatDrop)
    (h : Host) : SweatDrop × Host :=
  let rx := random s limit h
  let rm := random s 10 rx.2
  ({ d with XPosInitial := origin rx.1, YPos := 2,
            YPosMax := toI32 ((rm.1 + 10) % 4294967296), Width := 1, Height := 2 }, rm.2)

/-- Lines 495-505 (and 520-530, 545-555): the shape grows in the first half of
the fall and shrinks in the second half, and is kept centred on its x origin. -/
def drawEyes_sweatShape (d1 : SweatDrop) : SweatDrop :=
  let d2 : SweatDrop :=
    if d1.YPos ≤ ((Int.tdiv d1.YPosMax 2 : Int) : ℚ) then
      { d1 with Width := f32 (f64 (d1.Width + 1 / 2)), Height := d1.Height + 1 / 2 }
    else { d1 with Width := f32 (f64 (d1.Width - f64 (1 / 10))), Height := d1.Height - 1 / 2 }
  { d2 with XPos := truncQ (f32 (f32 (d2.XPosInitial : ℚ) - f32 (d2.Width / 2))) }

/-- Lines 244-480 of `drawEyes`: the frame up to, but not including, the sweat
block. -/
def drawEyes_toSweat (s : Engine) (h : Host) : Engine × Host :=
  let a := drawEyes_anim s h
  let t := drawEyes_cyclops a.1
  let e := drawEyes_tired (drawEyes_moodTargets t) (drawEyes_base t a.2)
  let f := drawEyes_angry e.1 e.2
  drawEyes_happy f.1 f.2

/-- The sweat flag and the three droplets. -/
def Engine.droplets (s : Engine) : Bool × SweatDrop × SweatDrop × SweatDrop :=
  (s.sweat, s.sweat1, s.sweat2, s.sweat3)

/-- Fields that no block of `drawEyes` assigns (besides those of `Settings`). -/
structure Fixed where
  screenWidth : Int
  screenHeight : Int
  BGCOLOR : Nat
  MAINCOLOR : Nat
  tired : Bool
  angry : Bool
  happy : Bool
  idle : Bool
  idleInterval : Int
  idleIntervalVariation : Int
  eyeLwidthNext : Int
  eyeRwidthNext : Int
  spaceBetweenNext : Int

/-- The fixed fields of an engine. -/
def Engine.fixed (s : Engine) : Fixed :=
  { screenWidth := s.screenWidth, screenHeight := s.screenHeight, BGCOLOR := s.BGCOLOR,
    MAINCOLOR := s.MAINCOLOR, tired := s.tired, angry := s.angry, happy := s.happy,
    idle := s.idle, idleInterval := s.idleInterval,
    idleIntervalVariation := s.idleIntervalVariation, eyeLwidthNext := s.eyeLwidthNext,
    eyeRwidthNext := s.eyeRwidthNext, spaceBetweenNext := s.spaceBetweenNext }

/-- The fields the idle block assigns: the left eye's next position and the
time of the next repositioning. -/
def Engine.gaze (s : Engine) : Int × Int × Nat :=
  (s.eyeLxNext, s.eyeLyNext, s.idleAnimationTimer)

/-- The value the idle block draws for `eyeLxNext` (line 361), the clock having
been read once for the guard. -/
def idleDrawX (s : Engine) (h : Host) : Nat × Host :=
  random s (toU32 (RoboEyes_getScreenConstraint_X s)) (millis s h).2

/-- The value the idle block draws for `eyeLyNext` (line 362). -/
def idleDrawY (s : Engine) (h : Host) : Nat × Host :=
  random s (toU32 (RoboEyes_getScreenConstraint_Y s)) (idleDrawX s h).2

/-- The clock reading the idle block takes for the new timer (line 363). -/
def idleNow (s : Engine) (h : Host) : Nat × Host :=
  millis s (idleDrawY s h).2

/-- The value the idle block draws for the interval variation (line 364). -/
def idleDrawV (s : Engine) (h : Host) : Nat × Host :=
  random s (toU32 s.idleIntervalVariation) (idleNow s h).2

/-- The engine and host as they stand when a frame reaches the laugh block
(lines 244-328 done). -/
def drawEyes_toLaugh (s : Engine) (h : Host) : Engine × Host :=
  drawEyes_autoblink (drawEyes_pre s) h

/-- The engine and host as they stand when a frame reaches the confused block
(lines 244-342 done). -/
def drawEyes_toConfused (s : Engine) (h : Host) : Engine × Host :=
  drawEyes_laugh (drawEyes_toLaugh s h).1 (drawEyes_toLaugh s h).2

/-- The engine and host as they stand when a frame reaches the flicker blocks
(lines 244-367 done). -/
def drawEyes_toFlicker (s : Engine) (h : Host) : Engine × Host :=
  drawEyes_idle (drawEyes_toIdle s h).1 (drawEyes_toIdle s h).2

/-- The clock reading the laugh block of a frame takes (line 335 or 337). -/
def laughNow (s : Engine) (h : Host) : Nat :=
  (millis (drawEyes_toLaugh s h).1 (drawEyes_toLaugh s h).2).1

/-- The clock reading the confused block of a frame takes (line 349 or 351). -/
def confusedNow (s : Engine) (h : Host) : Nat :=
  (millis (drawEyes_toConfused s h).1 (drawEyes_toConfused s h).2).1

/-- The fields of the confused one-shot and of the horizontal flicker. -/
structure Confusion where
  confused : Bool
  confusedToggle : Bool
  confusedAnimationTimer : Nat
  hFlicker : Bool
  hFlickerAmplitude : Nat
  deriving DecidableEq

/-- The confusion fields of an engine. -/
def Engine.confusion (s : Engine) : Confusion :=
  { confused := s.confused, confusedToggle := s.confusedToggle,
    confusedAnimationTimer := s.confusedAnimationTimer, hFlicker := s.hFlicker,
    hFlickerAmplitude := s.hFlickerAmplitude }

/-- The confused block (lines 346-356) on its own fields, `now` being the
clock reading it takes. -/
def confusedStep (c : Confusion) (now : Nat) : Confusion :=
  if c.confused then
    if c.confusedToggle then
      { c with hFlicker := true, hFlickerAmplitude := 20 % 256, confusedAnimationTimer := now,
               confusedToggle := false }
    else if (c.confusedAnimationTimer + toU32 confusedAnimationDuration) % 4294967296 ≤ now then
      { c with hFlicker := false, hFlickerAmplitude := 0 % 256, confusedToggle := true,
               confused := false }
    else c
  else c

/-- The fields of the laugh one-shot and of the vertical flicker. -/
structure Laughter where
  laugh : Bool
  laughToggle : Bool
  laughAnimationTimer : Nat
  vFlicker : Bool
  vFlickerAmplitude : Nat
  deriving DecidableEq

/-- The laughter fields of an engine. -/
def Engine.laughter (s : Engine) : Laughter :=
  { laugh := s.laugh, laughToggle := s.laughToggle,
    laughAnimationTimer := s.laughAnimationTimer, vFlicker := s.vFlicker,
    vFlickerAmplitude := s.vFlickerAmplitude }

/-- The laugh block (lines 332-342) on its own fields, `now` being the clock
reading it takes. -/
def laughStep (c : Laughter) (now : Nat) : Laughter :=
  if c.laugh then
    if c.laughToggle then
      { c with vFlicker := true, vFlickerAmplitude := 5 % 256, laughAnimationTimer := now,
               laughToggle := false }
    else if (c.laughAnimationTimer + toU32 laughAnimationDuration) % 4294967296 ≤ now then
      { c with vFlicker := false, vFlickerAmplitude := 0 % 256, laughToggle := true,
               laugh := false }
    else c
  else c

/-- A fresh engine whose clock reads `300 * k` at the k-th call and whose
random source always yields 0. -/
def steppedEngine : Engine × Host :=
  freshEngine (fun k => 300 * k) (fun _ _ => 0)

/-- The displayed coordinates of both eyes. -/
def Engine.coords (s : Engine) : Int × Int × Int × Int := (s.eyeLx, s.eyeRx, s.eyeLy, s.eyeRy)

/-- The two flicker phase flags. -/
def Engine.alternates (s : Engine) : Bool × Bool := (s.hFlickerAlternate, s.vFlickerAlternate)

/-- The displacement the horizontal flicker block adds to both x coordinates
(lines 370-377). -/
def hFlickerShift (s : Engine) : Int :=
  if s.hFlicker then
    if s.hFlickerAlternate then (s.hFlickerAmplitude : Int) else -(s.hFlickerAmplitude : Int)
  else 0

/-- The displacement the vertical flicker block adds to both y coordinates
(lines 382-389). -/
def vFlickerShift (s : Engine) : Int :=
  if s.vFlicker then
    if s.vFlickerAlternate then (s.vFlickerAmplitude : Int) else -(s.vFlickerAmplitude : Int)
  else 0


/-- The current heights of the three eyelids. -/
def Engine.eyelids (s : Engine) : Nat × Nat × Nat :=
  (s.eyelidsTiredHeight, s.eyelidsAngryHeight, s.eyelidsHappyBottomOffset)

/-- The two curious-gaze height offsets. -/
def Engine.offsets (s : Engine) : Int × Int := (s.eyeLheightOffset, s.eyeRheightOffset)

/-- The resting engine after `RoboEyes_setMood(HAPPY)`. -/
def happyEngine : Engine × Host :=
  (RoboEyes_setMood HAPPY restingEngine.1, restingEngine.2)

/-- The eyelid fields the drawing part of a frame works on: the three targets,
the three current values and the left eye's current height. -/
def Engine.lidState (s : Engine) : Nat × Nat × Nat × Nat × Nat × Nat × Int :=
  (s.eyelidsTiredHeightNext, s.eyelidsAngryHeightNext, s.eyelidsHappyBottomOffsetNext,
    s.eyelidsTiredHeight, s.eyelidsAngryHeight, s.eyelidsHappyBottomOffset,
    s.eyeLheightCurrent)


/-! ## Sweat columns -/

/-- The fields behind the sweat columns: screen width, random source and the
three droplets. -/
def Engine.sweatSetup (s : Engine) :
    Int × Option RandomFunc × SweatDrop × SweatDrop × SweatDrop :=
  (s.screenWidth, s.randomPtr, s.sweat1, s.sweat2, s.sweat3)

/-- A droplet inside its column: x origin in `[lo, hi)`, maximum travel in
`[10, 20)`. -/
def SweatDrop.inColumn (lo hi : Int) (d : SweatDrop) : Prop :=
  lo ≤ d.XPosInitial ∧ d.XPosInitial < hi ∧ 10 ≤ d.YPosMax ∧ d.YPosMax < 20

/-- A droplet that is inside its column, or has passed its maximum and is
reset by the next sweat frame. -/
def SweatDrop.settled (lo hi : Int) (d : SweatDrop) : Prop :=
  (d.YPosMax : ℚ) < d.YPos ∨ d.inColumn lo hi

/-- The invariant behind the sweat columns for screen width `W` and random
source `rp`. -/
def sweatInv (W : Int) (rp : Option RandomFunc) (s : Engine) : Prop :=
  s.screenWidth = W ∧ s.randomPtr = rp ∧ s.sweat1.settled 0 30 ∧
    s.sweat2.settled 30 (W - 30) ∧ s.sweat3.settled (W - 30) W

/-- Holds unless the call is a `RoboEyes_begin` with a screen width other than
`W`. -/
def Call.keepsWidth (W : Int) : Call → Prop
  | .begin w _ _ => w = W
  | _ => True

/-! ## Widths and spacing -/

/-- Screen width, the widths of both eyes and the spacing, current and next. -/
def Engine.widths (s : Engine) : Int × Int × Int × Int × Int × Int × Int :=
  (s.screenWidth, s.eyeLwidthCurrent, s.eyeLwidthNext, s.eyeRwidthCurrent, s.eyeRwidthNext,
    s.spaceBetweenCurrent, s.spaceBetweenNext)

/-- The cyclops engine with `RoboEyes_setWidth(36, 1)` and
`RoboEyes_setSpacebetween(1)`, after one rendered frame. -/
def narrowCyclopsEngine : Engine × Host :=
  drawEyes (RoboEyes_setSpacebetween 1 (RoboEyes_setWidth 36 1 cyclopsEngine.1)) cyclopsEngine.2


/-! ## A droplet cycle -/

/-- Closed form of a droplet's height `k` frames after the frame that reset it
to maximum travel `m`: 2.5 after the reset frame, growing by one half per frame
while the advanced y position is at most `m / 2`, shrinking by one half per
frame afterwards. -/
def cycleHeight (m k : Nat) : ℚ :=
  if k + 4 ≤ 2 * (m / 2) then 5 / 2 + (k : ℚ) / 2
  else 2 * ((m / 2 : Nat) : ℚ) - 3 / 2 - (k : ℚ) / 2

/-- The engine at program start with all ports bound, a clock that reads 0, a
random source that always yields 1, and sweat switched on. -/
def oddSweatEngine : Engine :=
  RoboEyes_setSweat true
    (RoboEyes_init true true true true (some (fun _ => 0)) (some (fun _ _ => 1)) Engine.initial)

/-! ## Truncating division by two -/

theorem tdiv_two_cases (a : Int) :
    (0 ≤ a ∧ Int.tdiv a 2 = a / 2) ∨ (a < 0 ∧ Int.tdiv a 2 = -((-a) / 2)) := by
  rcases lt_or_le a 0 with h | h
  · right
    refine ⟨h, ?_⟩
    rw [← Int.tdiv_eq_ediv (by omega) (by decide), Int.neg_tdiv, neg_neg]
  · left
    exact ⟨h, Int.tdiv_eq_ediv h (by decide)⟩

theorem tween_dist_le (c n : Int) : |tween c n - n| ≤ |c - n| := by
  unfold tween
  rcases tdiv_two_cases (c + n) with ⟨h, e⟩ | ⟨h, e⟩ <;> rw [e, abs_le] <;>
    rcases abs_cases (c - n) with ⟨h1, h2⟩ | ⟨h1, h2⟩ <;> constructor <;> omega

theorem tween_dist_half (c n : Int) : 2 * |tween c n - n| ≤ |c - n| + 1 := by
  unfold tween
  rcases tdiv_two_cases (c + n) with ⟨h, e⟩ | ⟨h, e⟩ <;> rw [e] <;>
    rcases abs_cases (c - n) with ⟨h1, h2⟩ | ⟨h1, h2⟩ <;>
    rcases abs_cases ((c + n) / 2 - n) with ⟨h3, h4⟩ | ⟨h3, h4⟩ <;>
    rcases abs_cases (-(-(c + n) / 2) - n) with ⟨h5, h6⟩ | ⟨h5, h6⟩ <;> omega

theorem tween8_dist_le (a b : Nat) :
    |((tween8 (a % 256) (b % 256) : Nat) : Int) - ((b % 256 : Nat) : Int)|
      ≤ |((a % 256 : Nat) : Int) - ((b % 256 : Nat) : Int)| := by
  unfold tween8
  rw [abs_le]
  rcases abs_cases (((a % 256 : Nat) : Int) - ((b % 256 : Nat) : Int)) with ⟨h1, h2⟩ | ⟨h1, h2⟩ <;>
    constructor <;> omega

theorem tweenIter_le (n : Int) (k : Nat) :
    ∀ c : Int, |c - n| ≤ 2 ^ k → |tweenIter n k c - n| ≤ 1 := by
  induction k with
  | zero => intro c h; simpa [tweenIter] using h
  | succ k ih =>
    intro c h
    simp only [tweenIter]
    apply ih
    have := tween_dist_half c n
    rw [pow_succ] at h
    omega

theorem tweenIter_add (n : Int) (j k : Nat) (c : Int) :
    tweenIter n (k + j) c = tweenIter n j (tweenIter n k c) := by
  induction k generalizing c with
  | zero => simp [tweenIter]
  | succ k ih => rw [Nat.succ_add]; simp only [tweenIter]; exact ih _

theorem tweenIter_dist_le (n : Int) (j : Nat) :
    ∀ c : Int, |tweenIter n j c - n| ≤ |c - n| := by
  induction j with
  | zero => intro c; simp [tweenIter]
  | succ j ih => intro c; simp only [tweenIter]; exact le_trans (ih _) (tween_dist_le c n)

/-! ## C1, C2: the tween step -/

/-- C1. One tween step never overshoots or diverges: `|c' - n| ≤ |c - n|` for
`c' = (c + n) / 2` with truncating division, on `int` operands and on
`uint8_t` operands (border radii, eyelid heights); and this is the step
`drawEyes` applies to the widths, the spacing and the border radii. -/
theorem C1_tween_never_overshoots (c n : Int) (a b : Nat) (s : Engine) (h : Host) :
    |tween c n - n| ≤ |c - n| ∧
    |((tween8 (a % 256) (b % 256) : Nat) : Int) - ((b % 256 : Nat) : Int)|
      ≤ |((a % 256 : Nat) : Int) - ((b % 256 : Nat) : Int)| ∧
    (drawEyes_tween s).eyeLwidthCurrent = tween s.eyeLwidthCurrent s.eyeLwidthNext ∧
    (drawEyes_tween s).eyeRwidthCurrent = tween s.eyeRwidthCurrent s.eyeRwidthNext ∧
    (drawEyes_tween s).spaceBetweenCurrent = tween s.spaceBetweenCurrent s.spaceBetweenNext ∧
    (drawEyes_tween s).eyeLborderRadiusCurrent
      = tween8 s.eyeLborderRadiusCurrent s.eyeLborderRadiusNext ∧
    (drawEyes_tween s).eyeRborderRadiusCurrent
      = tween8 s.eyeRborderRadiusCurrent s.eyeRborderRadiusNext ∧
    (drawEyes_tired s h).1.eyelidsTiredHeight
      = tween8 s.eyelidsTiredHeight s.eyelidsTiredHeightNext ∧
    (drawEyes_angry s h).1.eyelidsAngryHeight
      = tween8 s.eyelidsAngryHeight s.eyelidsAngryHeightNext ∧
    (drawEyes_happy s h).1.eyelidsHappyBottomOffset
      = tween8 s.eyelidsHappyBottomOffset s.eyelidsHappyBottomOffsetNext := by
  refine ⟨tween_dist_le c n, tween8_dist_le a b, rfl, rfl, rfl, rfl, rfl, ?_, ?_, ?_⟩
  · unfold drawEyes_tired; simp only []; split_ifs <;> rfl
  · unfold drawEyes_angry; simp only []; split_ifs <;> rfl
  · unfold drawEyes_happy; simp only []; split_ifs <;> rfl

/-- C2. Tween convergence bound: if `2 ^ k ≥ |c0 - n|` then after `k` tween
steps toward the fixed target `n` the distance is at most 1, and it is at
most 1 after every larger number of steps. -/
theorem C2_tween_converges (c0 n : Int) (k : Nat) (h : |c0 - n| ≤ 2 ^ k) (j : Nat)
    (hj : k ≤ j) : |tweenIter n j c0 - n| ≤ 1 := by
  obtain ⟨i, rfl⟩ := Nat.exists_eq_add_of_le hj
  rw [tweenIter_add]
  exact le_trans (tweenIter_dist_le n i _) (tweenIter_le n k c0 h)

/-- Witness for C2: from 100 toward 36 (distance 64 = 2 ^ 6), after 7 steps. -/
theorem C2_tween_converges_witness :
    |(100 : Int) - 36| ≤ 2 ^ 6 ∧ 6 ≤ 7 ∧ |tweenIter 36 7 100 - 36| ≤ 1 :=
  ⟨by norm_num, by decide, C2_tween_converges 100 36 6 (by norm_num) 7 (by decide)⟩

/-! ## C3: mood selection -/

/-- C3. Mood exclusivity: after `RoboEyes_setMood m` (any mood byte, any prior
state) `tired` holds iff `m = TIRED`, `angry` iff `m = ANGRY`, `happy` iff
`m = HAPPY`; no two flags hold together, and all three are false for every
other byte. -/
theorem C3_mood_exclusive (m : Fin 256) (s : Engine) :
    ((RoboEyes_setMood m.val s).tired = true ↔ m.val = TIRED) ∧
    ((RoboEyes_setMood m.val s).angry = true ↔ m.val = ANGRY) ∧
    ((RoboEyes_setMood m.val s).happy = true ↔ m.val = HAPPY) ∧
    ¬ ((RoboEyes_setMood m.val s).tired = true ∧ (RoboEyes_setMood m.val s).angry = true) ∧
    ¬ ((RoboEyes_setMood m.val s).tired = true ∧ (RoboEyes_setMood m.val s).happy = true) ∧
    ¬ ((RoboEyes_setMood m.val s).angry = true ∧ (RoboEyes_setMood m.val s).happy = true) ∧
    (if m.val = TIRED ∨ m.val = ANGRY ∨ m.val = HAPPY then True
     else (RoboEyes_setMood m.val s).tired = false ∧ (RoboEyes_setMood m.val s).angry = false ∧
          (RoboEyes_setMood m.val s).happy = false) ∧
    (RoboEyes_setMood DEFAULT s).tired = false ∧ (RoboEyes_setMood DEFAULT s).angry = false ∧
    (RoboEyes_setMood DEFAULT s).happy = false := by
  have hm : m.val % 256 = m.val := Nat.mod_eq_of_lt m.isLt
  unfold RoboEyes_setMood
  simp only [hm, TIRED, ANGRY, HAPPY, DEFAULT]
  refine ⟨?_, ?_, ?_, ?_, ?_, ?_, ?_, ?_, ?_, ?_⟩ <;> split_ifs <;> simp_all

/-! ## C4: predefined positions -/

/-- C4. Position mapping: with `cx = screenWidth - eyeLwidthCurrent -
spaceBetweenCurrent - eyeRwidthCurrent` and `cy = screenHeight -
eyeLheightDefault`, `RoboEyes_setPosition p` sets `(eyeLxNext, eyeLyNext)` to
the documented entry of the position table for every byte `p` and changes no
other field. -/
theorem C4_position_mapping (p : Fin 256) (s : Engine) :
    RoboEyes_getScreenConstraint_X s
      = s.screenWidth - s.eyeLwidthCurrent - s.spaceBetweenCurrent - s.eyeRwidthCurrent ∧
    RoboEyes_getScreenConstraint_Y s = s.screenHeight - s.eyeLheightDefault ∧
    RoboEyes_setPosition p.val s =
      { s with
        eyeLxNext := (positionTarget (RoboEyes_getScreenConstraint_X s)
          (RoboEyes_getScreenConstraint_Y s) p.val).1
        eyeLyNext := (positionTarget (RoboEyes_getScreenConstraint_X s)
          (RoboEyes_getScreenConstraint_Y s) p.val).2 } := by
  refine ⟨rfl, rfl, ?_⟩
  have hp : p.val % 256 = p.val := Nat.mod_eq_of_lt p.isLt
  obtain ⟨v, hv⟩ := p
  simp only [] at hp ⊢
  unfold RoboEyes_setPosition
  rw [hp]
  rcases v with _ | _ | _ | _ | _ | _ | _ | _ | _ | v <;>
    simp [positionTarget, N, NE, E, SE, S, SW, W, NW]
/-! ## What each block of `drawEyes` leaves alone -/

theorem drawEyes_curious_settings (s : Engine) :
    (drawEyes_curious s).settings = s.settings := by
  unfold drawEyes_curious
  simp only []
  split_ifs <;> rfl

theorem drawEyes_height_settings (s : Engine) :
    (drawEyes_height s).settings = s.settings := by
  rfl

theorem drawEyes_reopen_settings (s : Engine) :
    (drawEyes_reopen s).settings = s.settings := by
  unfold drawEyes_reopen
  simp only []
  split_ifs <;> rfl

theorem drawEyes_tween_settings (s : Engine) :
    (drawEyes_tween s).settings = s.settings := by
  rfl

theorem drawEyes_autoblink_settings (s : Engine) (h : Host) :
    (drawEyes_autoblink s h).1.settings = s.settings := by
  unfold drawEyes_autoblink
  simp only []
  split_ifs <;> rfl

theorem drawEyes_laugh_settings (s : Engine) (h : Host) :
    (drawEyes_laugh s h).1.settings = s.settings := by
  unfold drawEyes_laugh
  simp only []
  split_ifs <;> rfl

theorem drawEyes_confused_settings (s : Engine) (h : Host) :
    (drawEyes_confused s h).1.settings = s.settings := by
  unfold drawEyes_confused
  simp only []
  split_ifs <;> rfl

theorem drawEyes_idle_settings (s : Engine) (h : Host) :
    (drawEyes_idle s h).1.settings = s.settings := by
  unfold drawEyes_idle
  simp only []
  split_ifs <;> rfl

theorem drawEyes_hFlicker_settings (s : Engine) :
    (drawEyes_hFlicker s).settings = s.settings := by
  unfold drawEyes_hFlicker
  simp only []
  split_ifs <;> rfl

theorem drawEyes_vFlicker_settings (s : Engine) :
    (drawEyes_vFlicker s).settings = s.settings := by
  unfold drawEyes_vFlicker
  simp only []
  split_ifs <;> rfl

theorem drawEyes_cyclops_settings (s : Engine) :
    (drawEyes_cyclops s).settings = s.settings := by
  unfold drawEyes_cyclops
  split_ifs <;> rfl

theorem drawEyes_moodTargets_settings (s : Engine) :
    (drawEyes_moodTargets s).settings = s.settings := by
  unfold drawEyes_moodTargets
  simp only []
  split_ifs <;> rfl

theorem drawEyes_tired_settings (s : Engine) (h : Host) :
    (drawEyes_tired s h).1.settings = s.settings := by
  unfold drawEyes_tired
  simp only []
  split_ifs <;> rfl

theorem drawEyes_angry_settings (s : Engine) (h : Host) :
    (drawEyes_angry s h).1.settings = s.settings := by
  unfold drawEyes_angry
  simp only []
  split_ifs <;> rfl

theorem drawEyes_happy_settings (s : Engine) (h : Host) :
    (drawEyes_happy s h).1.settings = s.settings := by
  unfold drawEyes_happy
  simp only []
  split_ifs <;> rfl

theorem drawEyes_sweat_settings (s : Engine) (h : Host) :
    (drawEyes_sweat s h).1.settings = s.settings := by
  unfold drawEyes_sweat
  simp only []
  split_ifs <;> rfl

theorem drawEyes_curious_lids (s : Engine) :
    (drawEyes_curious s).lids = s.lids := by
  unfold drawEyes_curious
  simp only []
  split_ifs <;> rfl

theorem drawEyes_tween_lids (s : Engine) :
    (drawEyes_tween s).lids = s.lids := by
  rfl

theorem drawEyes_laugh_lids (s : Engine) (h : Host) :
    (drawEyes_laugh s h).1.lids = s.lids := by
  unfold drawEyes_laugh
  simp only []
  split_ifs <;> rfl

theorem drawEyes_confused_lids (s : Engine) (h : Host) :
    (drawEyes_confused s h).1.lids = s.lids := by
  unfold drawEyes_confused
  simp only []
  split_ifs <;> rfl

theorem drawEyes_idle_lids (s : Engine) (h : Host) :
    (drawEyes_idle s h).1.lids = s.lids := by
  unfold drawEyes_idle
  simp only []
  split_ifs <;> rfl

theorem drawEyes_hFlicker_lids (s : Engine) :
    (drawEyes_hFlicker s).lids = s.lids := by
  unfold drawEyes_hFlicker
  simp only []
  split_ifs <;> rfl

theorem drawEyes_vFlicker_lids (s : Engine) :
    (drawEyes_vFlicker s).lids = s.lids := by
  unfold drawEyes_vFlicker
  simp only []
  split_ifs <;> rfl

theorem drawEyes_moodTargets_lids (s : Engine) :
    (drawEyes_moodTargets s).lids = s.lids := by
  unfold drawEyes_moodTargets
  simp only []
  split_ifs <;> rfl

theorem drawEyes_tired_lids (s : Engine) (h : Host) :
    (drawEyes_tired s h).1.lids = s.lids := by
  unfold drawEyes_tired
  simp only []
  split_ifs <;> rfl

theorem drawEyes_angry_lids (s : Engine) (h : Host) :
    (drawEyes_angry s h).1.lids = s.lids := by
  unfold drawEyes_angry
  simp only []
  split_ifs <;> rfl

theorem drawEyes_happy_lids (s : Engine) (h : Host) :
    (drawEyes_happy s h).1.lids = s.lids := by
  unfold drawEyes_happy
  simp only []
  split_ifs <;> rfl

theorem drawEyes_sweat_lids (s : Engine) (h : Host) :
    (drawEyes_sweat s h).1.lids = s.lids := by
  unfold drawEyes_sweat
  simp only []
  split_ifs <;> rfl

theorem drawEyes_moodTargets_rightSize (s : Engine) :
    (drawEyes_moodTargets s).rightSize = s.rightSize := by
  unfold drawEyes_moodTargets
  simp only []
  split_ifs <;> rfl

theorem drawEyes_tired_rightSize (s : Engine) (h : Host) :
    (drawEyes_tired s h).1.rightSize = s.rightSize := by
  unfold drawEyes_tired
  simp only []
  split_ifs <;> rfl

theorem drawEyes_angry_rightSize (s : Engine) (h : Host) :
    (drawEyes_angry s h).1.rightSize = s.rightSize := by
  unfold drawEyes_angry
  simp only []
  split_ifs <;> rfl

theorem drawEyes_happy_rightSize (s : Engine) (h : Host) :
    (drawEyes_happy s h).1.rightSize = s.rightSize := by
  unfold drawEyes_happy
  simp only []
  split_ifs <;> rfl

theorem drawEyes_sweat_rightSize (s : Engine) (h : Host) :
    (drawEyes_sweat s h).1.rightSize = s.rightSize := by
  unfold drawEyes_sweat
  simp only []
  split_ifs <;> rfl

theorem drawEyes_pre_settings (s : Engine) : (drawEyes_pre s).settings = s.settings := by
  unfold drawEyes_pre
  rw [drawEyes_tween_settings, drawEyes_reopen_settings, drawEyes_height_settings,
    drawEyes_curious_settings]

theorem drawEyes_anim_settings (s : Engine) (h : Host) :
    (drawEyes_anim s h).1.settings = s.settings := by
  unfold drawEyes_anim
  simp only []
  rw [drawEyes_vFlicker_settings, drawEyes_hFlicker_settings, drawEyes_idle_settings,
    drawEyes_confused_settings, drawEyes_laugh_settings, drawEyes_autoblink_settings,
    drawEyes_pre_settings]

theorem drawEyes_render_settings (s : Engine) (h : Host) :
    (drawEyes_render s h).1.settings = s.settings := by
  unfold drawEyes_render
  simp only []
  rw [drawEyes_sweat_settings, drawEyes_happy_settings, drawEyes_angry_settings,
    drawEyes_tired_settings, drawEyes_moodTargets_settings]

theorem drawEyes_render_lids (s : Engine) (h : Host) :
    (drawEyes_render s h).1.lids = s.lids := by
  unfold drawEyes_render
  simp only []
  rw [drawEyes_sweat_lids, drawEyes_happy_lids, drawEyes_angry_lids,
    drawEyes_tired_lids, drawEyes_moodTargets_lids]

theorem drawEyes_render_rightSize (s : Engine) (h : Host) :
    (drawEyes_render s h).1.rightSize = s.rightSize := by
  unfold drawEyes_render
  simp only []
  rw [drawEyes_sweat_rightSize, drawEyes_happy_rightSize, drawEyes_angry_rightSize,
    drawEyes_tired_rightSize, drawEyes_moodTargets_rightSize]

theorem drawEyes_settings (s : Engine) (h : Host) :
    (drawEyes s h).1.settings = s.settings := by
  unfold drawEyes
  simp only []
  rw [drawEyes_render_settings, drawEyes_cyclops_settings, drawEyes_anim_settings]

/-! ## C5: cyclops mode -/

/-- C5. Cyclops invariant: whenever `cyclops` is on, after a rendered frame
the right eye's current width and height and the current spacing are 0,
whatever the engine state (targets included) and the clock and random
inputs are. -/
theorem C5_cyclops_zeroes_right_eye (s : Engine) (h : Host) (hc : s.cyclops = true) :
    (drawEyes s h).1.eyeRwidthCurrent = 0 ∧ (drawEyes s h).1.eyeRheightCurrent = 0 ∧
    (drawEyes s h).1.spaceBetweenCurrent = 0 := by
  have hcy : (drawEyes_anim s h).1.cyclops = true := by
    have := congrArg Settings.cyclops (drawEyes_anim_settings s h)
    exact this.trans hc
  have hr : (drawEyes s h).1.rightSize = ⟨0, 0, 0⟩ := by
    unfold drawEyes
    simp only []
    rw [drawEyes_render_rightSize]
    unfold drawEyes_cyclops
    rw [if_pos hcy]
    rfl
  exact ⟨congrArg RightSize.eyeRwidthCurrent hr, congrArg RightSize.eyeRheightCurrent hr,
    congrArg RightSize.spaceBetweenCurrent hr⟩

/-- Witness for C5: the engine at program start with cyclops switched on. -/
theorem C5_cyclops_zeroes_right_eye_witness :
    (RoboEyes_setCyclops true Engine.initial).cyclops = true ∧
    (drawEyes (RoboEyes_setCyclops true Engine.initial) Host.fresh).1.eyeRwidthCurrent = 0 ∧
    (drawEyes (RoboEyes_setCyclops true Engine.initial) Host.fresh).1.eyeRheightCurrent = 0 ∧
    (drawEyes (RoboEyes_setCyclops true Engine.initial) Host.fresh).1.spaceBetweenCurrent = 0 :=
  ⟨rfl, C5_cyclops_zeroes_right_eye (RoboEyes_setCyclops true Engine.initial) Host.fresh rfl⟩

/-! ## C6, C7: the frame governor -/

theorem elapsed_advance (t d : Nat) :
    elapsed ((t % 4294967296 + d) % 4294967296) (t % 4294967296) = d % 4294967296 := by
  unfold elapsed
  omega

theorem RoboEyes_update_render (s : Engine) (h : Host) (hr : rendersFrame s h = true) :
    RoboEyes_update s h =
      ({ (drawEyes s (millis s h).2).1 with
          fpsTimer := (millis (drawEyes s (millis s h).2).1 (drawEyes s (millis s h).2).2).1 },
        (millis (drawEyes s (millis s h).2).1 (drawEyes s (millis s h).2).2).2) := by
  unfold rendersFrame at hr
  unfold RoboEyes_update
  simp only []
  rw [if_pos (of_decide_eq_true hr)]

theorem RoboEyes_update_skip (s : Engine) (h : Host) (hr : rendersFrame s h = false) :
    RoboEyes_update s h = (s, (millis s h).2) := by
  unfold rendersFrame at hr
  unfold RoboEyes_update
  simp only []
  rw [if_neg (of_decide_eq_false hr)]

theorem millis_trace (s : Engine) (h : Host) : (millis s h).2.trace = h.trace := by
  unfold millis
  split <;> rfl

/-- C6. Governor rule: `RoboEyes_update` runs the frame and then stores the
clock reading in `fpsTimer` exactly when the elapsed time `millis() -
fpsTimer` (in `unsigned long` arithmetic) is at least `frameInterval`;
otherwise the engine is unchanged and no drawing primitive is invoked.  The
elapsed time after the clock advanced by `d` is `d` (modulo 2^32), and
`RoboEyes_setFramerate fps` makes `frameInterval = 1000 / fps` for `fps` in
1..255. -/
theorem C6_governor_rule (s : Engine) (h : Host) (t d : Nat) (fps : Fin 255) :
    (if toU32 s.frameInterval ≤ elapsed (millis s h).1 s.fpsTimer then
      RoboEyes_update s h =
        ({ (drawEyes s (millis s h).2).1 with
            fpsTimer :=
              (millis (drawEyes s (millis s h).2).1 (drawEyes s (millis s h).2).2).1 },
          (millis (drawEyes s (millis s h).2).1 (drawEyes s (millis s h).2).2).2)
     else
      (RoboEyes_update s h).1 = s ∧ (RoboEyes_update s h).2.trace = h.trace) ∧
    elapsed ((t % 4294967296 + d) % 4294967296) (t % 4294967296) = d % 4294967296 ∧
    (RoboEyes_setFramerate (fps.val + 1) s).frameInterval
      = ((1000 / (fps.val + 1) : Nat) : Int) ∧
    toU32 (RoboEyes_setFramerate (fps.val + 1) s).frameInterval = 1000 / (fps.val + 1) := by
  have hf : (fps.val + 1) % 256 = fps.val + 1 := Nat.mod_eq_of_lt (by omega)
  have hq : (RoboEyes_setFramerate (fps.val + 1) s).frameInterval
      = ((1000 / (fps.val + 1) : Nat) : Int) := by
    unfold RoboEyes_setFramerate
    simp only [hf]
    rw [Int.tdiv_eq_ediv (by decide) (Int.ofNat_nonneg _)]
    norm_cast
  refine ⟨?_, elapsed_advance t d, hq, ?_⟩
  · split_ifs with hg
    · exact RoboEyes_update_render s h (by unfold rendersFrame; exact decide_eq_true hg)
    · rw [RoboEyes_update_skip s h (by unfold rendersFrame; exact decide_eq_false hg)]
      exact ⟨rfl, millis_trace s h⟩
  · rw [hq]
    unfold toU32
    have : (1000 / (fps.val + 1) : Nat) < 4294967296 :=
      lt_of_le_of_lt (Nat.div_le_self _ _) (by decide)
    generalize 1000 / (fps.val + 1) = q at this ⊢
    omega


/-! ## Closing and reopening: the frame seen through `reopenStep` -/

theorem autoblinkDue_of_off (s : Engine) (h : Host) (hab : s.autoblinker = false) :
    autoblinkDue s h = false := by
  unfold autoblinkDue
  rw [hab]
  rfl

theorem drawEyes_autoblink_of_not_due (s : Engine) (h : Host)
    (hnd : autoblinkDue s h = false) : (drawEyes_autoblink s h).1 = s := by
  unfold autoblinkDue at hnd
  unfold drawEyes_autoblink
  simp only []
  split_ifs with h1 h2
  · rw [h1, Bool.true_and] at hnd
    exact absurd h2 (of_decide_eq_false hnd)
  · rfl
  · rfl

theorem drawEyes_pre_lids (s : Engine) (hcu : s.curious = false) :
    (drawEyes_pre s).lids =
      { eyeL_open := s.eyeL_open, eyeR_open := s.eyeR_open,
        eyeLheightCurrent :=
          (reopenStep s.eyeLheightDefault s.eyeL_open (s.eyeLheightCurrent, s.eyeLheightNext)).1,
        eyeLheightNext :=
          (reopenStep s.eyeLheightDefault s.eyeL_open (s.eyeLheightCurrent, s.eyeLheightNext)).2,
        eyeRheightCurrent :=
          (reopenStep s.eyeRheightDefault s.eyeR_open (s.eyeRheightCurrent, s.eyeRheightNext)).1,
        eyeRheightNext :=
          (reopenStep s.eyeRheightDefault s.eyeR_open (s.eyeRheightCurrent, s.eyeRheightNext)).2,
        blinktimer := s.blinktimer } := by
  unfold drawEyes_pre
  rw [drawEyes_tween_lids]
  unfold drawEyes_curious
  rw [hcu]
  unfold drawEyes_reopen drawEyes_height reopenStep Engine.lids
  simp only [Bool.false_eq_true, if_false, add_zero]
  split_ifs <;> simp_all

theorem drawEyes_anim_lids (s : Engine) (h : Host) :
    (drawEyes_anim s h).1.lids = (drawEyes_autoblink (drawEyes_pre s) h).1.lids := by
  unfold drawEyes_anim
  simp only []
  rw [drawEyes_vFlicker_lids, drawEyes_hFlicker_lids, drawEyes_idle_lids,
    drawEyes_confused_lids, drawEyes_laugh_lids]

theorem drawEyes_lids_of_autoblink (s : Engine) (h : Host) (hcy : s.cyclops = false) :
    (drawEyes s h).1.lids = (drawEyes_autoblink (drawEyes_pre s) h).1.lids := by
  have hc : (drawEyes_anim s h).1.cyclops = false :=
    (congrArg Settings.cyclops (drawEyes_anim_settings s h)).trans hcy
  unfold drawEyes
  simp only []
  rw [drawEyes_render_lids]
  unfold drawEyes_cyclops
  rw [hc]
  exact drawEyes_anim_lids s h

theorem drawEyes_lids (s : Engine) (h : Host) (hcy : s.cyclops = false)
    (hnd : autoblinkDue (drawEyes_pre s) h = false) :
    (drawEyes s h).1.lids = (drawEyes_pre s).lids := by
  rw [drawEyes_lids_of_autoblink s h hcy, drawEyes_autoblink_of_not_due _ _ hnd]

/-- With curiosity, autoblink and cyclops off, `n` frames act on each eye's
`(current, next)` height pair as `n` steps of `reopenStep`, and leave the
three flags, the open flags and the default heights as they are. -/
theorem frames_lids (n : Nat) : ∀ (s : Engine) (h : Host), s.curious = false →
    s.autoblinker = false → s.cyclops = false →
    ((frames n s h).1.eyeLheightCurrent, (frames n s h).1.eyeLheightNext)
      = reopenIter s.eyeLheightDefault s.eyeL_open n (s.eyeLheightCurrent, s.eyeLheightNext) ∧
    ((frames n s h).1.eyeRheightCurrent, (frames n s h).1.eyeRheightNext)
      = reopenIter s.eyeRheightDefault s.eyeR_open n (s.eyeRheightCurrent, s.eyeRheightNext) := by
  induction n with
  | zero => intro s h _ _ _; exact ⟨rfl, rfl⟩
  | succ n ih =>
    intro s h hcu hab hcy
    have hset := drawEyes_settings s h
    have hpre := drawEyes_pre_settings s
    have hnd : autoblinkDue (drawEyes_pre s) h = false :=
      autoblinkDue_of_off _ _ ((congrArg Settings.autoblinker hpre).trans hab)
    have hl := (drawEyes_lids s h hcy hnd).trans (drawEyes_pre_lids s hcu)
    have h1 := ih (drawEyes s h).1 (drawEyes s h).2
      ((congrArg Settings.curious hset).trans hcu)
      ((congrArg Settings.autoblinker hset).trans hab)
      ((congrArg Settings.cyclops hset).trans hcy)
    have e1 : (drawEyes s h).1.eyeLheightDefault = s.eyeLheightDefault :=
      congrArg Settings.eyeLheightDefault hset
    have e2 : (drawEyes s h).1.eyeRheightDefault = s.eyeRheightDefault :=
      congrArg Settings.eyeRheightDefault hset
    have e3 : (drawEyes s h).1.eyeL_open = s.eyeL_open := congrArg Lids.eyeL_open hl
    have e4 : (drawEyes s h).1.eyeR_open = s.eyeR_open := congrArg Lids.eyeR_open hl
    have e5 : (drawEyes s h).1.eyeLheightCurrent = _ := congrArg Lids.eyeLheightCurrent hl
    have e6 : (drawEyes s h).1.eyeLheightNext = _ := congrArg Lids.eyeLheightNext hl
    have e7 : (drawEyes s h).1.eyeRheightCurrent = _ := congrArg Lids.eyeRheightCurrent hl
    have e8 : (drawEyes s h).1.eyeRheightNext = _ := congrArg Lids.eyeRheightNext hl
    rw [e1, e2, e3, e4, e5, e6, e7, e8] at h1
    exact h1

/-! ## Arithmetic of closing and reopening -/

theorem reopenIter_fixed (d : Int) (p : Int × Int) (hp : reopenStep d true p = p) (n : Nat) :
    reopenIter d true n p = p := by
  induction n with
  | zero => rfl
  | succ n ih => simp only [reopenIter]; rw [hp]; exact ih

theorem reopenStep_top (d : Int) (hd : 1 ≤ d) : reopenStep d true (d - 1, d) = (d - 1, d) := by
  unfold reopenStep
  simp only []
  rcases tdiv_two_cases (d - 1 + d) with ⟨h, e⟩ | ⟨h, e⟩
  · have e1 : Int.tdiv (d - 1 + d) 2 = d - 1 := by rw [e]; omega
    rw [e1]
    simp
  · omega

/-- Rising phase: with the target at the default `d`, a height below `d`
climbs to `d - 1` and stays there. -/
theorem reopenIter_rise (d : Int) (hd : 1 ≤ d) (k : Nat) : ∀ (c : Int), c ≤ d - 1 →
    d - 1 - c ≤ k → ∀ n : Nat, k ≤ n → reopenIter d true n (c, d) = (d - 1, d) := by
  induction k with
  | zero =>
    intro c h1 h2 n _
    have : c = d - 1 := by omega
    rw [this]
    exact reopenIter_fixed d _ (reopenStep_top d hd) n
  | succ k ih =>
    intro c h1 h2 n hn
    obtain ⟨m, rfl⟩ : ∃ m, n = m + 1 := ⟨n - 1, by omega⟩
    simp only [reopenIter]
    have hs : reopenStep d true (c, d) = (Int.tdiv (c + d) 2, d) := by
      unfold reopenStep
      simp
    rw [hs]
    rcases eq_or_lt_of_le h1 with h3 | h3
    · have e1 : Int.tdiv (c + d) 2 = d - 1 := by
        rcases tdiv_two_cases (c + d) with ⟨h, e⟩ | ⟨h, e⟩ <;> rw [e] <;> omega
      rw [e1]
      exact reopenIter_fixed d _ (reopenStep_top d hd) m
    · apply ih
      · rcases tdiv_two_cases (c + d) with ⟨h, e⟩ | ⟨h, e⟩ <;> rw [e] <;> omega
      · rcases tdiv_two_cases (c + d) with ⟨h, e⟩ | ⟨h, e⟩ <;> rw [e] <;> omega
      · omega

/-- Closing then rising: from target 1 and any height `c`, an open eye with
default `d ≥ 2` ends at height `d - 1` with target `d`. -/
theorem reopenIter_close_open (d : Int) (hd : 2 ≤ d) (k : Nat) : ∀ (c : Int), c ≤ k →
    ∀ n : Nat, |c| + d ≤ n → reopenIter d true n (c, 1) = (d - 1, d) := by
  induction k with
  | zero =>
    intro c hc n hn
    obtain ⟨m, rfl⟩ : ∃ m, n = m + 1 := ⟨n - 1, by have := abs_nonneg c; omega⟩
    simp only [reopenIter]
    have hle : Int.tdiv (c + 1) 2 ≤ 1 := by
      rcases tdiv_two_cases (c + 1) with ⟨h, e⟩ | ⟨h, e⟩ <;> rw [e] <;> omega
    have hs : reopenStep d true (c, 1) = (Int.tdiv (c + 1) 2, d) := by
      unfold reopenStep
      simp [hle]
    rw [hs]
    apply reopenIter_rise d (by omega) m (Int.tdiv (c + 1) 2) (by omega) _ m (le_refl m)
    rcases abs_cases c with ⟨h1, h2⟩ | ⟨h1, h2⟩ <;>
      rcases tdiv_two_cases (c + 1) with ⟨h, e⟩ | ⟨h, e⟩ <;> rw [e] <;> push_cast at hn hc ⊢ <;>
      omega
  | succ k ih =>
    intro c hc n hn
    obtain ⟨m, rfl⟩ : ∃ m, n = m + 1 := ⟨n - 1, by have := abs_nonneg c; omega⟩
    simp only [reopenIter]
    rcases le_or_lt c 2 with h2 | h2
    · have hle : Int.tdiv (c + 1) 2 ≤ 1 := by
        rcases tdiv_two_cases (c + 1) with ⟨h, e⟩ | ⟨h, e⟩ <;> rw [e] <;> omega
      have hs : reopenStep d true (c, 1) = (Int.tdiv (c + 1) 2, d) := by
        unfold reopenStep
        simp [hle]
      rw [hs]
      apply reopenIter_rise d (by omega) m (Int.tdiv (c + 1) 2) (by omega) _ m (le_refl m)
      rcases abs_cases c with ⟨h1, h2⟩ | ⟨h1, h2⟩ <;>
        rcases tdiv_two_cases (c + 1) with ⟨h, e⟩ | ⟨h, e⟩ <;> rw [e] <;>
        push_cast at hn hc ⊢ <;> omega
    · have hgt : ¬ Int.tdiv (c + 1) 2 ≤ 1 := by
        rcases tdiv_two_cases (c + 1) with ⟨h, e⟩ | ⟨h, e⟩ <;> rw [e] <;> omega
      have hs : reopenStep d true (c, 1) = (Int.tdiv (c + 1) 2, 1) := by
        unfold reopenStep
        simp [hgt]
      rw [hs]
      apply ih
      · rcases tdiv_two_cases (c + 1) with ⟨h, e⟩ | ⟨h, e⟩ <;> rw [e] <;> push_cast at hc ⊢ <;>
          omega
      · rcases abs_cases c with ⟨h1, h3⟩ | ⟨h1, h3⟩ <;>
          rcases tdiv_two_cases (c + 1) with ⟨h, e⟩ | ⟨h, e⟩ <;> rw [e] <;>
          rcases abs_cases ((c + 1) / 2) with ⟨h4, h5⟩ | ⟨h4, h5⟩ <;>
          push_cast at hn hc ⊢ <;> omega

/-- With default height 1 an open eye of height `c ≥ 1` closes to 1 and
stays there. -/
theorem reopenIter_close_one (k : Nat) : ∀ (c : Int), 1 ≤ c → c ≤ k + 1 →
    ∀ n : Nat, k ≤ n → reopenIter 1 true n (c, 1) = (1, 1) := by
  induction k with
  | zero =>
    intro c h1 h2 n _
    have : c = 1 := by omega
    rw [this]
    exact reopenIter_fixed 1 _ (by decide) n
  | succ k ih =>
    intro c h1 h2 n hn
    obtain ⟨m, rfl⟩ : ∃ m, n = m + 1 := ⟨n - 1, by omega⟩
    simp only [reopenIter]
    have hs : reopenStep 1 true (c, 1) = (Int.tdiv (c + 1) 2, 1) := by
      unfold reopenStep
      simp
    rw [hs]
    apply ih
    · rcases tdiv_two_cases (c + 1) with ⟨h, e⟩ | ⟨h, e⟩ <;> rw [e] <;> omega
    · rcases tdiv_two_cases (c + 1) with ⟨h, e⟩ | ⟨h, e⟩ <;> rw [e] <;> push_cast at h2 ⊢ <;>
        omega
    · omega

/-- A height below a positive default never reaches it: the tween rounds
toward the lower value. -/
theorem reopenIter_below (d : Int) (hd : 1 ≤ d) (b : Bool) (n : Nat) :
    ∀ (p : Int × Int), p.1 < d →
    p.2 ≤ d → (reopenIter d b n p).1 < d := by
  induction n with
  | zero => intro p h1 _; exact h1
  | succ n ih =>
    intro p h1 h2
    simp only [reopenIter]
    apply ih
    · unfold reopenStep
      simp only []
      rcases tdiv_two_cases (p.1 + p.2) with ⟨h, e⟩ | ⟨h, e⟩ <;> rw [e] <;> omega
    · unfold reopenStep
      simp only []
      split_ifs <;> omega


/-! ## C7: the governor scenario -/

/-- C7, as stated, fails: on the freshly initialised engine (`frameInterval =
20`, `fpsTimer = 0`) the poll with the clock at 0 does not render: the guard
`0 - 0 >= 20` is false, the engine height is still 1 and the host has received
no drawing call beyond those of `RoboEyes_begin`. -/
theorem C7_tick_at_zero_does_not_render :
    governorScenario.1.frameInterval = 20 ∧ governorScenario.1.fpsTimer = 0 ∧
    (millis governorScenario.1 governorScenario.2).1 = 0 ∧
    rendersFrame governorScenario.1 governorScenario.2 = false ∧
    (RoboEyes_update governorScenario.1 governorScenario.2).1.eyeLheightCurrent = 1 ∧
    (RoboEyes_update governorScenario.1 governorScenario.2).2.trace
      = [DrawCall.clearDisplay, DrawCall.updateDisplay] ∧
    governorScenario.2.trace = [DrawCall.clearDisplay, DrawCall.updateDisplay] := by
  refine ⟨by decide, by decide, by decide, by decide, by decide, by decide, by decide⟩

/-- C7, amended. On the freshly initialised engine (`frameInterval = 20`,
`fpsTimer = 0`) the poll at t = 0 is a no-op, the following poll at t = 15 is
a no-op, and the following poll at t = 21 renders a frame (the ten drawing
calls of a frame reach the host) and leaves `fpsTimer = 21`. -/
theorem C7_governor_scenario :
    rendersFrame governorScenario.1 governorScenario.2 = false ∧
    (polls 1 governorScenario.1 governorScenario.2).1 = governorScenario.1 ∧
    (polls 1 governorScenario.1 governorScenario.2).2.trace = governorScenario.2.trace ∧
    (millis (polls 1 governorScenario.1 governorScenario.2).1
      (polls 1 governorScenario.1 governorScenario.2).2).1 = 15 ∧
    rendersFrame (polls 1 governorScenario.1 governorScenario.2).1
      (polls 1 governorScenario.1 governorScenario.2).2 = false ∧
    (polls 2 governorScenario.1 governorScenario.2).1 = governorScenario.1 ∧
    (polls 2 governorScenario.1 governorScenario.2).2.trace = governorScenario.2.trace ∧
    (millis (polls 2 governorScenario.1 governorScenario.2).1
      (polls 2 governorScenario.1 governorScenario.2).2).1 = 21 ∧
    rendersFrame (polls 2 governorScenario.1 governorScenario.2).1
      (polls 2 governorScenario.1 governorScenario.2).2 = true ∧
    (polls 3 governorScenario.1 governorScenario.2).1.fpsTimer = 21 ∧
    (polls 3 governorScenario.1 governorScenario.2).1.eyeLheightCurrent = 18 ∧
    (polls 3 governorScenario.1 governorScenario.2).2.trace =
      [DrawCall.clearDisplay, DrawCall.updateDisplay,
       DrawCall.clearDisplay,
       DrawCall.drawRoundedRectangle 79 53 36 18 8 1,
       DrawCall.drawRoundedRectangle 125 53 36 18 8 1,
       DrawCall.drawTriangle 79 52 115 52 79 52 0,
       DrawCall.drawTriangle 125 52 161 52 161 52 0,
       DrawCall.drawTriangle 79 52 115 52 115 52 0,
       DrawCall.drawTriangle 125 52 161 52 125 52 0,
       DrawCall.drawRoundedRectangle 78 72 38 36 8 0,
       DrawCall.drawRoundedRectangle 124 72 38 36 8 0,
       DrawCall.updateDisplay] := by
  refine ⟨by decide, rfl, by decide, by decide, by decide, rfl, by decide, by decide,
    by decide, by decide, by decide, by decide⟩

/-! ## C8, C9: closing and reopening -/

/-- C8, as stated, fails: on the resting engine (default height 36, current
height 1, curiosity, autoblink and cyclops off) the left eye, after
`RoboEyes_close` and `RoboEyes_open`, never has current height 36, however
many frames are rendered. -/
theorem C8_default_height_never_reached :
    restingEngine.1.eyeLheightDefault = 36 ∧ restingEngine.1.eyeLheightCurrent = 1 ∧
    restingEngine.1.curious = false ∧ restingEngine.1.autoblinker = false ∧
    restingEngine.1.cyclops = false ∧
    ¬ ∃ N : Nat, (frames N (RoboEyes_open (RoboEyes_close restingEngine.1))
      restingEngine.2).1.eyeLheightCurrent = 36 := by
  refine ⟨by decide, by decide, by decide, by decide, by decide, ?_⟩
  rintro ⟨N, hN⟩
  have h1 := (frames_lids N (RoboEyes_open (RoboEyes_close restingEngine.1)) restingEngine.2
    (by decide) (by decide) (by decide)).1
  have h2 := congrArg Prod.fst h1
  have h3 := reopenIter_below 36 (by decide) true N (1, 1) (by decide) (by decide)
  have h4 : (frames N (RoboEyes_open (RoboEyes_close restingEngine.1))
      restingEngine.2).1.eyeLheightCurrent = (reopenIter 36 true N (1, 1)).1 := h2
  omega

/-- C8, amended. With curiosity, autoblink and cyclops off, for an eye of
current height `h ≥ 1` and default height `d ≥ 1`: after `RoboEyes_close`,
`RoboEyes_open` and any number `n ≥ h + d` of rendered frames, the eye's
current height is `d - 1` when `d ≥ 2` and `d` when `d = 1`, that is
`max 1 (d - 1)`: it comes back to within 1 of the default and stays there. -/
theorem C8_reopen_reaches_default_minus_one (s : Engine) (h : Host) (n : Nat)
    (hcu : s.curious = false) (hab : s.autoblinker = false) (hcy : s.cyclops = false) :
    (1 ≤ s.eyeLheightCurrent → 1 ≤ s.eyeLheightDefault →
      s.eyeLheightCurrent + s.eyeLheightDefault ≤ n →
      (frames n (RoboEyes_open (RoboEyes_close s)) h).1.eyeLheightCurrent
        = max 1 (s.eyeLheightDefault - 1)) ∧
    (1 ≤ s.eyeRheightCurrent → 1 ≤ s.eyeRheightDefault →
      s.eyeRheightCurrent + s.eyeRheightDefault ≤ n →
      (frames n (RoboEyes_open (RoboEyes_close s)) h).1.eyeRheightCurrent
        = max 1 (s.eyeRheightDefault - 1)) := by
  have hf := frames_lids n (RoboEyes_open (RoboEyes_close s)) h hcu hab hcy
  have key : ∀ c d : Int, 1 ≤ c → 1 ≤ d → c + d ≤ n →
      (reopenIter d true n (c, 1)).1 = max 1 (d - 1) := by
    intro c d hc hd hn
    rcases eq_or_lt_of_le hd with h1 | h1
    · subst h1
      rw [reopenIter_close_one c.toNat c hc (by omega) n (by omega)]
      decide
    · rw [reopenIter_close_open d (by omega) c.toNat c (by omega) n (by rw [abs_of_pos]
        <;> omega)]
      rw [max_eq_right (by omega)]
  constructor
  · intro hc hd hn
    exact (congrArg Prod.fst hf.1).trans (key _ _ hc hd hn)
  · intro hc hd hn
    exact (congrArg Prod.fst hf.2).trans (key _ _ hc hd hn)

/-- Witness for C8: the resting engine (heights 1, defaults 36), 37 frames. -/
theorem C8_reopen_reaches_default_minus_one_witness :
    (frames 37 (RoboEyes_open (RoboEyes_close restingEngine.1))
      restingEngine.2).1.eyeLheightCurrent = 35 ∧
    (frames 37 (RoboEyes_open (RoboEyes_close restingEngine.1))
      restingEngine.2).1.eyeRheightCurrent = 35 :=
  ⟨(C8_reopen_reaches_default_minus_one restingEngine.1 restingEngine.2 37
      (by decide) (by decide) (by decide)).1 (by decide) (by decide) (by decide),
   (C8_reopen_reaches_default_minus_one restingEngine.1 restingEngine.2 37
      (by decide) (by decide) (by decide)).2 (by decide) (by decide) (by decide)⟩

/-- C9, as stated, fails for default height 2: on the engine with
`RoboEyes_setHeight(2, 2)` the left eye, after `RoboEyes_close` and
`RoboEyes_open`, never rises above height 1. -/
theorem C9_default_two_stays_closed :
    lowEngine.1.eyeLheightDefault = 2 ∧ lowEngine.1.curious = false ∧
    lowEngine.1.autoblinker = false ∧ lowEngine.1.cyclops = false ∧
    ¬ ∃ N : Nat, ∀ n : Nat, N ≤ n →
      1 < (frames n (RoboEyes_open (RoboEyes_close lowEngine.1)) lowEngine.2).1.eyeLheightCurrent := by
  refine ⟨by decide, by decide, by decide, by decide, ?_⟩
  rintro ⟨N, hN⟩
  have h0 := hN N (le_refl N)
  have h1 := (frames_lids N (RoboEyes_open (RoboEyes_close lowEngine.1)) lowEngine.2
    (by decide) (by decide) (by decide)).1
  have h2 : (frames N (RoboEyes_open (RoboEyes_close lowEngine.1))
      lowEngine.2).1.eyeLheightCurrent = (reopenIter 2 true N (1, 1)).1 := congrArg Prod.fst h1
  have h3 := reopenIter_below 2 (by decide) true N (1, 1) (by decide) (by decide)
  omega

/-- C9, amended. With curiosity, autoblink and cyclops off, for every default
height `d ≥ 3` (and any current height): after `RoboEyes_close`,
`RoboEyes_open` and repeated rendered frames there is a frame count after
which the eye's current height is greater than 1 on every later frame. -/
theorem C9_reopen_leaves_floor (s : Engine) (h : Host)
    (hcu : s.curious = false) (hab : s.autoblinker = false) (hcy : s.cyclops = false) :
    (3 ≤ s.eyeLheightDefault → ∃ N : Nat, ∀ n : Nat, N ≤ n →
      1 < (frames n (RoboEyes_open (RoboEyes_close s)) h).1.eyeLheightCurrent) ∧
    (3 ≤ s.eyeRheightDefault → ∃ N : Nat, ∀ n : Nat, N ≤ n →
      1 < (frames n (RoboEyes_open (RoboEyes_close s)) h).1.eyeRheightCurrent) := by
  have key : ∀ c d : Int, 3 ≤ d → ∀ n : Nat, (|c| + d).toNat ≤ n →
      1 < (reopenIter d true n (c, 1)).1 := by
    intro c d hd n hn
    have hc := abs_nonneg c
    rw [reopenIter_close_open d (by omega) c.toNat c (by omega) n (by omega)]
    simp only []
    omega
  constructor
  · intro hd
    refine ⟨(|s.eyeLheightCurrent| + s.eyeLheightDefault).toNat, fun n hn => ?_⟩
    have hf := (frames_lids n (RoboEyes_open (RoboEyes_close s)) h hcu hab hcy).1
    exact lt_of_lt_of_eq (key s.eyeLheightCurrent s.eyeLheightDefault hd n hn)
      (congrArg Prod.fst hf).symm
  · intro hd
    refine ⟨(|s.eyeRheightCurrent| + s.eyeRheightDefault).toNat, fun n hn => ?_⟩
    have hf := (frames_lids n (RoboEyes_open (RoboEyes_close s)) h hcu hab hcy).2
    exact lt_of_lt_of_eq (key s.eyeRheightCurrent s.eyeRheightDefault hd n hn)
      (congrArg Prod.fst hf).symm


/-- Witness for C9: the resting engine (default heights 36). -/
theorem C9_reopen_leaves_floor_witness :
    (∃ N : Nat, ∀ n : Nat, N ≤ n → 1 < (frames n (RoboEyes_open (RoboEyes_close
      restingEngine.1)) restingEngine.2).1.eyeLheightCurrent) ∧
    (∃ N : Nat, ∀ n : Nat, N ≤ n → 1 < (frames n (RoboEyes_open (RoboEyes_close
      restingEngine.1)) restingEngine.2).1.eyeRheightCurrent) :=
  ⟨(C9_reopen_leaves_floor restingEngine.1 restingEngine.2
      (by decide) (by decide) (by decide)).1 (by decide),
   (C9_reopen_leaves_floor restingEngine.1 restingEngine.2
      (by decide) (by decide) (by decide)).2 (by decide)⟩

/-! ## C10: the autoblink scenario -/

theorem blinksDuring_add (m n : Nat) : ∀ (s : Engine) (h : Host),
    blinksDuring (m + n) s h
      = blinksDuring m s h + blinksDuring n (polls m s h).1 (polls m s h).2 := by
  induction m with
  | zero => intro s h; simp [blinksDuring, polls]
  | succ m ih =>
    intro s h
    rw [Nat.succ_add]
    simp only [blinksDuring, polls]
    rw [ih]
    omega

theorem millis_lt (s : Engine) (h : Host) (f : MillisFunc) (b : Nat)
    (hp : s.millisPtr = some f) (hf : ∀ k, f k < b) : (millis s h).1 < b := by
  unfold millis
  rw [hp]
  exact lt_of_le_of_lt (Nat.mod_le _ _) (hf _)

/-- While the next blink is due at a time the clock never reaches, a poll
triggers no blink and leaves the autoblink state as it is. -/
theorem no_blink_before_due (f : MillisFunc) (b : Nat) (hf : ∀ k, f k < b)
    (s : Engine) (h : Host) (hp : s.millisPtr = some f) (hb : s.blinktimer = b)
    (hcu : s.curious = false) (hcy : s.cyclops = false) :
    blinkFires s h = false ∧ (RoboEyes_update s h).1.millisPtr = some f ∧
    (RoboEyes_update s h).1.blinktimer = b ∧ (RoboEyes_update s h).1.curious = false ∧
    (RoboEyes_update s h).1.cyclops = false := by
  have hpre := drawEyes_pre_settings s
  have hlp := drawEyes_pre_lids s hcu
  have hnd : ∀ h1 : Host, autoblinkDue (drawEyes_pre s) h1 = false := by
    intro h1
    unfold autoblinkDue
    have h2 := millis_lt (drawEyes_pre s) h1 f b
      ((congrArg Settings.millisPtr hpre).trans hp) hf
    have h3 : (drawEyes_pre s).blinktimer = b := (congrArg Lids.blinktimer hlp).trans hb
    rw [h3, decide_eq_false (by omega), Bool.and_false]
  refine ⟨?_, ?_⟩
  · unfold blinkFires
    rw [hnd, Bool.and_false]
  · cases hr : rendersFrame s h
    · rw [RoboEyes_update_skip s h hr]
      exact ⟨hp, hb, hcu, hcy⟩
    · rw [RoboEyes_update_render s h hr]
      have hset := drawEyes_settings s (millis s h).2
      have hl := (drawEyes_lids s (millis s h).2 hcy (hnd _)).trans hlp
      exact ⟨(congrArg Settings.millisPtr hset).trans hp,
        (congrArg Lids.blinktimer hl).trans hb,
        (congrArg Settings.curious hset).trans hcu,
        (congrArg Settings.cyclops hset).trans hcy⟩

theorem no_blinks_before_due (f : MillisFunc) (b : Nat) (hf : ∀ k, f k < b) (n : Nat) :
    ∀ (s : Engine) (h : Host), s.millisPtr = some f → s.blinktimer = b →
    s.curious = false → s.cyclops = false → blinksDuring n s h = 0 := by
  induction n with
  | zero => intro s h _ _ _ _; rfl
  | succ n ih =>
    intro s h hp hb hcu hcy
    obtain ⟨h1, h2, h3, h4, h5⟩ := no_blink_before_due f b hf s h hp hb hcu hcy
    simp only [blinksDuring]
    rw [h1, ih _ _ h2 h3 h4 h5]
    rfl


theorem polls_one (s : Engine) (h : Host) : polls 1 s h = RoboEyes_update s h := rfl

theorem polls_two (s : Engine) (h : Host) :
    polls 2 s h = RoboEyes_update (RoboEyes_update s h).1 (RoboEyes_update s h).2 := rfl

theorem millis_some (s : Engine) (h : Host) (f : MillisFunc) (hp : s.millisPtr = some f) :
    millis s h = (f h.millisCalls % 4294967296, { h with millisCalls := h.millisCalls + 1 }) := by
  unfold millis
  rw [hp]

theorem random_some (s : Engine) (limit : Nat) (h : Host) (f : RandomFunc)
    (hp : s.randomPtr = some f) :
    random s limit h
      = (f h.randomCalls limit % 4294967296, { h with randomCalls := h.randomCalls + 1 }) := by
  unfold random
  rw [hp]

/-- A due autoblink block calls `RoboEyes_blink` and sets the time of the next
blink from a fresh clock reading and a random draw. -/
theorem drawEyes_autoblink_of_due (s : Engine) (h : Host) (hd : autoblinkDue s h = true) :
    (drawEyes_autoblink s h).1 =
      { RoboEyes_blink s with
        blinktimer :=
          ((millis (RoboEyes_blink s) (millis s h).2).1
            + toU32 ((RoboEyes_blink s).blinkInterval * 1000)
            + (random (RoboEyes_blink s) (toU32 (RoboEyes_blink s).blinkIntervalVariation)
                (millis (RoboEyes_blink s) (millis s h).2).2).1 * 1000) % 4294967296 } := by
  unfold autoblinkDue at hd
  rw [Bool.and_eq_true] at hd
  unfold drawEyes_autoblink
  simp only []
  rw [if_pos hd.1, if_pos (of_decide_eq_true hd.2)]

/-- In the autoblink scenario the poll at t = 0 does not render, the poll at
t = 1000 renders and triggers a blink, and the next blink is due at 2000. -/
theorem autoblink_two_polls (g : MillisFunc) :
    blinkFires (autoblinkEngine (twoPollClock g)).1 (autoblinkEngine (twoPollClock g)).2 = false ∧
    blinkFires (polls 1 (autoblinkEngine (twoPollClock g)).1 (autoblinkEngine (twoPollClock g)).2).1
      (polls 1 (autoblinkEngine (twoPollClock g)).1 (autoblinkEngine (twoPollClock g)).2).2 = true ∧
    (polls 2 (autoblinkEngine (twoPollClock g)).1 (autoblinkEngine (twoPollClock g)).2).1.lids =
      { eyeL_open := true, eyeR_open := true, eyeLheightCurrent := 18, eyeLheightNext := 1,
        eyeRheightCurrent := 18, eyeRheightNext := 1, blinktimer := 2000 } ∧
    (polls 2 (autoblinkEngine (twoPollClock g)).1
      (autoblinkEngine (twoPollClock g)).2).1.blinktimer = 2000 ∧
    (polls 2 (autoblinkEngine (twoPollClock g)).1
      (autoblinkEngine (twoPollClock g)).2).1.millisPtr = some (twoPollClock g) ∧
    (polls 2 (autoblinkEngine (twoPollClock g)).1
      (autoblinkEngine (twoPollClock g)).2).1.curious = false ∧
    (polls 2 (autoblinkEngine (twoPollClock g)).1
      (autoblinkEngine (twoPollClock g)).2).1.cyclops = false := by
  generalize hs : (autoblinkEngine (twoPollClock g)).1 = s0
  generalize hh : (autoblinkEngine (twoPollClock g)).2 = h0
  have hp : s0.millisPtr = some (twoPollClock g) := by rw [← hs]; rfl
  have hq : s0.randomPtr = some (fun _ _ => 0) := by rw [← hs]; rfl
  have hc0 : h0.millisCalls = 0 := by rw [← hh]; rfl
  have hfi : s0.frameInterval = 20 := by rw [← hs]; rfl
  have hft : s0.fpsTimer = 0 := by rw [← hs]; rfl
  have hcy : s0.cyclops = false := by rw [← hs]; rfl
  have hcu : s0.curious = false := by rw [← hs]; rfl
  have hab : s0.autoblinker = true := by rw [← hs]; rfl
  have hbt : s0.blinktimer = 0 := by rw [← hs]; rfl
  have hbi : s0.blinkInterval = 1 := by rw [← hs]; rfl
  have hbv : s0.blinkIntervalVariation = 0 := by rw [← hs]; rfl
  have hlid : s0.lids = ⟨false, false, 1, 36, 1, 36, 0⟩ := by rw [← hs]; rfl
  have hLo : s0.eyeL_open = false := congrArg Lids.eyeL_open hlid
  have hRo : s0.eyeR_open = false := congrArg Lids.eyeR_open hlid
  have hLc : s0.eyeLheightCurrent = 1 := congrArg Lids.eyeLheightCurrent hlid
  have hLn : s0.eyeLheightNext = 36 := congrArg Lids.eyeLheightNext hlid
  have hRc : s0.eyeRheightCurrent = 1 := congrArg Lids.eyeRheightCurrent hlid
  have hRn : s0.eyeRheightNext = 36 := congrArg Lids.eyeRheightNext hlid
  have hld : s0.eyeLheightDefault = 36 := by rw [← hs]; rfl
  have hrd : s0.eyeRheightDefault = 36 := by rw [← hs]; rfl
  -- the poll at t = 0
  have hm0 : millis s0 h0 = (0, { h0 with millisCalls := 1 }) := by
    rw [millis_some s0 h0 _ hp, hc0]
    rfl
  have hr0 : rendersFrame s0 h0 = false := by
    unfold rendersFrame
    rw [hm0, hfi, hft]
    show decide (toU32 20 ≤ elapsed 0 0) = false
    decide
  have hu0 : RoboEyes_update s0 h0 = (s0, { h0 with millisCalls := 1 }) := by
    rw [RoboEyes_update_skip s0 h0 hr0, hm0]
  -- the poll at t = 1000
  generalize hh1 : ({ h0 with millisCalls := 1 } : Host) = h1 at hu0
  have hc1 : h1.millisCalls = 1 := by rw [← hh1]
  have hm1 : millis s0 h1 = (1000, { h1 with millisCalls := 2 }) := by
    rw [millis_some s0 h1 _ hp, hc1]
    rfl
  have hr1 : rendersFrame s0 h1 = true := by
    unfold rendersFrame
    rw [hm1, hfi, hft]
    show decide (toU32 20 ≤ elapsed 1000 0) = true
    decide
  generalize hh2 : ({ h1 with millisCalls := 2 } : Host) = h2 at hm1
  have hc2 : h2.millisCalls = 2 := by rw [← hh2]
  have hpre := drawEyes_pre_settings s0
  have hprel := drawEyes_pre_lids s0 hcu
  have hdue : autoblinkDue (drawEyes_pre s0) h2 = true := by
    have ha : (drawEyes_pre s0).autoblinker = true :=
      (congrArg Settings.autoblinker hpre).trans hab
    have hb : (drawEyes_pre s0).blinktimer = 0 := (congrArg Lids.blinktimer hprel).trans hbt
    unfold autoblinkDue
    rw [ha, hb]
    simp
  have hbf0 : blinkFires s0 h0 = false := by
    unfold blinkFires
    rw [hr0]
    rfl
  have hbf1 : blinkFires s0 h1 = true := by
    unfold blinkFires
    rw [hr1, hm1, hdue]
    rfl
  -- the state after the frame at t = 1000
  have hpp : (drawEyes_pre s0).millisPtr = some (twoPollClock g) :=
    (congrArg Settings.millisPtr hpre).trans hp
  have hpq : (drawEyes_pre s0).randomPtr = some (fun _ _ => 0) :=
    (congrArg Settings.randomPtr hpre).trans hq
  have hpbi : (drawEyes_pre s0).blinkInterval = 1 :=
    (congrArg Settings.blinkInterval hpre).trans hbi
  have hpbv : (drawEyes_pre s0).blinkIntervalVariation = 0 :=
    (congrArg Settings.blinkIntervalVariation hpre).trans hbv
  have hl2 : (drawEyes s0 h2).1.lids = ⟨true, true, 18, 1, 18, 1, 2000⟩ := by
    rw [drawEyes_lids_of_autoblink s0 h2 hcy, drawEyes_autoblink_of_due _ _ hdue]
    rw [millis_some (drawEyes_pre s0) h2 _ hpp]
    rw [millis_some (RoboEyes_blink (drawEyes_pre s0)) _ _ hpp]
    rw [random_some (RoboEyes_blink (drawEyes_pre s0)) _ _ _ hpq]
    simp only [Engine.lids, RoboEyes_blink, RoboEyes_open, RoboEyes_close, hc2, hpbi]
    have e1 : (drawEyes_pre s0).eyeLheightCurrent = (reopenStep s0.eyeLheightDefault
        s0.eyeL_open (s0.eyeLheightCurrent, s0.eyeLheightNext)).1 :=
      congrArg Lids.eyeLheightCurrent hprel
    rw [hld, hLo, hLc, hLn] at e1
    have e2 : (drawEyes_pre s0).eyeRheightCurrent = (reopenStep s0.eyeRheightDefault
        s0.eyeR_open (s0.eyeRheightCurrent, s0.eyeRheightNext)).1 :=
      congrArg Lids.eyeRheightCurrent hprel
    rw [hrd, hRo, hRc, hRn] at e2
    have e0 : (reopenStep 36 false (1, 36)).1 = 18 := by decide
    have e3 : twoPollClock g (2 + 1) = 1000 := rfl
    have e4 : (1000 % 4294967296 + toU32 (1 * 1000) + 0 % 4294967296 * 1000) % 4294967296
        = 2000 := by decide
    rw [e1, e2, e0, e3, e4]
  have hu1 : RoboEyes_update s0 h1 =
      ({ (drawEyes s0 h2).1 with
          fpsTimer := (millis (drawEyes s0 h2).1 (drawEyes s0 h2).2).1 },
        (millis (drawEyes s0 h2).1 (drawEyes s0 h2).2).2) := by
    rw [RoboEyes_update_render s0 h1 hr1, hm1]
  have hset := drawEyes_settings s0 h2
  refine ⟨hbf0, ?_, ?_, ?_, ?_, ?_, ?_⟩
  · rw [polls_one, hu0]
    exact hbf1
  · rw [polls_two, hu0]
    show (RoboEyes_update s0 h1).1.lids = _
    rw [hu1]
    exact hl2
  · rw [polls_two, hu0]
    show (RoboEyes_update s0 h1).1.blinktimer = _
    rw [hu1]
    exact congrArg Lids.blinktimer hl2
  · rw [polls_two, hu0]
    show (RoboEyes_update s0 h1).1.millisPtr = _
    rw [hu1]
    exact (congrArg Settings.millisPtr hset).trans hp
  · rw [polls_two, hu0]
    show (RoboEyes_update s0 h1).1.curious = _
    rw [hu1]
    exact (congrArg Settings.curious hset).trans hcu
  · rw [polls_two, hu0]
    show (RoboEyes_update s0 h1).1.cyclops = _
    rw [hu1]
    exact (congrArg Settings.cyclops hset).trans hcy


theorem twoPollClock_lt (g : MillisFunc) (hg : ∀ k, g k < 2000) : ∀ k, twoPollClock g k < 2000 := by
  intro k
  unfold twoPollClock
  split_ifs
  · decide
  · decide
  · exact hg k

/-- C10, as stated, fails when the engine is polled while the clock advances:
with polls at t = 0, 20, 1000 and 1020 the frame at t = 20 triggers a blink
(the first blink is due at time 0, so the first rendered frame blinks) and
makes the next one due at 1020; by t = 1000 exactly one blink has been
triggered, but the frame at t = 1020 triggers a second one, before t = 2000. -/
theorem C10_second_blink_before_2000 :
    blinksDuring 3 (autoblinkEngine (clockOf [0, 20, 20, 20, 20, 1000, 1000, 1000] 1020)).1
      (autoblinkEngine (clockOf [0, 20, 20, 20, 20, 1000, 1000, 1000] 1020)).2 = 1 ∧
    (polls 2 (autoblinkEngine (clockOf [0, 20, 20, 20, 20, 1000, 1000, 1000] 1020)).1
      (autoblinkEngine (clockOf [0, 20, 20, 20, 20, 1000, 1000, 1000] 1020)).2).1.blinktimer
      = 1020 ∧
    (millis (polls 3 (autoblinkEngine (clockOf [0, 20, 20, 20, 20, 1000, 1000, 1000] 1020)).1
      (autoblinkEngine (clockOf [0, 20, 20, 20, 20, 1000, 1000, 1000] 1020)).2).1
      (polls 3 (autoblinkEngine (clockOf [0, 20, 20, 20, 20, 1000, 1000, 1000] 1020)).1
      (autoblinkEngine (clockOf [0, 20, 20, 20, 20, 1000, 1000, 1000] 1020)).2).2).1 = 1020 ∧
    blinkFires (polls 3 (autoblinkEngine (clockOf [0, 20, 20, 20, 20, 1000, 1000, 1000] 1020)).1
      (autoblinkEngine (clockOf [0, 20, 20, 20, 20, 1000, 1000, 1000] 1020)).2).1
      (polls 3 (autoblinkEngine (clockOf [0, 20, 20, 20, 20, 1000, 1000, 1000] 1020)).1
      (autoblinkEngine (clockOf [0, 20, 20, 20, 20, 1000, 1000, 1000] 1020)).2).2 = true ∧
    blinksDuring 4 (autoblinkEngine (clockOf [0, 20, 20, 20, 20, 1000, 1000, 1000] 1020)).1
      (autoblinkEngine (clockOf [0, 20, 20, 20, 20, 1000, 1000, 1000] 1020)).2 = 2 := by
  refine ⟨by decide, by decide, by decide, by decide, by decide⟩

/-- C10, amended. On a freshly initialised engine with
`RoboEyes_setAutoblinker2(true, 1, 0)` and the random source yielding 0,
polled at t = 0 and next at t = 1000: the poll at t = 0 renders nothing, the
poll at t = 1000 triggers a blink (both eyes get target height 1 and are
flagged open, so that the frames reopen them) and makes the next blink due at
2000; that is exactly one blink by t = 1000, and however often the engine is
polled afterwards, no further blink is triggered while the clock reads less
than 2000. -/
theorem C10_autoblink_scenario (g : MillisFunc) (hg : ∀ k, g k < 2000) (n : Nat) :
    blinkFires (autoblinkEngine (twoPollClock g)).1 (autoblinkEngine (twoPollClock g)).2 = false ∧
    blinkFires (polls 1 (autoblinkEngine (twoPollClock g)).1 (autoblinkEngine (twoPollClock g)).2).1
      (polls 1 (autoblinkEngine (twoPollClock g)).1 (autoblinkEngine (twoPollClock g)).2).2 = true ∧
    (polls 2 (autoblinkEngine (twoPollClock g)).1 (autoblinkEngine (twoPollClock g)).2).1.lids =
      { eyeL_open := true, eyeR_open := true, eyeLheightCurrent := 18, eyeLheightNext := 1,
        eyeRheightCurrent := 18, eyeRheightNext := 1, blinktimer := 2000 } ∧
    blinksDuring 2 (autoblinkEngine (twoPollClock g)).1 (autoblinkEngine (twoPollClock g)).2 = 1 ∧
    blinksDuring (2 + n) (autoblinkEngine (twoPollClock g)).1
      (autoblinkEngine (twoPollClock g)).2 = 1 := by
  obtain ⟨h1, h2, h3, h4, h5, h6, h7⟩ := autoblink_two_polls g
  generalize autoblinkEngine (twoPollClock g) = e at h1 h2 h3 h4 h5 h6 h7 ⊢
  have hb2 : blinksDuring 2 e.1 e.2 = 1 := by
    rw [polls_one] at h2
    simp only [blinksDuring]
    rw [h1, h2]
    rfl
  refine ⟨h1, h2, h3, hb2, ?_⟩
  rw [blinksDuring_add, hb2]
  generalize polls 2 e.1 e.2 = p at h3 h4 h5 h6 h7 ⊢
  have h0 : blinksDuring n p.1 p.2 = 0 :=
    no_blinks_before_due (twoPollClock g) 2000 (twoPollClock_lt g hg) n p.1 p.2 h5 h4 h6 h7
  rw [h0]

/-- Witness for C10: later clock readings all 1999, five further polls. -/
theorem C10_autoblink_scenario_witness :
    blinksDuring 2 (autoblinkEngine (twoPollClock (fun _ => 1999))).1
      (autoblinkEngine (twoPollClock (fun _ => 1999))).2 = 1 ∧
    blinksDuring (2 + 5) (autoblinkEngine (twoPollClock (fun _ => 1999))).1
      (autoblinkEngine (twoPollClock (fun _ => 1999))).2 = 1 :=
  ⟨(C10_autoblink_scenario (fun _ => 1999) (fun _ => (by decide : 1999 < 2000)) 5).2.2.2.1,
   (C10_autoblink_scenario (fun _ => 1999) (fun _ => (by decide : 1999 < 2000)) 5).2.2.2.2⟩

/-! ## C18: fixed points of the tween step -/

theorem tween_lt_of_lt (c n : Int) (hn : 1 ≤ n) (hc : c < n) : tween c n < n := by
  unfold tween
  rcases tdiv_two_cases (c + n) with ⟨h, e⟩ | ⟨h, e⟩ <;> rw [e] <;> omega

theorem tweenIter_lt_of_lt (n : Int) (hn : 1 ≤ n) (k : Nat) :
    ∀ c : Int, c < n → tweenIter n k c < n := by
  induction k with
  | zero => intro c hc; exact hc
  | succ k ih => intro c hc; simp only [tweenIter]; exact ih _ (tween_lt_of_lt c n hn hc)

theorem tween_below_target (n : Int) (hn : 1 ≤ n) : tween (n - 1) n = n - 1 := by
  unfold tween
  rcases tdiv_two_cases (n - 1 + n) with ⟨h, e⟩ | ⟨h, e⟩ <;> rw [e] <;> omega

theorem tweenIter_stalled (n : Int) (hn : 1 ≤ n) (k : Nat) : tweenIter n k (n - 1) = n - 1 := by
  induction k with
  | zero => rfl
  | succ k ih => simp only [tweenIter]; rw [tween_below_target n hn]; exact ih

/-- A value below a positive target `n` climbs to `n - 1` within
`n - 1 - c` steps and stays there. -/
theorem tweenIter_rise (n : Int) (hn : 1 ≤ n) (j : Nat) : ∀ c : Int, c ≤ n - 1 →
    n - 1 - c ≤ j → ∀ k : Nat, j ≤ k → tweenIter n k c = n - 1 := by
  induction j with
  | zero =>
    intro c h1 h2 k _
    have : c = n - 1 := by omega
    rw [this]
    exact tweenIter_stalled n hn k
  | succ j ih =>
    intro c h1 h2 k hk
    obtain ⟨m, rfl⟩ : ∃ m, k = m + 1 := ⟨k - 1, by omega⟩
    simp only [tweenIter]
    rcases eq_or_lt_of_le h1 with h3 | h3
    · rw [h3, tween_below_target n hn]
      exact tweenIter_stalled n hn m
    · apply ih
      · unfold tween
        rcases tdiv_two_cases (c + n) with ⟨h, e⟩ | ⟨h, e⟩ <;> rw [e] <;> omega
      · unfold tween
        rcases tdiv_two_cases (c + n) with ⟨h, e⟩ | ⟨h, e⟩ <;> rw [e] <;> omega
      · omega

/-- C18. Tween stall characterisation: the fixed points of `c ↦ (c + n) / 2`
(truncating division) are exactly `c = n`, `c = n - 1` when `n ≥ 1`, and
`c = n + 1` when `n ≤ -1`.  In particular a value `m - j` below the positive
target `m + 1` never equals the target, reaches `m` (target minus one) after
`j` steps and stays there on every later step. -/
theorem C18_tween_fixed_points (c n : Int) (m j i k : Nat) :
    (tween c n = c ↔ c = n ∨ (c = n - 1 ∧ 1 ≤ n) ∨ (c = n + 1 ∧ n ≤ -1)) ∧
    tweenIter ((m : Int) + 1) k ((m : Int) - j) < (m : Int) + 1 ∧
    tweenIter ((m : Int) + 1) (j + i) ((m : Int) - j) = (m : Int) := by
  refine ⟨?_, ?_, ?_⟩
  · unfold tween
    rcases tdiv_two_cases (c + n) with ⟨h, e⟩ | ⟨h, e⟩ <;> rw [e] <;> constructor <;>
      intro h1 <;> omega
  · exact tweenIter_lt_of_lt _ (by omega) k _ (by omega)
  · have := tweenIter_rise ((m : Int) + 1) (by omega) j ((m : Int) - j) (by omega) (by omega)
      (j + i) (by omega)
    rw [this]
    omega

/-! ## C19: the reopen rule -/

theorem drawEyes_reopen_height (t : Engine) :
    (drawEyes_height t).eyeLheightCurrent
      = Int.tdiv (t.eyeLheightCurrent + t.eyeLheightNext + t.eyeLheightOffset) 2 ∧
    (drawEyes_reopen (drawEyes_height t)).eyeLheightNext
      = (if t.eyeL_open = true ∧
            Int.tdiv (t.eyeLheightCurrent + t.eyeLheightNext + t.eyeLheightOffset) 2
              ≤ 1 + t.eyeLheightOffset
         then t.eyeLheightDefault else t.eyeLheightNext) ∧
    (drawEyes_height t).eyeRheightCurrent
      = Int.tdiv (t.eyeRheightCurrent + t.eyeRheightNext + t.eyeRheightOffset) 2 ∧
    (drawEyes_reopen (drawEyes_height t)).eyeRheightNext
      = (if t.eyeR_open = true ∧
            Int.tdiv (t.eyeRheightCurrent + t.eyeRheightNext + t.eyeRheightOffset) 2
              ≤ 1 + t.eyeRheightOffset
         then t.eyeRheightDefault else t.eyeRheightNext) ∧
    (drawEyes_reopen (drawEyes_height t)).eyeLheightCurrent
      = (drawEyes_height t).eyeLheightCurrent ∧
    (drawEyes_reopen (drawEyes_height t)).eyeRheightCurrent
      = (drawEyes_height t).eyeRheightCurrent := by
  refine ⟨rfl, ?_, rfl, ?_, ?_, ?_⟩ <;>
  · unfold drawEyes_reopen drawEyes_height
    simp only []
    split_ifs <;> simp_all

theorem drawEyes_pre_heights (s : Engine) :
    (drawEyes_height (drawEyes_curious s)).eyeLheightCurrent
      = Int.tdiv (s.eyeLheightCurrent + s.eyeLheightNext
          + (drawEyes_curious s).eyeLheightOffset) 2 ∧
    (drawEyes_reopen (drawEyes_height (drawEyes_curious s))).eyeLheightNext
      = (if s.eyeL_open = true ∧
            Int.tdiv (s.eyeLheightCurrent + s.eyeLheightNext
              + (drawEyes_curious s).eyeLheightOffset) 2
              ≤ 1 + (drawEyes_curious s).eyeLheightOffset
         then s.eyeLheightDefault else s.eyeLheightNext) ∧
    (drawEyes_height (drawEyes_curious s)).eyeRheightCurrent
      = Int.tdiv (s.eyeRheightCurrent + s.eyeRheightNext
          + (drawEyes_curious s).eyeRheightOffset) 2 ∧
    (drawEyes_reopen (drawEyes_height (drawEyes_curious s))).eyeRheightNext
      = (if s.eyeR_open = true ∧
            Int.tdiv (s.eyeRheightCurrent + s.eyeRheightNext
              + (drawEyes_curious s).eyeRheightOffset) 2
              ≤ 1 + (drawEyes_curious s).eyeRheightOffset
         then s.eyeRheightDefault else s.eyeRheightNext) ∧
    (drawEyes_pre s).eyeLheightCurrent
      = (drawEyes_height (drawEyes_curious s)).eyeLheightCurrent ∧
    (drawEyes_pre s).eyeLheightNext
      = (drawEyes_reopen (drawEyes_height (drawEyes_curious s))).eyeLheightNext ∧
    (drawEyes_pre s).eyeRheightCurrent
      = (drawEyes_height (drawEyes_curious s)).eyeRheightCurrent ∧
    (drawEyes_pre s).eyeRheightNext
      = (drawEyes_reopen (drawEyes_height (drawEyes_curious s))).eyeRheightNext := by
  have hl := drawEyes_curious_lids s
  have hs := drawEyes_curious_settings s
  have e1 : (drawEyes_curious s).eyeLheightCurrent = s.eyeLheightCurrent :=
    congrArg Lids.eyeLheightCurrent hl
  have e2 : (drawEyes_curious s).eyeLheightNext = s.eyeLheightNext :=
    congrArg Lids.eyeLheightNext hl
  have e3 : (drawEyes_curious s).eyeRheightCurrent = s.eyeRheightCurrent :=
    congrArg Lids.eyeRheightCurrent hl
  have e4 : (drawEyes_curious s).eyeRheightNext = s.eyeRheightNext :=
    congrArg Lids.eyeRheightNext hl
  have e5 : (drawEyes_curious s).eyeL_open = s.eyeL_open := congrArg Lids.eyeL_open hl
  have e6 : (drawEyes_curious s).eyeR_open = s.eyeR_open := congrArg Lids.eyeR_open hl
  have e7 : (drawEyes_curious s).eyeLheightDefault = s.eyeLheightDefault :=
    congrArg Settings.eyeLheightDefault hs
  have e8 : (drawEyes_curious s).eyeRheightDefault = s.eyeRheightDefault :=
    congrArg Settings.eyeRheightDefault hs
  obtain ⟨h1, h2, h3, h4, h5, h6⟩ := drawEyes_reopen_height (drawEyes_curious s)
  rw [e1, e2] at h1
  rw [e1, e2, e5, e7] at h2
  rw [e3, e4] at h3
  rw [e3, e4, e6, e8] at h4
  have ht := drawEyes_tween_lids (drawEyes_reopen (drawEyes_height (drawEyes_curious s)))
  refine ⟨h1, h2, h3, h4, ?_, ?_, ?_, ?_⟩
  · exact (congrArg Lids.eyeLheightCurrent ht).trans h5
  · exact congrArg Lids.eyeLheightNext ht
  · exact (congrArg Lids.eyeRheightCurrent ht).trans h6
  · exact congrArg Lids.eyeRheightNext ht

/-- C19. Eye-reopen rule: with `h'` the height after the frame's tween,
`(heightCurrent + heightNext + heightOffset) / 2` (the offset being the one the
curious block of that frame computed), the reopen step sets `heightNext` to
the default height when the open flag is true and `h' ≤ 1 + heightOffset`, and
leaves it unchanged otherwise, for each eye; in particular it never changes
`heightNext` of an eye whose open flag is false. -/
theorem C19_reopen_rule (s : Engine) :
    (drawEyes_height (drawEyes_curious s)).eyeLheightCurrent
      = Int.tdiv (s.eyeLheightCurrent + s.eyeLheightNext
          + (drawEyes_curious s).eyeLheightOffset) 2 ∧
    (drawEyes_reopen (drawEyes_height (drawEyes_curious s))).eyeLheightNext
      = (if s.eyeL_open = true ∧
            Int.tdiv (s.eyeLheightCurrent + s.eyeLheightNext
              + (drawEyes_curious s).eyeLheightOffset) 2
              ≤ 1 + (drawEyes_curious s).eyeLheightOffset
         then s.eyeLheightDefault else s.eyeLheightNext) ∧
    (drawEyes_height (drawEyes_curious s)).eyeRheightCurrent
      = Int.tdiv (s.eyeRheightCurrent + s.eyeRheightNext
          + (drawEyes_curious s).eyeRheightOffset) 2 ∧
    (drawEyes_reopen (drawEyes_height (drawEyes_curious s))).eyeRheightNext
      = (if s.eyeR_open = true ∧
            Int.tdiv (s.eyeRheightCurrent + s.eyeRheightNext
              + (drawEyes_curious s).eyeRheightOffset) 2
              ≤ 1 + (drawEyes_curious s).eyeRheightOffset
         then s.eyeRheightDefault else s.eyeRheightNext) ∧
    (drawEyes_pre s).eyeLheightCurrent
      = (drawEyes_height (drawEyes_curious s)).eyeLheightCurrent ∧
    (drawEyes_pre s).eyeLheightNext
      = (drawEyes_reopen (drawEyes_height (drawEyes_curious s))).eyeLheightNext ∧
    (drawEyes_pre s).eyeRheightCurrent
      = (drawEyes_height (drawEyes_curious s)).eyeRheightCurrent ∧
    (drawEyes_pre s).eyeRheightNext
      = (drawEyes_reopen (drawEyes_height (drawEyes_curious s))).eyeRheightNext :=
  drawEyes_pre_heights s

/-! ## C20: the autoblink block -/

theorem millis_congr (s t : Engine) (h : Host) (hp : s.millisPtr = t.millisPtr) :
    millis s h = millis t h := by
  unfold millis
  rw [hp]

theorem random_congr (s t : Engine) (limit : Nat) (h : Host) (hp : s.randomPtr = t.randomPtr) :
    random s limit h = random t limit h := by
  unfold random
  rw [hp]

theorem drawEyes_pre_blink (s : Engine) :
    (drawEyes_pre s).blinktimer = s.blinktimer ∧ (drawEyes_pre s).eyeL_open = s.eyeL_open ∧
    (drawEyes_pre s).eyeR_open = s.eyeR_open := by
  unfold drawEyes_pre
  have h1 := drawEyes_tween_lids (drawEyes_reopen (drawEyes_height (drawEyes_curious s)))
  have h2 := drawEyes_curious_lids s
  generalize drawEyes_curious s = t at h1 h2 ⊢
  have h3 : (drawEyes_reopen (drawEyes_height t)).blinktimer = t.blinktimer ∧
      (drawEyes_reopen (drawEyes_height t)).eyeL_open = t.eyeL_open ∧
      (drawEyes_reopen (drawEyes_height t)).eyeR_open = t.eyeR_open := by
    unfold drawEyes_reopen drawEyes_height
    simp only []
    split_ifs <;> exact ⟨rfl, rfl, rfl⟩
  exact ⟨((congrArg Lids.blinktimer h1).trans h3.1).trans (congrArg Lids.blinktimer h2),
    ((congrArg Lids.eyeL_open h1).trans h3.2.1).trans (congrArg Lids.eyeL_open h2),
    ((congrArg Lids.eyeR_open h1).trans h3.2.2).trans (congrArg Lids.eyeR_open h2)⟩

theorem autoblinkDue_pre (s : Engine) (h : Host) :
    autoblinkDue (drawEyes_pre s) h = autoblinkDue s h := by
  have hs := drawEyes_pre_settings s
  have ha : (drawEyes_pre s).autoblinker = s.autoblinker := congrArg Settings.autoblinker hs
  unfold autoblinkDue
  rw [millis_congr (drawEyes_pre s) s h (congrArg Settings.millisPtr hs),
    (drawEyes_pre_blink s).1, ha]

theorem drawEyes_cyclops_lids (s : Engine) :
    (drawEyes_cyclops s).lids =
      { s.lids with eyeRheightCurrent := if s.cyclops = true then 0 else s.eyeRheightCurrent } := by
  unfold drawEyes_cyclops
  split_ifs <;> rfl

/-- After the autoblink block, the only change a frame makes to the lids is
the cyclops block zeroing the right eye's current height. -/
theorem drawEyes_lids_after_autoblink (s : Engine) (h : Host) :
    (drawEyes s h).1.lids =
      { (drawEyes_autoblink (drawEyes_pre s) h).1.lids with
        eyeRheightCurrent :=
          if s.cyclops = true then 0
          else (drawEyes_autoblink (drawEyes_pre s) h).1.eyeRheightCurrent } := by
  have hc : (drawEyes_anim s h).1.cyclops = s.cyclops :=
    congrArg Settings.cyclops (drawEyes_anim_settings s h)
  have ha := drawEyes_anim_lids s h
  unfold drawEyes
  simp only []
  rw [drawEyes_render_lids, drawEyes_cyclops_lids, hc, ha]
  have : (drawEyes_anim s h).1.eyeRheightCurrent
      = (drawEyes_autoblink (drawEyes_pre s) h).1.eyeRheightCurrent :=
    congrArg Lids.eyeRheightCurrent ha
  rw [this]

theorem toU32_sum (t r : Nat) (a : Int) :
    (t + toU32 a + r * 1000) % 4294967296 = toU32 ((t : Int) + a + (r : Int) * 1000) := by
  unfold toU32
  omega

/-- C20. Autoblink firing: in a frame with `autoblinker` on and the clock
reading `now ≥ blinktimer`, after the frame both next heights are 1, both open
flags are true and `blinktimer = now + blinkInterval * 1000 + r * 1000`
(in `unsigned long` arithmetic, `now` being the clock reading taken for the
assignment and `r` the value the random source returned for the limit
`blinkIntervalVariation`); in a frame with `autoblinker` off or
`now < blinktimer` the autoblink block leaves the engine as it is, and after
the frame `blinktimer` and the open flags are those of the frame's start and
the next heights are those the reopen step left. -/
theorem C20_autoblink_firing (s : Engine) (h : Host) :
    autoblinkDue s h = (s.autoblinker && decide (s.blinktimer ≤ (millis s h).1)) ∧
    (if autoblinkDue s h = true then
      (drawEyes s h).1.eyeLheightNext = 1 ∧ (drawEyes s h).1.eyeRheightNext = 1 ∧
      (drawEyes s h).1.eyeL_open = true ∧ (drawEyes s h).1.eyeR_open = true ∧
      (drawEyes s h).1.blinktimer =
        toU32 (((millis s (millis s h).2).1 : Int) + s.blinkInterval * 1000
          + ((random s (toU32 s.blinkIntervalVariation) (millis s (millis s h).2).2).1 : Int)
            * 1000)
     else
      (drawEyes_autoblink (drawEyes_pre s) h).1 = drawEyes_pre s ∧
      (drawEyes s h).1.blinktimer = s.blinktimer ∧
      (drawEyes s h).1.eyeL_open = s.eyeL_open ∧ (drawEyes s h).1.eyeR_open = s.eyeR_open ∧
      (drawEyes s h).1.eyeLheightNext = (drawEyes_pre s).eyeLheightNext ∧
      (drawEyes s h).1.eyeRheightNext = (drawEyes_pre s).eyeRheightNext) := by
  refine ⟨rfl, ?_⟩
  have hl := drawEyes_lids_after_autoblink s h
  have hs := drawEyes_pre_settings s
  have hm : ∀ x : Host, millis (RoboEyes_blink (drawEyes_pre s)) x = millis s x := fun x =>
    millis_congr _ _ x (congrArg Settings.millisPtr hs)
  have hm2 : ∀ x : Host, millis (drawEyes_pre s) x = millis s x := fun x =>
    millis_congr _ _ x (congrArg Settings.millisPtr hs)
  have hr : ∀ (l : Nat) (x : Host), random (RoboEyes_blink (drawEyes_pre s)) l x = random s l x :=
    fun l x => random_congr _ _ l x (congrArg Settings.randomPtr hs)
  have hbi : (RoboEyes_blink (drawEyes_pre s)).blinkInterval = s.blinkInterval :=
    congrArg Settings.blinkInterval hs
  have hbv : (RoboEyes_blink (drawEyes_pre s)).blinkIntervalVariation
      = s.blinkIntervalVariation := congrArg Settings.blinkIntervalVariation hs
  split_ifs with hd
  · rw [drawEyes_autoblink_of_due _ _ ((autoblinkDue_pre s h).trans hd)] at hl
    rw [hm, hm2, hr, hbi, hbv, toU32_sum] at hl
    exact ⟨congrArg Lids.eyeLheightNext hl, congrArg Lids.eyeRheightNext hl,
      congrArg Lids.eyeL_open hl, congrArg Lids.eyeR_open hl, congrArg Lids.blinktimer hl⟩
  · have hnd : autoblinkDue (drawEyes_pre s) h = false := by
      rw [autoblinkDue_pre]
      exact Bool.eq_false_iff.mpr hd
    have ha := drawEyes_autoblink_of_not_due _ _ hnd
    rw [ha] at hl
    obtain ⟨b1, b2, b3⟩ := drawEyes_pre_blink s
    exact ⟨ha, (congrArg Lids.blinktimer hl).trans b1, (congrArg Lids.eyeL_open hl).trans b2,
      (congrArg Lids.eyeR_open hl).trans b3, congrArg Lids.eyeLheightNext hl,
      congrArg Lids.eyeRheightNext hl⟩

/-! ## C13: setters leave the current values alone -/

theorem ite_currents (c : Prop) [Decidable c] (a b : Engine) (v : Currents)
    (ha : a.currents = v) (hb : b.currents = v) : (if c then a else b).currents = v := by
  split_ifs <;> assumption

/-- C13. Setters never snap: every setter and animation trigger, for every
argument and prior state, leaves every `current` field unchanged (widths,
heights, border radii, spacing, the eye coordinates and the current eyelid
heights). -/
theorem C13_setters_never_snap (c : Setter) (s : Engine) :
    (c.run s).currents = s.currents := by
  cases c <;> simp only [Setter.run]
  case setMood m => unfold RoboEyes_setMood; split_ifs <;> rfl
  case setPosition p =>
    unfold RoboEyes_setPosition
    repeat' (first | rfl | apply ite_currents)
  case close2 l r => unfold RoboEyes_close2; simp only []; split_ifs <;> rfl
  case open2 l r => unfold RoboEyes_open2; simp only []; split_ifs <;> rfl
  case blink2 l r =>
    unfold RoboEyes_blink2 RoboEyes_open2 RoboEyes_close2
    simp only []
    split_ifs <;> rfl
  all_goals rfl

/-! ## C12: the height floor -/

theorem drawEyes_curious_offsets (s : Engine) :
    0 ≤ (drawEyes_curious s).eyeLheightOffset ∧ 0 ≤ (drawEyes_curious s).eyeRheightOffset := by
  unfold drawEyes_curious
  simp only []
  split_ifs <;> constructor <;> simp

theorem drawEyes_autoblink_heights (s : Engine) (h : Host) :
    (drawEyes_autoblink s h).1.eyeLheightCurrent = s.eyeLheightCurrent ∧
    (drawEyes_autoblink s h).1.eyeRheightCurrent = s.eyeRheightCurrent ∧
    ((drawEyes_autoblink s h).1.eyeLheightNext = 1 ∨
      (drawEyes_autoblink s h).1.eyeLheightNext = s.eyeLheightNext) ∧
    ((drawEyes_autoblink s h).1.eyeRheightNext = 1 ∨
      (drawEyes_autoblink s h).1.eyeRheightNext = s.eyeRheightNext) := by
  unfold drawEyes_autoblink
  simp only []
  split_ifs
  · exact ⟨rfl, rfl, Or.inl rfl, Or.inl rfl⟩
  · exact ⟨rfl, rfl, Or.inr rfl, Or.inr rfl⟩
  · exact ⟨rfl, rfl, Or.inr rfl, Or.inr rfl⟩

theorem tdiv_two_floor (a : Int) (ha : 2 ≤ a) : 1 ≤ Int.tdiv a 2 := by
  rcases tdiv_two_cases a with ⟨h, e⟩ | ⟨h, e⟩ <;> rw [e] <;> omega

/-- A frame keeps the left eye's height floor. -/
theorem drawEyes_heightFloorL (s : Engine) (h : Host) (hf : heightFloorL s) :
    heightFloorL (drawEyes s h).1 := by
  obtain ⟨hc, hn, hd⟩ := hf
  have hl := drawEyes_lids_after_autoblink s h
  have hs := drawEyes_settings s h
  obtain ⟨a1, _, a3, _⟩ := drawEyes_autoblink_heights (drawEyes_pre s) h
  obtain ⟨r1, r2, _, _, r5, r6, _, _⟩ := drawEyes_pre_heights s
  obtain ⟨o1, _⟩ := drawEyes_curious_offsets s
  have e1 : (drawEyes s h).1.eyeLheightCurrent
      = (drawEyes_autoblink (drawEyes_pre s) h).1.eyeLheightCurrent :=
    congrArg Lids.eyeLheightCurrent hl
  have e2 : (drawEyes s h).1.eyeLheightNext
      = (drawEyes_autoblink (drawEyes_pre s) h).1.eyeLheightNext :=
    congrArg Lids.eyeLheightNext hl
  have e3 : (drawEyes s h).1.eyeLheightDefault = s.eyeLheightDefault :=
    congrArg Settings.eyeLheightDefault hs
  refine ⟨?_, ?_, ?_⟩
  · rw [e1, a1, r5, r1]
    exact tdiv_two_floor _ (by omega)
  · rw [e2]
    rcases a3 with a3 | a3
    · rw [a3]
    · rw [a3, r6, r2]
      split_ifs <;> assumption
  · rw [e3]
    exact hd

/-- A frame keeps the right eye's height floor while cyclops mode is off. -/
theorem drawEyes_heightFloorR (s : Engine) (h : Host) (hf : heightFloorR s) :
    heightFloorR (drawEyes s h).1 := by
  obtain ⟨hcy, hc, hn, hd⟩ := hf
  have hl := drawEyes_lids_after_autoblink s h
  have hs := drawEyes_settings s h
  obtain ⟨_, a2, _, a4⟩ := drawEyes_autoblink_heights (drawEyes_pre s) h
  obtain ⟨_, _, r3, r4, _, _, r7, r8⟩ := drawEyes_pre_heights s
  obtain ⟨_, o2⟩ := drawEyes_curious_offsets s
  have e0 : (drawEyes s h).1.cyclops = s.cyclops := congrArg Settings.cyclops hs
  have e1 : (drawEyes s h).1.eyeRheightCurrent
      = if s.cyclops = true then 0
        else (drawEyes_autoblink (drawEyes_pre s) h).1.eyeRheightCurrent :=
    congrArg Lids.eyeRheightCurrent hl
  have e2 : (drawEyes s h).1.eyeRheightNext
      = (drawEyes_autoblink (drawEyes_pre s) h).1.eyeRheightNext :=
    congrArg Lids.eyeRheightNext hl
  have e3 : (drawEyes s h).1.eyeRheightDefault = s.eyeRheightDefault :=
    congrArg Settings.eyeRheightDefault hs
  refine ⟨e0.trans hcy, ?_, ?_, ?_⟩
  · rw [e1, hcy, if_neg (by decide), a2, r7, r3]
    exact tdiv_two_floor _ (by omega)
  · rw [e2]
    rcases a4 with a4 | a4
    · rw [a4]
    · rw [a4, r8, r4]
      split_ifs <;> assumption
  · rw [e3]
    exact hd

theorem ite_engine (P : Engine → Prop) (c : Prop) [Decidable c] (a b : Engine)
    (ha : P a) (hb : P b) : P (if c then a else b) := by
  split_ifs <;> assumption

theorem RoboEyes_update_heightFloorL (s : Engine) (h : Host) (hf : heightFloorL s) :
    heightFloorL (RoboEyes_update s h).1 := by
  cases hr : rendersFrame s h
  · rw [RoboEyes_update_skip s h hr]
    exact hf
  · rw [RoboEyes_update_render s h hr]
    exact drawEyes_heightFloorL s (millis s h).2 hf

theorem RoboEyes_update_heightFloorR (s : Engine) (h : Host) (hf : heightFloorR s) :
    heightFloorR (RoboEyes_update s h).1 := by
  cases hr : rendersFrame s h
  · rw [RoboEyes_update_skip s h hr]
    exact hf
  · rw [RoboEyes_update_render s h hr]
    exact drawEyes_heightFloorR s (millis s h).2 hf

theorem Setter_heightFloorL (c : Setter) (s : Engine) (hok : (Call.setter c).heightsOk)
    (hf : heightFloorL s) : heightFloorL (c.run s) := by
  obtain ⟨hc, hn, hd⟩ := hf
  cases c <;> simp only [Setter.run]
  case setHeight l r =>
    obtain ⟨h1, _⟩ := hok
    exact ⟨hc, by show (1 : Int) ≤ ((l % 256 : Nat) : Int); omega,
      by show (1 : Int) ≤ ((l % 256 : Nat) : Int); omega⟩
  case setMood m =>
    unfold RoboEyes_setMood
    repeat' (first | exact ⟨hc, hn, hd⟩ | refine ite_engine heightFloorL _ _ _ ?_ ?_)
  case setPosition p =>
    unfold RoboEyes_setPosition
    repeat' (first | exact ⟨hc, hn, hd⟩ | refine ite_engine heightFloorL _ _ _ ?_ ?_)
  case close => exact ⟨hc, le_refl _, hd⟩
  case blink => exact ⟨hc, le_refl _, hd⟩
  case close2 l r =>
    unfold RoboEyes_close2
    simp only []
    split_ifs <;> first | exact ⟨hc, hn, hd⟩ | exact ⟨hc, le_refl _, hd⟩
  case open2 l r =>
    unfold RoboEyes_open2
    simp only []
    split_ifs <;> exact ⟨hc, hn, hd⟩
  case blink2 l r =>
    unfold RoboEyes_blink2 RoboEyes_open2 RoboEyes_close2
    simp only []
    split_ifs <;> first | exact ⟨hc, hn, hd⟩ | exact ⟨hc, le_refl _, hd⟩
  all_goals exact ⟨hc, hn, hd⟩

theorem Setter_heightFloorR (c : Setter) (s : Engine) (hok : (Call.setter c).heightsOk)
    (hcy : (Call.setter c).keepsCyclopsOff) (hf : heightFloorR s) :
    heightFloorR (c.run s) := by
  obtain ⟨h0, hc, hn, hd⟩ := hf
  cases c <;> simp only [Setter.run]
  case setHeight l r =>
    obtain ⟨_, h1⟩ := hok
    exact ⟨h0, hc, by show (1 : Int) ≤ ((r % 256 : Nat) : Int); omega,
      by show (1 : Int) ≤ ((r % 256 : Nat) : Int); omega⟩
  case setCyclops b => exact ⟨hcy, hc, hn, hd⟩
  case setMood m =>
    unfold RoboEyes_setMood
    repeat' (first | exact ⟨h0, hc, hn, hd⟩ | refine ite_engine heightFloorR _ _ _ ?_ ?_)
  case setPosition p =>
    unfold RoboEyes_setPosition
    repeat' (first | exact ⟨h0, hc, hn, hd⟩ | refine ite_engine heightFloorR _ _ _ ?_ ?_)
  case close => exact ⟨h0, hc, le_refl _, hd⟩
  case blink => exact ⟨h0, hc, le_refl _, hd⟩
  case close2 l r =>
    unfold RoboEyes_close2
    simp only []
    split_ifs <;> first | exact ⟨h0, hc, hn, hd⟩ | exact ⟨h0, hc, le_refl _, hd⟩
  case open2 l r =>
    unfold RoboEyes_open2
    simp only []
    split_ifs <;> exact ⟨h0, hc, hn, hd⟩
  case blink2 l r =>
    unfold RoboEyes_blink2 RoboEyes_open2 RoboEyes_close2
    simp only []
    split_ifs <;> first | exact ⟨h0, hc, hn, hd⟩ | exact ⟨h0, hc, le_refl _, hd⟩
  all_goals exact ⟨h0, hc, hn, hd⟩

theorem Call_heightFloorL (c : Call) (p : Engine × Host) (hok : c.heightsOk)
    (hf : heightFloorL p.1) : heightFloorL (c.run p).1 := by
  cases c with
  | setter c => exact Setter_heightFloorL c p.1 hok hf
  | begin w h f => exact ⟨le_refl _, hf.2.1, hf.2.2⟩
  | update => exact RoboEyes_update_heightFloorL p.1 p.2 hf
  | frame => exact drawEyes_heightFloorL p.1 p.2 hf

theorem Call_heightFloorR (c : Call) (p : Engine × Host) (hok : c.heightsOk)
    (hcy : c.keepsCyclopsOff) (hf : heightFloorR p.1) : heightFloorR (c.run p).1 := by
  cases c with
  | setter c => exact Setter_heightFloorR c p.1 hok hcy hf
  | begin w h f => exact ⟨hf.1, le_refl _, hf.2.2.1, hf.2.2.2⟩
  | update => exact RoboEyes_update_heightFloorR p.1 p.2 hf
  | frame => exact drawEyes_heightFloorR p.1 p.2 hf

theorem runCalls_heightFloorL (calls : List Call) : ∀ p : Engine × Host,
    (∀ c ∈ calls, c.heightsOk) → heightFloorL p.1 → heightFloorL (runCalls calls p).1 := by
  induction calls with
  | nil => intro p _ hf; exact hf
  | cons c cs ih =>
    intro p hok hf
    simp only [runCalls]
    exact ih _ (fun d hd => hok d (List.mem_cons_of_mem c hd))
      (Call_heightFloorL c p (hok c (List.mem_cons_self c cs)) hf)

theorem runCalls_heightFloorR (calls : List Call) : ∀ p : Engine × Host,
    (∀ c ∈ calls, c.heightsOk) → (∀ c ∈ calls, c.keepsCyclopsOff) → heightFloorR p.1 →
    heightFloorR (runCalls calls p).1 := by
  induction calls with
  | nil => intro p _ _ hf; exact hf
  | cons c cs ih =>
    intro p hok hcy hf
    simp only [runCalls]
    exact ih _ (fun d hd => hok d (List.mem_cons_of_mem c hd))
      (fun d hd => hcy d (List.mem_cons_of_mem c hd))
      (Call_heightFloorR c p (hok c (List.mem_cons_self c cs))
        (hcy c (List.mem_cons_self c cs)) hf)

/-- C12. Height floor: in every state reached from `RoboEyes_init` (on the
program-start statics, with any ports) by a sequence of setter calls,
`RoboEyes_begin`, polls and rendered frames in which every `setHeight`
configures heights of at least 1, the left eye's current height is at least 1;
if moreover no call switches cyclops mode on, the right eye's current height is
at least 1 too.  Frame by frame: a frame started with current and next height
at least 1 ends with current height at least 1 (for the right eye: with cyclops
off). -/
theorem C12_height_floor (dr dt cl up : Bool) (m : Option MillisFunc) (r : Option RandomFunc)
    (h0 : Host) (calls : List Call) (hok : ∀ c ∈ calls, c.heightsOk) :
    1 ≤ (runCalls calls (RoboEyes_init dr dt cl up m r Engine.initial, h0)).1.eyeLheightCurrent ∧
    ((∀ c ∈ calls, c.keepsCyclopsOff) →
      1 ≤ (runCalls calls
        (RoboEyes_init dr dt cl up m r Engine.initial, h0)).1.eyeRheightCurrent) ∧
    (∀ (s : Engine) (h : Host), 1 ≤ s.eyeLheightCurrent → 1 ≤ s.eyeLheightNext →
      1 ≤ (drawEyes s h).1.eyeLheightCurrent) ∧
    (∀ (s : Engine) (h : Host), s.cyclops = false → 1 ≤ s.eyeRheightCurrent →
      1 ≤ s.eyeRheightNext → 1 ≤ (drawEyes s h).1.eyeRheightCurrent) := by
  have iL : heightFloorL (RoboEyes_init dr dt cl up m r Engine.initial) :=
    ⟨by show (1 : Int) ≤ 1; decide, by show (1 : Int) ≤ 36; decide,
      by show (1 : Int) ≤ 36; decide⟩
  have iR : heightFloorR (RoboEyes_init dr dt cl up m r Engine.initial) :=
    ⟨rfl, by show (1 : Int) ≤ 1; decide, by show (1 : Int) ≤ 36; decide,
      by show (1 : Int) ≤ 36; decide⟩
  refine ⟨(runCalls_heightFloorL calls _ hok iL).1,
    fun hcy => (runCalls_heightFloorR calls _ hok hcy iR).2.1, ?_, ?_⟩
  · intro s h hc hn
    have hl := drawEyes_lids_after_autoblink s h
    obtain ⟨a1, _, _, _⟩ := drawEyes_autoblink_heights (drawEyes_pre s) h
    obtain ⟨r1, _, _, _, r5, _, _, _⟩ := drawEyes_pre_heights s
    obtain ⟨o1, _⟩ := drawEyes_curious_offsets s
    have e1 : (drawEyes s h).1.eyeLheightCurrent
        = (drawEyes_autoblink (drawEyes_pre s) h).1.eyeLheightCurrent :=
      congrArg Lids.eyeLheightCurrent hl
    rw [e1, a1, r5, r1]
    exact tdiv_two_floor _ (by omega)
  · intro s h hcy hc hn
    have hl := drawEyes_lids_after_autoblink s h
    obtain ⟨_, a2, _, _⟩ := drawEyes_autoblink_heights (drawEyes_pre s) h
    obtain ⟨_, _, r3, _, _, _, r7, _⟩ := drawEyes_pre_heights s
    obtain ⟨_, o2⟩ := drawEyes_curious_offsets s
    have e1 : (drawEyes s h).1.eyeRheightCurrent
        = if s.cyclops = true then 0
          else (drawEyes_autoblink (drawEyes_pre s) h).1.eyeRheightCurrent :=
      congrArg Lids.eyeRheightCurrent hl
    rw [e1, hcy, if_neg (by decide), a2, r7, r3]
    exact tdiv_two_floor _ (by omega)

/-- Witness for C12: after `RoboEyes_init`, the calls `setHeight(5, 7)`,
`close`, a poll, `begin(240, 135, 50)` and two rendered frames. -/
theorem C12_height_floor_witness :
    1 ≤ (runCalls [Call.setter (Setter.setHeight 5 7), Call.setter Setter.close, Call.update,
        Call.begin 240 135 50, Call.frame, Call.frame]
      (RoboEyes_init true true true true none none Engine.initial,
        Host.fresh)).1.eyeLheightCurrent ∧
    1 ≤ (runCalls [Call.setter (Setter.setHeight 5 7), Call.setter Setter.close, Call.update,
        Call.begin 240 135 50, Call.frame, Call.frame]
      (RoboEyes_init true true true true none none Engine.initial,
        Host.fresh)).1.eyeRheightCurrent :=
  ⟨(C12_height_floor true true true true none none Host.fresh
      [Call.setter (Setter.setHeight 5 7), Call.setter Setter.close, Call.update,
        Call.begin 240 135 50, Call.frame, Call.frame]
      (by simp [Call.heightsOk])).1,
   (C12_height_floor true true true true none none Host.fresh
      [Call.setter (Setter.setHeight 5 7), Call.setter Setter.close, Call.update,
        Call.begin 240 135 50, Call.frame, Call.frame]
      (by simp [Call.heightsOk])).2.1 (by simp [Call.keepsCyclopsOff])⟩


/-! ## C11: the pair coupling -/

theorem drawEyes_autoblink_pair (s : Engine) (h : Host) :
    (drawEyes_autoblink s h).1.pair = s.pair := by
  unfold drawEyes_autoblink
  simp only []
  split_ifs <;> rfl

theorem drawEyes_laugh_pair (s : Engine) (h : Host) :
    (drawEyes_laugh s h).1.pair = s.pair := by
  unfold drawEyes_laugh
  simp only []
  split_ifs <;> rfl

theorem drawEyes_confused_pair (s : Engine) (h : Host) :
    (drawEyes_confused s h).1.pair = s.pair := by
  unfold drawEyes_confused
  simp only []
  split_ifs <;> rfl

theorem drawEyes_hFlicker_pair (s : Engine) :
    (drawEyes_hFlicker s).pair = s.pair := by
  unfold drawEyes_hFlicker
  simp only []
  split_ifs <;> rfl

theorem drawEyes_vFlicker_pair (s : Engine) :
    (drawEyes_vFlicker s).pair = s.pair := by
  unfold drawEyes_vFlicker
  simp only []
  split_ifs <;> rfl

theorem drawEyes_moodTargets_pair (s : Engine) :
    (drawEyes_moodTargets s).pair = s.pair := by
  unfold drawEyes_moodTargets
  simp only []
  split_ifs <;> rfl

theorem drawEyes_tired_pair (s : Engine) (h : Host) :
    (drawEyes_tired s h).1.pair = s.pair := by
  unfold drawEyes_tired
  simp only []
  split_ifs <;> rfl

theorem drawEyes_angry_pair (s : Engine) (h : Host) :
    (drawEyes_angry s h).1.pair = s.pair := by
  unfold drawEyes_angry
  simp only []
  split_ifs <;> rfl

theorem drawEyes_happy_pair (s : Engine) (h : Host) :
    (drawEyes_happy s h).1.pair = s.pair := by
  unfold drawEyes_happy
  simp only []
  split_ifs <;> rfl

theorem drawEyes_sweat_pair (s : Engine) (h : Host) :
    (drawEyes_sweat s h).1.pair = s.pair := by
  unfold drawEyes_sweat
  simp only []
  split_ifs <;> rfl

theorem drawEyes_idle_of_not_due (s : Engine) (h : Host) (hnd : idleDue s h = false) :
    (drawEyes_idle s h).1 = s := by
  unfold idleDue at hnd
  unfold drawEyes_idle
  simp only []
  split_ifs with h1 h2
  · rw [h1, Bool.true_and] at hnd
    exact absurd h2 (of_decide_eq_false hnd)
  · rfl
  · rfl

theorem drawEyes_render_pair (s : Engine) (h : Host) :
    (drawEyes_render s h).1.pair = s.pair := by
  unfold drawEyes_render
  simp only []
  rw [drawEyes_sweat_pair, drawEyes_happy_pair, drawEyes_angry_pair,
    drawEyes_tired_pair, drawEyes_moodTargets_pair]

theorem drawEyes_toIdle_pair (s : Engine) (h : Host) :
    (drawEyes_toIdle s h).1.pair = (drawEyes_pre s).pair := by
  unfold drawEyes_toIdle
  simp only []
  rw [drawEyes_confused_pair, drawEyes_laugh_pair, drawEyes_autoblink_pair]

theorem drawEyes_anim_eq (s : Engine) (h : Host) :
    drawEyes_anim s h =
      (drawEyes_vFlicker (drawEyes_hFlicker
          (drawEyes_idle (drawEyes_toIdle s h).1 (drawEyes_toIdle s h).2).1),
        (drawEyes_idle (drawEyes_toIdle s h).1 (drawEyes_toIdle s h).2).2) := rfl

/-- The tween block establishes the coupling. -/
theorem drawEyes_pre_coupled (s : Engine) :
    (drawEyes_pre s).eyeRxNext
      = (drawEyes_pre s).eyeLxNext + (drawEyes_pre s).eyeLwidthCurrent
        + (drawEyes_pre s).spaceBetweenCurrent ∧
    (drawEyes_pre s).eyeRyNext = (drawEyes_pre s).eyeLyNext :=
  ⟨rfl, rfl⟩

/-- C11, as stated, fails.  With idle mode on (first repositioning due at
time 0, random source yielding 0) a frame leaves `eyeLxNext = 0`,
`eyeLyNext = 0` but `eyeRxNext = 125`, `eyeRyNext = 49`: the idle block
replaces the left eye's target after the right eye's was derived.  With
cyclops on a frame leaves `eyeRxNext = 125` while `eyeLxNext +
eyeLwidthCurrent + spaceBetweenCurrent = 79 + 36 + 0`: the spacing is forced
to 0 after the derivation. -/
theorem C11_coupling_broken_by_idle_and_cyclops :
    (drawEyes idleEngine.1 idleEngine.2).1.eyeRxNext = 125 ∧
    (drawEyes idleEngine.1 idleEngine.2).1.eyeLxNext
      + (drawEyes idleEngine.1 idleEngine.2).1.eyeLwidthCurrent
      + (drawEyes idleEngine.1 idleEngine.2).1.spaceBetweenCurrent = 46 ∧
    (drawEyes idleEngine.1 idleEngine.2).1.eyeRyNext = 49 ∧
    (drawEyes idleEngine.1 idleEngine.2).1.eyeLyNext = 0 ∧
    (drawEyes cyclopsEngine.1 cyclopsEngine.2).1.eyeRxNext = 125 ∧
    (drawEyes cyclopsEngine.1 cyclopsEngine.2).1.eyeLxNext
      + (drawEyes cyclopsEngine.1 cyclopsEngine.2).1.eyeLwidthCurrent
      + (drawEyes cyclopsEngine.1 cyclopsEngine.2).1.spaceBetweenCurrent = 115 := by
  refine ⟨by decide, by decide, by decide, by decide, by decide, by decide⟩

/-- C11, amended.  In every state reached after a rendered frame with cyclops
off in which the idle block did not reposition the eyes (idle off, or the
clock reading below `idleAnimationTimer`), `eyeRxNext = eyeLxNext +
eyeLwidthCurrent + spaceBetweenCurrent` and `eyeRyNext = eyeLyNext`. -/
theorem C11_pair_coupling (s : Engine) (h : Host) (hcy : s.cyclops = false)
    (hid : idleDue (drawEyes_toIdle s h).1 (drawEyes_toIdle s h).2 = false) :
    (drawEyes s h).1.eyeRxNext
      = (drawEyes s h).1.eyeLxNext + (drawEyes s h).1.eyeLwidthCurrent
        + (drawEyes s h).1.spaceBetweenCurrent ∧
    (drawEyes s h).1.eyeRyNext = (drawEyes s h).1.eyeLyNext := by
  have hc : (drawEyes_anim s h).1.cyclops = false :=
    (congrArg Settings.cyclops (drawEyes_anim_settings s h)).trans hcy
  have hp : (drawEyes s h).1.pair = (drawEyes_pre s).pair := by
    unfold drawEyes
    simp only []
    rw [drawEyes_render_pair]
    unfold drawEyes_cyclops
    rw [hc, if_neg (by decide), drawEyes_anim_eq]
    simp only []
    rw [drawEyes_vFlicker_pair, drawEyes_hFlicker_pair, drawEyes_idle_of_not_due _ _ hid,
      drawEyes_toIdle_pair]
  obtain ⟨c1, c2⟩ := drawEyes_pre_coupled s
  have e1 : (drawEyes s h).1.eyeRxNext = (drawEyes_pre s).eyeRxNext :=
    congrArg Pair.eyeRxNext hp
  have e2 : (drawEyes s h).1.eyeLxNext = (drawEyes_pre s).eyeLxNext :=
    congrArg Pair.eyeLxNext hp
  have e3 : (drawEyes s h).1.eyeLwidthCurrent = (drawEyes_pre s).eyeLwidthCurrent :=
    congrArg Pair.eyeLwidthCurrent hp
  have e4 : (drawEyes s h).1.spaceBetweenCurrent = (drawEyes_pre s).spaceBetweenCurrent :=
    congrArg Pair.spaceBetweenCurrent hp
  have e5 : (drawEyes s h).1.eyeRyNext = (drawEyes_pre s).eyeRyNext :=
    congrArg Pair.eyeRyNext hp
  have e6 : (drawEyes s h).1.eyeLyNext = (drawEyes_pre s).eyeLyNext :=
    congrArg Pair.eyeLyNext hp
  rw [e1, e2, e3, e4, e5, e6]
  exact ⟨c1, c2⟩

/-- Witness for C11: one frame of the resting engine (idle and cyclops off). -/
theorem C11_pair_coupling_witness :
    (drawEyes restingEngine.1 restingEngine.2).1.eyeRxNext
      = (drawEyes restingEngine.1 restingEngine.2).1.eyeLxNext
        + (drawEyes restingEngine.1 restingEngine.2).1.eyeLwidthCurrent
        + (drawEyes restingEngine.1 restingEngine.2).1.spaceBetweenCurrent ∧
    (drawEyes restingEngine.1 restingEngine.2).1.eyeRyNext
      = (drawEyes restingEngine.1 restingEngine.2).1.eyeLyNext :=
  C11_pair_coupling restingEngine.1 restingEngine.2 (by decide) (by decide)

/-! ## C14: the host's random source -/

/-- C14 fails on the code.  With `esp_random()` returning `UINT32_MAX`,
`robo_eyes_random(limit)` returns at least `limit` for every limit in
1..UINT32_MAX (for instance 1 for limit 1, 10 for limit 10, 30 for limit 30),
which is outside `[0, limit)`; and for `limit = 0` the function divides by
zero, there is no guard. -/
theorem C14_random_reaches_limit (k r : Nat) :
    robo_eyes_random 4294967295 1 = some 1 ∧
    robo_eyes_random 4294967295 10 = some 10 ∧
    robo_eyes_random 4294967295 30 = some 30 ∧
    (∃ v, robo_eyes_random UINT32_MAX (k % 4294967295 + 1) = some v ∧
      k % 4294967295 + 1 ≤ v) ∧
    robo_eyes_random r 0 = none := by
  refine ⟨by decide, by decide, by decide, ?_, rfl⟩
  have hk : k % 4294967295 < 4294967295 := Nat.mod_lt _ (by decide)
  have hl : (k % 4294967295 + 1) % 4294967296 = k % 4294967295 + 1 :=
    Nat.mod_eq_of_lt (by omega)
  refine ⟨4294967295 / (4294967295 / (k % 4294967295 + 1)), ?_, ?_⟩
  · unfold robo_eyes_random UINT32_MAX
    rw [hl, if_neg (by omega)]
  · have hl0 : 0 < k % 4294967295 + 1 := Nat.succ_pos _
    have hlm : k % 4294967295 + 1 ≤ 4294967295 := hk
    generalize k % 4294967295 + 1 = l at hl0 hlm ⊢
    have hd : 0 < 4294967295 / l := Nat.div_pos hlm hl0
    rw [Nat.le_div_iff_mul_le hd]
    rw [Nat.mul_comm]
    exact Nat.div_mul_le_self _ _


/-! ## C16: headless operation -/

theorem drawEyes_curious_with (dr dt cl up : Bool) (s : Engine) :
    drawEyes_curious (withDrawPtrs dr dt cl up s)
      = withDrawPtrs dr dt cl up (drawEyes_curious s) := by
  unfold drawEyes_curious withDrawPtrs RoboEyes_getScreenConstraint_X
  simp only []
  split_ifs <;> rfl

theorem drawEyes_height_with (dr dt cl up : Bool) (s : Engine) :
    drawEyes_height (withDrawPtrs dr dt cl up s)
      = withDrawPtrs dr dt cl up (drawEyes_height s) := by
  rfl

theorem drawEyes_reopen_with (dr dt cl up : Bool) (s : Engine) :
    drawEyes_reopen (withDrawPtrs dr dt cl up s)
      = withDrawPtrs dr dt cl up (drawEyes_reopen s) := by
  unfold drawEyes_reopen withDrawPtrs
  simp only []
  split_ifs <;> rfl

theorem drawEyes_tween_with (dr dt cl up : Bool) (s : Engine) :
    drawEyes_tween (withDrawPtrs dr dt cl up s)
      = withDrawPtrs dr dt cl up (drawEyes_tween s) := by
  rfl

theorem drawEyes_hFlicker_with (dr dt cl up : Bool) (s : Engine) :
    drawEyes_hFlicker (withDrawPtrs dr dt cl up s)
      = withDrawPtrs dr dt cl up (drawEyes_hFlicker s) := by
  unfold drawEyes_hFlicker withDrawPtrs
  simp only []
  split_ifs <;> rfl

theorem drawEyes_vFlicker_with (dr dt cl up : Bool) (s : Engine) :
    drawEyes_vFlicker (withDrawPtrs dr dt cl up s)
      = withDrawPtrs dr dt cl up (drawEyes_vFlicker s) := by
  unfold drawEyes_vFlicker withDrawPtrs
  simp only []
  split_ifs <;> rfl

theorem drawEyes_cyclops_with (dr dt cl up : Bool) (s : Engine) :
    drawEyes_cyclops (withDrawPtrs dr dt cl up s)
      = withDrawPtrs dr dt cl up (drawEyes_cyclops s) := by
  unfold drawEyes_cyclops withDrawPtrs
  simp only []
  split_ifs <;> rfl

theorem drawEyes_moodTargets_with (dr dt cl up : Bool) (s : Engine) :
    drawEyes_moodTargets (withDrawPtrs dr dt cl up s)
      = withDrawPtrs dr dt cl up (drawEyes_moodTargets s) := by
  unfold drawEyes_moodTargets withDrawPtrs
  simp only []
  split_ifs <;> rfl

theorem drawEyes_autoblink_with (dr dt cl up : Bool) (s : Engine) (h : Host) :
    drawEyes_autoblink (withDrawPtrs dr dt cl up s) h
      = (withDrawPtrs dr dt cl up (drawEyes_autoblink s h).1, (drawEyes_autoblink s h).2) := by
  unfold drawEyes_autoblink withDrawPtrs millis random RoboEyes_blink RoboEyes_open
    RoboEyes_close
  simp only []
  split_ifs <;> rfl

theorem drawEyes_laugh_with (dr dt cl up : Bool) (s : Engine) (h : Host) :
    drawEyes_laugh (withDrawPtrs dr dt cl up s) h
      = (withDrawPtrs dr dt cl up (drawEyes_laugh s h).1, (drawEyes_laugh s h).2) := by
  unfold drawEyes_laugh withDrawPtrs millis RoboEyes_setVFlicker2
  simp only []
  split_ifs <;> rfl

theorem drawEyes_confused_with (dr dt cl up : Bool) (s : Engine) (h : Host) :
    drawEyes_confused (withDrawPtrs dr dt cl up s) h
      = (withDrawPtrs dr dt cl up (drawEyes_confused s h).1, (drawEyes_confused s h).2) := by
  unfold drawEyes_confused withDrawPtrs millis RoboEyes_setHFlicker2
  simp only []
  split_ifs <;> rfl

theorem drawEyes_idle_with (dr dt cl up : Bool) (s : Engine) (h : Host) :
    drawEyes_idle (withDrawPtrs dr dt cl up s) h
      = (withDrawPtrs dr dt cl up (drawEyes_idle s h).1, (drawEyes_idle s h).2) := by
  unfold drawEyes_idle withDrawPtrs millis random RoboEyes_getScreenConstraint_X
    RoboEyes_getScreenConstraint_Y
  simp only []
  split_ifs <;> rfl

theorem drawEyes_tired_with (dr dt cl up : Bool) (s : Engine) (h1 h2 : Host) :
    (drawEyes_tired (withDrawPtrs dr dt cl up s) h1).1
      = withDrawPtrs dr dt cl up (drawEyes_tired s h2).1 := by
  unfold drawEyes_tired withDrawPtrs
  simp only []
  split_ifs <;> rfl

theorem drawEyes_angry_with (dr dt cl up : Bool) (s : Engine) (h1 h2 : Host) :
    (drawEyes_angry (withDrawPtrs dr dt cl up s) h1).1
      = withDrawPtrs dr dt cl up (drawEyes_angry s h2).1 := by
  unfold drawEyes_angry withDrawPtrs
  simp only []
  split_ifs <;> rfl

theorem drawEyes_happy_with (dr dt cl up : Bool) (s : Engine) (h1 h2 : Host) :
    (drawEyes_happy (withDrawPtrs dr dt cl up s) h1).1
      = withDrawPtrs dr dt cl up (drawEyes_happy s h2).1 := by
  unfold drawEyes_happy withDrawPtrs
  simp only []
  split_ifs <;> rfl

theorem drawRoundedRectangle_counters (s : Engine) (x y w ht r : Int) (c : Nat) (h : Host) :
    (drawRoundedRectangle s x y w ht r c h).counters = h.counters := by
  unfold drawRoundedRectangle
  split_ifs <;> rfl

theorem drawTriangle_counters (s : Engine) (x0 y0 x1 y1 x2 y2 : Int) (c : Nat) (h : Host) :
    (drawTriangle s x0 y0 x1 y1 x2 y2 c h).counters = h.counters := by
  unfold drawTriangle
  split_ifs <;> rfl

theorem clearDisplay_counters (s : Engine) (h : Host) :
    (clearDisplay s h).counters = h.counters := by
  unfold clearDisplay
  split_ifs <;> rfl

theorem updateDisplay_counters (s : Engine) (h : Host) :
    (updateDisplay s h).counters = h.counters := by
  unfold updateDisplay
  split_ifs <;> rfl

theorem drawEyes_base_counters (s : Engine) (h : Host) :
    (drawEyes_base s h).counters = h.counters := by
  unfold drawEyes_base
  simp only []
  split_ifs <;>
    simp only [drawRoundedRectangle_counters, clearDisplay_counters]

theorem drawEyes_tired_counters (s : Engine) (h : Host) :
    (drawEyes_tired s h).2.counters = h.counters := by
  unfold drawEyes_tired
  simp only []
  split_ifs <;> simp only [drawTriangle_counters]

theorem drawEyes_angry_counters (s : Engine) (h : Host) :
    (drawEyes_angry s h).2.counters = h.counters := by
  unfold drawEyes_angry
  simp only []
  split_ifs <;> simp only [drawTriangle_counters]

theorem drawEyes_happy_counters (s : Engine) (h : Host) :
    (drawEyes_happy s h).2.counters = h.counters := by
  unfold drawEyes_happy
  simp only []
  split_ifs <;> simp only [drawRoundedRectangle_counters]

theorem drawEyes_sweatDrop_with (dr dt cl up : Bool) (s : Engine) (limit : Nat)
    (origin : Nat → Int) (d : SweatDrop) (h1 h2 : Host) (hc : h1.counters = h2.counters) :
    (drawEyes_sweatDrop (withDrawPtrs dr dt cl up s) limit origin d h1).1
      = (drawEyes_sweatDrop s limit origin d h2).1 ∧
    (drawEyes_sweatDrop (withDrawPtrs dr dt cl up s) limit origin d h1).2.counters
      = (drawEyes_sweatDrop s limit origin d h2).2.counters := by
  obtain ⟨m1, r1, t1⟩ := h1
  obtain ⟨m2, r2, t2⟩ := h2
  unfold Host.counters at hc
  simp only [Prod.mk.injEq] at hc
  obtain ⟨rfl, rfl⟩ := hc
  unfold drawEyes_sweatDrop
  simp only [drawRoundedRectangle_counters]
  unfold random withDrawPtrs Host.counters
  simp only []
  rcases hrp : s.randomPtr with _ | f <;> simp only [] <;> split_ifs <;> exact ⟨rfl, rfl⟩

theorem drawEyes_sweat_with (dr dt cl up : Bool) (s : Engine) (h1 h2 : Host)
    (hc : h1.counters = h2.counters) :
    (drawEyes_sweat (withDrawPtrs dr dt cl up s) h1).1
      = withDrawPtrs dr dt cl up (drawEyes_sweat s h2).1 ∧
    (drawEyes_sweat (withDrawPtrs dr dt cl up s) h1).2.counters
      = (drawEyes_sweat s h2).2.counters := by
  have a1 := drawEyes_sweatDrop_with dr dt cl up s 30 (fun r => toI32 r) s.sweat1 h1 h2 hc
  have a2 := drawEyes_sweatDrop_with dr dt cl up s (toU32 (s.screenWidth - 60))
    (fun r => toI32 ((r + 30) % 4294967296)) s.sweat2 _ _ a1.2
  have a3 := drawEyes_sweatDrop_with dr dt cl up s 30
    (fun r => toI32 ((toU32 (s.screenWidth - 30) + r) % 4294967296)) s.sweat3 _ _ a2.2
  unfold drawEyes_sweat
  simp only []
  by_cases hs : s.sweat = true
  · have hs2 : (withDrawPtrs dr dt cl up s).sweat = true := hs
    rw [if_pos hs, if_pos hs2]
    have g : ∀ a a' b b' c c' : SweatDrop, a = a' → b = b' → c = c' →
        ({ withDrawPtrs dr dt cl up s with sweat1 := a, sweat2 := b, sweat3 := c } : Engine)
          = withDrawPtrs dr dt cl up { s with sweat1 := a', sweat2 := b', sweat3 := c' } := by
      intro a a' b b' c c' e1 e2 e3
      subst e1 e2 e3
      rfl
    exact ⟨g _ _ _ _ _ _ a1.1 a2.1 a3.1, a3.2⟩
  · have hs2 : ¬ (withDrawPtrs dr dt cl up s).sweat = true := hs
    rw [if_neg hs, if_neg hs2]
    exact ⟨rfl, hc⟩

theorem drawEyes_render_with (dr dt cl up : Bool) (s : Engine) (h : Host) :
    (drawEyes_render (withDrawPtrs dr dt cl up s) h).1
      = withDrawPtrs dr dt cl up (drawEyes_render s h).1 ∧
    (drawEyes_render (withDrawPtrs dr dt cl up s) h).2.counters
      = (drawEyes_render s h).2.counters := by
  unfold drawEyes_render
  simp only [updateDisplay_counters]
  rw [drawEyes_moodTargets_with]
  have e1 := drawEyes_tired_with dr dt cl up (drawEyes_moodTargets s)
    (drawEyes_base (withDrawPtrs dr dt cl up s) h) (drawEyes_base s h)
  have c1 : (drawEyes_tired (withDrawPtrs dr dt cl up (drawEyes_moodTargets s))
      (drawEyes_base (withDrawPtrs dr dt cl up s) h)).2.counters
      = (drawEyes_tired (drawEyes_moodTargets s) (drawEyes_base s h)).2.counters := by
    rw [drawEyes_tired_counters, drawEyes_tired_counters, drawEyes_base_counters,
      drawEyes_base_counters]
  generalize drawEyes_tired (withDrawPtrs dr dt cl up (drawEyes_moodTargets s))
    (drawEyes_base (withDrawPtrs dr dt cl up s) h) = tl at e1 c1 ⊢
  generalize drawEyes_tired (drawEyes_moodTargets s) (drawEyes_base s h) = tr at e1 c1 ⊢
  rw [e1]
  have e2 := drawEyes_angry_with dr dt cl up tr.1 tl.2 tr.2
  have c2 : (drawEyes_angry (withDrawPtrs dr dt cl up tr.1) tl.2).2.counters
      = (drawEyes_angry tr.1 tr.2).2.counters := by
    rw [drawEyes_angry_counters, drawEyes_angry_counters, c1]
  generalize drawEyes_angry (withDrawPtrs dr dt cl up tr.1) tl.2 = al at e2 c2 ⊢
  generalize drawEyes_angry tr.1 tr.2 = ar at e2 c2 ⊢
  rw [e2]
  have e3 := drawEyes_happy_with dr dt cl up ar.1 al.2 ar.2
  have c3 : (drawEyes_happy (withDrawPtrs dr dt cl up ar.1) al.2).2.counters
      = (drawEyes_happy ar.1 ar.2).2.counters := by
    rw [drawEyes_happy_counters, drawEyes_happy_counters, c2]
  generalize drawEyes_happy (withDrawPtrs dr dt cl up ar.1) al.2 = pl at e3 c3 ⊢
  generalize drawEyes_happy ar.1 ar.2 = pr at e3 c3 ⊢
  rw [e3]
  exact drawEyes_sweat_with dr dt cl up pr.1 pl.2 pr.2 c3

theorem drawEyes_anim_with (dr dt cl up : Bool) (s : Engine) (h : Host) :
    drawEyes_anim (withDrawPtrs dr dt cl up s) h
      = (withDrawPtrs dr dt cl up (drawEyes_anim s h).1, (drawEyes_anim s h).2) := by
  unfold drawEyes_anim drawEyes_pre
  simp only [drawEyes_curious_with, drawEyes_height_with, drawEyes_reopen_with,
    drawEyes_tween_with, drawEyes_autoblink_with, drawEyes_laugh_with,
    drawEyes_confused_with, drawEyes_idle_with, drawEyes_hFlicker_with,
    drawEyes_vFlicker_with]

/-- A frame commutes with rebinding the drawing pointers: the resulting
engine is the same up to those four pointers, and the clock and the random
source are called equally often. -/
theorem drawEyes_with (dr dt cl up : Bool) (s : Engine) (h : Host) :
    (drawEyes (withDrawPtrs dr dt cl up s) h).1 = withDrawPtrs dr dt cl up (drawEyes s h).1 ∧
    (drawEyes (withDrawPtrs dr dt cl up s) h).2.counters = (drawEyes s h).2.counters := by
  unfold drawEyes
  simp only []
  rw [drawEyes_anim_with]
  simp only []
  rw [drawEyes_cyclops_with]
  exact drawEyes_render_with dr dt cl up _ _

/-! ## C15: draw order -/

theorem filter_pair {α : Type} (p : α → Bool) (a b : α) :
    [a, b].filter p = [a].filter p ++ [b].filter p :=
  List.filter_append [a] [b]

theorem filter_triple {α : Type} (p : α → Bool) (a b c : α) :
    [a, b, c].filter p = [a].filter p ++ ([b].filter p ++ [c].filter p) := by
  rw [← filter_pair, ← List.filter_append]
  rfl

theorem drawRoundedRectangle_trace (s : Engine) (x y w ht r : Int) (c : Nat) (h : Host) :
    (drawRoundedRectangle s x y w ht r c h).trace
      = h.trace ++ [DrawCall.drawRoundedRectangle x y w ht r c].filter s.accepts := by
  unfold drawRoundedRectangle
  by_cases hp : s.drawRoundedRectanglePtr = true
  · rw [if_pos hp]
    simp [Engine.accepts, hp]
  · rw [if_neg hp]
    simp [Engine.accepts, hp]

theorem drawTriangle_trace (s : Engine) (x0 y0 x1 y1 x2 y2 : Int) (c : Nat) (h : Host) :
    (drawTriangle s x0 y0 x1 y1 x2 y2 c h).trace
      = h.trace ++ [DrawCall.drawTriangle x0 y0 x1 y1 x2 y2 c].filter s.accepts := by
  unfold drawTriangle
  by_cases hp : s.drawTrianglePtr = true
  · rw [if_pos hp]
    simp [Engine.accepts, hp]
  · rw [if_neg hp]
    simp [Engine.accepts, hp]

theorem clearDisplay_trace (s : Engine) (h : Host) :
    (clearDisplay s h).trace = h.trace ++ [DrawCall.clearDisplay].filter s.accepts := by
  unfold clearDisplay
  by_cases hp : s.clearDisplayPtr = true
  · rw [if_pos hp]
    simp [Engine.accepts, hp]
  · rw [if_neg hp]
    simp [Engine.accepts, hp]

theorem updateDisplay_trace (s : Engine) (h : Host) :
    (updateDisplay s h).trace = h.trace ++ [DrawCall.updateDisplay].filter s.accepts := by
  unfold updateDisplay
  by_cases hp : s.updateDisplayPtr = true
  · rw [if_pos hp]
    simp [Engine.accepts, hp]
  · rw [if_neg hp]
    simp [Engine.accepts, hp]

theorem random_trace (s : Engine) (limit : Nat) (h : Host) :
    (random s limit h).2.trace = h.trace := by
  unfold random
  split <;> rfl

theorem drawEyes_autoblink_trace (s : Engine) (h : Host) :
    (drawEyes_autoblink s h).2.trace = h.trace := by
  unfold drawEyes_autoblink
  simp only []
  split_ifs <;> simp only [millis_trace, random_trace]

theorem drawEyes_laugh_trace (s : Engine) (h : Host) :
    (drawEyes_laugh s h).2.trace = h.trace := by
  unfold drawEyes_laugh
  simp only []
  split_ifs <;> simp only [millis_trace, random_trace]

theorem drawEyes_confused_trace (s : Engine) (h : Host) :
    (drawEyes_confused s h).2.trace = h.trace := by
  unfold drawEyes_confused
  simp only []
  split_ifs <;> simp only [millis_trace, random_trace]

theorem drawEyes_idle_trace (s : Engine) (h : Host) :
    (drawEyes_idle s h).2.trace = h.trace := by
  unfold drawEyes_idle
  simp only []
  split_ifs <;> simp only [millis_trace, random_trace]

/-- The animation blocks of a frame draw nothing. -/
theorem drawEyes_anim_trace (s : Engine) (h : Host) :
    (drawEyes_anim s h).2.trace = h.trace := by
  unfold drawEyes_anim
  simp only [drawEyes_idle_trace, drawEyes_confused_trace, drawEyes_laugh_trace,
    drawEyes_autoblink_trace]

theorem drawEyes_moodTargets_fst (s : Engine) :
    drawEyes_moodTargets s = { s with
      eyelidsTiredHeightNext := (drawEyes_moodTargets s).eyelidsTiredHeightNext,
      eyelidsAngryHeightNext := (drawEyes_moodTargets s).eyelidsAngryHeightNext,
      eyelidsHappyBottomOffsetNext := (drawEyes_moodTargets s).eyelidsHappyBottomOffsetNext } := by
  unfold drawEyes_moodTargets
  simp only []
  split_ifs <;> rfl

theorem drawEyes_tired_fst (s : Engine) (h : Host) :
    (drawEyes_tired s h).1 = { s with
      eyelidsTiredHeight := tween8 s.eyelidsTiredHeight s.eyelidsTiredHeightNext } := by
  unfold drawEyes_tired
  simp only []
  split_ifs <;> rfl

theorem drawEyes_angry_fst (s : Engine) (h : Host) :
    (drawEyes_angry s h).1 = { s with
      eyelidsAngryHeight := tween8 s.eyelidsAngryHeight s.eyelidsAngryHeightNext } := by
  unfold drawEyes_angry
  simp only []
  split_ifs <;> rfl

theorem drawEyes_happy_fst (s : Engine) (h : Host) :
    (drawEyes_happy s h).1 = { s with
      eyelidsHappyBottomOffset :=
        tween8 s.eyelidsHappyBottomOffset s.eyelidsHappyBottomOffsetNext } := by
  unfold drawEyes_happy
  simp only []
  split_ifs <;> rfl

theorem drawEyes_sweat_fst (s : Engine) (h : Host) :
    (drawEyes_sweat s h).1 = { s with
      sweat1 := (drawEyes_sweat s h).1.sweat1, sweat2 := (drawEyes_sweat s h).1.sweat2,
      sweat3 := (drawEyes_sweat s h).1.sweat3 } := by
  unfold drawEyes_sweat
  simp only []
  split_ifs <;> rfl

theorem drawEyes_moodTargets_accepts (s : Engine) :
    Engine.accepts (drawEyes_moodTargets s) = Engine.accepts s := by
  rw [drawEyes_moodTargets_fst s]
  rfl

theorem drawEyes_tired_accepts (s : Engine) (h : Host) :
    Engine.accepts ((drawEyes_tired s h).1) = Engine.accepts s := by
  rw [drawEyes_tired_fst s h]
  rfl

theorem drawEyes_angry_accepts (s : Engine) (h : Host) :
    Engine.accepts ((drawEyes_angry s h).1) = Engine.accepts s := by
  rw [drawEyes_angry_fst s h]
  rfl

theorem drawEyes_happy_accepts (s : Engine) (h : Host) :
    Engine.accepts ((drawEyes_happy s h).1) = Engine.accepts s := by
  rw [drawEyes_happy_fst s h]
  rfl

theorem drawEyes_sweat_accepts (s : Engine) (h : Host) :
    Engine.accepts ((drawEyes_sweat s h).1) = Engine.accepts s := by
  rw [drawEyes_sweat_fst s h]
  rfl

theorem drawEyes_moodTargets_specBaseCalls (s : Engine) :
    specBaseCalls (drawEyes_moodTargets s) = specBaseCalls s := by
  rw [drawEyes_moodTargets_fst s]
  rfl

theorem drawEyes_tired_specBaseCalls (s : Engine) (h : Host) :
    specBaseCalls ((drawEyes_tired s h).1) = specBaseCalls s := by
  rw [drawEyes_tired_fst s h]
  rfl

theorem drawEyes_angry_specBaseCalls (s : Engine) (h : Host) :
    specBaseCalls ((drawEyes_angry s h).1) = specBaseCalls s := by
  rw [drawEyes_angry_fst s h]
  rfl

theorem drawEyes_happy_specBaseCalls (s : Engine) (h : Host) :
    specBaseCalls ((drawEyes_happy s h).1) = specBaseCalls s := by
  rw [drawEyes_happy_fst s h]
  rfl

theorem drawEyes_sweat_specBaseCalls (s : Engine) (h : Host) :
    specBaseCalls ((drawEyes_sweat s h).1) = specBaseCalls s := by
  rw [drawEyes_sweat_fst s h]
  rfl

theorem drawEyes_angry_specTiredCalls (s : Engine) (h : Host) :
    specTiredCalls ((drawEyes_angry s h).1) = specTiredCalls s := by
  rw [drawEyes_angry_fst s h]
  rfl

theorem drawEyes_happy_specTiredCalls (s : Engine) (h : Host) :
    specTiredCalls ((drawEyes_happy s h).1) = specTiredCalls s := by
  rw [drawEyes_happy_fst s h]
  rfl

theorem drawEyes_sweat_specTiredCalls (s : Engine) (h : Host) :
    specTiredCalls ((drawEyes_sweat s h).1) = specTiredCalls s := by
  rw [drawEyes_sweat_fst s h]
  rfl

theorem drawEyes_happy_specAngryCalls (s : Engine) (h : Host) :
    specAngryCalls ((drawEyes_happy s h).1) = specAngryCalls s := by
  rw [drawEyes_happy_fst s h]
  rfl

theorem drawEyes_sweat_specAngryCalls (s : Engine) (h : Host) :
    specAngryCalls ((drawEyes_sweat s h).1) = specAngryCalls s := by
  rw [drawEyes_sweat_fst s h]
  rfl

theorem drawEyes_sweat_specHappyCalls (s : Engine) (h : Host) :
    specHappyCalls ((drawEyes_sweat s h).1) = specHappyCalls s := by
  rw [drawEyes_sweat_fst s h]
  rfl

theorem drawEyes_base_trace (s : Engine) (h : Host) :
    (drawEyes_base s h).trace = h.trace ++ (specBaseCalls s).filter s.accepts := by
  unfold drawEyes_base specBaseCalls
  cases hc : s.cyclops <;>
    simp only [drawRoundedRectangle_trace, clearDisplay_trace, List.filter_append, filter_pair,
      List.append_assoc, Bool.not_true, Bool.not_false, if_true, if_false, List.filter_nil,
      List.append_nil, Bool.false_eq_true]

theorem drawEyes_tired_trace (s : Engine) (h : Host) :
    (drawEyes_tired s h).2.trace
      = h.trace ++ (specTiredCalls (drawEyes_tired s h).1).filter s.accepts := by
  rw [drawEyes_tired_fst]
  unfold drawEyes_tired specTiredCalls
  cases hc : s.cyclops <;>
    simp only [hc, drawTriangle_trace, filter_pair, List.append_assoc, Bool.not_true,
      Bool.not_false, if_true, if_false, Bool.false_eq_true] <;> rfl

theorem drawEyes_angry_trace (s : Engine) (h : Host) :
    (drawEyes_angry s h).2.trace
      = h.trace ++ (specAngryCalls (drawEyes_angry s h).1).filter s.accepts := by
  rw [drawEyes_angry_fst]
  unfold drawEyes_angry specAngryCalls
  cases hc : s.cyclops <;>
    simp only [hc, drawTriangle_trace, filter_pair, List.append_assoc, Bool.not_true,
      Bool.not_false, if_true, if_false, Bool.false_eq_true] <;> rfl

theorem drawEyes_happy_trace (s : Engine) (h : Host) :
    (drawEyes_happy s h).2.trace
      = h.trace ++ (specHappyCalls (drawEyes_happy s h).1).filter s.accepts := by
  rw [drawEyes_happy_fst]
  unfold drawEyes_happy specHappyCalls
  cases hc : s.cyclops <;>
    simp only [hc, drawRoundedRectangle_trace, List.filter_append, List.append_assoc,
      Bool.not_true, Bool.not_false, if_true, if_false, List.filter_nil, List.append_nil,
      Bool.false_eq_true] <;> rfl

theorem drawEyes_sweatDrop_trace (s : Engine) (limit : Nat) (origin : Nat → Int)
    (d : SweatDrop) (h : Host) :
    (drawEyes_sweatDrop s limit origin d h).2.trace
      = h.trace ++ [specDropCall s (drawEyes_sweatDrop s limit origin d h).1].filter s.accepts := by
  unfold drawEyes_sweatDrop specDropCall
  simp only [drawRoundedRectangle_trace]
  split_ifs <;> simp only [random_trace]

theorem drawEyes_sweat_trace (s : Engine) (h : Host) :
    (drawEyes_sweat s h).2.trace
      = h.trace ++ (specSweatCalls (drawEyes_sweat s h).1).filter s.accepts := by
  unfold drawEyes_sweat specSweatCalls
  by_cases hs : s.sweat = true
  · simp only [hs, if_true, drawEyes_sweatDrop_trace, filter_triple, List.append_assoc]
    rfl
  · simp only [hs, if_false, List.filter_nil, List.append_nil, Bool.false_eq_true]

/-- The drawing part of a frame emits the specification draw order, each call
reaching the host iff its capability is bound. -/
theorem drawEyes_render_trace (s : Engine) (h : Host) :
    (drawEyes_render s h).2.trace
      = h.trace ++ (specDrawOrder (drawEyes_render s h).1).filter
          (drawEyes_render s h).1.accepts := by
  unfold drawEyes_render specDrawOrder
  simp only [List.filter_append, updateDisplay_trace, drawEyes_sweat_trace,
    drawEyes_happy_trace, drawEyes_angry_trace, drawEyes_tired_trace, drawEyes_base_trace,
    List.append_assoc, drawEyes_moodTargets_accepts, drawEyes_tired_accepts, drawEyes_angry_accepts, drawEyes_happy_accepts, drawEyes_sweat_accepts, drawEyes_moodTargets_specBaseCalls, drawEyes_tired_specBaseCalls, drawEyes_angry_specBaseCalls, drawEyes_happy_specBaseCalls, drawEyes_sweat_specBaseCalls, drawEyes_angry_specTiredCalls, drawEyes_happy_specTiredCalls, drawEyes_sweat_specTiredCalls, drawEyes_happy_specAngryCalls, drawEyes_sweat_specAngryCalls, drawEyes_sweat_specHappyCalls]

/-- One frame appends the specification draw order to the host trace. -/
theorem drawEyes_trace (s : Engine) (h : Host) :
    (drawEyes s h).2.trace
      = h.trace ++ (specDrawOrder (drawEyes s h).1).filter (drawEyes s h).1.accepts := by
  unfold drawEyes
  simp only []
  rw [drawEyes_render_trace, drawEyes_anim_trace]

theorem filter_all {α : Type} (p : α → Bool) (hp : ∀ a, p a = true) :
    ∀ l : List α, l.filter p = l
  | [] => rfl
  | a :: l => by rw [List.filter_cons, if_pos (hp a), filter_all p hp l]

theorem filter_none {α : Type} (p : α → Bool) (hp : ∀ a, p a = false) :
    ∀ l : List α, l.filter p = []
  | [] => rfl
  | a :: l => by
    rw [List.filter_cons, if_neg (by rw [hp a]; exact Bool.false_ne_true), filter_none p hp l]

theorem accepts_bound (s : Engine) (c : DrawCall) :
    (withDrawPtrs true true true true s).accepts c = true := by
  cases c <;> rfl

theorem accepts_absent (s : Engine) (c : DrawCall) :
    (withDrawPtrs false false false false s).accepts c = false := by
  cases c <;> rfl

theorem specDrawOrder_length (e : Engine) :
    (specDrawOrder e).length
      = 8 + (if e.cyclops then 0 else 2) + (if e.sweat then 3 else 0) := by
  unfold specDrawOrder specBaseCalls specTiredCalls specAngryCalls specHappyCalls
    specSweatCalls
  cases e.cyclops <;> cases e.sweat <;> rfl

/-- C15 (draw order).  For every engine state and every host, one rendered
frame with the drawing capabilities bound appends to the calls received by the
host exactly the specification draw order of the state the frame leaves behind:
clear; left eye rectangle in MAINCOLOR; right eye rectangle in MAINCOLOR (absent
iff cyclops); two tired triangles in BGCOLOR; two angry triangles in BGCOLOR;
happy overlay of the left eye in BGCOLOR; happy overlay of the right eye (absent
iff cyclops); three sweat rectangles in MAINCOLOR (present iff sweat);
updateDisplay: 8 calls, 2 more without cyclops, 3 more with sweat.  With any
binding of the capabilities the frame emits that sequence restricted to the
bound ones. -/
theorem C15_draw_order (s : Engine) (h : Host) :
    (drawEyes (withDrawPtrs true true true true s) h).2.trace
      = h.trace ++ specDrawOrder (drawEyes (withDrawPtrs true true true true s) h).1 ∧
    (specDrawOrder (drawEyes s h).1).length
      = 8 + (if (drawEyes s h).1.cyclops then 0 else 2)
          + (if (drawEyes s h).1.sweat then 3 else 0) ∧
    (drawEyes s h).2.trace
      = h.trace ++ (specDrawOrder (drawEyes s h).1).filter (drawEyes s h).1.accepts := by
  refine ⟨?_, specDrawOrder_length _, drawEyes_trace s h⟩
  have e := drawEyes_trace (withDrawPtrs true true true true s) h
  rw [(drawEyes_with true true true true s h).1] at e ⊢
  rw [e, filter_all _ (accepts_bound _)]

/-- C16 (headless operation).  For every engine state, host and clock/random
oracle: a frame with all four drawing capabilities absent leaves the host's
call trace unchanged; for every binding of the capabilities the frame's
resulting engine state is the headless frame's resulting state with those
capabilities bound (every other variable equal), and clock and random source
are called equally often; an absent clock reads 0 and an absent random source
yields 0, neither calling the host. -/
theorem C16_headless_frame (s : Engine) (h : Host) (dr dt cl up : Bool) (limit : Nat) :
    (drawEyes (withDrawPtrs false false false false s) h).2.trace = h.trace ∧
    (drawEyes (withDrawPtrs dr dt cl up s) h).1
      = withDrawPtrs dr dt cl up (drawEyes (withDrawPtrs false false false false s) h).1 ∧
    (drawEyes (withDrawPtrs dr dt cl up s) h).2.counters
      = (drawEyes (withDrawPtrs false false false false s) h).2.counters ∧
    millis { s with millisPtr := none } h = (0, h) ∧
    random { s with randomPtr := none } limit h = (0, h) := by
  refine ⟨?_, ?_, ?_, rfl, rfl⟩
  · have e := drawEyes_trace (withDrawPtrs false false false false s) h
    rw [(drawEyes_with false false false false s h).1] at e
    rw [e, filter_none _ (accepts_absent _), List.append_nil]
  · rw [(drawEyes_with dr dt cl up s h).1, (drawEyes_with false false false false s h).1]
    rfl
  · rw [(drawEyes_with dr dt cl up s h).2, (drawEyes_with false false false false s h).2]

/-! ## C17: sweat scenario -/

theorem drawEyes_curious_droplets (s : Engine) :
    (drawEyes_curious s).droplets = s.droplets := by
  unfold drawEyes_curious RoboEyes_getScreenConstraint_X
  simp only []
  split_ifs <;> rfl

theorem drawEyes_height_droplets (s : Engine) :
    (drawEyes_height s).droplets = s.droplets := by
  rfl

theorem drawEyes_tween_droplets (s : Engine) :
    (drawEyes_tween s).droplets = s.droplets := by
  rfl

theorem drawEyes_reopen_droplets (s : Engine) :
    (drawEyes_reopen s).droplets = s.droplets := by
  unfold drawEyes_reopen
  simp only []
  split_ifs <;> rfl

theorem drawEyes_hFlicker_droplets (s : Engine) :
    (drawEyes_hFlicker s).droplets = s.droplets := by
  unfold drawEyes_hFlicker
  simp only []
  split_ifs <;> rfl

theorem drawEyes_vFlicker_droplets (s : Engine) :
    (drawEyes_vFlicker s).droplets = s.droplets := by
  unfold drawEyes_vFlicker
  simp only []
  split_ifs <;> rfl

theorem drawEyes_cyclops_droplets (s : Engine) :
    (drawEyes_cyclops s).droplets = s.droplets := by
  unfold drawEyes_cyclops
  split_ifs <;> rfl

theorem drawEyes_moodTargets_droplets (s : Engine) :
    (drawEyes_moodTargets s).droplets = s.droplets := by
  unfold drawEyes_moodTargets
  simp only []
  split_ifs <;> rfl

theorem drawEyes_autoblink_droplets (s : Engine) (h : Host) :
    (drawEyes_autoblink s h).1.droplets = s.droplets := by
  unfold drawEyes_autoblink
  simp only []
  split_ifs <;> rfl

theorem drawEyes_laugh_droplets (s : Engine) (h : Host) :
    (drawEyes_laugh s h).1.droplets = s.droplets := by
  unfold drawEyes_laugh
  simp only []
  split_ifs <;> rfl

theorem drawEyes_confused_droplets (s : Engine) (h : Host) :
    (drawEyes_confused s h).1.droplets = s.droplets := by
  unfold drawEyes_confused
  simp only []
  split_ifs <;> rfl

theorem drawEyes_idle_droplets (s : Engine) (h : Host) :
    (drawEyes_idle s h).1.droplets = s.droplets := by
  unfold drawEyes_idle
  simp only []
  split_ifs <;> rfl

theorem drawEyes_tired_droplets (s : Engine) (h : Host) :
    (drawEyes_tired s h).1.droplets = s.droplets := by
  rw [drawEyes_tired_fst]
  rfl

theorem drawEyes_angry_droplets (s : Engine) (h : Host) :
    (drawEyes_angry s h).1.droplets = s.droplets := by
  rw [drawEyes_angry_fst]
  rfl

theorem drawEyes_happy_droplets (s : Engine) (h : Host) :
    (drawEyes_happy s h).1.droplets = s.droplets := by
  rw [drawEyes_happy_fst]
  rfl

theorem drawEyes_toSweat_droplets (s : Engine) (h : Host) :
    (drawEyes_toSweat s h).1.droplets = s.droplets := by
  unfold drawEyes_toSweat drawEyes_anim drawEyes_pre
  simp only [drawEyes_happy_droplets, drawEyes_angry_droplets, drawEyes_tired_droplets,
    drawEyes_moodTargets_droplets, drawEyes_cyclops_droplets, drawEyes_vFlicker_droplets,
    drawEyes_hFlicker_droplets, drawEyes_idle_droplets, drawEyes_confused_droplets,
    drawEyes_laugh_droplets, drawEyes_autoblink_droplets, drawEyes_tween_droplets,
    drawEyes_reopen_droplets, drawEyes_height_droplets, drawEyes_curious_droplets]

theorem drawEyes_eq_toSweat (s : Engine) (h : Host) :
    (drawEyes s h).1 = (drawEyes_sweat (drawEyes_toSweat s h).1 (drawEyes_toSweat s h).2).1 :=
  rfl

/-- A droplet that has not passed its maximum falls by one half and takes the
shape step. -/
theorem drawEyes_sweatDrop_fall (s : Engine) (limit : Nat) (origin : Nat → Int)
    (d : SweatDrop) (h : Host) (hd : d.YPos ≤ (d.YPosMax : ℚ)) :
    (drawEyes_sweatDrop s limit origin d h).1
      = drawEyes_sweatShape { d with YPos := d.YPos + 1 / 2 } := by
  unfold drawEyes_sweatDrop drawEyes_sweatShape
  simp only [if_pos hd]

/-- A droplet that has passed its maximum is reset and takes the shape step. -/
theorem drawEyes_sweatDrop_reset (s : Engine) (limit : Nat) (origin : Nat → Int)
    (d : SweatDrop) (h : Host) (hd : ¬ d.YPos ≤ (d.YPosMax : ℚ)) :
    (drawEyes_sweatDrop s limit origin d h).1
      = drawEyes_sweatShape (drawEyes_sweatReset s limit origin d h).1 := by
  unfold drawEyes_sweatDrop drawEyes_sweatShape drawEyes_sweatReset
  simp only [if_neg hd]

theorem drawEyes_sweat_first (s : Engine) (h : Host) (hs : s.sweat = true) :
    (drawEyes_sweat s h).1.sweat1
      = (drawEyes_sweatDrop s 30 (fun r => toI32 r) s.sweat1 h).1 := by
  unfold drawEyes_sweat
  rw [if_pos hs]

theorem drawEyes_sweat_flag (s : Engine) (h : Host) :
    (drawEyes_sweat s h).1.sweat = s.sweat := by
  rw [drawEyes_sweat_fst]

/-- The first droplet after one frame with sweat on. -/
theorem drawEyes_sweat1 (s : Engine) (h : Host) (hs : s.sweat = true) :
    (drawEyes s h).1.sweat = true ∧
    (drawEyes s h).1.sweat1
      = (drawEyes_sweatDrop (drawEyes_toSweat s h).1 30 (fun r => toI32 r) s.sweat1
          (drawEyes_toSweat s h).2).1 := by
  have hv := drawEyes_toSweat_droplets s h
  have h0 : (drawEyes_toSweat s h).1.sweat = s.sweat := congrArg (fun v => v.1) hv
  have h1 : (drawEyes_toSweat s h).1.sweat1 = s.sweat1 := congrArg (fun v => v.2.1) hv
  rw [drawEyes_eq_toSweat]
  constructor
  · rw [drawEyes_sweat_flag, h0, hs]
  · rw [drawEyes_sweat_first _ _ (h0.trans hs), h1]

theorem frames_succ_last (n : Nat) : ∀ (s : Engine) (h : Host),
    frames (n + 1) s h = drawEyes (frames n s h).1 (frames n s h).2 := by
  induction n with
  | zero => intro s h; rfl
  | succ n ih =>
    intro s h
    show frames (n + 1) (drawEyes s h).1 (drawEyes s h).2 = _
    rw [ih]
    rfl

/-! ## Binary floating point -/

theorem roundEven_zero : roundEven 0 = 0 := by
  unfold roundEven
  simp

theorem fround_zero (p : Nat) (emin : Int) : fround p emin 0 = 0 := by
  unfold fround
  rw [zero_div, roundEven_zero]
  simp

theorem roundEven_intCast (z : Int) : roundEven (z : ℚ) = z := by
  unfold roundEven
  rw [Int.floor_intCast, sub_self, if_pos (by norm_num)]

/-- Half-integers below `2 ^ (p - 1)` in magnitude are representable: rounding
leaves them as they are. -/
theorem fround_half (p : Nat) (emin : Int) (k : Int) (he : emin ≤ -1)
    (hk : |(k : ℚ) / 2| < 2 ^ ((p : Int) - 1)) :
    fround p emin ((k : ℚ) / 2) = (k : ℚ) / 2 := by
  by_cases h0 : (k : ℚ) / 2 = 0
  · rw [h0, fround_zero]
  have hpos : 0 < |(k : ℚ) / 2| := abs_pos.mpr h0
  have hl : Int.log 2 |(k : ℚ) / 2| < (p : Int) - 1 := by
    rw [← Int.lt_zpow_iff_log_lt (by norm_num) hpos]
    exact_mod_cast hk
  unfold fround
  generalize hg : max (Int.log 2 |(k : ℚ) / 2| - ((p : Int) - 1)) emin = e
  have hle : e ≤ -1 := by
    rw [← hg]
    exact max_le (by omega) he
  obtain ⟨n, hn⟩ : ∃ n : Nat, e = -((n : Int) + 1) := ⟨(-e - 1).toNat, by omega⟩
  have e1 : (2 : ℚ) ^ e = 1 / 2 ^ (n + 1) := by
    rw [hn, zpow_neg, one_div]
    congr 1
    exact_mod_cast zpow_natCast (2 : ℚ) (n + 1)
  have e2 : (k : ℚ) / 2 / 2 ^ e = ((k * 2 ^ n : Int) : ℚ) := by
    rw [e1]
    push_cast
    field_simp
    ring
  rw [e2, roundEven_intCast, e1]
  push_cast
  field_simp
  ring

/-- The steps of `YPos` and `Height` are exact: for a half-integer `k / 2` with
`|k| < 2 ^ 23`, computing `k / 2 + 0.5` or `k / 2 - 0.5` in `double` and
converting to `float` gives the exact sum or difference. -/
theorem halfStep_exact (k : Int) (hk : |k| < 2 ^ 23) :
    f32 (f64 ((k : ℚ) / 2 + 1 / 2)) = (k : ℚ) / 2 + 1 / 2 ∧
    f32 (f64 ((k : ℚ) / 2 - 1 / 2)) = (k : ℚ) / 2 - 1 / 2 := by
  have key : ∀ j : Int, |j| < 2 ^ 24 → f32 (f64 ((j : ℚ) / 2)) = (j : ℚ) / 2 := by
    intro j hj
    have hq : |(j : ℚ)| < 2 ^ 24 := by exact_mod_cast hj
    have a : |(j : ℚ) / 2| < 2 ^ 23 := by
      rw [abs_div, abs_of_pos (by norm_num : (0 : ℚ) < 2)]
      linarith
    have h64 : f64 ((j : ℚ) / 2) = (j : ℚ) / 2 := by
      unfold f64
      refine fround_half 53 (-1074) j (by decide) ?_
      refine a.trans ?_
      norm_num
    have h32 : f32 ((j : ℚ) / 2) = (j : ℚ) / 2 := by
      unfold f32
      refine fround_half 24 (-149) j (by decide) ?_
      refine a.trans_le ?_
      norm_num
    rw [h64, h32]
  have hk2 := abs_lt.mp hk
  have e1 : (k : ℚ) / 2 + 1 / 2 = ((k + 1 : Int) : ℚ) / 2 := by push_cast; ring
  have e2 : (k : ℚ) / 2 - 1 / 2 = ((k - 1 : Int) : ℚ) / 2 := by push_cast; ring
  rw [e1, e2]
  exact ⟨key _ (abs_lt.mpr ⟨by omega, by omega⟩), key _ (abs_lt.mpr ⟨by omega, by omega⟩)⟩

theorem drawEyes_sweatShape_fields (d : SweatDrop) :
    (drawEyes_sweatShape d).YPos = d.YPos ∧ (drawEyes_sweatShape d).YPosMax = d.YPosMax ∧
    (drawEyes_sweatShape d).XPosInitial = d.XPosInitial := by
  unfold drawEyes_sweatShape
  simp only []
  split_ifs <;> exact ⟨rfl, rfl, rfl⟩

theorem drawEyes_sweatShape_size (d : SweatDrop) :
    (drawEyes_sweatShape d).Width
      = (if d.YPos ≤ ((Int.tdiv (drawEyes_sweatShape d).YPosMax 2 : Int) : ℚ)
          then f32 (f64 (d.Width + 1 / 2)) else f32 (f64 (d.Width - f64 (1 / 10)))) ∧
    (drawEyes_sweatShape d).Height
      = (if d.YPos ≤ ((Int.tdiv (drawEyes_sweatShape d).YPosMax 2 : Int) : ℚ)
          then d.Height + 1 / 2 else d.Height - 1 / 2) := by
  rw [(drawEyes_sweatShape_fields d).2.1]
  unfold drawEyes_sweatShape
  simp only []
  split_ifs <;> exact ⟨rfl, rfl⟩

theorem drawEyes_curious_fixed (s : Engine) :
    (drawEyes_curious s).fixed = s.fixed := by
  unfold drawEyes_curious RoboEyes_getScreenConstraint_X
  simp only []
  split_ifs <;> rfl

theorem drawEyes_height_fixed (s : Engine) :
    (drawEyes_height s).fixed = s.fixed := by
  rfl

theorem drawEyes_reopen_fixed (s : Engine) :
    (drawEyes_reopen s).fixed = s.fixed := by
  unfold drawEyes_reopen
  simp only []
  split_ifs <;> rfl

theorem drawEyes_tween_fixed (s : Engine) :
    (drawEyes_tween s).fixed = s.fixed := by
  rfl

theorem drawEyes_autoblink_fixed (s : Engine) (h : Host) :
    (drawEyes_autoblink s h).1.fixed = s.fixed := by
  unfold drawEyes_autoblink
  simp only []
  split_ifs <;> rfl

theorem drawEyes_laugh_fixed (s : Engine) (h : Host) :
    (drawEyes_laugh s h).1.fixed = s.fixed := by
  unfold drawEyes_laugh
  simp only []
  split_ifs <;> rfl

theorem drawEyes_confused_fixed (s : Engine) (h : Host) :
    (drawEyes_confused s h).1.fixed = s.fixed := by
  unfold drawEyes_confused
  simp only []
  split_ifs <;> rfl

theorem drawEyes_idle_fixed (s : Engine) (h : Host) :
    (drawEyes_idle s h).1.fixed = s.fixed := by
  unfold drawEyes_idle
  simp only []
  split_ifs <;> rfl

theorem drawEyes_hFlicker_fixed (s : Engine) :
    (drawEyes_hFlicker s).fixed = s.fixed := by
  unfold drawEyes_hFlicker
  simp only []
  split_ifs <;> rfl

theorem drawEyes_vFlicker_fixed (s : Engine) :
    (drawEyes_vFlicker s).fixed = s.fixed := by
  unfold drawEyes_vFlicker
  simp only []
  split_ifs <;> rfl

theorem drawEyes_cyclops_fixed (s : Engine) :
    (drawEyes_cyclops s).fixed = s.fixed := by
  unfold drawEyes_cyclops
  split_ifs <;> rfl

theorem drawEyes_moodTargets_fixed (s : Engine) :
    (drawEyes_moodTargets s).fixed = s.fixed := by
  unfold drawEyes_moodTargets
  simp only []
  split_ifs <;> rfl

theorem drawEyes_tired_fixed (s : Engine) (h : Host) :
    (drawEyes_tired s h).1.fixed = s.fixed := by
  rw [drawEyes_tired_fst]
  rfl

theorem drawEyes_angry_fixed (s : Engine) (h : Host) :
    (drawEyes_angry s h).1.fixed = s.fixed := by
  rw [drawEyes_angry_fst]
  rfl

theorem drawEyes_happy_fixed (s : Engine) (h : Host) :
    (drawEyes_happy s h).1.fixed = s.fixed := by
  rw [drawEyes_happy_fst]
  rfl

theorem drawEyes_sweat_fixed (s : Engine) (h : Host) :
    (drawEyes_sweat s h).1.fixed = s.fixed := by
  rw [drawEyes_sweat_fst]
  rfl

theorem drawEyes_pre_fixed (s : Engine) : (drawEyes_pre s).fixed = s.fixed := by
  unfold drawEyes_pre
  rw [drawEyes_tween_fixed, drawEyes_reopen_fixed, drawEyes_height_fixed, drawEyes_curious_fixed]

theorem drawEyes_toIdle_fixed (s : Engine) (h : Host) :
    (drawEyes_toIdle s h).1.fixed = s.fixed := by
  unfold drawEyes_toIdle
  simp only []
  rw [drawEyes_confused_fixed, drawEyes_laugh_fixed, drawEyes_autoblink_fixed,
    drawEyes_pre_fixed]

theorem drawEyes_toIdle_settings (s : Engine) (h : Host) :
    (drawEyes_toIdle s h).1.settings = s.settings := by
  unfold drawEyes_toIdle
  simp only []
  rw [drawEyes_confused_settings, drawEyes_laugh_settings, drawEyes_autoblink_settings,
    drawEyes_pre_settings]

theorem drawEyes_anim_fixed (s : Engine) (h : Host) :
    (drawEyes_anim s h).1.fixed = s.fixed := by
  rw [drawEyes_anim_eq]
  simp only []
  rw [drawEyes_vFlicker_fixed, drawEyes_hFlicker_fixed, drawEyes_idle_fixed,
    drawEyes_toIdle_fixed]

theorem drawEyes_render_fixed (s : Engine) (h : Host) :
    (drawEyes_render s h).1.fixed = s.fixed := by
  unfold drawEyes_render
  simp only []
  rw [drawEyes_sweat_fixed, drawEyes_happy_fixed, drawEyes_angry_fixed, drawEyes_tired_fixed,
    drawEyes_moodTargets_fixed]

/-- A frame leaves the fixed fields as they are. -/
theorem drawEyes_fixed (s : Engine) (h : Host) : (drawEyes s h).1.fixed = s.fixed := by
  unfold drawEyes
  simp only []
  rw [drawEyes_render_fixed, drawEyes_cyclops_fixed, drawEyes_anim_fixed]

/-! ## C21: idle repositioning -/

theorem drawEyes_curious_gaze (s : Engine) :
    (drawEyes_curious s).gaze = s.gaze := by
  unfold drawEyes_curious RoboEyes_getScreenConstraint_X
  simp only []
  split_ifs <;> rfl

theorem drawEyes_height_gaze (s : Engine) :
    (drawEyes_height s).gaze = s.gaze := by
  rfl

theorem drawEyes_reopen_gaze (s : Engine) :
    (drawEyes_reopen s).gaze = s.gaze := by
  unfold drawEyes_reopen
  simp only []
  split_ifs <;> rfl

theorem drawEyes_tween_gaze (s : Engine) :
    (drawEyes_tween s).gaze = s.gaze := by
  rfl

theorem drawEyes_autoblink_gaze (s : Engine) (h : Host) :
    (drawEyes_autoblink s h).1.gaze = s.gaze := by
  unfold drawEyes_autoblink
  simp only []
  split_ifs <;> rfl

theorem drawEyes_laugh_gaze (s : Engine) (h : Host) :
    (drawEyes_laugh s h).1.gaze = s.gaze := by
  unfold drawEyes_laugh
  simp only []
  split_ifs <;> rfl

theorem drawEyes_confused_gaze (s : Engine) (h : Host) :
    (drawEyes_confused s h).1.gaze = s.gaze := by
  unfold drawEyes_confused
  simp only []
  split_ifs <;> rfl

theorem drawEyes_hFlicker_gaze (s : Engine) :
    (drawEyes_hFlicker s).gaze = s.gaze := by
  unfold drawEyes_hFlicker
  simp only []
  split_ifs <;> rfl

theorem drawEyes_vFlicker_gaze (s : Engine) :
    (drawEyes_vFlicker s).gaze = s.gaze := by
  unfold drawEyes_vFlicker
  simp only []
  split_ifs <;> rfl

theorem drawEyes_cyclops_gaze (s : Engine) :
    (drawEyes_cyclops s).gaze = s.gaze := by
  unfold drawEyes_cyclops
  split_ifs <;> rfl

theorem drawEyes_moodTargets_gaze (s : Engine) :
    (drawEyes_moodTargets s).gaze = s.gaze := by
  unfold drawEyes_moodTargets
  simp only []
  split_ifs <;> rfl

theorem drawEyes_tired_gaze (s : Engine) (h : Host) :
    (drawEyes_tired s h).1.gaze = s.gaze := by
  rw [drawEyes_tired_fst]
  rfl

theorem drawEyes_angry_gaze (s : Engine) (h : Host) :
    (drawEyes_angry s h).1.gaze = s.gaze := by
  rw [drawEyes_angry_fst]
  rfl

theorem drawEyes_happy_gaze (s : Engine) (h : Host) :
    (drawEyes_happy s h).1.gaze = s.gaze := by
  rw [drawEyes_happy_fst]
  rfl

theorem drawEyes_sweat_gaze (s : Engine) (h : Host) :
    (drawEyes_sweat s h).1.gaze = s.gaze := by
  rw [drawEyes_sweat_fst]
  rfl

theorem drawEyes_toIdle_gaze (s : Engine) (h : Host) :
    (drawEyes_toIdle s h).1.gaze = s.gaze := by
  unfold drawEyes_toIdle drawEyes_pre
  simp only []
  rw [drawEyes_confused_gaze, drawEyes_laugh_gaze, drawEyes_autoblink_gaze,
    drawEyes_tween_gaze, drawEyes_reopen_gaze, drawEyes_height_gaze, drawEyes_curious_gaze]

theorem drawEyes_render_gaze (s : Engine) (h : Host) :
    (drawEyes_render s h).1.gaze = s.gaze := by
  unfold drawEyes_render
  simp only []
  rw [drawEyes_sweat_gaze, drawEyes_happy_gaze, drawEyes_angry_gaze, drawEyes_tired_gaze,
    drawEyes_moodTargets_gaze]

/-- After a frame the gaze fields are those the idle block left. -/
theorem drawEyes_gaze (s : Engine) (h : Host) :
    (drawEyes s h).1.gaze
      = (drawEyes_idle (drawEyes_toIdle s h).1 (drawEyes_toIdle s h).2).1.gaze := by
  unfold drawEyes
  simp only []
  rw [drawEyes_render_gaze, drawEyes_cyclops_gaze, drawEyes_anim_eq]
  simp only []
  rw [drawEyes_vFlicker_gaze, drawEyes_hFlicker_gaze]

/-- A due idle block draws the new position and the new timer. -/
theorem drawEyes_idle_of_due (s : Engine) (h : Host) (hd : idleDue s h = true) :
    (drawEyes_idle s h).1 =
      { s with
        eyeLxNext := toI32 (idleDrawX s h).1, eyeLyNext := toI32 (idleDrawY s h).1,
        idleAnimationTimer :=
          ((idleNow s h).1 + toU32 (s.idleInterval * 1000) + (idleDrawV s h).1 * 1000)
            % 4294967296 } := by
  unfold idleDue at hd
  rw [Bool.and_eq_true] at hd
  have h1 : s.idle = true := hd.1
  have h2 : s.idleAnimationTimer ≤ (millis s h).1 := of_decide_eq_true hd.2
  unfold drawEyes_idle
  simp only []
  rw [if_pos h1, if_pos h2]
  rfl

/-- A random source that keeps its contract yields a value below a positive
limit (an absent source yields 0). -/
theorem random_lt (s : Engine) (limit : Nat) (h : Host)
    (hr : ∀ f, s.randomPtr = some f → ∀ k l, 0 < l → f k l < l) (hl : 0 < limit) :
    (random s limit h).1 < limit := by
  unfold random
  cases hp : s.randomPtr with
  | none => exact hl
  | some f => exact lt_of_le_of_lt (Nat.mod_le _ _) (hr f hp _ _ hl)

theorem toI32_of_lt (r : Nat) (c : Int) (hc : c ≤ 2147483647) (hr : r < toU32 c) (h0 : 0 < c) :
    0 ≤ toI32 r ∧ toI32 r < c := by
  unfold toU32 at hr
  unfold toI32
  have e : (c % 4294967296).toNat = c.toNat := by omega
  rw [e] at hr
  have h1 : r % 4294967296 = r := by omega
  rw [h1]
  split_ifs with hlt
  · omega
  · omega

theorem toU32_pos (c : Int) (h0 : 0 < c) (hc : c ≤ 2147483647) : 0 < toU32 c := by
  unfold toU32
  omega

/-- C21 (idle repositioning).  Let `g` be the engine and host as they stand
when the frame reaches the idle block, `cx` and `cy` the two screen constraints
evaluated there, both positive (and C `int`s, at most 2147483647), and let the
random source keep its contract (a value below every positive limit).  The idle
block is due iff idle is on and the clock reading `now` it takes satisfies
`now ≥ idleAnimationTimer`.  If it is due, then after the frame `eyeLxNext` is
the value drawn for the limit `cx`, with `0 ≤ eyeLxNext < cx`, `eyeLyNext` is the
value drawn for the limit `cy`, with `0 ≤ eyeLyNext < cy`, and
`idleAnimationTimer = now + idleInterval * 1000 + r * 1000` in `unsigned long`
arithmetic, `now` being the clock reading taken for the assignment and `r` the
value drawn for the limit `idleIntervalVariation`.  If it is not due, the frame
changes none of `eyeLxNext`, `eyeLyNext`, `idleAnimationTimer`. -/
theorem C21_idle_repositioning (s : Engine) (h : Host)
    (hr : ∀ f, s.randomPtr = some f → ∀ k l, 0 < l → f k l < l)
    (hx : 0 < RoboEyes_getScreenConstraint_X (drawEyes_toIdle s h).1)
    (hxm : RoboEyes_getScreenConstraint_X (drawEyes_toIdle s h).1 ≤ 2147483647)
    (hy : 0 < RoboEyes_getScreenConstraint_Y (drawEyes_toIdle s h).1)
    (hym : RoboEyes_getScreenConstraint_Y (drawEyes_toIdle s h).1 ≤ 2147483647) :
    idleDue (drawEyes_toIdle s h).1 (drawEyes_toIdle s h).2
      = (s.idle && decide (s.idleAnimationTimer
          ≤ (millis (drawEyes_toIdle s h).1 (drawEyes_toIdle s h).2).1)) ∧
    (if idleDue (drawEyes_toIdle s h).1 (drawEyes_toIdle s h).2 = true then
      (drawEyes s h).1.eyeLxNext
        = toI32 (idleDrawX (drawEyes_toIdle s h).1 (drawEyes_toIdle s h).2).1 ∧
      0 ≤ (drawEyes s h).1.eyeLxNext ∧
      (drawEyes s h).1.eyeLxNext < RoboEyes_getScreenConstraint_X (drawEyes_toIdle s h).1 ∧
      (drawEyes s h).1.eyeLyNext
        = toI32 (idleDrawY (drawEyes_toIdle s h).1 (drawEyes_toIdle s h).2).1 ∧
      0 ≤ (drawEyes s h).1.eyeLyNext ∧
      (drawEyes s h).1.eyeLyNext < RoboEyes_getScreenConstraint_Y (drawEyes_toIdle s h).1 ∧
      (drawEyes s h).1.idleAnimationTimer
        = toU32 (((idleNow (drawEyes_toIdle s h).1 (drawEyes_toIdle s h).2).1 : Int)
            + s.idleInterval * 1000
            + ((idleDrawV (drawEyes_toIdle s h).1 (drawEyes_toIdle s h).2).1 : Int) * 1000)
    else
      (drawEyes s h).1.eyeLxNext = s.eyeLxNext ∧ (drawEyes s h).1.eyeLyNext = s.eyeLyNext ∧
      (drawEyes s h).1.idleAnimationTimer = s.idleAnimationTimer) := by
  have hg := drawEyes_toIdle_gaze s h
  have hf := drawEyes_toIdle_fixed s h
  have hrp : (drawEyes_toIdle s h).1.randomPtr = s.randomPtr :=
    congrArg Settings.randomPtr (drawEyes_toIdle_settings s h)
  have he := drawEyes_gaze s h
  generalize drawEyes_toIdle s h = g at hg hf hrp he hx hxm hy hym ⊢
  have hidle : g.1.idle = s.idle := congrArg Fixed.idle hf
  have hint : g.1.idleInterval = s.idleInterval := congrArg Fixed.idleInterval hf
  have htim : g.1.idleAnimationTimer = s.idleAnimationTimer := congrArg (fun v => v.2.2) hg
  have hr2 : ∀ f, g.1.randomPtr = some f → ∀ k l, 0 < l → f k l < l := by
    rw [hrp]
    exact hr
  refine ⟨?_, ?_⟩
  · unfold idleDue
    rw [hidle, htim]
  · have ex : (drawEyes s h).1.eyeLxNext = (drawEyes_idle g.1 g.2).1.eyeLxNext :=
      congrArg (fun v => v.1) he
    have ey : (drawEyes s h).1.eyeLyNext = (drawEyes_idle g.1 g.2).1.eyeLyNext :=
      congrArg (fun v => v.2.1) he
    have et : (drawEyes s h).1.idleAnimationTimer
        = (drawEyes_idle g.1 g.2).1.idleAnimationTimer := congrArg (fun v => v.2.2) he
    rw [ex, ey, et]
    by_cases hd : idleDue g.1 g.2 = true
    · rw [if_pos hd, drawEyes_idle_of_due g.1 g.2 hd]
      have bx := toI32_of_lt (idleDrawX g.1 g.2).1 _ hxm
        (random_lt g.1 _ _ hr2 (toU32_pos _ hx hxm)) hx
      have bY := toI32_of_lt (idleDrawY g.1 g.2).1 _ hym
        (random_lt g.1 _ _ hr2 (toU32_pos _ hy hym)) hy
      refine ⟨rfl, bx.1, bx.2, rfl, bY.1, bY.2, ?_⟩
      show (_ + toU32 (g.1.idleInterval * 1000) + _ * 1000) % 4294967296 = _
      rw [toU32_sum, hint]
    · rw [if_neg hd]
      have hd2 : idleDue g.1 g.2 = false := by
        cases hv : idleDue g.1 g.2
        · rfl
        · exact absurd hv hd
      rw [drawEyes_idle_of_not_due g.1 g.2 hd2]
      exact ⟨congrArg (fun v => v.1) hg, congrArg (fun v => v.2.1) hg, htim⟩

/-- Witness for C21: the first frame of the resting engine with idle mode on
(clock 0, random source always 0): the repositioning is due, the constraints
are 158 and 99. -/
theorem C21_idle_repositioning_witness :
    idleDue (drawEyes_toIdle idleEngine.1 idleEngine.2).1
      (drawEyes_toIdle idleEngine.1 idleEngine.2).2 = true ∧
    0 ≤ (drawEyes idleEngine.1 idleEngine.2).1.eyeLxNext ∧
    (drawEyes idleEngine.1 idleEngine.2).1.eyeLxNext
      < RoboEyes_getScreenConstraint_X (drawEyes_toIdle idleEngine.1 idleEngine.2).1 ∧
    RoboEyes_getScreenConstraint_X (drawEyes_toIdle idleEngine.1 idleEngine.2).1 = 158 ∧
    RoboEyes_getScreenConstraint_Y (drawEyes_toIdle idleEngine.1 idleEngine.2).1 = 99 :=
  ⟨by decide,
   (Eq.mp (if_pos (by decide))
      (C21_idle_repositioning idleEngine.1 idleEngine.2
        (fun f hf k l hl => by cases Option.some.inj hf; exact hl)
        (by decide) (by decide) (by decide) (by decide)).2).2.1,
   (Eq.mp (if_pos (by decide))
      (C21_idle_repositioning idleEngine.1 idleEngine.2
        (fun f hf k l hl => by cases Option.some.inj hf; exact hl)
        (by decide) (by decide) (by decide) (by decide)).2).2.2.1,
   by decide, by decide⟩

/-! ## C22, C23: the one-shot animations -/

theorem frames_add (a : Nat) : ∀ (b : Nat) (s : Engine) (h : Host),
    frames (a + b) s h = frames b (frames a s h).1 (frames a s h).2 := by
  induction a with
  | zero => intro b s h; rw [Nat.zero_add]; rfl
  | succ a ih =>
    intro b s h
    rw [Nat.add_right_comm]
    show frames (a + b) (drawEyes s h).1 (drawEyes s h).2 = _
    rw [ih]
    rfl

theorem frames_one (s : Engine) (h : Host) : frames 1 s h = drawEyes s h := rfl


theorem drawEyes_curious_confusion (s : Engine) :
    (drawEyes_curious s).confusion = s.confusion := by
  unfold drawEyes_curious RoboEyes_getScreenConstraint_X
  simp only []
  split_ifs <;> rfl

theorem drawEyes_height_confusion (s : Engine) :
    (drawEyes_height s).confusion = s.confusion := by
  rfl

theorem drawEyes_reopen_confusion (s : Engine) :
    (drawEyes_reopen s).confusion = s.confusion := by
  unfold drawEyes_reopen
  simp only []
  split_ifs <;> rfl

theorem drawEyes_tween_confusion (s : Engine) :
    (drawEyes_tween s).confusion = s.confusion := by
  rfl

theorem drawEyes_autoblink_confusion (s : Engine) (h : Host) :
    (drawEyes_autoblink s h).1.confusion = s.confusion := by
  unfold drawEyes_autoblink
  simp only []
  split_ifs <;> rfl

theorem drawEyes_laugh_confusion (s : Engine) (h : Host) :
    (drawEyes_laugh s h).1.confusion = s.confusion := by
  unfold drawEyes_laugh
  simp only []
  split_ifs <;> rfl

theorem drawEyes_idle_confusion (s : Engine) (h : Host) :
    (drawEyes_idle s h).1.confusion = s.confusion := by
  unfold drawEyes_idle
  simp only []
  split_ifs <;> rfl

theorem drawEyes_hFlicker_confusion (s : Engine) :
    (drawEyes_hFlicker s).confusion = s.confusion := by
  unfold drawEyes_hFlicker
  simp only []
  split_ifs <;> rfl

theorem drawEyes_vFlicker_confusion (s : Engine) :
    (drawEyes_vFlicker s).confusion = s.confusion := by
  unfold drawEyes_vFlicker
  simp only []
  split_ifs <;> rfl

theorem drawEyes_cyclops_confusion (s : Engine) :
    (drawEyes_cyclops s).confusion = s.confusion := by
  unfold drawEyes_cyclops
  split_ifs <;> rfl

theorem drawEyes_moodTargets_confusion (s : Engine) :
    (drawEyes_moodTargets s).confusion = s.confusion := by
  unfold drawEyes_moodTargets
  simp only []
  split_ifs <;> rfl

theorem drawEyes_tired_confusion (s : Engine) (h : Host) :
    (drawEyes_tired s h).1.confusion = s.confusion := by
  rw [drawEyes_tired_fst]
  rfl

theorem drawEyes_angry_confusion (s : Engine) (h : Host) :
    (drawEyes_angry s h).1.confusion = s.confusion := by
  rw [drawEyes_angry_fst]
  rfl

theorem drawEyes_happy_confusion (s : Engine) (h : Host) :
    (drawEyes_happy s h).1.confusion = s.confusion := by
  rw [drawEyes_happy_fst]
  rfl

theorem drawEyes_sweat_confusion (s : Engine) (h : Host) :
    (drawEyes_sweat s h).1.confusion = s.confusion := by
  rw [drawEyes_sweat_fst]
  rfl


theorem drawEyes_toConfused_confusion (s : Engine) (h : Host) :
    (drawEyes_toConfused s h).1.confusion = s.confusion := by
  unfold drawEyes_toConfused drawEyes_toLaugh drawEyes_pre
  rw [drawEyes_laugh_confusion, drawEyes_autoblink_confusion, drawEyes_tween_confusion,
    drawEyes_reopen_confusion, drawEyes_height_confusion, drawEyes_curious_confusion]

theorem drawEyes_render_confusion (s : Engine) (h : Host) :
    (drawEyes_render s h).1.confusion = s.confusion := by
  unfold drawEyes_render
  simp only []
  rw [drawEyes_sweat_confusion, drawEyes_happy_confusion, drawEyes_angry_confusion,
    drawEyes_tired_confusion, drawEyes_moodTargets_confusion]

/-- The confused block acts on its fields as `confusedStep`. -/
theorem drawEyes_confused_step (s : Engine) (h : Host) :
    (drawEyes_confused s h).1.confusion = confusedStep s.confusion (millis s h).1 := by
  unfold drawEyes_confused confusedStep Engine.confusion RoboEyes_setHFlicker2
  simp only []
  split_ifs <;> rfl

/-- One frame acts on the confusion fields as `confusedStep` at the clock
reading of the confused block. -/
theorem drawEyes_confusion (s : Engine) (h : Host) :
    (drawEyes s h).1.confusion = confusedStep s.confusion (confusedNow s h) := by
  have e : (drawEyes s h).1.confusion
      = (drawEyes_confused (drawEyes_toConfused s h).1 (drawEyes_toConfused s h).2).1.confusion := by
    unfold drawEyes
    simp only []
    rw [drawEyes_render_confusion, drawEyes_cyclops_confusion, drawEyes_anim_eq]
    simp only []
    rw [drawEyes_vFlicker_confusion, drawEyes_hFlicker_confusion, drawEyes_idle_confusion]
    rfl
  rw [e, drawEyes_confused_step, drawEyes_toConfused_confusion]
  rfl

theorem confusedStep_start (c : Confusion) (now : Nat) (h1 : c.confused = true)
    (h2 : c.confusedToggle = true) :
    confusedStep c now = Confusion.mk true false now true 20 := by
  unfold confusedStep
  rw [if_pos h1, if_pos h2]
  simp only [h1]

theorem confusedStep_running (t0 a now : Nat) (b : Bool) (hn : now < (t0 + 500) % 4294967296) :
    confusedStep (Confusion.mk true false t0 b a) now = Confusion.mk true false t0 b a := by
  unfold confusedStep
  have e : toU32 confusedAnimationDuration = 500 := by decide
  simp only [e, if_true, Bool.false_eq_true, if_false]
  rw [if_neg (by omega)]

theorem confusedStep_end (t0 a now : Nat) (b : Bool) (hn : (t0 + 500) % 4294967296 ≤ now) :
    confusedStep (Confusion.mk true false t0 b a) now = Confusion.mk false true t0 false 0 := by
  unfold confusedStep
  have e : toU32 confusedAnimationDuration = 500 := by decide
  simp only [e, if_true, Bool.false_eq_true, if_false]
  rw [if_pos hn]

theorem confusedStep_rest (c : Confusion) (now : Nat) (h1 : c.confused = false) :
    confusedStep c now = c := by
  unfold confusedStep
  rw [h1]
  rfl

/-- While no confused animation is active, frames leave its fields and the
horizontal flicker settings alone. -/
theorem frames_confusion_rest (j : Nat) : ∀ (s : Engine) (h : Host), s.confused = false →
    (frames j s h).1.confusion = s.confusion := by
  induction j with
  | zero => intro s h _; rfl
  | succ j ih =>
    intro s h hc
    have e : (drawEyes s h).1.confusion = s.confusion := by
      rw [drawEyes_confusion]
      exact confusedStep_rest _ _ hc
    show (frames j (drawEyes s h).1 (drawEyes s h).2).1.confusion = _
    rw [ih _ _ ((congrArg Confusion.confused e).trans hc), e]

/-- While the clock readings of the confused block stay below the end time,
frames leave a running confused animation as it is. -/
theorem frames_confusion_running (t0 a : Nat) (b : Bool) (n : Nat) :
    ∀ (s : Engine) (h : Host), s.confusion = Confusion.mk true false t0 b a →
    (∀ k, k < n → confusedNow (frames k s h).1 (frames k s h).2 < (t0 + 500) % 4294967296) →
    (frames n s h).1.confusion = Confusion.mk true false t0 b a := by
  induction n with
  | zero => intro s h hs _; exact hs
  | succ n ih =>
    intro s h hs hk
    rw [frames_succ_last]
    have i := ih s h hs (fun k hkn => hk k (Nat.lt_succ_of_lt hkn))
    have hn := hk n (Nat.lt_succ_self n)
    generalize frames n s h = p at i hn ⊢
    rw [drawEyes_confusion, i]
    exact confusedStep_running t0 a _ b hn


theorem drawEyes_curious_laughter (s : Engine) :
    (drawEyes_curious s).laughter = s.laughter := by
  unfold drawEyes_curious RoboEyes_getScreenConstraint_X
  simp only []
  split_ifs <;> rfl

theorem drawEyes_height_laughter (s : Engine) :
    (drawEyes_height s).laughter = s.laughter := by
  rfl

theorem drawEyes_reopen_laughter (s : Engine) :
    (drawEyes_reopen s).laughter = s.laughter := by
  unfold drawEyes_reopen
  simp only []
  split_ifs <;> rfl

theorem drawEyes_tween_laughter (s : Engine) :
    (drawEyes_tween s).laughter = s.laughter := by
  rfl

theorem drawEyes_autoblink_laughter (s : Engine) (h : Host) :
    (drawEyes_autoblink s h).1.laughter = s.laughter := by
  unfold drawEyes_autoblink
  simp only []
  split_ifs <;> rfl

theorem drawEyes_confused_laughter (s : Engine) (h : Host) :
    (drawEyes_confused s h).1.laughter = s.laughter := by
  unfold drawEyes_confused
  simp only []
  split_ifs <;> rfl

theorem drawEyes_idle_laughter (s : Engine) (h : Host) :
    (drawEyes_idle s h).1.laughter = s.laughter := by
  unfold drawEyes_idle
  simp only []
  split_ifs <;> rfl

theorem drawEyes_hFlicker_laughter (s : Engine) :
    (drawEyes_hFlicker s).laughter = s.laughter := by
  unfold drawEyes_hFlicker
  simp only []
  split_ifs <;> rfl

theorem drawEyes_vFlicker_laughter (s : Engine) :
    (drawEyes_vFlicker s).laughter = s.laughter := by
  unfold drawEyes_vFlicker
  simp only []
  split_ifs <;> rfl

theorem drawEyes_cyclops_laughter (s : Engine) :
    (drawEyes_cyclops s).laughter = s.laughter := by
  unfold drawEyes_cyclops
  split_ifs <;> rfl

theorem drawEyes_moodTargets_laughter (s : Engine) :
    (drawEyes_moodTargets s).laughter = s.laughter := by
  unfold drawEyes_moodTargets
  simp only []
  split_ifs <;> rfl

theorem drawEyes_tired_laughter (s : Engine) (h : Host) :
    (drawEyes_tired s h).1.laughter = s.laughter := by
  rw [drawEyes_tired_fst]
  rfl

theorem drawEyes_angry_laughter (s : Engine) (h : Host) :
    (drawEyes_angry s h).1.laughter = s.laughter := by
  rw [drawEyes_angry_fst]
  rfl

theorem drawEyes_happy_laughter (s : Engine) (h : Host) :
    (drawEyes_happy s h).1.laughter = s.laughter := by
  rw [drawEyes_happy_fst]
  rfl

theorem drawEyes_sweat_laughter (s : Engine) (h : Host) :
    (drawEyes_sweat s h).1.laughter = s.laughter := by
  rw [drawEyes_sweat_fst]
  rfl


theorem drawEyes_toLaugh_laughter (s : Engine) (h : Host) :
    (drawEyes_toLaugh s h).1.laughter = s.laughter := by
  unfold drawEyes_toLaugh drawEyes_pre
  rw [drawEyes_autoblink_laughter, drawEyes_tween_laughter,
    drawEyes_reopen_laughter, drawEyes_height_laughter, drawEyes_curious_laughter]

theorem drawEyes_render_laughter (s : Engine) (h : Host) :
    (drawEyes_render s h).1.laughter = s.laughter := by
  unfold drawEyes_render
  simp only []
  rw [drawEyes_sweat_laughter, drawEyes_happy_laughter, drawEyes_angry_laughter,
    drawEyes_tired_laughter, drawEyes_moodTargets_laughter]

/-- The laugh block acts on its fields as `laughStep`. -/
theorem drawEyes_laugh_step (s : Engine) (h : Host) :
    (drawEyes_laugh s h).1.laughter = laughStep s.laughter (millis s h).1 := by
  unfold drawEyes_laugh laughStep Engine.laughter RoboEyes_setVFlicker2
  simp only []
  split_ifs <;> rfl

/-- One frame acts on the confusion fields as `laughStep` at the clock
reading of the laugh block. -/
theorem drawEyes_laughter (s : Engine) (h : Host) :
    (drawEyes s h).1.laughter = laughStep s.laughter (laughNow s h) := by
  have e : (drawEyes s h).1.laughter
      = (drawEyes_laugh (drawEyes_toLaugh s h).1 (drawEyes_toLaugh s h).2).1.laughter := by
    unfold drawEyes
    simp only []
    rw [drawEyes_render_laughter, drawEyes_cyclops_laughter, drawEyes_anim_eq]
    simp only []
    rw [drawEyes_vFlicker_laughter, drawEyes_hFlicker_laughter, drawEyes_idle_laughter]
    unfold drawEyes_toIdle
    simp only []
    rw [drawEyes_confused_laughter]
    rfl
  rw [e, drawEyes_laugh_step, drawEyes_toLaugh_laughter]
  rfl

theorem laughStep_start (c : Laughter) (now : Nat) (h1 : c.laugh = true)
    (h2 : c.laughToggle = true) :
    laughStep c now = Laughter.mk true false now true 5 := by
  unfold laughStep
  rw [if_pos h1, if_pos h2]
  simp only [h1]

theorem laughStep_running (t0 a now : Nat) (b : Bool) (hn : now < (t0 + 500) % 4294967296) :
    laughStep (Laughter.mk true false t0 b a) now = Laughter.mk true false t0 b a := by
  unfold laughStep
  have e : toU32 laughAnimationDuration = 500 := by decide
  simp only [e, if_true, Bool.false_eq_true, if_false]
  rw [if_neg (by omega)]

theorem laughStep_end (t0 a now : Nat) (b : Bool) (hn : (t0 + 500) % 4294967296 ≤ now) :
    laughStep (Laughter.mk true false t0 b a) now = Laughter.mk false true t0 false 0 := by
  unfold laughStep
  have e : toU32 laughAnimationDuration = 500 := by decide
  simp only [e, if_true, Bool.false_eq_true, if_false]
  rw [if_pos hn]

theorem laughStep_rest (c : Laughter) (now : Nat) (h1 : c.laugh = false) :
    laughStep c now = c := by
  unfold laughStep
  rw [h1]
  rfl

/-- While no laugh animation is active, frames leave its fields and the
vertical flicker settings alone. -/
theorem frames_laughter_rest (j : Nat) : ∀ (s : Engine) (h : Host), s.laugh = false →
    (frames j s h).1.laughter = s.laughter := by
  induction j with
  | zero => intro s h _; rfl
  | succ j ih =>
    intro s h hc
    have e : (drawEyes s h).1.laughter = s.laughter := by
      rw [drawEyes_laughter]
      exact laughStep_rest _ _ hc
    show (frames j (drawEyes s h).1 (drawEyes s h).2).1.laughter = _
    rw [ih _ _ ((congrArg Laughter.laugh e).trans hc), e]

/-- While the clock readings of the laugh block stay below the end time,
frames leave a running laugh animation as it is. -/
theorem frames_laughter_running (t0 a : Nat) (b : Bool) (n : Nat) :
    ∀ (s : Engine) (h : Host), s.laughter = Laughter.mk true false t0 b a →
    (∀ k, k < n → laughNow (frames k s h).1 (frames k s h).2 < (t0 + 500) % 4294967296) →
    (frames n s h).1.laughter = Laughter.mk true false t0 b a := by
  induction n with
  | zero => intro s h hs _; exact hs
  | succ n ih =>
    intro s h hs hk
    rw [frames_succ_last]
    have i := ih s h hs (fun k hkn => hk k (Nat.lt_succ_of_lt hkn))
    have hn := hk n (Nat.lt_succ_self n)
    generalize frames n s h = p at i hn ⊢
    rw [drawEyes_laughter, i]
    exact laughStep_running t0 a _ b hn

/-! ## The flicker blocks -/

theorem drawEyes_autoblink_coords (s : Engine) (h : Host) :
    (drawEyes_autoblink s h).1.coords = s.coords := by
  unfold drawEyes_autoblink
  simp only []
  split_ifs <;> rfl

theorem drawEyes_laugh_coords (s : Engine) (h : Host) :
    (drawEyes_laugh s h).1.coords = s.coords := by
  unfold drawEyes_laugh
  simp only []
  split_ifs <;> rfl

theorem drawEyes_confused_coords (s : Engine) (h : Host) :
    (drawEyes_confused s h).1.coords = s.coords := by
  unfold drawEyes_confused
  simp only []
  split_ifs <;> rfl

theorem drawEyes_idle_coords (s : Engine) (h : Host) :
    (drawEyes_idle s h).1.coords = s.coords := by
  unfold drawEyes_idle
  simp only []
  split_ifs <;> rfl

theorem drawEyes_cyclops_coords (s : Engine) :
    (drawEyes_cyclops s).coords = s.coords := by
  unfold drawEyes_cyclops
  split_ifs <;> rfl

theorem drawEyes_moodTargets_coords (s : Engine) :
    (drawEyes_moodTargets s).coords = s.coords := by
  unfold drawEyes_moodTargets
  simp only []
  split_ifs <;> rfl

theorem drawEyes_tired_coords (s : Engine) (h : Host) :
    (drawEyes_tired s h).1.coords = s.coords := by
  rw [drawEyes_tired_fst]
  rfl

theorem drawEyes_angry_coords (s : Engine) (h : Host) :
    (drawEyes_angry s h).1.coords = s.coords := by
  rw [drawEyes_angry_fst]
  rfl

theorem drawEyes_happy_coords (s : Engine) (h : Host) :
    (drawEyes_happy s h).1.coords = s.coords := by
  rw [drawEyes_happy_fst]
  rfl

theorem drawEyes_sweat_coords (s : Engine) (h : Host) :
    (drawEyes_sweat s h).1.coords = s.coords := by
  rw [drawEyes_sweat_fst]
  rfl

theorem drawEyes_curious_alternates (s : Engine) :
    (drawEyes_curious s).alternates = s.alternates := by
  unfold drawEyes_curious RoboEyes_getScreenConstraint_X
  simp only []
  split_ifs <;> rfl

theorem drawEyes_height_alternates (s : Engine) :
    (drawEyes_height s).alternates = s.alternates := by
  rfl

theorem drawEyes_reopen_alternates (s : Engine) :
    (drawEyes_reopen s).alternates = s.alternates := by
  unfold drawEyes_reopen
  simp only []
  split_ifs <;> rfl

theorem drawEyes_tween_alternates (s : Engine) :
    (drawEyes_tween s).alternates = s.alternates := by
  rfl

theorem drawEyes_autoblink_alternates (s : Engine) (h : Host) :
    (drawEyes_autoblink s h).1.alternates = s.alternates := by
  unfold drawEyes_autoblink
  simp only []
  split_ifs <;> rfl

theorem drawEyes_laugh_alternates (s : Engine) (h : Host) :
    (drawEyes_laugh s h).1.alternates = s.alternates := by
  unfold drawEyes_laugh
  simp only []
  split_ifs <;> rfl

theorem drawEyes_confused_alternates (s : Engine) (h : Host) :
    (drawEyes_confused s h).1.alternates = s.alternates := by
  unfold drawEyes_confused
  simp only []
  split_ifs <;> rfl

theorem drawEyes_idle_alternates (s : Engine) (h : Host) :
    (drawEyes_idle s h).1.alternates = s.alternates := by
  unfold drawEyes_idle
  simp only []
  split_ifs <;> rfl

theorem drawEyes_cyclops_alternates (s : Engine) :
    (drawEyes_cyclops s).alternates = s.alternates := by
  unfold drawEyes_cyclops
  split_ifs <;> rfl

theorem drawEyes_moodTargets_alternates (s : Engine) :
    (drawEyes_moodTargets s).alternates = s.alternates := by
  unfold drawEyes_moodTargets
  simp only []
  split_ifs <;> rfl

theorem drawEyes_tired_alternates (s : Engine) (h : Host) :
    (drawEyes_tired s h).1.alternates = s.alternates := by
  rw [drawEyes_tired_fst]
  rfl

theorem drawEyes_angry_alternates (s : Engine) (h : Host) :
    (drawEyes_angry s h).1.alternates = s.alternates := by
  rw [drawEyes_angry_fst]
  rfl

theorem drawEyes_happy_alternates (s : Engine) (h : Host) :
    (drawEyes_happy s h).1.alternates = s.alternates := by
  rw [drawEyes_happy_fst]
  rfl

theorem drawEyes_sweat_alternates (s : Engine) (h : Host) :
    (drawEyes_sweat s h).1.alternates = s.alternates := by
  rw [drawEyes_sweat_fst]
  rfl

theorem drawEyes_hFlicker_shift (s : Engine) :
    (drawEyes_hFlicker s).coords
      = (s.eyeLx + hFlickerShift s, s.eyeRx + hFlickerShift s, s.eyeLy, s.eyeRy) ∧
    (drawEyes_hFlicker s).alternates
      = (if s.hFlicker then !s.hFlickerAlternate else s.hFlickerAlternate, s.vFlickerAlternate) ∧
    vFlickerShift (drawEyes_hFlicker s) = vFlickerShift s ∧
    (drawEyes_hFlicker s).vFlicker = s.vFlicker := by
  unfold drawEyes_hFlicker hFlickerShift vFlickerShift Engine.coords Engine.alternates
  simp only []
  split_ifs <;> simp only [sub_eq_add_neg, add_zero, and_self]

theorem drawEyes_vFlicker_shift (s : Engine) :
    (drawEyes_vFlicker s).coords
      = (s.eyeLx, s.eyeRx, s.eyeLy + vFlickerShift s, s.eyeRy + vFlickerShift s) ∧
    (drawEyes_vFlicker s).alternates
      = (s.hFlickerAlternate, if s.vFlicker then !s.vFlickerAlternate else s.vFlickerAlternate) := by
  unfold drawEyes_vFlicker vFlickerShift Engine.coords Engine.alternates
  simp only []
  split_ifs <;> simp only [sub_eq_add_neg, add_zero, and_self]

theorem drawEyes_toFlicker_coords (s : Engine) (h : Host) :
    (drawEyes_toFlicker s h).1.coords = (drawEyes_pre s).coords := by
  unfold drawEyes_toFlicker drawEyes_toIdle
  simp only []
  rw [drawEyes_idle_coords, drawEyes_confused_coords, drawEyes_laugh_coords,
    drawEyes_autoblink_coords]

theorem drawEyes_toFlicker_alternates (s : Engine) (h : Host) :
    (drawEyes_toFlicker s h).1.alternates = s.alternates := by
  unfold drawEyes_toFlicker drawEyes_toIdle drawEyes_pre
  simp only []
  rw [drawEyes_idle_alternates, drawEyes_confused_alternates, drawEyes_laugh_alternates,
    drawEyes_autoblink_alternates, drawEyes_tween_alternates, drawEyes_reopen_alternates,
    drawEyes_height_alternates, drawEyes_curious_alternates]

theorem drawEyes_render_coords (s : Engine) (h : Host) :
    (drawEyes_render s h).1.coords = s.coords := by
  unfold drawEyes_render
  simp only []
  rw [drawEyes_sweat_coords, drawEyes_happy_coords, drawEyes_angry_coords,
    drawEyes_tired_coords, drawEyes_moodTargets_coords]

theorem drawEyes_render_alternates (s : Engine) (h : Host) :
    (drawEyes_render s h).1.alternates = s.alternates := by
  unfold drawEyes_render
  simp only []
  rw [drawEyes_sweat_alternates, drawEyes_happy_alternates, drawEyes_angry_alternates,
    drawEyes_tired_alternates, drawEyes_moodTargets_alternates]

theorem drawEyes_eq_toFlicker (s : Engine) (h : Host) :
    drawEyes s h
      = drawEyes_render
          (drawEyes_cyclops (drawEyes_vFlicker (drawEyes_hFlicker (drawEyes_toFlicker s h).1)))
          (drawEyes_toFlicker s h).2 := rfl

/-- The flicker settings seen by the flicker blocks of a frame are those the
frame leaves behind. -/
theorem drawEyes_toFlicker_flags (s : Engine) (h : Host) :
    (drawEyes_toFlicker s h).1.confusion = (drawEyes s h).1.confusion ∧
    (drawEyes_toFlicker s h).1.laughter = (drawEyes s h).1.laughter := by
  rw [drawEyes_eq_toFlicker]
  rw [drawEyes_render_confusion, drawEyes_cyclops_confusion, drawEyes_vFlicker_confusion,
    drawEyes_hFlicker_confusion, drawEyes_render_laughter, drawEyes_cyclops_laughter,
    drawEyes_vFlicker_laughter, drawEyes_hFlicker_laughter]
  exact ⟨rfl, rfl⟩

/-- Coordinates and phase flags after a frame: the tweened coordinates plus
the shifts of the two flicker blocks. -/
theorem drawEyes_coords (s : Engine) (h : Host) :
    (drawEyes s h).1.coords
      = ((drawEyes_pre s).eyeLx + hFlickerShift (drawEyes_toFlicker s h).1,
         (drawEyes_pre s).eyeRx + hFlickerShift (drawEyes_toFlicker s h).1,
         (drawEyes_pre s).eyeLy + vFlickerShift (drawEyes_toFlicker s h).1,
         (drawEyes_pre s).eyeRy + vFlickerShift (drawEyes_toFlicker s h).1) ∧
    (drawEyes s h).1.alternates
      = (if (drawEyes_toFlicker s h).1.hFlicker then !s.hFlickerAlternate
          else s.hFlickerAlternate,
         if (drawEyes_toFlicker s h).1.vFlicker then !s.vFlickerAlternate
          else s.vFlickerAlternate) := by
  have hc := drawEyes_toFlicker_coords s h
  have ha := drawEyes_toFlicker_alternates s h
  rw [drawEyes_eq_toFlicker]
  generalize drawEyes_toFlicker s h = f at hc ha ⊢
  rw [drawEyes_render_coords, drawEyes_cyclops_coords, drawEyes_render_alternates,
    drawEyes_cyclops_alternates]
  obtain ⟨v1, v2⟩ := drawEyes_vFlicker_shift (drawEyes_hFlicker f.1)
  obtain ⟨h1, h2, h3, h4⟩ := drawEyes_hFlicker_shift f.1
  rw [v1, v2, h3, h4]
  have e1 : (drawEyes_hFlicker f.1).eyeLx = f.1.eyeLx + hFlickerShift f.1 :=
    congrArg (fun v => v.1) h1
  have e2 : (drawEyes_hFlicker f.1).eyeRx = f.1.eyeRx + hFlickerShift f.1 :=
    congrArg (fun v => v.2.1) h1
  have e3 : (drawEyes_hFlicker f.1).eyeLy = f.1.eyeLy := congrArg (fun v => v.2.2.1) h1
  have e4 : (drawEyes_hFlicker f.1).eyeRy = f.1.eyeRy := congrArg (fun v => v.2.2.2) h1
  have a1 : (drawEyes_hFlicker f.1).hFlickerAlternate
      = (if f.1.hFlicker then !f.1.hFlickerAlternate else f.1.hFlickerAlternate) :=
    congrArg (fun v => v.1) h2
  have a2 : (drawEyes_hFlicker f.1).vFlickerAlternate = f.1.vFlickerAlternate :=
    congrArg (fun v => v.2) h2
  have c1 : f.1.eyeLx = (drawEyes_pre s).eyeLx := congrArg (fun v => v.1) hc
  have c2 : f.1.eyeRx = (drawEyes_pre s).eyeRx := congrArg (fun v => v.2.1) hc
  have c3 : f.1.eyeLy = (drawEyes_pre s).eyeLy := congrArg (fun v => v.2.2.1) hc
  have c4 : f.1.eyeRy = (drawEyes_pre s).eyeRy := congrArg (fun v => v.2.2.2) hc
  have b1 : f.1.hFlickerAlternate = s.hFlickerAlternate := congrArg (fun v => v.1) ha
  have b2 : f.1.vFlickerAlternate = s.vFlickerAlternate := congrArg (fun v => v.2) ha
  rw [e1, e2, e3, e4, a1, a2, c1, c2, c3, c4, b1, b2]
  exact ⟨rfl, rfl⟩

theorem RoboEyes_anim_confused_of_running (x : Engine) (hx : x.confused = true) :
    RoboEyes_anim_confused x = x := by
  cases x
  simp only at hx
  subst hx
  rfl

theorem RoboEyes_anim_laugh_of_running (x : Engine) (hx : x.laugh = true) :
    RoboEyes_anim_laugh x = x := by
  cases x
  simp only at hx
  subst hx
  rfl

/-- C22 (confused one-shot lifecycle).  Start from a state with
`confusedToggle = true` (as when `confused = false`) and call
`RoboEyes_anim_confused`;
let `t0` be the clock reading the confused block takes in the first rendered
frame after it.  Suppose the next `n` rendered frames read the clock below
`t0 + 500` and the frame after them reads at least `t0 + 500` (the sum in
`unsigned long` arithmetic).  Then after the first frame and after each of
those `n` frames: `confused = true`, `confusedToggle = false`,
`confusedAnimationTimer = t0`, `hFlicker = true`, `hFlickerAmplitude = 20`, and
calling `RoboEyes_anim_confused` again changes nothing; after the frame that
reads at least `t0 + 500`, and after every number of further frames:
`confused = false`, `confusedToggle = true`, `hFlicker = false`,
`hFlickerAmplitude = 0`. -/
theorem C22_confused_lifecycle (s : Engine) (h : Host) (n : Nat)
    (ht : s.confusedToggle = true)
    (hrun : ∀ k, k < n →
      confusedNow (frames (k + 1) (RoboEyes_anim_confused s) h).1
          (frames (k + 1) (RoboEyes_anim_confused s) h).2
        < (confusedNow (RoboEyes_anim_confused s) h + 500) % 4294967296)
    (hend : (confusedNow (RoboEyes_anim_confused s) h + 500) % 4294967296
      ≤ confusedNow (frames (n + 1) (RoboEyes_anim_confused s) h).1
          (frames (n + 1) (RoboEyes_anim_confused s) h).2) :
    (∀ k, k ≤ n →
      (frames (k + 1) (RoboEyes_anim_confused s) h).1.confusion
        = ({ confused := true, confusedToggle := false,
             confusedAnimationTimer := confusedNow (RoboEyes_anim_confused s) h,
             hFlicker := true, hFlickerAmplitude := 20 } : Confusion) ∧
      RoboEyes_anim_confused (frames (k + 1) (RoboEyes_anim_confused s) h).1
        = (frames (k + 1) (RoboEyes_anim_confused s) h).1) ∧
    (∀ j, (frames (n + 2 + j) (RoboEyes_anim_confused s) h).1.confusion
        = ({ confused := false, confusedToggle := true,
             confusedAnimationTimer := confusedNow (RoboEyes_anim_confused s) h,
             hFlicker := false, hFlickerAmplitude := 0 } : Confusion)) := by
  have h1 : (drawEyes (RoboEyes_anim_confused s) h).1.confusion
      = Confusion.mk true false (confusedNow (RoboEyes_anim_confused s) h) true 20 := by
    rw [drawEyes_confusion]
    exact confusedStep_start _ _ rfl ht
  have run : ∀ k, k ≤ n → (frames (k + 1) (RoboEyes_anim_confused s) h).1.confusion
      = Confusion.mk true false (confusedNow (RoboEyes_anim_confused s) h) true 20 := by
    intro k hk
    exact frames_confusion_running _ 20 true k _ _ h1
      (fun i hi => hrun i (lt_of_lt_of_le hi hk))
  refine ⟨fun k hk => ⟨run k hk, ?_⟩, fun j => ?_⟩
  · exact RoboEyes_anim_confused_of_running _ (congrArg Confusion.confused (run k hk))
  · have e2 : (frames (n + 2) (RoboEyes_anim_confused s) h).1.confusion
        = Confusion.mk false true (confusedNow (RoboEyes_anim_confused s) h) false 0 := by
      rw [frames_succ_last, drawEyes_confusion, run n (le_refl n)]
      exact confusedStep_end _ 20 _ true hend
    rw [frames_add, frames_confusion_rest j _ _ (congrArg Confusion.confused e2), e2]

/-- Witness for C22: a fresh engine whose clock reads 0, 300, 600, ... at its
successive calls: the animation starts at 0, runs through the frame that
reads 300 and ends in the frame that reads 600. -/
theorem C22_confused_lifecycle_witness :
    confusedNow (RoboEyes_anim_confused steppedEngine.1) steppedEngine.2 = 0 ∧
    (frames (1 + 1) (RoboEyes_anim_confused steppedEngine.1) steppedEngine.2).1.confusion
      = ({ confused := true, confusedToggle := false,
           confusedAnimationTimer :=
             confusedNow (RoboEyes_anim_confused steppedEngine.1) steppedEngine.2,
           hFlicker := true, hFlickerAmplitude := 20 } : Confusion) ∧
    (frames (1 + 2 + 0) (RoboEyes_anim_confused steppedEngine.1) steppedEngine.2).1.confusion
      = ({ confused := false, confusedToggle := true,
           confusedAnimationTimer :=
             confusedNow (RoboEyes_anim_confused steppedEngine.1) steppedEngine.2,
           hFlicker := false, hFlickerAmplitude := 0 } : Confusion) :=
  ⟨by decide,
   ((C22_confused_lifecycle steppedEngine.1 steppedEngine.2 1 (by decide) (by decide)
      (by decide)).1 1 (le_refl 1)).1,
   (C22_confused_lifecycle steppedEngine.1 steppedEngine.2 1 (by decide) (by decide)
      (by decide)).2 0⟩

/-- C23, as stated, fails on the clause that the first laugh frame leaves
`hFlicker` untouched.  A fresh engine on which `RoboEyes_anim_confused` and then
`RoboEyes_anim_laugh` are called: before the frame `laugh = false` was turned
on from `laughToggle = true`, and `hFlicker = false` with amplitude 2; the
first rendered frame starts the laugh animation (`vFlicker = true`, amplitude
5, `laughToggle = false`) and, in its confused block, also sets
`hFlicker = true` with amplitude 20. -/
theorem C23_first_frame_switches_hFlicker :
    steppedEngine.1.laugh = false ∧ steppedEngine.1.laughToggle = true ∧
    (RoboEyes_anim_confused steppedEngine.1).laugh = false ∧
    (RoboEyes_anim_confused steppedEngine.1).laughToggle = true ∧
    (RoboEyes_anim_confused steppedEngine.1).hFlicker = false ∧
    (RoboEyes_anim_confused steppedEngine.1).hFlickerAmplitude = 2 ∧
    (drawEyes (RoboEyes_anim_laugh (RoboEyes_anim_confused steppedEngine.1))
      steppedEngine.2).1.vFlicker = true ∧
    (drawEyes (RoboEyes_anim_laugh (RoboEyes_anim_confused steppedEngine.1))
      steppedEngine.2).1.vFlickerAmplitude = 5 ∧
    (drawEyes (RoboEyes_anim_laugh (RoboEyes_anim_confused steppedEngine.1))
      steppedEngine.2).1.laughToggle = false ∧
    (drawEyes (RoboEyes_anim_laugh (RoboEyes_anim_confused steppedEngine.1))
      steppedEngine.2).1.hFlicker = true ∧
    (drawEyes (RoboEyes_anim_laugh (RoboEyes_anim_confused steppedEngine.1))
      steppedEngine.2).1.hFlickerAmplitude = 20 := by
  decide

/-- C23 (laugh one-shot lifecycle).  Start from a state with
`laughToggle = true` (as when `laugh = false`) and call `RoboEyes_anim_laugh`; let `t0` be the clock
reading the laugh block takes in the first rendered frame after it.  Suppose
the next `n` rendered frames read the clock below `t0 + 500` and the frame
after them reads at least `t0 + 500` (the sum in `unsigned long` arithmetic).
Then after the first frame and after each of those `n` frames: `laugh = true`,
`laughToggle = false`, `laughAnimationTimer = t0`, `vFlicker = true`,
`vFlickerAmplitude = 5` (no frame reading below `t0 + 500` ends the
animation); after the frame that reads at least `t0 + 500`, and after every
number of further frames: `laugh = false`, `laughToggle = true`,
`vFlicker = false`, `vFlickerAmplitude = 0`.  The laugh block never touches
`hFlicker` or its amplitude.  The first frame as a whole leaves them untouched
when no confused animation is active (`confused = false`) and when one is
running and not yet due; when one is pending (`confused = true`,
`confusedToggle = true`) the confused block of that same frame sets
`hFlicker = true` with amplitude 20, and when a running one is due (the clock
reading of the confused block is at least `confusedAnimationTimer + 500`) it
sets `hFlicker = false` with amplitude 0. -/
theorem C23_laugh_lifecycle (s : Engine) (h : Host) (n : Nat)
    (ht : s.laughToggle = true)
    (hrun : ∀ k, k < n →
      laughNow (frames (k + 1) (RoboEyes_anim_laugh s) h).1
          (frames (k + 1) (RoboEyes_anim_laugh s) h).2
        < (laughNow (RoboEyes_anim_laugh s) h + 500) % 4294967296)
    (hend : (laughNow (RoboEyes_anim_laugh s) h + 500) % 4294967296
      ≤ laughNow (frames (n + 1) (RoboEyes_anim_laugh s) h).1
          (frames (n + 1) (RoboEyes_anim_laugh s) h).2) :
    (∀ k, k ≤ n →
      (frames (k + 1) (RoboEyes_anim_laugh s) h).1.laughter
        = ({ laugh := true, laughToggle := false,
             laughAnimationTimer := laughNow (RoboEyes_anim_laugh s) h,
             vFlicker := true, vFlickerAmplitude := 5 } : Laughter)) ∧
    (∀ j, (frames (n + 2 + j) (RoboEyes_anim_laugh s) h).1.laughter
        = ({ laugh := false, laughToggle := true,
             laughAnimationTimer := laughNow (RoboEyes_anim_laugh s) h,
             vFlicker := false, vFlickerAmplitude := 0 } : Laughter)) ∧
    (∀ (x : Engine) (hx : Host),
      (drawEyes_laugh x hx).1.hFlicker = x.hFlicker ∧
      (drawEyes_laugh x hx).1.hFlickerAmplitude = x.hFlickerAmplitude) ∧
    (s.confused = false →
      (frames 1 (RoboEyes_anim_laugh s) h).1.hFlicker = s.hFlicker ∧
      (frames 1 (RoboEyes_anim_laugh s) h).1.hFlickerAmplitude = s.hFlickerAmplitude) ∧
    (s.confused = true → s.confusedToggle = true →
      (frames 1 (RoboEyes_anim_laugh s) h).1.hFlicker = true ∧
      (frames 1 (RoboEyes_anim_laugh s) h).1.hFlickerAmplitude = 20) ∧
    (s.confused = true → s.confusedToggle = false →
      (s.confusedAnimationTimer + 500) % 4294967296
        ≤ confusedNow (RoboEyes_anim_laugh s) h →
      (frames 1 (RoboEyes_anim_laugh s) h).1.hFlicker = false ∧
      (frames 1 (RoboEyes_anim_laugh s) h).1.hFlickerAmplitude = 0) ∧
    (s.confused = true → s.confusedToggle = false →
      confusedNow (RoboEyes_anim_laugh s) h
        < (s.confusedAnimationTimer + 500) % 4294967296 →
      (frames 1 (RoboEyes_anim_laugh s) h).1.hFlicker = s.hFlicker ∧
      (frames 1 (RoboEyes_anim_laugh s) h).1.hFlickerAmplitude = s.hFlickerAmplitude) := by
  have h1 : (drawEyes (RoboEyes_anim_laugh s) h).1.laughter
      = Laughter.mk true false (laughNow (RoboEyes_anim_laugh s) h) true 5 := by
    rw [drawEyes_laughter]
    exact laughStep_start _ _ rfl ht
  have run : ∀ k, k ≤ n → (frames (k + 1) (RoboEyes_anim_laugh s) h).1.laughter
      = Laughter.mk true false (laughNow (RoboEyes_anim_laugh s) h) true 5 := by
    intro k hk
    exact frames_laughter_running _ 5 true k _ _ h1
      (fun i hi => hrun i (lt_of_lt_of_le hi hk))
  have hc : (frames 1 (RoboEyes_anim_laugh s) h).1.confusion
      = confusedStep s.confusion (confusedNow (RoboEyes_anim_laugh s) h) :=
    drawEyes_confusion (RoboEyes_anim_laugh s) h
  have hs : s.confusion = Confusion.mk s.confused s.confusedToggle s.confusedAnimationTimer
      s.hFlicker s.hFlickerAmplitude := rfl
  refine ⟨run, fun j => ?_, fun x hx => ?_, fun c0 => ?_, fun c1 c2 => ?_,
    fun c1 c2 c3 => ?_, fun c1 c2 c3 => ?_⟩
  · have e2 : (frames (n + 2) (RoboEyes_anim_laugh s) h).1.laughter
        = Laughter.mk false true (laughNow (RoboEyes_anim_laugh s) h) false 0 := by
      rw [frames_succ_last, drawEyes_laughter, run n (le_refl n)]
      exact laughStep_end _ 5 _ true hend
    rw [frames_add, frames_laughter_rest j _ _ (congrArg Laughter.laugh e2), e2]
  · exact ⟨congrArg Confusion.hFlicker (drawEyes_laugh_confusion x hx),
      congrArg Confusion.hFlickerAmplitude (drawEyes_laugh_confusion x hx)⟩
  · rw [confusedStep_rest _ _ c0] at hc
    exact ⟨congrArg Confusion.hFlicker hc, congrArg Confusion.hFlickerAmplitude hc⟩
  · rw [confusedStep_start _ _ c1 c2] at hc
    exact ⟨congrArg Confusion.hFlicker hc, congrArg Confusion.hFlickerAmplitude hc⟩
  · rw [hs, c1, c2, confusedStep_end _ _ _ _ c3] at hc
    exact ⟨congrArg Confusion.hFlicker hc, congrArg Confusion.hFlickerAmplitude hc⟩
  · rw [hs, c1, c2, confusedStep_running _ _ _ _ c3] at hc
    exact ⟨congrArg Confusion.hFlicker hc, congrArg Confusion.hFlickerAmplitude hc⟩

/-- Witness for C23: a fresh engine whose clock reads 0, 300, 600, ... at its
successive calls. -/
theorem C23_laugh_lifecycle_witness :
    laughNow (RoboEyes_anim_laugh steppedEngine.1) steppedEngine.2 = 0 ∧
    (frames (1 + 1) (RoboEyes_anim_laugh steppedEngine.1) steppedEngine.2).1.laughter
      = ({ laugh := true, laughToggle := false,
           laughAnimationTimer := laughNow (RoboEyes_anim_laugh steppedEngine.1) steppedEngine.2,
           vFlicker := true, vFlickerAmplitude := 5 } : Laughter) ∧
    (frames (1 + 2 + 0) (RoboEyes_anim_laugh steppedEngine.1) steppedEngine.2).1.laughter
      = ({ laugh := false, laughToggle := true,
           laughAnimationTimer := laughNow (RoboEyes_anim_laugh steppedEngine.1) steppedEngine.2,
           vFlicker := false, vFlickerAmplitude := 0 } : Laughter) :=
  ⟨by decide,
   (C23_laugh_lifecycle steppedEngine.1 steppedEngine.2 1 (by decide) (by decide)
      (by decide)).1 1 (le_refl 1),
   (C23_laugh_lifecycle steppedEngine.1 steppedEngine.2 1 (by decide) (by decide)
      (by decide)).2.1 0⟩

/-! ## C24, C25: flicker -/

theorem hFlickerShift_of_zero (f : Engine) (ha : f.hFlickerAmplitude = 0) :
    hFlickerShift f = 0 := by
  unfold hFlickerShift
  rw [ha]
  split_ifs <;> rfl

theorem vFlickerShift_of_zero (f : Engine) (ha : f.vFlickerAmplitude = 0) :
    vFlickerShift f = 0 := by
  unfold vFlickerShift
  rw [ha]
  split_ifs <;> rfl

/-- A frame on a state with no confused animation pending, horizontal flicker
amplitude 0: the x coordinates are the tweened ones. -/
theorem drawEyes_x_of_zero (x : Engine) (h : Host) (hc : x.confused = false)
    (ha : x.hFlickerAmplitude = 0) :
    (drawEyes x h).1.eyeLx = (drawEyes_pre x).eyeLx ∧
    (drawEyes x h).1.eyeRx = (drawEyes_pre x).eyeRx := by
  have e : (drawEyes_toFlicker x h).1.confusion = x.confusion := by
    rw [(drawEyes_toFlicker_flags x h).1, drawEyes_confusion]
    exact confusedStep_rest _ _ hc
  have z : hFlickerShift (drawEyes_toFlicker x h).1 = 0 :=
    hFlickerShift_of_zero _ ((congrArg Confusion.hFlickerAmplitude e).trans ha)
  have c := (drawEyes_coords x h).1
  rw [z, add_zero, add_zero] at c
  exact ⟨congrArg (fun v => v.1) c, congrArg (fun v => v.2.1) c⟩

/-- A frame on a state with no laugh animation pending, vertical flicker
amplitude 0: the y coordinates are the tweened ones. -/
theorem drawEyes_y_of_zero (x : Engine) (h : Host) (hc : x.laugh = false)
    (ha : x.vFlickerAmplitude = 0) :
    (drawEyes x h).1.eyeLy = (drawEyes_pre x).eyeLy ∧
    (drawEyes x h).1.eyeRy = (drawEyes_pre x).eyeRy := by
  have e : (drawEyes_toFlicker x h).1.laughter = x.laughter := by
    rw [(drawEyes_toFlicker_flags x h).2, drawEyes_laughter]
    exact laughStep_rest _ _ hc
  have z : vFlickerShift (drawEyes_toFlicker x h).1 = 0 :=
    vFlickerShift_of_zero _ ((congrArg Laughter.vFlickerAmplitude e).trans ha)
  have c := (drawEyes_coords x h).1
  rw [z, add_zero, add_zero] at c
  exact ⟨congrArg (fun v => v.2.2.1) c, congrArg (fun v => v.2.2.2) c⟩

/-- C24 (shared flicker substrate).  Horizontal: let a confused animation be
running (`confused = true`, `confusedToggle = false`) and let the caller call
`RoboEyes_setHFlicker2(true, a)`.  If the next rendered frame reads the clock
at or after `confusedAnimationTimer + 500` (in `unsigned long` arithmetic), it
leaves `hFlicker = false` and `hFlickerAmplitude = 0`; and when, after any
number `j` of further frames, the caller calls `RoboEyes_setHFlicker(true)`,
the next frame has `hFlicker` on but leaves both x coordinates at their tweened
values (displacement 0).  Vertical: the same for a running laugh animation,
`RoboEyes_setVFlicker2(true, a)`, `RoboEyes_setVFlicker(true)` and the y
coordinates. -/
theorem C24_shared_flicker (s : Engine) (h : Host) (a : Nat) :
    (s.confused = true → s.confusedToggle = false →
      (s.confusedAnimationTimer + 500) % 4294967296
        ≤ confusedNow (RoboEyes_setHFlicker2 true a s) h →
      (drawEyes (RoboEyes_setHFlicker2 true a s) h).1.hFlicker = false ∧
      (drawEyes (RoboEyes_setHFlicker2 true a s) h).1.hFlickerAmplitude = 0 ∧
      ∀ (j : Nat) (h2 : Host),
        (drawEyes (RoboEyes_setHFlicker true
            (frames j (drawEyes (RoboEyes_setHFlicker2 true a s) h).1
              (drawEyes (RoboEyes_setHFlicker2 true a s) h).2).1) h2).1.hFlicker = true ∧
        (drawEyes (RoboEyes_setHFlicker true
            (frames j (drawEyes (RoboEyes_setHFlicker2 true a s) h).1
              (drawEyes (RoboEyes_setHFlicker2 true a s) h).2).1) h2).1.eyeLx
          = (drawEyes_pre (RoboEyes_setHFlicker true
            (frames j (drawEyes (RoboEyes_setHFlicker2 true a s) h).1
              (drawEyes (RoboEyes_setHFlicker2 true a s) h).2).1)).eyeLx ∧
        (drawEyes (RoboEyes_setHFlicker true
            (frames j (drawEyes (RoboEyes_setHFlicker2 true a s) h).1
              (drawEyes (RoboEyes_setHFlicker2 true a s) h).2).1) h2).1.eyeRx
          = (drawEyes_pre (RoboEyes_setHFlicker true
            (frames j (drawEyes (RoboEyes_setHFlicker2 true a s) h).1
              (drawEyes (RoboEyes_setHFlicker2 true a s) h).2).1)).eyeRx) ∧
    (s.laugh = true → s.laughToggle = false →
      (s.laughAnimationTimer + 500) % 4294967296
        ≤ laughNow (RoboEyes_setVFlicker2 true a s) h →
      (drawEyes (RoboEyes_setVFlicker2 true a s) h).1.vFlicker = false ∧
      (drawEyes (RoboEyes_setVFlicker2 true a s) h).1.vFlickerAmplitude = 0 ∧
      ∀ (j : Nat) (h2 : Host),
        (drawEyes (RoboEyes_setVFlicker true
            (frames j (drawEyes (RoboEyes_setVFlicker2 true a s) h).1
              (drawEyes (RoboEyes_setVFlicker2 true a s) h).2).1) h2).1.vFlicker = true ∧
        (drawEyes (RoboEyes_setVFlicker true
            (frames j (drawEyes (RoboEyes_setVFlicker2 true a s) h).1
              (drawEyes (RoboEyes_setVFlicker2 true a s) h).2).1) h2).1.eyeLy
          = (drawEyes_pre (RoboEyes_setVFlicker true
            (frames j (drawEyes (RoboEyes_setVFlicker2 true a s) h).1
              (drawEyes (RoboEyes_setVFlicker2 true a s) h).2).1)).eyeLy ∧
        (drawEyes (RoboEyes_setVFlicker true
            (frames j (drawEyes (RoboEyes_setVFlicker2 true a s) h).1
              (drawEyes (RoboEyes_setVFlicker2 true a s) h).2).1) h2).1.eyeRy
          = (drawEyes_pre (RoboEyes_setVFlicker true
            (frames j (drawEyes (RoboEyes_setVFlicker2 true a s) h).1
              (drawEyes (RoboEyes_setVFlicker2 true a s) h).2).1)).eyeRy) := by
  constructor
  · intro hc ht hend
    have e0 : (RoboEyes_setHFlicker2 true a s).confusion
        = Confusion.mk true false s.confusedAnimationTimer true (a % 256) := by
      show Confusion.mk s.confused s.confusedToggle _ _ _ = _
      rw [hc, ht]
      rfl
    have e1 : (drawEyes (RoboEyes_setHFlicker2 true a s) h).1.confusion
        = Confusion.mk false true s.confusedAnimationTimer false 0 := by
      rw [drawEyes_confusion, e0]
      exact confusedStep_end _ _ _ true hend
    refine ⟨congrArg Confusion.hFlicker e1, congrArg Confusion.hFlickerAmplitude e1, ?_⟩
    intro j h2
    have e2 := frames_confusion_rest j (drawEyes (RoboEyes_setHFlicker2 true a s) h).1
      (drawEyes (RoboEyes_setHFlicker2 true a s) h).2 (congrArg Confusion.confused e1)
    rw [e1] at e2
    generalize (frames j (drawEyes (RoboEyes_setHFlicker2 true a s) h).1
      (drawEyes (RoboEyes_setHFlicker2 true a s) h).2).1 = y at e2 ⊢
    have c0 : (RoboEyes_setHFlicker true y).confused = false := congrArg Confusion.confused e2
    have a0 : (RoboEyes_setHFlicker true y).hFlickerAmplitude = 0 :=
      congrArg Confusion.hFlickerAmplitude e2
    have f0 : (drawEyes (RoboEyes_setHFlicker true y) h2).1.confusion
        = (RoboEyes_setHFlicker true y).confusion := by
      rw [drawEyes_confusion]
      exact confusedStep_rest _ _ c0
    exact ⟨congrArg Confusion.hFlicker f0, drawEyes_x_of_zero _ h2 c0 a0⟩
  · intro hc ht hend
    have e0 : (RoboEyes_setVFlicker2 true a s).laughter
        = Laughter.mk true false s.laughAnimationTimer true (a % 256) := by
      show Laughter.mk s.laugh s.laughToggle _ _ _ = _
      rw [hc, ht]
      rfl
    have e1 : (drawEyes (RoboEyes_setVFlicker2 true a s) h).1.laughter
        = Laughter.mk false true s.laughAnimationTimer false 0 := by
      rw [drawEyes_laughter, e0]
      exact laughStep_end _ _ _ true hend
    refine ⟨congrArg Laughter.vFlicker e1, congrArg Laughter.vFlickerAmplitude e1, ?_⟩
    intro j h2
    have e2 := frames_laughter_rest j (drawEyes (RoboEyes_setVFlicker2 true a s) h).1
      (drawEyes (RoboEyes_setVFlicker2 true a s) h).2 (congrArg Laughter.laugh e1)
    rw [e1] at e2
    generalize (frames j (drawEyes (RoboEyes_setVFlicker2 true a s) h).1
      (drawEyes (RoboEyes_setVFlicker2 true a s) h).2).1 = y at e2 ⊢
    have c0 : (RoboEyes_setVFlicker true y).laugh = false := congrArg Laughter.laugh e2
    have a0 : (RoboEyes_setVFlicker true y).vFlickerAmplitude = 0 :=
      congrArg Laughter.vFlickerAmplitude e2
    have f0 : (drawEyes (RoboEyes_setVFlicker true y) h2).1.laughter
        = (RoboEyes_setVFlicker true y).laughter := by
      rw [drawEyes_laughter]
      exact laughStep_rest _ _ c0
    exact ⟨congrArg Laughter.vFlicker f0, drawEyes_y_of_zero _ h2 c0 a0⟩

/-- Witness for C24: on the engine whose clock reads 0, 300, 600, ..., the
confused (resp. laugh) animation started at 0 is running after two frames; the
caller then enables flicker with amplitude 7 and the next frame, reading 600,
ends the animation and the flicker. -/
theorem C24_shared_flicker_witness :
    ((drawEyes (RoboEyes_setHFlicker2 true 7
        (frames 2 (RoboEyes_anim_confused steppedEngine.1) steppedEngine.2).1)
        (frames 2 (RoboEyes_anim_confused steppedEngine.1) steppedEngine.2).2).1.hFlicker = false ∧
     (drawEyes (RoboEyes_setHFlicker2 true 7
        (frames 2 (RoboEyes_anim_confused steppedEngine.1) steppedEngine.2).1)
        (frames 2 (RoboEyes_anim_confused steppedEngine.1) steppedEngine.2).2).1.hFlickerAmplitude
          = 0) ∧
    ((drawEyes (RoboEyes_setVFlicker2 true 7
        (frames 2 (RoboEyes_anim_laugh steppedEngine.1) steppedEngine.2).1)
        (frames 2 (RoboEyes_anim_laugh steppedEngine.1) steppedEngine.2).2).1.vFlicker = false ∧
     (drawEyes (RoboEyes_setVFlicker2 true 7
        (frames 2 (RoboEyes_anim_laugh steppedEngine.1) steppedEngine.2).1)
        (frames 2 (RoboEyes_anim_laugh steppedEngine.1) steppedEngine.2).2).1.vFlickerAmplitude
          = 0) :=
  ⟨⟨((C24_shared_flicker (frames 2 (RoboEyes_anim_confused steppedEngine.1) steppedEngine.2).1
        (frames 2 (RoboEyes_anim_confused steppedEngine.1) steppedEngine.2).2 7).1
        (by decide) (by decide) (by decide)).1,
     ((C24_shared_flicker (frames 2 (RoboEyes_anim_confused steppedEngine.1) steppedEngine.2).1
        (frames 2 (RoboEyes_anim_confused steppedEngine.1) steppedEngine.2).2 7).1
        (by decide) (by decide) (by decide)).2.1⟩,
   ⟨((C24_shared_flicker (frames 2 (RoboEyes_anim_laugh steppedEngine.1) steppedEngine.2).1
        (frames 2 (RoboEyes_anim_laugh steppedEngine.1) steppedEngine.2).2 7).2
        (by decide) (by decide) (by decide)).1,
     ((C24_shared_flicker (frames 2 (RoboEyes_anim_laugh steppedEngine.1) steppedEngine.2).1
        (frames 2 (RoboEyes_anim_laugh steppedEngine.1) steppedEngine.2).2 7).2
        (by decide) (by decide) (by decide)).2.1⟩⟩

/-- C25, as stated, fails on frames in which a one-shot animation switches the
flicker.  On the engine whose clock reads 0, 300, 600, ...: the frame that
starts a confused animation begins with `hFlicker` off, yet displaces `eyeLx`
by -20 from its tweened value and negates `hFlickerAlternate`; the frame that
ends the animation (the third) begins with `hFlicker` on and amplitude 20, yet
leaves `eyeLx` at its tweened value and `hFlickerAlternate` as it was. -/
theorem C25_flicker_switched_within_frame :
    (RoboEyes_anim_confused steppedEngine.1).hFlicker = false ∧
    (drawEyes (RoboEyes_anim_confused steppedEngine.1) steppedEngine.2).1.eyeLx
      = (drawEyes_pre (RoboEyes_anim_confused steppedEngine.1)).eyeLx - 20 ∧
    (drawEyes (RoboEyes_anim_confused steppedEngine.1) steppedEngine.2).1.hFlickerAlternate
      = !(RoboEyes_anim_confused steppedEngine.1).hFlickerAlternate ∧
    (frames 2 (RoboEyes_anim_confused steppedEngine.1) steppedEngine.2).1.hFlicker = true ∧
    (frames 2 (RoboEyes_anim_confused steppedEngine.1) steppedEngine.2).1.hFlickerAmplitude = 20 ∧
    (drawEyes (frames 2 (RoboEyes_anim_confused steppedEngine.1) steppedEngine.2).1
        (frames 2 (RoboEyes_anim_confused steppedEngine.1) steppedEngine.2).2).1.eyeLx
      = (drawEyes_pre
          (frames 2 (RoboEyes_anim_confused steppedEngine.1) steppedEngine.2).1).eyeLx ∧
    (drawEyes (frames 2 (RoboEyes_anim_confused steppedEngine.1) steppedEngine.2).1
        (frames 2 (RoboEyes_anim_confused steppedEngine.1) steppedEngine.2).2).1.hFlickerAlternate
      = (frames 2 (RoboEyes_anim_confused steppedEngine.1)
          steppedEngine.2).1.hFlickerAlternate := by
  decide

/-- C25 (flicker is a square wave), with the flicker settings read where the
flicker blocks read them.  For every rendered frame: if `hFlicker` is on with
amplitude `a` when the frame reaches the flicker block (these are the values the
frame leaves behind, and they are the values at the start of the frame unless
a confused animation is pending), the frame displaces `eyeLx` and `eyeRx` from
their tweened values by `+a` if `hFlickerAlternate` was true before the frame
and by `-a` otherwise, and negates `hFlickerAlternate`; if `hFlicker` is then
off, the x coordinates are the tweened ones and `hFlickerAlternate` is kept.
The same for `vFlicker`, `eyeLy`, `eyeRy`, `vFlickerAlternate` and the laugh
animation. -/
theorem C25_flicker_square_wave (s : Engine) (h : Host) :
    (drawEyes s h).1.eyeLx
      = (drawEyes_pre s).eyeLx
        + (if (drawEyes s h).1.hFlicker then
            (if s.hFlickerAlternate then ((drawEyes s h).1.hFlickerAmplitude : Int)
             else -((drawEyes s h).1.hFlickerAmplitude : Int))
           else 0) ∧
    (drawEyes s h).1.eyeRx
      = (drawEyes_pre s).eyeRx
        + (if (drawEyes s h).1.hFlicker then
            (if s.hFlickerAlternate then ((drawEyes s h).1.hFlickerAmplitude : Int)
             else -((drawEyes s h).1.hFlickerAmplitude : Int))
           else 0) ∧
    (drawEyes s h).1.hFlickerAlternate
      = (if (drawEyes s h).1.hFlicker then !s.hFlickerAlternate else s.hFlickerAlternate) ∧
    (s.confused = true ∨
      ((drawEyes s h).1.hFlicker = s.hFlicker ∧
       (drawEyes s h).1.hFlickerAmplitude = s.hFlickerAmplitude)) ∧
    (drawEyes s h).1.eyeLy
      = (drawEyes_pre s).eyeLy
        + (if (drawEyes s h).1.vFlicker then
            (if s.vFlickerAlternate then ((drawEyes s h).1.vFlickerAmplitude : Int)
             else -((drawEyes s h).1.vFlickerAmplitude : Int))
           else 0) ∧
    (drawEyes s h).1.eyeRy
      = (drawEyes_pre s).eyeRy
        + (if (drawEyes s h).1.vFlicker then
            (if s.vFlickerAlternate then ((drawEyes s h).1.vFlickerAmplitude : Int)
             else -((drawEyes s h).1.vFlickerAmplitude : Int))
           else 0) ∧
    (drawEyes s h).1.vFlickerAlternate
      = (if (drawEyes s h).1.vFlicker then !s.vFlickerAlternate else s.vFlickerAlternate) ∧
    (s.laugh = true ∨
      ((drawEyes s h).1.vFlicker = s.vFlicker ∧
       (drawEyes s h).1.vFlickerAmplitude = s.vFlickerAmplitude)) := by
  obtain ⟨fc, fl⟩ := drawEyes_toFlicker_flags s h
  obtain ⟨hc, ha⟩ := drawEyes_coords s h
  have al := drawEyes_toFlicker_alternates s h
  have sh : hFlickerShift (drawEyes_toFlicker s h).1
      = (if (drawEyes s h).1.hFlicker then
          (if s.hFlickerAlternate then ((drawEyes s h).1.hFlickerAmplitude : Int)
           else -((drawEyes s h).1.hFlickerAmplitude : Int))
         else 0) := by
    unfold hFlickerShift
    rw [show (drawEyes_toFlicker s h).1.hFlicker = (drawEyes s h).1.hFlicker from
        congrArg Confusion.hFlicker fc,
      show (drawEyes_toFlicker s h).1.hFlickerAmplitude = (drawEyes s h).1.hFlickerAmplitude from
        congrArg Confusion.hFlickerAmplitude fc,
      show (drawEyes_toFlicker s h).1.hFlickerAlternate = s.hFlickerAlternate from
        congrArg (fun v => v.1) al]
  have sv : vFlickerShift (drawEyes_toFlicker s h).1
      = (if (drawEyes s h).1.vFlicker then
          (if s.vFlickerAlternate then ((drawEyes s h).1.vFlickerAmplitude : Int)
           else -((drawEyes s h).1.vFlickerAmplitude : Int))
         else 0) := by
    unfold vFlickerShift
    rw [show (drawEyes_toFlicker s h).1.vFlicker = (drawEyes s h).1.vFlicker from
        congrArg Laughter.vFlicker fl,
      show (drawEyes_toFlicker s h).1.vFlickerAmplitude = (drawEyes s h).1.vFlickerAmplitude from
        congrArg Laughter.vFlickerAmplitude fl,
      show (drawEyes_toFlicker s h).1.vFlickerAlternate = s.vFlickerAlternate from
        congrArg (fun v => v.2) al]
  rw [show (drawEyes_toFlicker s h).1.hFlicker = (drawEyes s h).1.hFlicker from
      congrArg Confusion.hFlicker fc,
    show (drawEyes_toFlicker s h).1.vFlicker = (drawEyes s h).1.vFlicker from
      congrArg Laughter.vFlicker fl] at ha
  rw [sh, sv] at hc
  refine ⟨congrArg (fun v => v.1) hc, congrArg (fun v => v.2.1) hc, congrArg (fun v => v.1) ha,
    ?_, congrArg (fun v => v.2.2.1) hc, congrArg (fun v => v.2.2.2) hc,
    congrArg (fun v => v.2) ha, ?_⟩
  · cases hcf : s.confused
    · right
      have e : (drawEyes s h).1.confusion = s.confusion := by
        rw [drawEyes_confusion]
        exact confusedStep_rest _ _ hcf
      exact ⟨congrArg Confusion.hFlicker e, congrArg Confusion.hFlickerAmplitude e⟩
    · left
      rfl
  · cases hcf : s.laugh
    · right
      have e : (drawEyes s h).1.laughter = s.laughter := by
        rw [drawEyes_laughter]
        exact laughStep_rest _ _ hcf
      exact ⟨congrArg Laughter.vFlicker e, congrArg Laughter.vFlickerAmplitude e⟩
    · left
      rfl

/-! ## C26: eyelid targets -/

theorem drawEyes_curious_eyelids (s : Engine) :
    (drawEyes_curious s).eyelids = s.eyelids := by
  unfold drawEyes_curious RoboEyes_getScreenConstraint_X
  simp only []
  split_ifs <;> rfl

theorem drawEyes_height_eyelids (s : Engine) :
    (drawEyes_height s).eyelids = s.eyelids := by
  rfl

theorem drawEyes_reopen_eyelids (s : Engine) :
    (drawEyes_reopen s).eyelids = s.eyelids := by
  unfold drawEyes_reopen
  simp only []
  split_ifs <;> rfl

theorem drawEyes_tween_eyelids (s : Engine) :
    (drawEyes_tween s).eyelids = s.eyelids := by
  rfl

theorem drawEyes_autoblink_eyelids (s : Engine) (h : Host) :
    (drawEyes_autoblink s h).1.eyelids = s.eyelids := by
  unfold drawEyes_autoblink
  simp only []
  split_ifs <;> rfl

theorem drawEyes_laugh_eyelids (s : Engine) (h : Host) :
    (drawEyes_laugh s h).1.eyelids = s.eyelids := by
  unfold drawEyes_laugh
  simp only []
  split_ifs <;> rfl

theorem drawEyes_confused_eyelids (s : Engine) (h : Host) :
    (drawEyes_confused s h).1.eyelids = s.eyelids := by
  unfold drawEyes_confused
  simp only []
  split_ifs <;> rfl

theorem drawEyes_idle_eyelids (s : Engine) (h : Host) :
    (drawEyes_idle s h).1.eyelids = s.eyelids := by
  unfold drawEyes_idle
  simp only []
  split_ifs <;> rfl

theorem drawEyes_hFlicker_eyelids (s : Engine) :
    (drawEyes_hFlicker s).eyelids = s.eyelids := by
  unfold drawEyes_hFlicker
  simp only []
  split_ifs <;> rfl

theorem drawEyes_vFlicker_eyelids (s : Engine) :
    (drawEyes_vFlicker s).eyelids = s.eyelids := by
  unfold drawEyes_vFlicker
  simp only []
  split_ifs <;> rfl

theorem drawEyes_cyclops_eyelids (s : Engine) :
    (drawEyes_cyclops s).eyelids = s.eyelids := by
  unfold drawEyes_cyclops
  split_ifs <;> rfl

theorem drawEyes_anim_eyelids (s : Engine) (h : Host) :
    (drawEyes_anim s h).1.eyelids = s.eyelids := by
  unfold drawEyes_anim drawEyes_pre
  simp only []
  rw [drawEyes_vFlicker_eyelids, drawEyes_hFlicker_eyelids, drawEyes_idle_eyelids,
    drawEyes_confused_eyelids, drawEyes_laugh_eyelids, drawEyes_autoblink_eyelids,
    drawEyes_tween_eyelids, drawEyes_reopen_eyelids, drawEyes_height_eyelids,
    drawEyes_curious_eyelids]

theorem drawEyes_moodTargets_tiredNext (t : Engine) :
    (drawEyes_moodTargets t).eyelidsTiredHeightNext
      = (if t.tired = true ∧ t.angry = false then toU8 (Int.tdiv t.eyeLheightCurrent 2) else 0) := by
  unfold drawEyes_moodTargets
  simp only []
  split_ifs <;> first | rfl | simp_all

theorem drawEyes_moodTargets_angryNext (t : Engine) :
    (drawEyes_moodTargets t).eyelidsAngryHeightNext
      = (if t.angry = true then toU8 (Int.tdiv t.eyeLheightCurrent 2) else 0) := by
  unfold drawEyes_moodTargets
  simp only []
  split_ifs <;> rfl

theorem drawEyes_moodTargets_happyNext (t : Engine) :
    (drawEyes_moodTargets t).eyelidsHappyBottomOffsetNext
      = (if t.happy = true then toU8 (Int.tdiv t.eyeLheightCurrent 2) else 0) := by
  unfold drawEyes_moodTargets
  simp only []
  split_ifs <;> rfl

theorem drawEyes_moodTargets_kept (t : Engine) :
    (drawEyes_moodTargets t).eyelids = t.eyelids ∧
    (drawEyes_moodTargets t).eyeLheightCurrent = t.eyeLheightCurrent := by
  unfold drawEyes_moodTargets
  simp only []
  split_ifs <;> exact ⟨rfl, rfl⟩

/-- The eyelid targets the mood block sets. -/
theorem drawEyes_moodTargets_next (t : Engine) :
    (drawEyes_moodTargets t).eyelidsTiredHeightNext
      = (if t.tired = true ∧ t.angry = false then toU8 (Int.tdiv t.eyeLheightCurrent 2) else 0) ∧
    (drawEyes_moodTargets t).eyelidsAngryHeightNext
      = (if t.angry = true then toU8 (Int.tdiv t.eyeLheightCurrent 2) else 0) ∧
    (drawEyes_moodTargets t).eyelidsHappyBottomOffsetNext
      = (if t.happy = true then toU8 (Int.tdiv t.eyeLheightCurrent 2) else 0) ∧
    (drawEyes_moodTargets t).eyelids = t.eyelids ∧
    (drawEyes_moodTargets t).eyeLheightCurrent = t.eyeLheightCurrent :=
  ⟨drawEyes_moodTargets_tiredNext t, drawEyes_moodTargets_angryNext t,
    drawEyes_moodTargets_happyNext t, (drawEyes_moodTargets_kept t).1,
    (drawEyes_moodTargets_kept t).2⟩

theorem drawEyes_tired_lidState (x : Engine) (h : Host) :
    (drawEyes_tired x h).1.lidState
      = (x.eyelidsTiredHeightNext, x.eyelidsAngryHeightNext, x.eyelidsHappyBottomOffsetNext,
          tween8 x.eyelidsTiredHeight x.eyelidsTiredHeightNext, x.eyelidsAngryHeight,
          x.eyelidsHappyBottomOffset, x.eyeLheightCurrent) := by
  rw [drawEyes_tired_fst]
  rfl

theorem drawEyes_angry_lidState (x : Engine) (h : Host) :
    (drawEyes_angry x h).1.lidState
      = (x.eyelidsTiredHeightNext, x.eyelidsAngryHeightNext, x.eyelidsHappyBottomOffsetNext,
          x.eyelidsTiredHeight, tween8 x.eyelidsAngryHeight x.eyelidsAngryHeightNext,
          x.eyelidsHappyBottomOffset, x.eyeLheightCurrent) := by
  rw [drawEyes_angry_fst]
  rfl

theorem drawEyes_happy_lidState (x : Engine) (h : Host) :
    (drawEyes_happy x h).1.lidState
      = (x.eyelidsTiredHeightNext, x.eyelidsAngryHeightNext, x.eyelidsHappyBottomOffsetNext,
          x.eyelidsTiredHeight, x.eyelidsAngryHeight,
          tween8 x.eyelidsHappyBottomOffset x.eyelidsHappyBottomOffsetNext,
          x.eyeLheightCurrent) := by
  rw [drawEyes_happy_fst]
  rfl

theorem drawEyes_sweat_lidState (x : Engine) (h : Host) :
    (drawEyes_sweat x h).1.lidState = x.lidState := by
  rw [drawEyes_sweat_fst]
  rfl

/-- The drawing part of a frame on the eyelid fields. -/
theorem drawEyes_render_lidsteps (t : Engine) (h : Host) :
    (drawEyes_render t h).1.eyelidsTiredHeightNext
      = (drawEyes_moodTargets t).eyelidsTiredHeightNext ∧
    (drawEyes_render t h).1.eyelidsAngryHeightNext
      = (drawEyes_moodTargets t).eyelidsAngryHeightNext ∧
    (drawEyes_render t h).1.eyelidsHappyBottomOffsetNext
      = (drawEyes_moodTargets t).eyelidsHappyBottomOffsetNext ∧
    (drawEyes_render t h).1.eyelidsTiredHeight
      = tween8 (drawEyes_moodTargets t).eyelidsTiredHeight
          (drawEyes_moodTargets t).eyelidsTiredHeightNext ∧
    (drawEyes_render t h).1.eyelidsAngryHeight
      = tween8 (drawEyes_moodTargets t).eyelidsAngryHeight
          (drawEyes_moodTargets t).eyelidsAngryHeightNext ∧
    (drawEyes_render t h).1.eyelidsHappyBottomOffset
      = tween8 (drawEyes_moodTargets t).eyelidsHappyBottomOffset
          (drawEyes_moodTargets t).eyelidsHappyBottomOffsetNext ∧
    (drawEyes_render t h).1.eyeLheightCurrent = (drawEyes_moodTargets t).eyeLheightCurrent := by
  have e : (drawEyes_render t h).1.lidState
      = ((drawEyes_moodTargets t).eyelidsTiredHeightNext,
          (drawEyes_moodTargets t).eyelidsAngryHeightNext,
          (drawEyes_moodTargets t).eyelidsHappyBottomOffsetNext,
          tween8 (drawEyes_moodTargets t).eyelidsTiredHeight
            (drawEyes_moodTargets t).eyelidsTiredHeightNext,
          tween8 (drawEyes_moodTargets t).eyelidsAngryHeight
            (drawEyes_moodTargets t).eyelidsAngryHeightNext,
          tween8 (drawEyes_moodTargets t).eyelidsHappyBottomOffset
            (drawEyes_moodTargets t).eyelidsHappyBottomOffsetNext,
          (drawEyes_moodTargets t).eyeLheightCurrent) := by
    unfold drawEyes_render
    simp only []
    generalize drawEyes_base t h = hb
    have e1 := drawEyes_tired_lidState (drawEyes_moodTargets t) hb
    generalize drawEyes_tired (drawEyes_moodTargets t) hb = a at e1 ⊢
    have e2 := drawEyes_angry_lidState a.1 a.2
    generalize drawEyes_angry a.1 a.2 = b at e2 ⊢
    have e3 := drawEyes_happy_lidState b.1 b.2
    generalize drawEyes_happy b.1 b.2 = c at e3 ⊢
    rw [drawEyes_sweat_lidState, e3]
    have b1 : b.1.eyelidsTiredHeightNext = a.1.eyelidsTiredHeightNext :=
      congrArg (fun v => v.1) e2
    have b2 : b.1.eyelidsAngryHeightNext = a.1.eyelidsAngryHeightNext :=
      congrArg (fun v => v.2.1) e2
    have b3 : b.1.eyelidsHappyBottomOffsetNext = a.1.eyelidsHappyBottomOffsetNext :=
      congrArg (fun v => v.2.2.1) e2
    have b4 : b.1.eyelidsTiredHeight = a.1.eyelidsTiredHeight :=
      congrArg (fun v => v.2.2.2.1) e2
    have b5 : b.1.eyelidsAngryHeight
        = tween8 a.1.eyelidsAngryHeight a.1.eyelidsAngryHeightNext :=
      congrArg (fun v => v.2.2.2.2.1) e2
    have b6 : b.1.eyelidsHappyBottomOffset = a.1.eyelidsHappyBottomOffset :=
      congrArg (fun v => v.2.2.2.2.2.1) e2
    have b7 : b.1.eyeLheightCurrent = a.1.eyeLheightCurrent :=
      congrArg (fun v => v.2.2.2.2.2.2) e2
    have a1 : a.1.eyelidsTiredHeightNext = (drawEyes_moodTargets t).eyelidsTiredHeightNext :=
      congrArg (fun v => v.1) e1
    have a2 : a.1.eyelidsAngryHeightNext = (drawEyes_moodTargets t).eyelidsAngryHeightNext :=
      congrArg (fun v => v.2.1) e1
    have a3 : a.1.eyelidsHappyBottomOffsetNext
        = (drawEyes_moodTargets t).eyelidsHappyBottomOffsetNext :=
      congrArg (fun v => v.2.2.1) e1
    have a4 : a.1.eyelidsTiredHeight
        = tween8 (drawEyes_moodTargets t).eyelidsTiredHeight
            (drawEyes_moodTargets t).eyelidsTiredHeightNext :=
      congrArg (fun v => v.2.2.2.1) e1
    have a5 : a.1.eyelidsAngryHeight = (drawEyes_moodTargets t).eyelidsAngryHeight :=
      congrArg (fun v => v.2.2.2.2.1) e1
    have a6 : a.1.eyelidsHappyBottomOffset = (drawEyes_moodTargets t).eyelidsHappyBottomOffset :=
      congrArg (fun v => v.2.2.2.2.2.1) e1
    have a7 : a.1.eyeLheightCurrent = (drawEyes_moodTargets t).eyeLheightCurrent :=
      congrArg (fun v => v.2.2.2.2.2.2) e1
    rw [b1, b2, b3, b4, b5, b6, b7, a1, a2, a3, a4, a5, a6, a7]
  exact ⟨congrArg (fun v => v.1) e, congrArg (fun v => v.2.1) e, congrArg (fun v => v.2.2.1) e,
    congrArg (fun v => v.2.2.2.1) e, congrArg (fun v => v.2.2.2.2.1) e,
    congrArg (fun v => v.2.2.2.2.2.1) e, congrArg (fun v => v.2.2.2.2.2.2) e⟩

theorem toU8_half (c : Int) (h0 : 0 ≤ c) (h1 : c < 512) :
    ((toU8 (Int.tdiv c 2) : Nat) : Int) = Int.tdiv c 2 := by
  have e : Int.tdiv c 2 = c / 2 := Int.tdiv_eq_ediv h0 (by decide)
  rw [e]
  unfold toU8
  omega

theorem ite_toU8_lt (P : Prop) [Decidable P] (x : Int) :
    (if P then toU8 x else 0) < 256 := by
  split_ifs
  · unfold toU8
    omega
  · decide

/-- One tween step on `uint8_t` values: the stored value is `(c + n) / 2`, lies
between `c` and `n`, and equals `c` only for `n = c` or `n = c + 1`. -/
theorem tween8_toward (c n : Nat) (hn : n < 256) :
    256 ≤ c ∨
      (tween8 c n = (c + n) / 2 ∧
        ((c ≤ tween8 c n ∧ tween8 c n ≤ n) ∨ (n ≤ tween8 c n ∧ tween8 c n ≤ c)) ∧
        (tween8 c n = c ↔ (n = c ∨ n = c + 1))) := by
  unfold tween8
  omega

/-- C26 (eyelid targets).  For every state (every combination of `tired`,
`angry`, `happy`) and every host, after a rendered frame, `c` being the left
eye's current height after that frame (the height tweened in the frame):
`eyelidsTiredHeightNext` is `c / 2` when tired and not angry, else 0;
`eyelidsAngryHeightNext` is `c / 2` when angry, else 0;
`eyelidsHappyBottomOffsetNext` is `c / 2` when happy, else 0 (`c / 2` stored in
a `uint8_t`, which is `c / 2` itself for `0 ≤ c < 512`); the tired and angry
targets are never both nonzero; each eyelid's current value becomes
`(old + target) / 2` with `old` its value before the frame (integer division,
stored in a `uint8_t`).  For `old < 256` this is `(old + target) / 2` itself,
it lies between `old` and the target, and it equals `old` only when the target
is `old` or `old + 1`.  The mood flags are unchanged. -/
theorem C26_eyelid_targets (s : Engine) (h : Host) :
    (drawEyes s h).1.eyelidsTiredHeightNext
      = (if s.tired = true ∧ s.angry = false
          then toU8 (Int.tdiv (drawEyes s h).1.eyeLheightCurrent 2) else 0) ∧
    (drawEyes s h).1.eyelidsAngryHeightNext
      = (if s.angry = true then toU8 (Int.tdiv (drawEyes s h).1.eyeLheightCurrent 2) else 0) ∧
    (drawEyes s h).1.eyelidsHappyBottomOffsetNext
      = (if s.happy = true then toU8 (Int.tdiv (drawEyes s h).1.eyeLheightCurrent 2) else 0) ∧
    ((drawEyes s h).1.eyelidsTiredHeightNext = 0 ∨
      (drawEyes s h).1.eyelidsAngryHeightNext = 0) ∧
    ((drawEyes s h).1.eyeLheightCurrent < 0 ∨ 512 ≤ (drawEyes s h).1.eyeLheightCurrent ∨
      ((toU8 (Int.tdiv (drawEyes s h).1.eyeLheightCurrent 2) : Nat) : Int)
        = Int.tdiv (drawEyes s h).1.eyeLheightCurrent 2) ∧
    (drawEyes s h).1.eyelidsTiredHeight
      = ((s.eyelidsTiredHeight + (drawEyes s h).1.eyelidsTiredHeightNext) / 2) % 256 ∧
    (drawEyes s h).1.eyelidsAngryHeight
      = ((s.eyelidsAngryHeight + (drawEyes s h).1.eyelidsAngryHeightNext) / 2) % 256 ∧
    (drawEyes s h).1.eyelidsHappyBottomOffset
      = ((s.eyelidsHappyBottomOffset + (drawEyes s h).1.eyelidsHappyBottomOffsetNext) / 2) % 256 ∧
    (256 ≤ s.eyelidsTiredHeight ∨
      ((drawEyes s h).1.eyelidsTiredHeight
          = (s.eyelidsTiredHeight + (drawEyes s h).1.eyelidsTiredHeightNext) / 2 ∧
        ((s.eyelidsTiredHeight ≤ (drawEyes s h).1.eyelidsTiredHeight ∧
            (drawEyes s h).1.eyelidsTiredHeight ≤ (drawEyes s h).1.eyelidsTiredHeightNext) ∨
          ((drawEyes s h).1.eyelidsTiredHeightNext ≤ (drawEyes s h).1.eyelidsTiredHeight ∧
            (drawEyes s h).1.eyelidsTiredHeight ≤ s.eyelidsTiredHeight)) ∧
        ((drawEyes s h).1.eyelidsTiredHeight = s.eyelidsTiredHeight ↔
          ((drawEyes s h).1.eyelidsTiredHeightNext = s.eyelidsTiredHeight ∨
            (drawEyes s h).1.eyelidsTiredHeightNext = s.eyelidsTiredHeight + 1)))) ∧
    (256 ≤ s.eyelidsAngryHeight ∨
      ((drawEyes s h).1.eyelidsAngryHeight
          = (s.eyelidsAngryHeight + (drawEyes s h).1.eyelidsAngryHeightNext) / 2 ∧
        ((s.eyelidsAngryHeight ≤ (drawEyes s h).1.eyelidsAngryHeight ∧
            (drawEyes s h).1.eyelidsAngryHeight ≤ (drawEyes s h).1.eyelidsAngryHeightNext) ∨
          ((drawEyes s h).1.eyelidsAngryHeightNext ≤ (drawEyes s h).1.eyelidsAngryHeight ∧
            (drawEyes s h).1.eyelidsAngryHeight ≤ s.eyelidsAngryHeight)) ∧
        ((drawEyes s h).1.eyelidsAngryHeight = s.eyelidsAngryHeight ↔
          ((drawEyes s h).1.eyelidsAngryHeightNext = s.eyelidsAngryHeight ∨
            (drawEyes s h).1.eyelidsAngryHeightNext = s.eyelidsAngryHeight + 1)))) ∧
    (256 ≤ s.eyelidsHappyBottomOffset ∨
      ((drawEyes s h).1.eyelidsHappyBottomOffset
          = (s.eyelidsHappyBottomOffset + (drawEyes s h).1.eyelidsHappyBottomOffsetNext) / 2 ∧
        ((s.eyelidsHappyBottomOffset ≤ (drawEyes s h).1.eyelidsHappyBottomOffset ∧
            (drawEyes s h).1.eyelidsHappyBottomOffset ≤ (drawEyes s h).1.eyelidsHappyBottomOffsetNext) ∨
          ((drawEyes s h).1.eyelidsHappyBottomOffsetNext ≤ (drawEyes s h).1.eyelidsHappyBottomOffset ∧
            (drawEyes s h).1.eyelidsHappyBottomOffset ≤ s.eyelidsHappyBottomOffset)) ∧
        ((drawEyes s h).1.eyelidsHappyBottomOffset = s.eyelidsHappyBottomOffset ↔
          ((drawEyes s h).1.eyelidsHappyBottomOffsetNext = s.eyelidsHappyBottomOffset ∨
            (drawEyes s h).1.eyelidsHappyBottomOffsetNext = s.eyelidsHappyBottomOffset + 1)))) ∧
    (drawEyes s h).1.tired = s.tired ∧ (drawEyes s h).1.angry = s.angry ∧
    (drawEyes s h).1.happy = s.happy := by
  have hf : (drawEyes_cyclops (drawEyes_anim s h).1).fixed = s.fixed := by
    rw [drawEyes_cyclops_fixed, drawEyes_anim_fixed]
  have hl : (drawEyes_cyclops (drawEyes_anim s h).1).eyelids = s.eyelids := by
    rw [drawEyes_cyclops_eyelids, drawEyes_anim_eyelids]
  have hx := drawEyes_fixed s h
  have hd : drawEyes s h
      = drawEyes_render (drawEyes_cyclops (drawEyes_anim s h).1) (drawEyes_anim s h).2 := rfl
  rw [hd] at hx ⊢
  generalize drawEyes_cyclops (drawEyes_anim s h).1 = t at hf hl hx ⊢
  generalize (drawEyes_anim s h).2 = h1 at hx ⊢
  obtain ⟨r1, r2, r3, r4, r5, r6, r7⟩ := drawEyes_render_lidsteps t h1
  obtain ⟨m1, m2, m3, m4, m5⟩ := drawEyes_moodTargets_next t
  have t1 : t.tired = s.tired := congrArg Fixed.tired hf
  have t2 : t.angry = s.angry := congrArg Fixed.angry hf
  have t3 : t.happy = s.happy := congrArg Fixed.happy hf
  have l1 : (drawEyes_moodTargets t).eyelidsTiredHeight = s.eyelidsTiredHeight :=
    (congrArg (fun v => v.1) m4).trans (congrArg (fun v => v.1) hl)
  have l2 : (drawEyes_moodTargets t).eyelidsAngryHeight = s.eyelidsAngryHeight :=
    (congrArg (fun v => v.2.1) m4).trans (congrArg (fun v => v.2.1) hl)
  have l3 : (drawEyes_moodTargets t).eyelidsHappyBottomOffset = s.eyelidsHappyBottomOffset :=
    (congrArg (fun v => v.2.2) m4).trans (congrArg (fun v => v.2.2) hl)
  rw [r7, m5]
  rw [r1, r2, r3, r4, r5, r6, l1, l2, l3, m1, m2, m3, t1, t2, t3]
  refine ⟨rfl, rfl, rfl, ?_, ?_, rfl, rfl, rfl, tween8_toward _ _ (ite_toU8_lt _ _),
    tween8_toward _ _ (ite_toU8_lt _ _), tween8_toward _ _ (ite_toU8_lt _ _),
    congrArg Fixed.tired hx, congrArg Fixed.angry hx, congrArg Fixed.happy hx⟩
  · cases s.tired <;> cases s.angry <;> simp
  · rcases lt_or_le t.eyeLheightCurrent 0 with c0 | c0
    · exact Or.inl c0
    · rcases le_or_lt 512 t.eyeLheightCurrent with c1 | c1
      · exact Or.inr (Or.inl c1)
      · exact Or.inr (Or.inr (toU8_half _ c0 c1))

/-! ## C27: happy overlay -/

/-- C27, as stated, fails: the height of the happy overlay is the eye's
default height, not the tweened offset.  The resting engine in happy mood: the
frame leaves `eyelidsHappyBottomOffset = 4` and the overlay of the left eye is
the rectangle at (78, 68) of width 38 and height 36 (the default height), that
of the right eye the rectangle at (124, 68) of width 38 and height 36. -/
theorem C27_overlay_height_is_default :
    (drawEyes happyEngine.1 happyEngine.2).1.eyelidsHappyBottomOffset = 4 ∧
    (drawEyes happyEngine.1 happyEngine.2).1.eyeLheightDefault = 36 ∧
    (drawEyes happyEngine.1 happyEngine.2).2.trace.drop (happyEngine.2.trace.length + 7)
      = [DrawCall.drawRoundedRectangle 78 68 38 36 8 0,
         DrawCall.drawRoundedRectangle 124 68 38 36 8 0, DrawCall.updateDisplay] := by
  decide

/-- C27 (happy overlay geometry), with the height the code passes.  On every
rendered frame (drawing capabilities bound) the calls between the angry
triangles and the sweat droplets are: for the left eye a rounded rectangle in
BGCOLOR at `x = eyeLx - 1`,
`y = eyeLy + eyeLheightCurrent - eyelidsHappyBottomOffset + 1`, of width
`eyeLwidthCurrent + 2` and height `eyeLheightDefault`; unless cyclops, the same
for the right eye with its own fields; `eyelidsHappyBottomOffset` being the
offset tweened in that frame.  The tweened offset sets where the overlay
starts, its height is the default height of the eye. -/
theorem C27_happy_overlay (s : Engine) (h : Host) :
    (drawEyes (withDrawPtrs true true true true s) h).2.trace
      = h.trace
        ++ (specBaseCalls (drawEyes (withDrawPtrs true true true true s) h).1
          ++ specTiredCalls (drawEyes (withDrawPtrs true true true true s) h).1
          ++ specAngryCalls (drawEyes (withDrawPtrs true true true true s) h).1)
        ++ ([DrawCall.drawRoundedRectangle
              ((drawEyes (withDrawPtrs true true true true s) h).1.eyeLx - 1)
              (((drawEyes (withDrawPtrs true true true true s) h).1.eyeLy
                + (drawEyes (withDrawPtrs true true true true s) h).1.eyeLheightCurrent)
                - ((drawEyes (withDrawPtrs true true true true s) h).1.eyelidsHappyBottomOffset
                    : Int) + 1)
              ((drawEyes (withDrawPtrs true true true true s) h).1.eyeLwidthCurrent + 2)
              (drawEyes (withDrawPtrs true true true true s) h).1.eyeLheightDefault
              ((drawEyes (withDrawPtrs true true true true s) h).1.eyeLborderRadiusCurrent : Int)
              (drawEyes (withDrawPtrs true true true true s) h).1.BGCOLOR]
          ++ (if (drawEyes (withDrawPtrs true true true true s) h).1.cyclops = true then []
              else [DrawCall.drawRoundedRectangle
              ((drawEyes (withDrawPtrs true true true true s) h).1.eyeRx - 1)
              (((drawEyes (withDrawPtrs true true true true s) h).1.eyeRy
                + (drawEyes (withDrawPtrs true true true true s) h).1.eyeRheightCurrent)
                - ((drawEyes (withDrawPtrs true true true true s) h).1.eyelidsHappyBottomOffset
                    : Int) + 1)
              ((drawEyes (withDrawPtrs true true true true s) h).1.eyeRwidthCurrent + 2)
              (drawEyes (withDrawPtrs true true true true s) h).1.eyeRheightDefault
              ((drawEyes (withDrawPtrs true true true true s) h).1.eyeRborderRadiusCurrent : Int)
              (drawEyes (withDrawPtrs true true true true s) h).1.BGCOLOR]))
        ++ (specSweatCalls (drawEyes (withDrawPtrs true true true true s) h).1
          ++ [DrawCall.updateDisplay]) ∧
    (drawEyes s h).1.eyelidsHappyBottomOffset
      = tween8 s.eyelidsHappyBottomOffset (drawEyes s h).1.eyelidsHappyBottomOffsetNext ∧
    (drawEyes s h).1.eyeLheightDefault = s.eyeLheightDefault ∧
    (drawEyes s h).1.eyeRheightDefault = s.eyeRheightDefault := by
  refine ⟨?_, ?_, congrArg Settings.eyeLheightDefault (drawEyes_settings s h),
    congrArg Settings.eyeRheightDefault (drawEyes_settings s h)⟩
  · have e := drawEyes_trace (withDrawPtrs true true true true s) h
    rw [(drawEyes_with true true true true s h).1] at e ⊢
    rw [e, filter_all _ (accepts_bound _)]
    unfold specDrawOrder specHappyCalls
    simp only [List.append_assoc]
  · have hl : (drawEyes_cyclops (drawEyes_anim s h).1).eyelids = s.eyelids := by
      rw [drawEyes_cyclops_eyelids, drawEyes_anim_eyelids]
    have hd : drawEyes s h
        = drawEyes_render (drawEyes_cyclops (drawEyes_anim s h).1) (drawEyes_anim s h).2 := rfl
    rw [hd]
    generalize drawEyes_cyclops (drawEyes_anim s h).1 = t at hl ⊢
    obtain ⟨_, _, r3, _, _, r6, _⟩ := drawEyes_render_lidsteps t (drawEyes_anim s h).2
    obtain ⟨_, _, _, m4, _⟩ := drawEyes_moodTargets_next t
    have l3 : (drawEyes_moodTargets t).eyelidsHappyBottomOffset = s.eyelidsHappyBottomOffset :=
      (congrArg (fun v => v.2.2) m4).trans (congrArg (fun v => v.2.2) hl)
    rw [r6, r3, l3]

/-! ## C28: curious-mode offsets -/

theorem drawEyes_height_offsets (s : Engine) :
    (drawEyes_height s).offsets = s.offsets := by
  rfl

theorem drawEyes_reopen_offsets (s : Engine) :
    (drawEyes_reopen s).offsets = s.offsets := by
  unfold drawEyes_reopen
  simp only []
  split_ifs <;> rfl

theorem drawEyes_tween_offsets (s : Engine) :
    (drawEyes_tween s).offsets = s.offsets := by
  rfl

theorem drawEyes_autoblink_offsets (s : Engine) (h : Host) :
    (drawEyes_autoblink s h).1.offsets = s.offsets := by
  unfold drawEyes_autoblink
  simp only []
  split_ifs <;> rfl

theorem drawEyes_laugh_offsets (s : Engine) (h : Host) :
    (drawEyes_laugh s h).1.offsets = s.offsets := by
  unfold drawEyes_laugh
  simp only []
  split_ifs <;> rfl

theorem drawEyes_confused_offsets (s : Engine) (h : Host) :
    (drawEyes_confused s h).1.offsets = s.offsets := by
  unfold drawEyes_confused
  simp only []
  split_ifs <;> rfl

theorem drawEyes_idle_offsets (s : Engine) (h : Host) :
    (drawEyes_idle s h).1.offsets = s.offsets := by
  unfold drawEyes_idle
  simp only []
  split_ifs <;> rfl

theorem drawEyes_hFlicker_offsets (s : Engine) :
    (drawEyes_hFlicker s).offsets = s.offsets := by
  unfold drawEyes_hFlicker
  simp only []
  split_ifs <;> rfl

theorem drawEyes_vFlicker_offsets (s : Engine) :
    (drawEyes_vFlicker s).offsets = s.offsets := by
  unfold drawEyes_vFlicker
  simp only []
  split_ifs <;> rfl

theorem drawEyes_cyclops_offsets (s : Engine) :
    (drawEyes_cyclops s).offsets = s.offsets := by
  unfold drawEyes_cyclops
  split_ifs <;> rfl

theorem drawEyes_moodTargets_offsets (s : Engine) :
    (drawEyes_moodTargets s).offsets = s.offsets := by
  unfold drawEyes_moodTargets
  simp only []
  split_ifs <;> rfl

theorem drawEyes_tired_offsets (s : Engine) (h : Host) :
    (drawEyes_tired s h).1.offsets = s.offsets := by
  rw [drawEyes_tired_fst]
  rfl

theorem drawEyes_angry_offsets (s : Engine) (h : Host) :
    (drawEyes_angry s h).1.offsets = s.offsets := by
  rw [drawEyes_angry_fst]
  rfl

theorem drawEyes_happy_offsets (s : Engine) (h : Host) :
    (drawEyes_happy s h).1.offsets = s.offsets := by
  rw [drawEyes_happy_fst]
  rfl

theorem drawEyes_sweat_offsets (s : Engine) (h : Host) :
    (drawEyes_sweat s h).1.offsets = s.offsets := by
  rw [drawEyes_sweat_fst]
  rfl

/-- The offsets the curious block sets. -/
theorem drawEyes_curious_sets (s : Engine) :
    (drawEyes_curious s).eyeLheightOffset
      = (if s.curious = true ∧ (s.eyeLxNext ≤ 10 ∨
            (s.cyclops = true ∧ RoboEyes_getScreenConstraint_X s - 10 ≤ s.eyeLxNext))
          then 8 else 0) ∧
    (drawEyes_curious s).eyeRheightOffset
      = (if s.curious = true ∧ s.screenWidth - s.eyeRwidthCurrent - 10 ≤ s.eyeRxNext
          then 8 else 0) := by
  constructor
  · unfold drawEyes_curious
    simp only []
    split_ifs <;> first | rfl | (exfalso; tauto)
  · unfold drawEyes_curious
    simp only []
    split_ifs <;> first | rfl | (exfalso; tauto)

theorem drawEyes_render_offsets (s : Engine) (h : Host) :
    (drawEyes_render s h).1.offsets = s.offsets := by
  unfold drawEyes_render
  simp only []
  rw [drawEyes_sweat_offsets, drawEyes_happy_offsets, drawEyes_angry_offsets,
    drawEyes_tired_offsets, drawEyes_moodTargets_offsets]

/-- After a frame the offsets are those its curious block set. -/
theorem drawEyes_offsets (s : Engine) (h : Host) :
    (drawEyes s h).1.offsets = (drawEyes_curious s).offsets := by
  unfold drawEyes
  simp only []
  rw [drawEyes_render_offsets, drawEyes_cyclops_offsets]
  unfold drawEyes_anim drawEyes_pre
  simp only []
  rw [drawEyes_vFlicker_offsets, drawEyes_hFlicker_offsets, drawEyes_idle_offsets,
    drawEyes_confused_offsets, drawEyes_laugh_offsets, drawEyes_autoblink_offsets,
    drawEyes_tween_offsets, drawEyes_reopen_offsets, drawEyes_height_offsets]

/-- C28 (curious-mode offsets).  For every state and host, with `cx` the
value of `RoboEyes_getScreenConstraint_X()` at the start of the frame: the
frame sets `eyeLheightOffset` to 8 if curious and (`eyeLxNext ≤ 10` or (cyclops
and `eyeLxNext ≥ cx - 10`)), else to 0, and `eyeRheightOffset` to 8 if curious
and `eyeRxNext ≥ screenWidth - eyeRwidthCurrent - 10`, else to 0 (all fields
read at the start of the frame); nothing later in the frame changes them.
Hence each offset is 0 or 8, both are 0 when curiosity is off, and without
cyclops the left offset is 0 unless `eyeLxNext ≤ 10`. -/
theorem C28_curious_offsets (s : Engine) (h : Host) :
    (drawEyes s h).1.eyeLheightOffset
      = (if s.curious = true ∧ (s.eyeLxNext ≤ 10 ∨
            (s.cyclops = true ∧ RoboEyes_getScreenConstraint_X s - 10 ≤ s.eyeLxNext))
          then 8 else 0) ∧
    (drawEyes s h).1.eyeRheightOffset
      = (if s.curious = true ∧ s.screenWidth - s.eyeRwidthCurrent - 10 ≤ s.eyeRxNext
          then 8 else 0) ∧
    ((drawEyes s h).1.eyeLheightOffset = 0 ∨ (drawEyes s h).1.eyeLheightOffset = 8) ∧
    ((drawEyes s h).1.eyeRheightOffset = 0 ∨ (drawEyes s h).1.eyeRheightOffset = 8) ∧
    (s.curious = true ∨
      ((drawEyes s h).1.eyeLheightOffset = 0 ∧ (drawEyes s h).1.eyeRheightOffset = 0)) ∧
    (s.cyclops = true ∨ s.eyeLxNext ≤ 10 ∨ (drawEyes s h).1.eyeLheightOffset = 0) := by
  have ho := drawEyes_offsets s h
  have eL : (drawEyes s h).1.eyeLheightOffset = (drawEyes_curious s).eyeLheightOffset :=
    congrArg (fun v => v.1) ho
  have eR : (drawEyes s h).1.eyeRheightOffset = (drawEyes_curious s).eyeRheightOffset :=
    congrArg (fun v => v.2) ho
  obtain ⟨c1, c2⟩ := drawEyes_curious_sets s
  rw [eL, eR, c1, c2]
  refine ⟨rfl, rfl, ?_, ?_, ?_, ?_⟩
  · split_ifs
    · exact Or.inr rfl
    · exact Or.inl rfl
  · split_ifs
    · exact Or.inr rfl
    · exact Or.inl rfl
  · cases hc : s.curious
    · right
      simp
    · left
      rfl
  · cases hy : s.cyclops
    · right
      by_cases hx : s.eyeLxNext ≤ 10
      · exact Or.inl hx
      · right
        simp [hx]
    · left
      rfl

/-! ## C29: sweat columns -/

theorem toI32_small (r : Nat) (hr : r < 2147483648) : toI32 r = (r : Int) := by
  unfold toI32
  have e : r % 4294967296 = r := Nat.mod_eq_of_lt (by omega)
  rw [e, if_pos hr]

theorem sweat_origin1 (r : Nat) (hr : r < 30) : 0 ≤ toI32 r ∧ toI32 r < 30 := by
  rw [toI32_small r (by omega)]
  omega

theorem sweat_origin2 (W : Int) (hW : 60 < W) (hWm : W ≤ 2147483647) (r : Nat)
    (hr : r < toU32 (W - 60)) :
    30 ≤ toI32 ((r + 30) % 4294967296) ∧ toI32 ((r + 30) % 4294967296) < W - 30 := by
  unfold toU32 at hr
  have e : (r + 30) % 4294967296 = r + 30 := Nat.mod_eq_of_lt (by omega)
  rw [e, toI32_small _ (by omega)]
  omega

theorem sweat_origin3 (W : Int) (hW : 60 < W) (hWm : W ≤ 2147483647) (r : Nat)
    (hr : r < 30) :
    W - 30 ≤ toI32 ((toU32 (W - 30) + r) % 4294967296) ∧
    toI32 ((toU32 (W - 30) + r) % 4294967296) < W := by
  have e0 : ((toU32 (W - 30) : Nat) : Int) = W - 30 := by
    unfold toU32
    omega
  have e : (toU32 (W - 30) + r) % 4294967296 = toU32 (W - 30) + r :=
    Nat.mod_eq_of_lt (by omega)
  rw [e, toI32_small _ (by omega)]
  omega

theorem sweat_ymax (r : Nat) (hr : r < 10) :
    10 ≤ toI32 ((r + 10) % 4294967296) ∧ toI32 ((r + 10) % 4294967296) < 20 := by
  have e : (r + 10) % 4294967296 = r + 10 := Nat.mod_eq_of_lt (by omega)
  rw [e, toI32_small _ (by omega)]
  omega

/-- One droplet step keeps a settled droplet in its column, given a random
source that keeps its contract and an origin map into the column. -/
theorem drawEyes_sweatDrop_inColumn (g : Engine) (limit : Nat) (origin : Nat → Int)
    (d : SweatDrop) (h : Host) (lo hi : Int)
    (hr : ∀ f, g.randomPtr = some f → ∀ k l, 0 < l → f k l < l) (hl : 0 < limit)
    (ho : ∀ r, r < limit → lo ≤ origin r ∧ origin r < hi) (hd : d.settled lo hi) :
    (drawEyes_sweatDrop g limit origin d h).1.inColumn lo hi := by
  by_cases hy : d.YPos ≤ (d.YPosMax : ℚ)
  · rw [drawEyes_sweatDrop_fall g limit origin d h hy]
    obtain ⟨_, f2, f3⟩ := drawEyes_sweatShape_fields { d with YPos := d.YPos + 1 / 2 }
    rcases hd with hd | hd
    · exact absurd hy (not_le.mpr hd)
    · unfold SweatDrop.inColumn at hd ⊢
      rw [f2, f3]
      exact hd
  · rw [drawEyes_sweatDrop_reset g limit origin d h hy]
    obtain ⟨_, f2, f3⟩ := drawEyes_sweatShape_fields (drawEyes_sweatReset g limit origin d h).1
    unfold SweatDrop.inColumn
    rw [f2, f3]
    have o := ho _ (random_lt g limit h hr hl)
    have y := sweat_ymax _ (random_lt g 10 (random g limit h).2 hr (by decide))
    exact ⟨o.1, o.2, y.1, y.2⟩

/-- With sweat on, each droplet after the sweat block is the result of its
droplet step on some host. -/
theorem drawEyes_sweat_drops (g : Engine) (h : Host) (hs : g.sweat = true) :
    (∃ h1, (drawEyes_sweat g h).1.sweat1
      = (drawEyes_sweatDrop g 30 (fun r => toI32 r) g.sweat1 h1).1) ∧
    (∃ h2, (drawEyes_sweat g h).1.sweat2
      = (drawEyes_sweatDrop g (toU32 (g.screenWidth - 60))
          (fun r => toI32 ((r + 30) % 4294967296)) g.sweat2 h2).1) ∧
    (∃ h3, (drawEyes_sweat g h).1.sweat3
      = (drawEyes_sweatDrop g 30
          (fun r => toI32 ((toU32 (g.screenWidth - 30) + r) % 4294967296)) g.sweat3 h3).1) := by
  unfold drawEyes_sweat
  rw [if_pos hs]
  exact ⟨⟨_, rfl⟩, ⟨_, rfl⟩, ⟨_, rfl⟩⟩

/-- The sweat block puts all three droplets in their columns. -/
theorem drawEyes_sweat_inColumn (g : Engine) (h : Host) (W : Int)
    (hr : ∀ f, g.randomPtr = some f → ∀ k l, 0 < l → f k l < l)
    (hW : 60 < W) (hWm : W ≤ 2147483647) (hw : g.screenWidth = W) (hs : g.sweat = true)
    (h1 : g.sweat1.settled 0 30) (h2 : g.sweat2.settled 30 (W - 30))
    (h3 : g.sweat3.settled (W - 30) W) :
    (drawEyes_sweat g h).1.sweat1.inColumn 0 30 ∧
    (drawEyes_sweat g h).1.sweat2.inColumn 30 (W - 30) ∧
    (drawEyes_sweat g h).1.sweat3.inColumn (W - 30) W := by
  have l2 : 0 < toU32 (W - 60) := by
    unfold toU32
    omega
  obtain ⟨⟨k1, e1⟩, ⟨k2, e2⟩, ⟨k3, e3⟩⟩ := drawEyes_sweat_drops g h hs
  rw [e1, e2, e3, hw]
  exact ⟨drawEyes_sweatDrop_inColumn g 30 (fun r => toI32 r) g.sweat1 k1 0 30 hr (by decide)
      (fun r hr30 => sweat_origin1 r hr30) h1,
    drawEyes_sweatDrop_inColumn g (toU32 (W - 60)) (fun r => toI32 ((r + 30) % 4294967296))
      g.sweat2 k2 30 (W - 30) hr l2 (fun r hr2 => sweat_origin2 W hW hWm r hr2) h2,
    drawEyes_sweatDrop_inColumn g 30
      (fun r => toI32 ((toU32 (W - 30) + r) % 4294967296)) g.sweat3 k3 (W - 30) W hr
      (by decide) (fun r hr30 => sweat_origin3 W hW hWm r hr30) h3⟩

theorem drawEyes_toSweat_setup (s : Engine) (h : Host) :
    (drawEyes_toSweat s h).1.sweatSetup = s.sweatSetup ∧
    (drawEyes_toSweat s h).1.sweat = s.sweat := by
  have hd := drawEyes_toSweat_droplets s h
  have hf : (drawEyes_toSweat s h).1.fixed = s.fixed := by
    unfold drawEyes_toSweat
    simp only []
    rw [drawEyes_happy_fixed, drawEyes_angry_fixed, drawEyes_tired_fixed,
      drawEyes_moodTargets_fixed, drawEyes_cyclops_fixed, drawEyes_anim_fixed]
  have hst : (drawEyes_toSweat s h).1.settings = s.settings := by
    unfold drawEyes_toSweat
    simp only []
    rw [drawEyes_happy_settings, drawEyes_angry_settings, drawEyes_tired_settings,
      drawEyes_moodTargets_settings, drawEyes_cyclops_settings, drawEyes_anim_settings]
  generalize drawEyes_toSweat s h = g at hd hf hst ⊢
  have e1 : g.1.screenWidth = s.screenWidth := congrArg Fixed.screenWidth hf
  have e2 : g.1.randomPtr = s.randomPtr := congrArg Settings.randomPtr hst
  have e3 : g.1.sweat1 = s.sweat1 := congrArg (fun v => v.2.1) hd
  have e4 : g.1.sweat2 = s.sweat2 := congrArg (fun v => v.2.2.1) hd
  have e5 : g.1.sweat3 = s.sweat3 := congrArg (fun v => v.2.2.2) hd
  have e6 : g.1.sweat = s.sweat := congrArg (fun v => v.1) hd
  refine ⟨?_, e6⟩
  unfold Engine.sweatSetup
  rw [e1, e2, e3, e4, e5]

theorem inColumn_settled (lo hi : Int) (d : SweatDrop) (hd : d.inColumn lo hi) :
    d.settled lo hi := Or.inr hd

/-- A frame keeps the sweat invariant, and a frame with sweat on puts the
three droplets in their columns. -/
theorem drawEyes_sweatInv (s : Engine) (h : Host) (W : Int) (rp : Option RandomFunc)
    (hr : ∀ f, rp = some f → ∀ k l, 0 < l → f k l < l)
    (hW : 60 < W) (hWm : W ≤ 2147483647) (hi : sweatInv W rp s) :
    sweatInv W rp (drawEyes s h).1 ∧
    (s.sweat = true →
      (drawEyes s h).1.sweat1.inColumn 0 30 ∧ (drawEyes s h).1.sweat2.inColumn 30 (W - 30) ∧
      (drawEyes s h).1.sweat3.inColumn (W - 30) W) := by
  obtain ⟨i1, i2, i3, i4, i5⟩ := hi
  obtain ⟨hs, hsw⟩ := drawEyes_toSweat_setup s h
  have hw : (drawEyes s h).1.screenWidth = W :=
    (congrArg Fixed.screenWidth (drawEyes_fixed s h)).trans i1
  have hp : (drawEyes s h).1.randomPtr = rp :=
    (congrArg Settings.randomPtr (drawEyes_settings s h)).trans i2
  rw [drawEyes_eq_toSweat] at hw hp ⊢
  generalize drawEyes_toSweat s h = g at hs hsw hw hp ⊢
  have e1 : g.1.screenWidth = W := (congrArg (fun v => v.1) hs).trans i1
  have e2 : g.1.randomPtr = rp := (congrArg (fun v => v.2.1) hs).trans i2
  have e3 : g.1.sweat1 = s.sweat1 := congrArg (fun v => v.2.2.1) hs
  have e4 : g.1.sweat2 = s.sweat2 := congrArg (fun v => v.2.2.2.1) hs
  have e5 : g.1.sweat3 = s.sweat3 := congrArg (fun v => v.2.2.2.2) hs
  have hr2 : ∀ f, g.1.randomPtr = some f → ∀ k l, 0 < l → f k l < l := by
    rw [e2]
    exact hr
  by_cases hon : g.1.sweat = true
  · have c := drawEyes_sweat_inColumn g.1 g.2 W hr2 hW hWm e1 hon (by rw [e3]; exact i3)
      (by rw [e4]; exact i4) (by rw [e5]; exact i5)
    exact ⟨⟨hw, hp, Or.inr c.1, Or.inr c.2.1, Or.inr c.2.2⟩, fun _ => c⟩
  · have off : (drawEyes_sweat g.1 g.2).1 = g.1 := by
      unfold drawEyes_sweat
      rw [if_neg hon]
    refine ⟨?_, fun hs1 => absurd (hsw.trans hs1) hon⟩
    rw [off]
    exact ⟨e1, e2, by rw [e3]; exact i3, by rw [e4]; exact i4, by rw [e5]; exact i5⟩

theorem ite_sweatSetup (c : Prop) [Decidable c] (a b : Engine)
    (v : Int × Option RandomFunc × SweatDrop × SweatDrop × SweatDrop)
    (ha : a.sweatSetup = v) (hb : b.sweatSetup = v) : (if c then a else b).sweatSetup = v := by
  split_ifs <;> assumption

/-- No setter touches the screen width, the random source or the droplets. -/
theorem Setter_sweatSetup (c : Setter) (s : Engine) : (c.run s).sweatSetup = s.sweatSetup := by
  cases c <;> simp only [Setter.run]
  case setMood m => unfold RoboEyes_setMood; split_ifs <;> rfl
  case setPosition p =>
    unfold RoboEyes_setPosition
    repeat' (first | rfl | apply ite_sweatSetup)
  case close2 l r => unfold RoboEyes_close2; simp only []; split_ifs <;> rfl
  case open2 l r => unfold RoboEyes_open2; simp only []; split_ifs <;> rfl
  case blink2 l r =>
    unfold RoboEyes_blink2 RoboEyes_open2 RoboEyes_close2
    simp only []
    split_ifs <;> rfl
  all_goals rfl

theorem sweatInv_of_setup (W : Int) (rp : Option RandomFunc) (s t : Engine)
    (e : t.sweatSetup = s.sweatSetup) (hi : sweatInv W rp s) : sweatInv W rp t := by
  obtain ⟨i1, i2, i3, i4, i5⟩ := hi
  have e1 : t.screenWidth = s.screenWidth := congrArg (fun v => v.1) e
  have e2 : t.randomPtr = s.randomPtr := congrArg (fun v => v.2.1) e
  have e3 : t.sweat1 = s.sweat1 := congrArg (fun v => v.2.2.1) e
  have e4 : t.sweat2 = s.sweat2 := congrArg (fun v => v.2.2.2.1) e
  have e5 : t.sweat3 = s.sweat3 := congrArg (fun v => v.2.2.2.2) e
  exact ⟨e1.trans i1, e2.trans i2, by rw [e3]; exact i3, by rw [e4]; exact i4,
    by rw [e5]; exact i5⟩

theorem Call_sweatInv (c : Call) (p : Engine × Host) (W : Int) (rp : Option RandomFunc)
    (hr : ∀ f, rp = some f → ∀ k l, 0 < l → f k l < l)
    (hW : 60 < W) (hWm : W ≤ 2147483647) (hk : c.keepsWidth W) (hi : sweatInv W rp p.1) :
    sweatInv W rp (c.run p).1 := by
  cases c with
  | setter c => exact sweatInv_of_setup W rp p.1 _ (Setter_sweatSetup c p.1) hi
  | begin w ht f =>
    obtain ⟨_, i2, i3, i4, i5⟩ := hi
    exact ⟨hk, i2, i3, i4, i5⟩
  | update =>
    show sweatInv W rp (RoboEyes_update p.1 p.2).1
    cases hrf : rendersFrame p.1 p.2
    · rw [RoboEyes_update_skip p.1 p.2 hrf]
      exact hi
    · rw [RoboEyes_update_render p.1 p.2 hrf]
      exact sweatInv_of_setup W rp _ _ rfl
        (drawEyes_sweatInv p.1 (millis p.1 p.2).2 W rp hr hW hWm hi).1
  | frame => exact (drawEyes_sweatInv p.1 p.2 W rp hr hW hWm hi).1

theorem runCalls_sweatInv (calls : List Call) (W : Int) (rp : Option RandomFunc)
    (hr : ∀ f, rp = some f → ∀ k l, 0 < l → f k l < l)
    (hW : 60 < W) (hWm : W ≤ 2147483647) : ∀ p : Engine × Host,
    (∀ c ∈ calls, c.keepsWidth W) → sweatInv W rp p.1 → sweatInv W rp (runCalls calls p).1 := by
  induction calls with
  | nil => intro p _ hi; exact hi
  | cons c cs ih =>
    intro p hk hi
    simp only [runCalls]
    exact ih _ (fun d hd => hk d (List.mem_cons_of_mem c hd))
      (Call_sweatInv c p W rp hr hW hWm (hk c (List.mem_cons_self c cs)) hi)

/-- C29 (sweat droplets stay in their columns).  Start at program start,
`RoboEyes_init` with any ports and `RoboEyes_begin(W, H, fr)` with
`60 < W` (a C `int`), the random source keeping its contract (a value below
every positive limit).  After any sequence of calls (setters, polls, rendered
frames, `RoboEyes_begin` with the same width) every rendered frame with sweat
enabled leaves `sweat1XPosInitial` in `[0, 30)`, `sweat2XPosInitial` in
`[30, W - 30)`, `sweat3XPosInitial` in `[W - 30, W)` and each `YPosMax` in
`[10, 20)`.  At the start every droplet is above its maximum (`YPos = 2`,
`YPosMax = 0`), and so it is until the first sweat frame, which therefore
resets all three. -/
theorem C29_sweat_columns (dr dt cl up : Bool) (m : Option MillisFunc) (r : Option RandomFunc)
    (W H : Int) (fr : Nat) (h0 : Host) (calls : List Call)
    (hr : ∀ f, r = some f → ∀ k l, 0 < l → f k l < l)
    (hW : 60 < W) (hWm : W ≤ 2147483647) (hk : ∀ c ∈ calls, c.keepsWidth W)
    (hs : (runCalls calls
      (RoboEyes_begin W H fr (RoboEyes_init dr dt cl up m r Engine.initial) h0)).1.sweat = true) :
    (∀ h1 : Host,
      0 ≤ (drawEyes (runCalls calls
        (RoboEyes_begin W H fr (RoboEyes_init dr dt cl up m r Engine.initial) h0)).1
          h1).1.sweat1.XPosInitial ∧
      (drawEyes (runCalls calls
        (RoboEyes_begin W H fr (RoboEyes_init dr dt cl up m r Engine.initial) h0)).1
          h1).1.sweat1.XPosInitial < 30 ∧
      30 ≤ (drawEyes (runCalls calls
        (RoboEyes_begin W H fr (RoboEyes_init dr dt cl up m r Engine.initial) h0)).1
          h1).1.sweat2.XPosInitial ∧
      (drawEyes (runCalls calls
        (RoboEyes_begin W H fr (RoboEyes_init dr dt cl up m r Engine.initial) h0)).1
          h1).1.sweat2.XPosInitial < W - 30 ∧
      W - 30 ≤ (drawEyes (runCalls calls
        (RoboEyes_begin W H fr (RoboEyes_init dr dt cl up m r Engine.initial) h0)).1
          h1).1.sweat3.XPosInitial ∧
      (drawEyes (runCalls calls
        (RoboEyes_begin W H fr (RoboEyes_init dr dt cl up m r Engine.initial) h0)).1
          h1).1.sweat3.XPosInitial < W ∧
      10 ≤ (drawEyes (runCalls calls
        (RoboEyes_begin W H fr (RoboEyes_init dr dt cl up m r Engine.initial) h0)).1
          h1).1.sweat1.YPosMax ∧
      (drawEyes (runCalls calls
        (RoboEyes_begin W H fr (RoboEyes_init dr dt cl up m r Engine.initial) h0)).1
          h1).1.sweat1.YPosMax < 20 ∧
      10 ≤ (drawEyes (runCalls calls
        (RoboEyes_begin W H fr (RoboEyes_init dr dt cl up m r Engine.initial) h0)).1
          h1).1.sweat2.YPosMax ∧
      (drawEyes (runCalls calls
        (RoboEyes_begin W H fr (RoboEyes_init dr dt cl up m r Engine.initial) h0)).1
          h1).1.sweat2.YPosMax < 20 ∧
      10 ≤ (drawEyes (runCalls calls
        (RoboEyes_begin W H fr (RoboEyes_init dr dt cl up m r Engine.initial) h0)).1
          h1).1.sweat3.YPosMax ∧
      (drawEyes (runCalls calls
        (RoboEyes_begin W H fr (RoboEyes_init dr dt cl up m r Engine.initial) h0)).1
          h1).1.sweat3.YPosMax < 20) ∧
    (runCalls calls
      (RoboEyes_begin W H fr (RoboEyes_init dr dt cl up m r Engine.initial) h0)).1.screenWidth
        = W ∧
    (RoboEyes_begin W H fr (RoboEyes_init dr dt cl up m r Engine.initial) h0).1.sweat1
      = SweatDrop.initial ∧
    (RoboEyes_begin W H fr (RoboEyes_init dr dt cl up m r Engine.initial) h0).1.sweat2
      = SweatDrop.initial ∧
    (RoboEyes_begin W H fr (RoboEyes_init dr dt cl up m r Engine.initial) h0).1.sweat3
      = SweatDrop.initial ∧
    ¬ SweatDrop.initial.YPos ≤ (SweatDrop.initial.YPosMax : ℚ) := by
  have above : ((SweatDrop.initial.YPosMax : Int) : ℚ) < SweatDrop.initial.YPos := by
    show ((0 : Int) : ℚ) < 2
    norm_num
  have i0 : sweatInv W r
      (RoboEyes_begin W H fr (RoboEyes_init dr dt cl up m r Engine.initial) h0).1 :=
    ⟨rfl, rfl, Or.inl above, Or.inl above, Or.inl above⟩
  have inv := runCalls_sweatInv calls W r hr hW hWm _ hk i0
  refine ⟨fun h1 => ?_, inv.1, rfl, rfl, rfl, not_le.mpr above⟩
  obtain ⟨c1, c2, c3⟩ := (drawEyes_sweatInv _ h1 W r hr hW hWm inv).2 hs
  exact ⟨c1.1, c1.2.1, c2.1, c2.2.1, c3.1, c3.2.1, c1.2.2.1, c1.2.2.2, c2.2.2.1, c2.2.2.2,
    c3.2.2.1, c3.2.2.2⟩

/-- Witness for C29: width 240, a random source that always returns the
largest value allowed (`limit - 1`), sweat switched on, one rendered frame;
the next frame leaves the first droplet's origin in `[0, 30)`. -/
theorem C29_sweat_columns_witness :
    0 ≤ (drawEyes (runCalls [Call.setter (Setter.setSweat true), Call.frame]
        (RoboEyes_begin 240 135 50
          (RoboEyes_init true true true true none (some (fun _ l => l - 1)) Engine.initial)
          Host.fresh)).1 Host.fresh).1.sweat1.XPosInitial ∧
    (drawEyes (runCalls [Call.setter (Setter.setSweat true), Call.frame]
        (RoboEyes_begin 240 135 50
          (RoboEyes_init true true true true none (some (fun _ l => l - 1)) Engine.initial)
          Host.fresh)).1 Host.fresh).1.sweat1.XPosInitial < 30 :=
  ⟨((C29_sweat_columns true true true true none (some (fun _ l => l - 1)) 240 135 50 Host.fresh
      [Call.setter (Setter.setSweat true), Call.frame]
      (fun f hf k l hl => by cases Option.some.inj hf; exact Nat.sub_lt hl Nat.one_pos)
      (by decide) (by decide) (by simp [Call.keepsWidth]) (by decide)).1 Host.fresh).1,
   ((C29_sweat_columns true true true true none (some (fun _ l => l - 1)) 240 135 50 Host.fresh
      [Call.setter (Setter.setSweat true), Call.frame]
      (fun f hf k l hl => by cases Option.some.inj hf; exact Nat.sub_lt hl Nat.one_pos)
      (by decide) (by decide) (by simp [Call.keepsWidth]) (by decide)).1 Host.fresh).2.1⟩

/-! ## C30: the idle travel limit in cyclops mode -/

theorem drawEyes_curious_widths (s : Engine) :
    (drawEyes_curious s).widths = s.widths := by
  unfold drawEyes_curious RoboEyes_getScreenConstraint_X
  simp only []
  split_ifs <;> rfl

theorem drawEyes_height_widths (s : Engine) :
    (drawEyes_height s).widths = s.widths := by
  rfl

theorem drawEyes_reopen_widths (s : Engine) :
    (drawEyes_reopen s).widths = s.widths := by
  unfold drawEyes_reopen
  simp only []
  split_ifs <;> rfl

theorem drawEyes_autoblink_widths (s : Engine) (h : Host) :
    (drawEyes_autoblink s h).1.widths = s.widths := by
  unfold drawEyes_autoblink
  simp only []
  split_ifs <;> rfl

theorem drawEyes_laugh_widths (s : Engine) (h : Host) :
    (drawEyes_laugh s h).1.widths = s.widths := by
  unfold drawEyes_laugh
  simp only []
  split_ifs <;> rfl

theorem drawEyes_confused_widths (s : Engine) (h : Host) :
    (drawEyes_confused s h).1.widths = s.widths := by
  unfold drawEyes_confused
  simp only []
  split_ifs <;> rfl

theorem drawEyes_idle_widths (s : Engine) (h : Host) :
    (drawEyes_idle s h).1.widths = s.widths := by
  unfold drawEyes_idle
  simp only []
  split_ifs <;> rfl

theorem drawEyes_hFlicker_widths (s : Engine) :
    (drawEyes_hFlicker s).widths = s.widths := by
  unfold drawEyes_hFlicker
  simp only []
  split_ifs <;> rfl

theorem drawEyes_vFlicker_widths (s : Engine) :
    (drawEyes_vFlicker s).widths = s.widths := by
  unfold drawEyes_vFlicker
  simp only []
  split_ifs <;> rfl

theorem drawEyes_moodTargets_widths (s : Engine) :
    (drawEyes_moodTargets s).widths = s.widths := by
  unfold drawEyes_moodTargets
  simp only []
  split_ifs <;> rfl

theorem drawEyes_tired_widths (s : Engine) (h : Host) :
    (drawEyes_tired s h).1.widths = s.widths := by
  rw [drawEyes_tired_fst]
  rfl

theorem drawEyes_angry_widths (s : Engine) (h : Host) :
    (drawEyes_angry s h).1.widths = s.widths := by
  rw [drawEyes_angry_fst]
  rfl

theorem drawEyes_happy_widths (s : Engine) (h : Host) :
    (drawEyes_happy s h).1.widths = s.widths := by
  rw [drawEyes_happy_fst]
  rfl

theorem drawEyes_sweat_widths (s : Engine) (h : Host) :
    (drawEyes_sweat s h).1.widths = s.widths := by
  rw [drawEyes_sweat_fst]
  rfl

theorem drawEyes_tween_widths (x : Engine) :
    (drawEyes_tween x).widths
      = (x.screenWidth, tween x.eyeLwidthCurrent x.eyeLwidthNext, x.eyeLwidthNext,
          tween x.eyeRwidthCurrent x.eyeRwidthNext, x.eyeRwidthNext,
          tween x.spaceBetweenCurrent x.spaceBetweenNext, x.spaceBetweenNext) := rfl

theorem drawEyes_pre_widths (s : Engine) :
    (drawEyes_pre s).widths
      = (s.screenWidth, tween s.eyeLwidthCurrent s.eyeLwidthNext, s.eyeLwidthNext,
          tween s.eyeRwidthCurrent s.eyeRwidthNext, s.eyeRwidthNext,
          tween s.spaceBetweenCurrent s.spaceBetweenNext, s.spaceBetweenNext) := by
  have e : (drawEyes_reopen (drawEyes_height (drawEyes_curious s))).widths = s.widths := by
    rw [drawEyes_reopen_widths, drawEyes_height_widths, drawEyes_curious_widths]
  unfold drawEyes_pre
  rw [drawEyes_tween_widths]
  generalize drawEyes_reopen (drawEyes_height (drawEyes_curious s)) = x at e ⊢
  have e1 : x.screenWidth = s.screenWidth := congrArg (fun v => v.1) e
  have e2 : x.eyeLwidthCurrent = s.eyeLwidthCurrent := congrArg (fun v => v.2.1) e
  have e3 : x.eyeLwidthNext = s.eyeLwidthNext := congrArg (fun v => v.2.2.1) e
  have e4 : x.eyeRwidthCurrent = s.eyeRwidthCurrent := congrArg (fun v => v.2.2.2.1) e
  have e5 : x.eyeRwidthNext = s.eyeRwidthNext := congrArg (fun v => v.2.2.2.2.1) e
  have e6 : x.spaceBetweenCurrent = s.spaceBetweenCurrent :=
    congrArg (fun v => v.2.2.2.2.2.1) e
  have e7 : x.spaceBetweenNext = s.spaceBetweenNext := congrArg (fun v => v.2.2.2.2.2.2) e
  rw [e1, e2, e3, e4, e5, e6, e7]

theorem drawEyes_toIdle_widths (s : Engine) (h : Host) :
    (drawEyes_toIdle s h).1.widths = (drawEyes_pre s).widths := by
  unfold drawEyes_toIdle
  simp only []
  rw [drawEyes_confused_widths, drawEyes_laugh_widths, drawEyes_autoblink_widths]

theorem drawEyes_anim_widths (s : Engine) (h : Host) :
    (drawEyes_anim s h).1.widths = (drawEyes_pre s).widths := by
  rw [drawEyes_anim_eq]
  simp only []
  rw [drawEyes_vFlicker_widths, drawEyes_hFlicker_widths, drawEyes_idle_widths,
    drawEyes_toIdle_widths]

theorem drawEyes_render_widths (s : Engine) (h : Host) :
    (drawEyes_render s h).1.widths = s.widths := by
  unfold drawEyes_render
  simp only []
  rw [drawEyes_sweat_widths, drawEyes_happy_widths, drawEyes_angry_widths,
    drawEyes_tired_widths, drawEyes_moodTargets_widths]

theorem drawEyes_cyclops_widths_on (x : Engine) (hc : x.cyclops = true) :
    (drawEyes_cyclops x).widths
      = (x.screenWidth, x.eyeLwidthCurrent, x.eyeLwidthNext, 0, x.eyeRwidthNext, 0,
          x.spaceBetweenNext) := by
  unfold drawEyes_cyclops
  rw [if_pos hc]
  rfl

/-- The two travel limits of a cyclops frame that starts with the right eye's
width and the spacing at 0. -/
theorem drawEyes_cyclops_limits (s : Engine) (h : Host) (hc : s.cyclops = true)
    (hw : s.eyeRwidthCurrent = 0) (hsp : s.spaceBetweenCurrent = 0) :
    RoboEyes_getScreenConstraint_X (drawEyes_toIdle s h).1
      = s.screenWidth - tween s.eyeLwidthCurrent s.eyeLwidthNext
        - Int.tdiv s.spaceBetweenNext 2 - Int.tdiv s.eyeRwidthNext 2 ∧
    RoboEyes_getScreenConstraint_X (drawEyes s h).1
      = s.screenWidth - tween s.eyeLwidthCurrent s.eyeLwidthNext ∧
    (drawEyes s h).1.eyeLwidthCurrent = tween s.eyeLwidthCurrent s.eyeLwidthNext := by
  have hp := drawEyes_pre_widths s
  rw [hw, hsp] at hp
  have t1 : tween 0 s.eyeRwidthNext = Int.tdiv s.eyeRwidthNext 2 := by
    unfold tween
    rw [zero_add]
  have t2 : tween 0 s.spaceBetweenNext = Int.tdiv s.spaceBetweenNext 2 := by
    unfold tween
    rw [zero_add]
  rw [t1, t2] at hp
  have hg := (drawEyes_toIdle_widths s h).trans hp
  have ha := (drawEyes_anim_widths s h).trans hp
  have hcy : (drawEyes_anim s h).1.cyclops = true :=
    (congrArg Settings.cyclops (drawEyes_anim_settings s h)).trans hc
  have he : (drawEyes s h).1.widths
      = (s.screenWidth, tween s.eyeLwidthCurrent s.eyeLwidthNext, s.eyeLwidthNext, 0,
          s.eyeRwidthNext, 0, s.spaceBetweenNext) := by
    unfold drawEyes
    simp only []
    rw [drawEyes_render_widths, drawEyes_cyclops_widths_on _ hcy]
    generalize (drawEyes_anim s h).1 = a at ha
    have a1 : a.screenWidth = s.screenWidth := congrArg (fun v => v.1) ha
    have a2 : a.eyeLwidthCurrent = tween s.eyeLwidthCurrent s.eyeLwidthNext :=
      congrArg (fun v => v.2.1) ha
    have a3 : a.eyeLwidthNext = s.eyeLwidthNext := congrArg (fun v => v.2.2.1) ha
    have a5 : a.eyeRwidthNext = s.eyeRwidthNext := congrArg (fun v => v.2.2.2.2.1) ha
    have a7 : a.spaceBetweenNext = s.spaceBetweenNext := congrArg (fun v => v.2.2.2.2.2.2) ha
    rw [a1, a2, a3, a5, a7]
  generalize (drawEyes_toIdle s h).1 = g at hg
  generalize (drawEyes s h).1 = e at he
  have g1 : g.screenWidth = s.screenWidth := congrArg (fun v => v.1) hg
  have g2 : g.eyeLwidthCurrent = tween s.eyeLwidthCurrent s.eyeLwidthNext :=
    congrArg (fun v => v.2.1) hg
  have g4 : g.eyeRwidthCurrent = Int.tdiv s.eyeRwidthNext 2 := congrArg (fun v => v.2.2.2.1) hg
  have g6 : g.spaceBetweenCurrent = Int.tdiv s.spaceBetweenNext 2 :=
    congrArg (fun v => v.2.2.2.2.2.1) hg
  have e1 : e.screenWidth = s.screenWidth := congrArg (fun v => v.1) he
  have e2 : e.eyeLwidthCurrent = tween s.eyeLwidthCurrent s.eyeLwidthNext :=
    congrArg (fun v => v.2.1) he
  have e4 : e.eyeRwidthCurrent = 0 := congrArg (fun v => v.2.2.2.1) he
  have e6 : e.spaceBetweenCurrent = 0 := congrArg (fun v => v.2.2.2.2.2.1) he
  unfold RoboEyes_getScreenConstraint_X
  rw [g1, g2, g4, g6, e1, e2, e4, e6]
  exact ⟨rfl, by omega, rfl⟩

/-- C30, as stated, fails for small positive targets.  The cyclops engine with
right-eye width target 1 and spacing target 1 (both positive), after one frame:
the next frame starts with cyclops on and the right eye's current width and the
current spacing at 0, and the limit of its idle step equals the value the
getter returns after the frame (both 204): it is not strictly smaller. -/
theorem C30_limits_equal_for_target_one :
    narrowCyclopsEngine.1.cyclops = true ∧ narrowCyclopsEngine.1.eyeRwidthCurrent = 0 ∧
    narrowCyclopsEngine.1.spaceBetweenCurrent = 0 ∧
    0 < narrowCyclopsEngine.1.eyeRwidthNext ∧ 0 < narrowCyclopsEngine.1.spaceBetweenNext ∧
    RoboEyes_getScreenConstraint_X
        (drawEyes_toIdle narrowCyclopsEngine.1 narrowCyclopsEngine.2).1 = 204 ∧
    RoboEyes_getScreenConstraint_X
        (drawEyes narrowCyclopsEngine.1 narrowCyclopsEngine.2).1 = 204 := by
  decide

/-- C30 (idle travel limit in cyclops mode), with the exact condition for the
strict inequality.  For a rendered frame that starts with cyclops on and
`eyeRwidthCurrent = spaceBetweenCurrent = 0`: `RoboEyes_getScreenConstraint_X()`
evaluated where the idle step evaluates it is
`screenWidth - eyeLwidthCurrent - spaceBetweenNext / 2 - eyeRwidthNext / 2`
(`eyeLwidthCurrent` being the left width tweened in the frame, `/` truncating);
a due idle step passes it to the random source as the limit for `eyeLxNext`;
after the frame the getter returns `screenWidth - eyeLwidthCurrent`, which is
also what `RoboEyes_setPosition(NE)` then uses.  The first value is strictly
smaller than the second iff `spaceBetweenNext / 2 + eyeRwidthNext / 2 > 0`, in
particular when both targets are non-negative and one of them is at least 2. -/
theorem C30_idle_limit_in_cyclops (s : Engine) (h : Host) (hc : s.cyclops = true)
    (hw : s.eyeRwidthCurrent = 0) (hsp : s.spaceBetweenCurrent = 0) :
    RoboEyes_getScreenConstraint_X (drawEyes_toIdle s h).1
      = s.screenWidth - (drawEyes s h).1.eyeLwidthCurrent
        - Int.tdiv s.spaceBetweenNext 2 - Int.tdiv s.eyeRwidthNext 2 ∧
    (drawEyes s h).1.eyeLwidthCurrent = tween s.eyeLwidthCurrent s.eyeLwidthNext ∧
    (idleDue (drawEyes_toIdle s h).1 (drawEyes_toIdle s h).2 = true →
      (drawEyes s h).1.eyeLxNext
        = toI32 (random (drawEyes_toIdle s h).1
            (toU32 (RoboEyes_getScreenConstraint_X (drawEyes_toIdle s h).1))
            (millis (drawEyes_toIdle s h).1 (drawEyes_toIdle s h).2).2).1) ∧
    RoboEyes_getScreenConstraint_X (drawEyes s h).1
      = s.screenWidth - (drawEyes s h).1.eyeLwidthCurrent ∧
    (RoboEyes_setPosition NE (drawEyes s h).1).eyeLxNext
      = s.screenWidth - (drawEyes s h).1.eyeLwidthCurrent ∧
    (RoboEyes_getScreenConstraint_X (drawEyes_toIdle s h).1
        < RoboEyes_getScreenConstraint_X (drawEyes s h).1
      ↔ 0 < Int.tdiv s.spaceBetweenNext 2 + Int.tdiv s.eyeRwidthNext 2) ∧
    (0 ≤ s.spaceBetweenNext → 0 ≤ s.eyeRwidthNext →
      2 ≤ s.spaceBetweenNext ∨ 2 ≤ s.eyeRwidthNext →
      RoboEyes_getScreenConstraint_X (drawEyes_toIdle s h).1
        < RoboEyes_getScreenConstraint_X (drawEyes s h).1) := by
  obtain ⟨l1, l2, l3⟩ := drawEyes_cyclops_limits s h hc hw hsp
  have hx : (drawEyes s h).1.eyeLxNext
      = (drawEyes_idle (drawEyes_toIdle s h).1 (drawEyes_toIdle s h).2).1.eyeLxNext :=
    congrArg (fun v => v.1) (drawEyes_gaze s h)
  have hne : (RoboEyes_setPosition NE (drawEyes s h).1).eyeLxNext
      = RoboEyes_getScreenConstraint_X (drawEyes s h).1 := rfl
  have hlim : idleDue (drawEyes_toIdle s h).1 (drawEyes_toIdle s h).2 = true →
      (drawEyes s h).1.eyeLxNext
        = toI32 (random (drawEyes_toIdle s h).1
            (toU32 (RoboEyes_getScreenConstraint_X (drawEyes_toIdle s h).1))
            (millis (drawEyes_toIdle s h).1 (drawEyes_toIdle s h).2).2).1 := by
    intro hd
    rw [hx, drawEyes_idle_of_due _ _ hd]
    rfl
  refine ⟨?_, l3, hlim, ?_, ?_, ?_, ?_⟩
  · rw [l1, l3]
  · rw [l2, l3]
  · rw [hne, l2, l3]
  · rw [l1, l2]
    constructor <;> intro hh <;> omega
  · intro h1 h2 h3
    rw [l1, l2]
    rcases tdiv_two_cases s.spaceBetweenNext with ⟨_, e1⟩ | ⟨n1, _⟩
    · rcases tdiv_two_cases s.eyeRwidthNext with ⟨_, e2⟩ | ⟨n2, _⟩
      · rw [e1, e2]
        omega
      · omega
    · omega

/-- Witness for C30: the cyclops engine with the default geometry (screen 240,
widths 36, spacing 10) after one frame; in the next frame the idle limit is
181 and the getter returns 204 after it. -/
theorem C30_idle_limit_in_cyclops_witness :
    RoboEyes_getScreenConstraint_X
      (drawEyes_toIdle (drawEyes cyclopsEngine.1 cyclopsEngine.2).1
        (drawEyes cyclopsEngine.1 cyclopsEngine.2).2).1 = 181 ∧
    RoboEyes_getScreenConstraint_X
      (drawEyes (drawEyes cyclopsEngine.1 cyclopsEngine.2).1
        (drawEyes cyclopsEngine.1 cyclopsEngine.2).2).1 = 204 ∧
    RoboEyes_getScreenConstraint_X
        (drawEyes_toIdle (drawEyes cyclopsEngine.1 cyclopsEngine.2).1
          (drawEyes cyclopsEngine.1 cyclopsEngine.2).2).1
      < RoboEyes_getScreenConstraint_X
        (drawEyes (drawEyes cyclopsEngine.1 cyclopsEngine.2).1
          (drawEyes cyclopsEngine.1 cyclopsEngine.2).2).1 :=
  ⟨by decide, by decide,
   (C30_idle_limit_in_cyclops (drawEyes cyclopsEngine.1 cyclopsEngine.2).1
      (drawEyes cyclopsEngine.1 cyclopsEngine.2).2 (by decide) (by decide) (by decide)).2.2.2.2.2.2
      (by decide) (by decide) (by decide)⟩

/-! ## C31: droplet height at the end of a cycle -/

/-- A frame with sweat on in which the first droplet has not passed its
maximum. -/
theorem drawEyes_sweat1_fall (x : Engine) (hx : Host) (hsw : x.sweat = true)
    (hle : x.sweat1.YPos ≤ (x.sweat1.YPosMax : ℚ)) :
    (drawEyes x hx).1.sweat = true ∧
    (drawEyes x hx).1.sweat1.YPos = x.sweat1.YPos + 1 / 2 ∧
    (drawEyes x hx).1.sweat1.YPosMax = x.sweat1.YPosMax ∧
    (drawEyes x hx).1.sweat1.Height
      = (if x.sweat1.YPos + 1 / 2 ≤ ((Int.tdiv x.sweat1.YPosMax 2 : Int) : ℚ)
          then x.sweat1.Height + 1 / 2 else x.sweat1.Height - 1 / 2) := by
  obtain ⟨f1, f2⟩ := drawEyes_sweat1 x hx hsw
  rw [drawEyes_sweatDrop_fall _ _ _ _ _ hle] at f2
  obtain ⟨g1, g2, _⟩ := drawEyes_sweatShape_fields
    { x.sweat1 with YPos := x.sweat1.YPos + 1 / 2 }
  have g3 := (drawEyes_sweatShape_size { x.sweat1 with YPos := x.sweat1.YPos + 1 / 2 }).2
  rw [g2] at g3
  rw [f2]
  exact ⟨f1, g1, g2, g3⟩

/-- A frame with sweat on in which the first droplet has passed its maximum:
the droplet is reset, then takes the shape step. -/
theorem drawEyes_sweat1_reset (x : Engine) (hx : Host) (hsw : x.sweat = true)
    (hgt : ¬ x.sweat1.YPos ≤ (x.sweat1.YPosMax : ℚ)) :
    (drawEyes x hx).1.sweat = true ∧
    (drawEyes x hx).1.sweat1.YPos = 2 ∧
    (drawEyes x hx).1.sweat1.YPosMax
      = toI32 (((random (drawEyes_toSweat x hx).1 10
          (random (drawEyes_toSweat x hx).1 30 (drawEyes_toSweat x hx).2).2).1 + 10)
            % 4294967296) ∧
    (drawEyes x hx).1.sweat1.Height
      = (if (2 : ℚ) ≤ ((Int.tdiv (drawEyes x hx).1.sweat1.YPosMax 2 : Int) : ℚ)
          then 2 + 1 / 2 else 2 - 1 / 2) := by
  obtain ⟨f1, f2⟩ := drawEyes_sweat1 x hx hsw
  rw [drawEyes_sweatDrop_reset _ _ _ _ _ hgt] at f2
  obtain ⟨g1, g2, _⟩ := drawEyes_sweatShape_fields
    (drawEyes_sweatReset (drawEyes_toSweat x hx).1 30 (fun r => toI32 r) x.sweat1
      (drawEyes_toSweat x hx).2).1
  have g3 := (drawEyes_sweatShape_size
    (drawEyes_sweatReset (drawEyes_toSweat x hx).1 30 (fun r => toI32 r) x.sweat1
      (drawEyes_toSweat x hx).2).1).2
  rw [f2]
  exact ⟨f1, g1, g2, g3⟩

theorem tdiv_two_nat (m : Nat) : Int.tdiv (m : Int) 2 = ((m / 2 : Nat) : Int) := by
  rw [Int.tdiv_eq_ediv (Int.ofNat_nonneg m) (by decide)]
  omega

theorem half_le_cast (k q : Nat) :
    (2 : ℚ) + (k : ℚ) / 2 + 1 / 2 ≤ (((q : Nat) : Int) : ℚ) ↔ k + 5 ≤ 2 * q := by
  constructor
  · intro hh
    have e : ((k + 5 : Nat) : ℚ) ≤ ((2 * q : Nat) : ℚ) := by
      push_cast at hh ⊢
      linarith
    exact_mod_cast e
  · intro hh
    have e : ((k + 5 : Nat) : ℚ) ≤ ((2 * q : Nat) : ℚ) := by exact_mod_cast hh
    push_cast at e ⊢
    linarith

theorem cycleHeight_zero (m : Nat) (h4 : 4 ≤ m) : cycleHeight m 0 = 2 + 1 / 2 := by
  unfold cycleHeight
  rw [if_pos (by omega)]
  norm_num

theorem cycleHeight_succ (m k : Nat) :
    cycleHeight m (k + 1)
      = (if k + 5 ≤ 2 * (m / 2) then cycleHeight m k + 1 / 2 else cycleHeight m k - 1 / 2) := by
  unfold cycleHeight
  by_cases c1 : k + 5 ≤ 2 * (m / 2)
  · rw [if_pos c1, if_pos (by omega : k + 1 + 4 ≤ 2 * (m / 2)),
      if_pos (by omega : k + 4 ≤ 2 * (m / 2))]
    push_cast
    ring
  · rw [if_neg c1, if_neg (by omega : ¬ k + 1 + 4 ≤ 2 * (m / 2))]
    by_cases c2 : k + 4 ≤ 2 * (m / 2)
    · rw [if_pos c2]
      have e : ((k + 4 : Nat) : ℚ) = ((2 * (m / 2) : Nat) : ℚ) := by
        exact_mod_cast (by omega : k + 4 = 2 * (m / 2))
      push_cast at e ⊢
      linarith
    · rw [if_neg c2]
      push_cast
      ring

theorem cycleHeight_last (m : Nat) (h4 : 4 ≤ m) :
    cycleHeight m (2 * m - 3) = 2 * ((m / 2 : Nat) : ℚ) - (m : ℚ) := by
  unfold cycleHeight
  rw [if_neg (by omega)]
  have e : ((2 * m - 3 : Nat) : ℚ) = 2 * (m : ℚ) - 3 := by
    have e1 : ((2 * m - 3 + 3 : Nat) : ℚ) = ((2 * m : Nat) : ℚ) := by
      exact_mod_cast (by omega : 2 * m - 3 + 3 = 2 * m)
    push_cast at e1
    linarith
  rw [e]
  ring

/-- The droplet cycle after a reset to maximum `m`: `k` frames after the reset
frame, `k ≤ 2 m - 3`, sweat is on, the droplet is at `2 + k/2` with maximum `m`
and its height is `cycleHeight m k`. -/
theorem frames_sweat1_cycle (s : Engine) (h : Host) (m : Nat) (hs : s.sweat = true)
    (hd : ¬ s.sweat1.YPos ≤ (s.sweat1.YPosMax : ℚ))
    (hm : (frames 1 s h).1.sweat1.YPosMax = (m : Int)) (h4 : 4 ≤ m) (k : Nat) :
    k ≤ 2 * m - 3 →
    (frames (1 + k) s h).1.sweat = true ∧
    (frames (1 + k) s h).1.sweat1.YPos = 2 + (k : ℚ) / 2 ∧
    (frames (1 + k) s h).1.sweat1.YPosMax = (m : Int) ∧
    (frames (1 + k) s h).1.sweat1.Height = cycleHeight m k := by
  induction k with
  | zero =>
    intro _
    rw [frames_one] at hm
    obtain ⟨r1, r2, _, r4⟩ := drawEyes_sweat1_reset s h hs hd
    rw [hm, tdiv_two_nat] at r4
    have c : (2 : ℚ) ≤ (((m / 2 : Nat) : Int) : ℚ) := by
      have e : ((2 : Nat) : ℚ) ≤ ((m / 2 : Nat) : ℚ) := by
        exact_mod_cast (by omega : 2 ≤ m / 2)
      push_cast at e ⊢
      exact e
    rw [if_pos c] at r4
    show (drawEyes s h).1.sweat = true ∧ _
    refine ⟨r1, ?_, hm, ?_⟩
    · show (drawEyes s h).1.sweat1.YPos = _
      rw [r2]
      norm_num
    · show (drawEyes s h).1.sweat1.Height = _
      rw [r4, cycleHeight_zero m h4]
  | succ k ih =>
    intro hk
    obtain ⟨i1, i2, i3, i4⟩ := ih (by omega)
    rw [← Nat.add_assoc, frames_succ_last]
    generalize frames (1 + k) s h = p at i1 i2 i3 i4 ⊢
    have hle : p.1.sweat1.YPos ≤ (p.1.sweat1.YPosMax : ℚ) := by
      rw [i2, i3]
      have e : ((k + 4 : Nat) : ℚ) ≤ ((2 * m : Nat) : ℚ) := by
        exact_mod_cast (by omega : k + 4 ≤ 2 * m)
      push_cast at e ⊢
      linarith
    obtain ⟨f1, f2, f3, f4⟩ := drawEyes_sweat1_fall p.1 p.2 i1 hle
    refine ⟨f1, ?_, f3.trans i3, ?_⟩
    · rw [f2, i2]
      push_cast
      ring
    · rw [f4, i2, i3, i4, tdiv_two_nat, cycleHeight_succ]
      by_cases c1 : k + 5 ≤ 2 * (m / 2)
      · rw [if_pos c1, if_pos ((half_le_cast k (m / 2)).mpr c1)]
      · rw [if_neg c1, if_neg (fun hh => c1 ((half_le_cast k (m / 2)).mp hh))]

theorem truncQ_intCast (z : Int) : truncQ (z : ℚ) = z := by
  unfold truncQ
  rw [Rat.num_intCast, Rat.den_intCast]
  exact Int.tdiv_one z

/-- With sweat on and the rectangle primitive bound, a frame hands the first
droplet's rectangle to the host. -/
theorem drawEyes_emits_drop1 (x : Engine) (hx : Host) (hsw : (drawEyes x hx).1.sweat = true)
    (hp : (drawEyes x hx).1.drawRoundedRectanglePtr = true) :
    specDropCall (drawEyes x hx).1 (drawEyes x hx).1.sweat1 ∈ (drawEyes x hx).2.trace := by
  rw [drawEyes_trace]
  apply List.mem_append_right
  rw [List.mem_filter]
  constructor
  · unfold specDrawOrder specSweatCalls
    rw [if_pos hsw]
    simp
  · exact hp

theorem frames_one_reset_max (s : Engine) (h : Host) (hs : s.sweat = true)
    (hd : ¬ s.sweat1.YPos ≤ (s.sweat1.YPosMax : ℚ)) :
    (frames 1 s h).1.sweat1.YPosMax
      = toI32 (((random (drawEyes_toSweat s h).1 10
          (random (drawEyes_toSweat s h).1 30 (drawEyes_toSweat s h).2).2).1 + 10)
            % 4294967296) :=
  (drawEyes_sweat1_reset s h hs hd).2.2.1

/-- C31 (droplet height at the end of a cycle).  Sweat on, the first droplet
above its maximum, so that the next rendered frame resets it (yPos 2, height 2)
and, in the same frame, grows it to height 2.5; let `m` be the maximum travel
drawn in that frame, `m ≥ 4` (in particular `10 ≤ m < 20`).  Then each of the
following `2 m - 3` frames starts with `yPos ≤ m`, so it does not reset,
advances yPos by one half, keeps `m` and changes the height by exactly `+1/2` or
`-1/2`.  After the last of them the height is `2 * (m / 2) - m` (truncating
division): 0 for even `m`, -1 for odd `m`; yPos is then above `m`, so the
frame after it resets the droplet; and that last frame, the rectangle primitive
being bound, hands the host a rounded rectangle of height `2 * (m / 2) - m`,
which is negative for odd `m`. -/
theorem C31_sweat_height_at_cycle_end (s : Engine) (h : Host) (m : Nat)
    (hs : s.sweat = true) (hd : ¬ s.sweat1.YPos ≤ (s.sweat1.YPosMax : ℚ))
    (hm : (frames 1 s h).1.sweat1.YPosMax = (m : Int)) (h4 : 4 ≤ m) :
    (frames 1 s h).1.sweat1.YPos = 2 ∧
    (frames 1 s h).1.sweat1.Height = 2 + 1 / 2 ∧
    (∀ k, k < 2 * m - 3 →
      (frames (1 + k) s h).1.sweat1.YPos ≤ ((frames (1 + k) s h).1.sweat1.YPosMax : ℚ) ∧
      (frames (1 + (k + 1)) s h).1.sweat1.YPos
        = (frames (1 + k) s h).1.sweat1.YPos + 1 / 2 ∧
      (frames (1 + (k + 1)) s h).1.sweat1.YPosMax = (m : Int) ∧
      ((frames (1 + (k + 1)) s h).1.sweat1.Height
          = (frames (1 + k) s h).1.sweat1.Height + 1 / 2 ∨
        (frames (1 + (k + 1)) s h).1.sweat1.Height
          = (frames (1 + k) s h).1.sweat1.Height - 1 / 2)) ∧
    (frames (1 + (2 * m - 3)) s h).1.sweat1.Height
      = ((2 * Int.tdiv (m : Int) 2 - (m : Int) : Int) : ℚ) ∧
    truncQ (frames (1 + (2 * m - 3)) s h).1.sweat1.Height
      = 2 * Int.tdiv (m : Int) 2 - (m : Int) ∧
    (m % 2 = 0 → truncQ (frames (1 + (2 * m - 3)) s h).1.sweat1.Height = 0) ∧
    (m % 2 = 1 → truncQ (frames (1 + (2 * m - 3)) s h).1.sweat1.Height = -1) ∧
    ¬ (frames (1 + (2 * m - 3)) s h).1.sweat1.YPos
      ≤ ((frames (1 + (2 * m - 3)) s h).1.sweat1.YPosMax : ℚ) ∧
    (frames (1 + (2 * m - 3) + 1) s h).1.sweat1.YPos = 2 ∧
    ((frames (1 + (2 * m - 3)) s h).1.drawRoundedRectanglePtr = true →
      DrawCall.drawRoundedRectangle (frames (1 + (2 * m - 3)) s h).1.sweat1.XPos
          (truncQ (frames (1 + (2 * m - 3)) s h).1.sweat1.YPos)
          (truncQ (frames (1 + (2 * m - 3)) s h).1.sweat1.Width)
          (2 * Int.tdiv (m : Int) 2 - (m : Int)) (sweatBorderradius : Int)
          (frames (1 + (2 * m - 3)) s h).1.MAINCOLOR
        ∈ (frames (1 + (2 * m - 3)) s h).2.trace) := by
  have cyc := frames_sweat1_cycle s h m hs hd hm h4
  obtain ⟨_, z2, _, z4⟩ := cyc 0 (Nat.zero_le _)
  obtain ⟨l1, l2, l3, l4⟩ := cyc (2 * m - 3) (le_refl _)
  have hH : (frames (1 + (2 * m - 3)) s h).1.sweat1.Height
      = ((2 * Int.tdiv (m : Int) 2 - (m : Int) : Int) : ℚ) := by
    rw [l4, cycleHeight_last m h4, tdiv_two_nat]
    simp only [Int.cast_sub, Int.cast_mul, Int.cast_natCast, Int.cast_ofNat]
  have hT : truncQ (frames (1 + (2 * m - 3)) s h).1.sweat1.Height
      = 2 * Int.tdiv (m : Int) 2 - (m : Int) := by
    rw [hH, truncQ_intCast]
  have hgt : ¬ (frames (1 + (2 * m - 3)) s h).1.sweat1.YPos
      ≤ ((frames (1 + (2 * m - 3)) s h).1.sweat1.YPosMax : ℚ) := by
    rw [l2, l3]
    have e : ((2 * m - 3 + 3 : Nat) : ℚ) = ((2 * m : Nat) : ℚ) := by
      exact_mod_cast (by omega : 2 * m - 3 + 3 = 2 * m)
    push_cast at e ⊢
    linarith
  refine ⟨?_, ?_, ?_, hH, hT, ?_, ?_, hgt, ?_, ?_⟩
  · rw [show (frames 1 s h) = frames (1 + 0) s h from rfl, z2]
    norm_num
  · rw [show (frames 1 s h) = frames (1 + 0) s h from rfl, z4, cycleHeight_zero m h4]
  · intro k hk
    obtain ⟨a1, a2, a3, a4⟩ := cyc k (by omega)
    obtain ⟨_, b2, b3, b4⟩ := cyc (k + 1) (by omega)
    refine ⟨?_, ?_, b3, ?_⟩
    · rw [a2, a3]
      have e : ((k + 4 : Nat) : ℚ) ≤ ((2 * m : Nat) : ℚ) := by
        exact_mod_cast (by omega : k + 4 ≤ 2 * m)
      push_cast at e ⊢
      linarith
    · rw [b2, a2]
      push_cast
      ring
    · rw [b4, a4, cycleHeight_succ]
      by_cases c1 : k + 5 ≤ 2 * (m / 2)
      · rw [if_pos c1]
        exact Or.inl rfl
      · rw [if_neg c1]
        exact Or.inr rfl
  · intro he
    rw [hT, tdiv_two_nat]
    omega
  · intro ho
    rw [hT, tdiv_two_nat]
    omega
  · rw [frames_succ_last]
    exact (drawEyes_sweat1_reset _ _ l1 hgt).2.1
  · intro hp
    have hk : 1 + (2 * m - 3) = (2 * m - 3) + 1 := Nat.add_comm _ _
    rw [← hT]
    rw [hk] at l1 hp ⊢
    rw [frames_succ_last] at l1 hp ⊢
    exact drawEyes_emits_drop1 _ _ l1 hp

/-- Witness for C31: program start with sweat on and a random source that
always yields 1: the first frame resets the droplet with maximum travel 11, and
after 19 further frames its height, as passed to the primitive, is -1. -/
theorem C31_sweat_height_at_cycle_end_witness :
    (frames 1 oddSweatEngine Host.fresh).1.sweat1.YPosMax = 11 ∧
    truncQ (frames (1 + (2 * 11 - 3)) oddSweatEngine Host.fresh).1.sweat1.Height = -1 :=
  ⟨(frames_one_reset_max oddSweatEngine Host.fresh rfl
      (by show ¬ (2 : ℚ) ≤ ((0 : Int) : ℚ); norm_num)).trans (by decide),
   (C31_sweat_height_at_cycle_end oddSweatEngine Host.fresh 11 rfl
      (by show ¬ (2 : ℚ) ≤ ((0 : Int) : ℚ); norm_num)
      ((frames_one_reset_max oddSweatEngine Host.fresh rfl
        (by show ¬ (2 : ℚ) ≤ ((0 : Int) : ℚ); norm_num)).trans (by decide))
      (by decide)).2.2.2.2.2.2.1 (by decide)⟩

/-! ## C32: begin does not re-centre the eyes -/

/-- C32 (begin does not re-centre the eyes).  `RoboEyes_begin(w, h, f)` leaves
the engine as it was except for `screenWidth = w`, `screenHeight = h`,
`eyeLheightCurrent = eyeRheightCurrent = 1` and
`frameInterval = 1000 / f` (it also calls `clearDisplay` and `updateDisplay`;
for `f = 0` the division is undefined in C and yields 0 here).
Hence from program start, after `RoboEyes_init` with any ports and
`RoboEyes_begin(w, h, f)` with any arguments: `eyeLx = eyeLxNext = eyeLxDefault
= 79` and `eyeLy = eyeLyNext = eyeLyDefault = 49`, the centre for the 240 x 135
screen of the initialisers, and the right eye is at `125`, `49`. -/
theorem C32_begin_keeps_coordinates (s : Engine) (h0 : Host) (w ht : Int) (f : Nat)
    (dr dt cl up : Bool) (m : Option MillisFunc) (r : Option RandomFunc) :
    (RoboEyes_begin w ht f s h0).1
      = { s with screenWidth := w, screenHeight := ht, eyeLheightCurrent := 1,
                 eyeRheightCurrent := 1,
                 frameInterval := Int.tdiv 1000 ((f % 256 : Nat) : Int) } ∧
    (RoboEyes_begin w ht f s h0).2.millisCalls = h0.millisCalls ∧
    (RoboEyes_begin w ht f s h0).2.randomCalls = h0.randomCalls ∧
    (RoboEyes_begin w ht f s h0).2.trace
      = h0.trace ++ [DrawCall.clearDisplay, DrawCall.updateDisplay].filter s.accepts ∧
    (RoboEyes_begin w ht f s h0).1.coords = s.coords ∧
    (RoboEyes_begin w ht f s h0).1.gaze = s.gaze ∧
    (RoboEyes_begin w ht f s h0).1.eyeLxDefault = s.eyeLxDefault ∧
    (RoboEyes_begin w ht f s h0).1.eyeLyDefault = s.eyeLyDefault ∧
    (RoboEyes_begin w ht f s h0).1.eyeRxDefault = s.eyeRxDefault ∧
    (RoboEyes_begin w ht f s h0).1.eyeRyDefault = s.eyeRyDefault ∧
    (RoboEyes_begin w ht f (RoboEyes_init dr dt cl up m r Engine.initial) h0).1.eyeLx = 79 ∧
    (RoboEyes_begin w ht f (RoboEyes_init dr dt cl up m r Engine.initial) h0).1.eyeLxNext = 79 ∧
    (RoboEyes_begin w ht f (RoboEyes_init dr dt cl up m r Engine.initial) h0).1.eyeLxDefault
      = 79 ∧
    (RoboEyes_begin w ht f (RoboEyes_init dr dt cl up m r Engine.initial) h0).1.eyeLy = 49 ∧
    (RoboEyes_begin w ht f (RoboEyes_init dr dt cl up m r Engine.initial) h0).1.eyeLyNext = 49 ∧
    (RoboEyes_begin w ht f (RoboEyes_init dr dt cl up m r Engine.initial) h0).1.eyeLyDefault
      = 49 ∧
    (RoboEyes_begin w ht f (RoboEyes_init dr dt cl up m r Engine.initial) h0).1.eyeRx = 125 ∧
    (RoboEyes_begin w ht f (RoboEyes_init dr dt cl up m r Engine.initial) h0).1.eyeRy = 49 ∧
    (RoboEyes_begin w ht f (RoboEyes_init dr dt cl up m r Engine.initial) h0).1.screenWidth
      = w ∧
    (RoboEyes_begin w ht f (RoboEyes_init dr dt cl up m r Engine.initial) h0).1.screenHeight
      = ht ∧
    Int.tdiv (240 - (36 + 10 + 36)) 2 = 79 ∧ Int.tdiv (135 - 36) 2 = 49 := by
  have e79 : Int.tdiv (240 - (36 + 10 + 36)) 2 = 79 := by decide
  have e49 : Int.tdiv (135 - 36) 2 = 49 := by decide
  refine ⟨rfl, ?_, ?_, ?_, rfl, rfl, rfl, rfl, rfl, rfl, e79, e79, e79, e49, e49, e49, ?_, e49,
    rfl, rfl, e79, e49⟩
  · show (updateDisplay _ (clearDisplay _ h0)).counters.1 = _
    rw [updateDisplay_counters, clearDisplay_counters]
    rfl
  · show (updateDisplay _ (clearDisplay _ h0)).counters.2 = _
    rw [updateDisplay_counters, clearDisplay_counters]
    rfl
  · show (updateDisplay _ (clearDisplay _ h0)).trace = _
    rw [updateDisplay_trace, clearDisplay_trace, filter_pair, List.append_assoc]
    rfl
  · show Int.tdiv (240 - (36 + 10 + 36)) 2 + 36 + 10 = 125
    rw [e79]
    decide

end RoboEyes
